import Mathlib

/-!
# The WiMAX JNI adapter `android_net_wimax_WimaxCommonAPI.cpp`

A shallow embedding of `core/jni/android_net_wimax_WimaxCommonAPI.cpp`.

* Native integers are mathematical integers; every C conversion that can change a
  value (`UINT32` to `jint`, `UINT8` to `jbyte`, ...) is written out.
* The vendor SDK is a parameter: a record `WiMaxSDK` with one function for every
  entry point the adapter calls.
* Managed objects are passed by value: a native method receives the managed
  arguments it may write and returns them as they are when it ends.  Distinct
  parameters stand for distinct managed objects, and a managed reference is the
  identity of its object.  The managed arguments a native method dereferences
  (objects, arrays, strings) are not null; the callback handed to a subscribe method,
  which is only stored, may be.
* `FindClass` finds the classes the adapter names and `NewObject` creates the object;
  the JNI calls whose result the source tests (`GetFieldID`, `GetMethodID`,
  `NewStringUTF`, `AttachCurrentThread`) can fail.
* A run ends by returning a `jint` to the managed caller or in a `Fault`: a NULL
  dereference, or an index past the end of a native buffer or of a managed array
  (where the JNI raises `ArrayIndexOutOfBoundsException` instead of returning).
-/

namespace Wimax

set_option linter.unusedVariables false

/-! ## C and JNI integer conversions -/

/-- Conversion to `jint` (and to `int`, `INT32`): a signed 32-bit integer. -/
def toJint (x : Int) : Int := (x + 2147483648) % 4294967296 - 2147483648

/-- Conversion to `UINT32`: an unsigned 32-bit integer. -/
def toUINT32 (x : Int) : Int := x % 4294967296

/-- Conversion to `jbyte` (`signed char`). -/
def toJbyte (x : Int) : Int := (x + 128) % 256 - 128

/-- Conversion to `UINT8` and to the file's own `byte` (`unsigned char`). -/
def toUINT8 (x : Int) : Int := x % 256

/-- Conversion to `jboolean` (`unsigned char`). -/
def toJboolean (x : Int) : Int := x % 256

/-- Conversion to the C++ type `bool`: zero stays zero, everything else is one. -/
def toBool (x : Int) : Int := if x = 0 then 0 else 1

/-- Conversion to `long`, 32 bits wide on the 32-bit ARM ABI this library is built for. -/
def toLong (x : Int) : Int := (x + 2147483648) % 4294967296 - 2147483648

/-- The constant `JNI_OK` of `jni.h`. -/
def JNI_OK : Int := 0

/-- The constant `JNI_TRUE` of `jni.h`. -/
def JNI_TRUE : Int := 1

/-- The constant `JNI_FALSE` of `jni.h`. -/
def JNI_FALSE : Int := 0

/-! ## Native structs of `WiMaxAPI.h` -/

/-- Modelled from the spec: `WiMaxAPI.h` is not among the sources.  The "device
identifier" struct, with the six fields the adapter reads and writes; their C types
are `UINT32`, `INT32`, the enumeration `WIMAX_API_PRIVILEGE`, `UINT8`, `UINT32`
and `BOOL`. -/
structure WIMAX_API_DEVICE_ID where
  structureSize : Int
  sdkHandle : Int
  privilege : Int
  deviceIndex : Int
  apiVersion : Int
  devicePresenceStatus : Int
deriving DecidableEq, Repr

/-- The struct `new WIMAX_API_DEVICE_ID()` yields: value-initialised, all zero. -/
def WIMAX_API_DEVICE_ID.zero : WIMAX_API_DEVICE_ID := ⟨0, 0, 0, 0, 0, 0⟩

/-- Every field holds a value its managed counterpart can carry back: the integer
fields lie in the range of their C type and the `BOOL` fits a `jboolean`
(as `FALSE = 0` and `TRUE = 1` do). -/
def WIMAX_API_DEVICE_ID.InRange (d : WIMAX_API_DEVICE_ID) : Prop :=
  (0 ≤ d.structureSize ∧ d.structureSize < 4294967296) ∧
  (-2147483648 ≤ d.sdkHandle ∧ d.sdkHandle < 2147483648) ∧
  (-2147483648 ≤ d.privilege ∧ d.privilege < 2147483648) ∧
  (0 ≤ d.deviceIndex ∧ d.deviceIndex < 256) ∧
  (0 ≤ d.apiVersion ∧ d.apiVersion < 4294967296) ∧
  (0 ≤ d.devicePresenceStatus ∧ d.devicePresenceStatus < 256)

instance (d : WIMAX_API_DEVICE_ID) : Decidable d.InRange := by
  unfold WIMAX_API_DEVICE_ID.InRange
  infer_instance

/-- Modelled from the spec: the "hardware device identifier" struct of `WiMaxAPI.h`,
with the fields `android_net_wimax_getListDevice` reads. -/
structure WIMAX_API_HW_DEVICE_ID where
  structureSize : Int
  deviceIndex : Int
  deviceName : String
  deviceType : Int
deriving DecidableEq, Repr

/-- Modelled from the spec: the "NSP/network info" struct of `WiMaxAPI.h`. -/
structure WIMAX_API_NSP_INFO where
  structureSize : Int
  NSPName : String
  NSPid : Int
  RSSI : Int
  CINR : Int
  networkType : Int
deriving DecidableEq, Repr

/-- Modelled from the spec: the interface info struct of `WiMaxAPI.h`. -/
structure WIMAX_API_INTERFACE_INFO where
  structureSize : Int
  interfaceName : String
deriving DecidableEq, Repr

/-- Modelled from the spec: the "profile info" struct of `WiMaxAPI.h`. -/
structure WIMAX_API_PROFILE_INFO where
  structureSize : Int
  profileID : Int
  profileName : String
deriving DecidableEq, Repr

/-- Modelled from the spec: the "link status" struct of `WiMaxAPI.h`; `bsId i` is
element `i` of the six-byte array `bsId`. -/
structure WIMAX_API_LINK_STATUS_INFO where
  structureSize : Int
  centerFrequency : Int
  RSSI : Int
  CINR : Int
  txPWR : Int
  bsId : Nat → Int

/-- Modelled from the spec: the version struct nested in the "device info" struct. -/
structure WIMAX_API_DEVICE_VERSION where
  structureSize : Int
  name : String
  version : String
deriving DecidableEq, Repr

/-- Modelled from the spec: the "device info" struct of `WiMaxAPI.h`; `macAddress i`
is element `i` of the six-byte array `macAddress`. -/
structure WIMAX_API_DEVICE_INFO where
  structureSize : Int
  hwVersion : WIMAX_API_DEVICE_VERSION
  swVersion : WIMAX_API_DEVICE_VERSION
  rfVersion : WIMAX_API_DEVICE_VERSION
  asicVersion : WIMAX_API_DEVICE_VERSION
  macAddress : Nat → Int
  vendorName : String
  vendorSpecificInfoIncl : Int
  vendorSpecificInfo : String

/-- Modelled from the spec: the connected-NSP struct of `WiMaxAPI.h`. -/
structure WIMAX_API_CONNECTED_NSP_INFO where
  structureSize : Int
  NSPName : String
  NSPRealm : String
  NSPid : Int
  activated : Int
  RSSI : Int
  CINR : Int
  networkType : Int
deriving DecidableEq, Repr

/-- Modelled from the spec: the "connection statistics" struct of `WiMaxAPI.h`. -/
structure WIMAX_API_CONNECTION_STAT where
  structureSize : Int
  totalRxByte : Int
  totalTxByte : Int
  totalRxPackets : Int
  totalTxPackets : Int
deriving DecidableEq, Repr

/-- Modelled from the spec: the "contact info" struct of `WiMaxAPI.h`. -/
structure WIMAX_API_CONTACT_INFO where
  structureSize : Int
  textForURI : String
  URI : String
  contactType : Int
deriving DecidableEq, Repr

/-- Modelled from the spec: the "package info" struct of `WiMaxAPI.h`. -/
structure WIMAX_API_PACKAGE_INFO where
  structureSize : Int
  filePath : String
  fileName : String
  forceReboot : Int
  mandatoryUpdate : Int
  warnUser : Int
deriving DecidableEq, Repr

/-! ## Managed objects -/

/-- The value of one field of a managed object.  A reference to another managed
object is an index into the list of objects passed along with the object. -/
inductive JValue where
  | int (v : Int)
  | long (v : Int)
  | byte (v : Int)
  | boolean (v : Int)
  | string (s : Option String)
  | byteArray (a : Option (List Int))
  | object (signature : String) (ref : Option Nat)
deriving DecidableEq, Repr

/-- The JNI type signature of a field holding this value. -/
def JValue.signature : JValue → String
  | .int _ => "I"
  | .long _ => "J"
  | .byte _ => "B"
  | .boolean _ => "Z"
  | .string _ => "Ljava/lang/String;"
  | .byteArray _ => "[B"
  | .object sig _ => sig

/-- A managed object: the fields its class declares, by name, with their values. -/
structure JObject where
  fields : List (String × JValue)
deriving DecidableEq, Repr

/-- The value of the named field, if the object has one. -/
def JObject.get (o : JObject) (fieldName : String) : Option JValue :=
  o.fields.lookup fieldName

/-- `env->GetFieldID(cls, fieldName, sig)` for the class of `o`: the field id
(modelled by the field's name), or `none` for NULL when the class has no field of
that name and type. -/
def GetFieldID (o : JObject) (fieldName sig : String) : Option String :=
  match o.get fieldName with
  | some v => if v.signature = sig then some fieldName else none
  | none => none

/-- `env->Set<Type>Field(o, fieldId, v)`. -/
def JObject.set (o : JObject) (fieldId : String) (v : JValue) : JObject :=
  ⟨o.fields.map (fun p => if p.1 = fieldId then (p.1, v) else p)⟩

/-- What the adapter needs of the `JNIEnv`: `NewStringUTF`, which yields NULL
(`none`) when the string cannot be created, and `NewObject(cls, cons)` for the
no-argument constructor of the class `FindClass` returns for a name. -/
structure JNIEnv where
  NewStringUTF : String → Option String
  NewObject : String → JObject

/-- A managed `DeviceId` object: the six fields whose ids
`register_android_net_wimax_WimaxManager` caches, of Java types `int`, `int`,
`int`, `byte`, `int` and `boolean`. -/
structure JDeviceId where
  structureSize : Int
  sdkHandle : Int
  privilege : Int
  deviceIndex : Int
  apiVersion : Int
  devicePresenceStatus : Int
deriving DecidableEq, Repr

/-- A managed callback object: its identity and the `(name, signature)` pairs of
the methods its class declares. -/
structure JCallback where
  ref : Nat
  methods : List (String × String)
deriving DecidableEq, Repr

/-- `env->GetMethodID(cls, name, sig)` for the class of `cb` is non-NULL. -/
def GetMethodID (cb : JCallback) (name sig : String) : Bool :=
  cb.methods.contains (name, sig)

/-! ## Faults and file-level state -/

/-- How a run can end without returning to its caller. -/
inductive Fault where
  | nullPointer
  | outOfBounds
deriving DecidableEq, Repr

/-- The static `deviceIdFieldIds`: `deviceIdClass` is `none` for NULL.  The six
cached field ids are those of the fields of `JDeviceId`. -/
structure fieldIds where
  deviceIdClass : Option String
deriving DecidableEq, Repr

/-- The file-level variables. `none` is NULL. -/
structure Globals where
  g_jVM : Option Nat
  deviceStatusChangeCB : Option JCallback
  deviceInsertRemoveCB : Option JCallback
  controlPowerManagementCB : Option JCallback
  connectToNetworkCB : Option JCallback
  disconnectToNetworkCB : Option JCallback
  networkSearchWideScanCB : Option JCallback
  provisioningOperationCB : Option JCallback
  packageUpdateCB : Option JCallback
  deviceIdFieldIds : fieldIds
  deviceId : Option WIMAX_API_DEVICE_ID
deriving DecidableEq, Repr

/-- The file-level variables when the library is loaded: statics are zero. -/
def Globals.initial : Globals :=
  ⟨none, none, none, none, none, none, none, none, none, ⟨none⟩, none⟩

/-! ## Marshaling helpers -/

/-- The source's `accessDeviceId(env, jdeviceId, deviceId)`: the native struct after the call. -/
def accessDeviceId (ids : fieldIds) (jdeviceId : JDeviceId) (deviceId : WIMAX_API_DEVICE_ID) :
    WIMAX_API_DEVICE_ID :=
  match ids.deviceIdClass with
  | some _ =>
    { structureSize := toUINT32 jdeviceId.structureSize
      sdkHandle := toJint jdeviceId.sdkHandle
      privilege := toJint jdeviceId.privilege
      deviceIndex := toUINT8 jdeviceId.deviceIndex
      apiVersion := toUINT32 jdeviceId.apiVersion
      devicePresenceStatus := jdeviceId.devicePresenceStatus }
  | none => deviceId

/-- The source's `assignDeviceId(env, jdeviceId, deviceId)`: the managed object after the call. -/
def assignDeviceId (ids : fieldIds) (jdeviceId : JDeviceId) (deviceId : WIMAX_API_DEVICE_ID) :
    JDeviceId :=
  match ids.deviceIdClass with
  | some _ =>
    { structureSize := toJint deviceId.structureSize
      sdkHandle := toJint deviceId.sdkHandle
      privilege := toJint deviceId.privilege
      deviceIndex := toJbyte deviceId.deviceIndex
      apiVersion := toJint deviceId.apiVersion
      devicePresenceStatus := toJboolean deviceId.devicePresenceStatus }
  | none => jdeviceId

/-- The source's `assignString(env, jCls, jObj, fieldName, cstring)`, `jCls` being the class of `jObj`. -/
def assignString (env : JNIEnv) (jObj : JObject) (fieldName : String) (cstring : String) : JObject :=
  match env.NewStringUTF cstring with
  | some jStr =>
    match GetFieldID jObj fieldName "Ljava/lang/String;" with
    | some strFieldId => jObj.set strFieldId (.string (some jStr))
    | none => jObj
  | none => jObj

/-- The source's `assignLong(env, jCls, jObj, fieldName, clong)`. -/
def assignLong (jObj : JObject) (fieldName : String) (clong : Int) : JObject :=
  match GetFieldID jObj fieldName "J" with
  | some longFieldId => jObj.set longFieldId (.long (toLong clong))
  | none => jObj

/-- The source's `assignInt(env, jCls, jObj, fieldName, cint)`. -/
def assignInt (jObj : JObject) (fieldName : String) (cint : Int) : JObject :=
  match GetFieldID jObj fieldName "I" with
  | some intFieldId => jObj.set intFieldId (.int (toJint cint))
  | none => jObj

/-- The source's `assignByte(env, jCls, jObj, fieldName, cbyte)`: the argument becomes
a `byte` (`unsigned char`), which `SetByteField` takes as a `jbyte`. -/
def assignByte (jObj : JObject) (fieldName : String) (cbyte : Int) : JObject :=
  match GetFieldID jObj fieldName "B" with
  | some byteFieldId => jObj.set byteFieldId (.byte (toJbyte (toUINT8 cbyte)))
  | none => jObj

/-- The source's `assignBoolean(env, jCls, jObj, fieldName, cboolean)`: the argument
becomes a C++ `bool`. -/
def assignBoolean (jObj : JObject) (fieldName : String) (cboolean : Int) : JObject :=
  match GetFieldID jObj fieldName "Z" with
  | some boolFieldId => jObj.set boolFieldId (.boolean (toBool cboolean))
  | none => jObj

/-- The source's `getObjectReference(env, jCls, jObj, fieldName, lpszFieldSig)`:
the reference the field holds, or `none` for 0. -/
def getObjectReference (jObj : JObject) (fieldName lpszFieldSig : String) : Option Nat :=
  match GetFieldID jObj fieldName lpszFieldSig with
  | some objFieldId =>
    match jObj.get objFieldId with
    | some (.object _ ref) => ref
    | _ => none
  | none => none

/-- `env->Set<Type>ArrayRegion(a, 0, 1, region)` and `env->SetObjectArrayElement(a, i, v)`:
the array after the call, or `none` when the index is past its end. -/
def setElement {α : Type} (a : List α) (i : Nat) (v : α) : Option (List α) :=
  if i < a.length then some (a.set i v) else none

/-- The loop `for (int i = 0; i < n; i++) body`: the state after the last iteration,
or after the iteration that faulted, together with that fault. -/
def forLoop {σ : Type} (n : Nat) (body : Nat → σ → σ × Option Fault) (s : σ) : σ × Option Fault :=
  (List.range n).foldl
    (fun acc i => match acc.2 with
      | some _ => acc
      | none => body i acc.1)
    (s, none)

/-! ## The vendor SDK -/

/-- The vendor library behind `WiMaxAPI.h`, which is not among the sources: the
constants of the header the adapter names and one function for each entry point it
calls.  Enumeration values are `int`s.  Each function takes the struct the device-id
pointer refers to (`none` for a NULL pointer) and the remaining inputs, and gives the
return code first and then what the out-parameters hold when the call has returned
(what the SDK stored, or the variable's indeterminate content when it stored
nothing).  A list buffer is given element by element.  `WiMaxAPIOpen` also gives the
device-id struct as it leaves it; the adapter looks at that struct after no other call. -/
structure WiMaxSDK where
  WIMAX_API_RET_SUCCESS : Int
  WIMAX_API_RF_ON : Int
  WIMAX_API_RF_OFF : Int
  WIMAX_API_ROAMING_ENABLED : Int
  WIMAX_API_ROAMING_DISABLED : Int
  WIMAX_API_PACKAGE_UPDATE_DELAY : Int
  WIMAX_API_PACKAGE_UPDATE_ACCEPTED : Int
  WIMAX_API_PACKAGE_UPDATE_DENIED : Int
  WiMaxAPIOpen : WIMAX_API_DEVICE_ID → Int × WIMAX_API_DEVICE_ID
  GetListDevice : Option WIMAX_API_DEVICE_ID → Int → Int × (Nat → WIMAX_API_HW_DEVICE_ID) × Int
  WiMaxDeviceOpen : Option WIMAX_API_DEVICE_ID → Int
  WiMaxDeviceClose : Option WIMAX_API_DEVICE_ID → Int
  WiMaxAPIClose : Option WIMAX_API_DEVICE_ID → Int
  CmdControlPowerManagement : Option WIMAX_API_DEVICE_ID → Int → Int
  CmdResetWimaxDevice : Option WIMAX_API_DEVICE_ID → Int
  CmdResetToFactorySettings : Option WIMAX_API_DEVICE_ID → Int
  GetErrorString : Option WIMAX_API_DEVICE_ID → Int → Int × String × Int
  SetServiceProviderUnLock : Option WIMAX_API_DEVICE_ID → String → Int
  GetServiceProviderLockStatus : Option WIMAX_API_DEVICE_ID → Int × Int × String
  GetNetworkList : Option WIMAX_API_DEVICE_ID → Int → Int × (Nat → WIMAX_API_NSP_INFO) × Int
  CmdConnectToNetwork : Option WIMAX_API_DEVICE_ID → String → Int → String → Int
  CmdDisconnectFromNetwork : Option WIMAX_API_DEVICE_ID → Int
  CmdNetworkSearchWideScan : Option WIMAX_API_DEVICE_ID → Int
  GetIPInterfaceIndex : Option WIMAX_API_DEVICE_ID → Int × WIMAX_API_INTERFACE_INFO
  GetSelectProfileList : Option WIMAX_API_DEVICE_ID → Int → Int × (Nat → WIMAX_API_PROFILE_INFO) × Int
  GetLinkStatus : Option WIMAX_API_DEVICE_ID → Int × WIMAX_API_LINK_STATUS_INFO
  GetDeviceInformation : Option WIMAX_API_DEVICE_ID → Int × WIMAX_API_DEVICE_INFO
  GetDeviceStatus : Option WIMAX_API_DEVICE_ID → Int × Int × Int
  GetConnectedNSP : Option WIMAX_API_DEVICE_ID → Int × WIMAX_API_CONNECTED_NSP_INFO
  SetRoamingMode : Option WIMAX_API_DEVICE_ID → Int → Int
  GetRoamingMode : Option WIMAX_API_DEVICE_ID → Int × Int
  GetStatistics : Option WIMAX_API_DEVICE_ID → Int × WIMAX_API_CONNECTION_STAT
  GetProvisioningStatus : Option WIMAX_API_DEVICE_ID → String → Int × Int
  GetContactInformation : Option WIMAX_API_DEVICE_ID → String → Int → Int × (Nat → WIMAX_API_CONTACT_INFO) × Int
  GetPackageInformation : Option WIMAX_API_DEVICE_ID → Int × WIMAX_API_PACKAGE_INFO
  SetPackageUpdateState : Option WIMAX_API_DEVICE_ID → Int → Int
  SubscribeDeviceStatusChange : Option WIMAX_API_DEVICE_ID → Int
  SubscribeDeviceInsertRemove : Option WIMAX_API_DEVICE_ID → Int
  SubscribeControlPowerManagement : Option WIMAX_API_DEVICE_ID → Int
  SubscribeConnectToNetwork : Option WIMAX_API_DEVICE_ID → Int
  SubscribeDisconnectToNetwork : Option WIMAX_API_DEVICE_ID → Int
  SubscribeNetworkSearchWideScan : Option WIMAX_API_DEVICE_ID → Int
  SubscribeProvisioningOperation : Option WIMAX_API_DEVICE_ID → Int
  SubscribePackageUpdate : Option WIMAX_API_DEVICE_ID → Int
  UnsubscribeDeviceStatusChange : Option WIMAX_API_DEVICE_ID → Int
  UnsubscribeDeviceInsertRemove : Option WIMAX_API_DEVICE_ID → Int
  UnsubscribeControlPowerManagement : Option WIMAX_API_DEVICE_ID → Int
  UnsubscribeConnectToNetwork : Option WIMAX_API_DEVICE_ID → Int
  UnsubscribeDisconnectToNetwork : Option WIMAX_API_DEVICE_ID → Int
  UnsubscribeNetworkSearchWideScan : Option WIMAX_API_DEVICE_ID → Int
  UnsubscribeProvisioningOperation : Option WIMAX_API_DEVICE_ID → Int
  UnsubscribePackageUpdate : Option WIMAX_API_DEVICE_ID → Int

/-- One call of an SDK entry point as the adapter makes it: the entry point, the
struct behind the device-id pointer handed over (`none` for NULL), the integer and
string arguments that follow it, and the return code of the call. -/
structure SdkCall where
  entry : String
  deviceId : Option WIMAX_API_DEVICE_ID
  ints : List Int
  strings : List String
  ret : Int
deriving DecidableEq, Repr

/-- How a native method ends: it returns a `jint` to the managed caller, or faults. -/
inductive Outcome where
  | returned (jint : Int)
  | fault (f : Fault)
deriving DecidableEq, Repr

/-- A run of a native method: the file-level variables and the managed arguments it
may write, both as they are when the run ends, the SDK calls made and how it ended. -/
structure Run (α : Type) where
  globals : Globals
  sdkCalls : List SdkCall
  out : α
  ret : Outcome
deriving DecidableEq, Repr

/-! ## Native methods: library, API and device handles -/

/-- The source's `android_net_wimax_loadLibrary`; `vm` is the VM `env->GetJavaVM` stores. -/
def android_net_wimax_loadLibrary (g : Globals) (vm : Nat) : Run Unit :=
  ⟨{ g with g_jVM := some vm }, [], (), .returned JNI_TRUE⟩

/-- The source's `android_net_wimax_unloadLibrary`. -/
def android_net_wimax_unloadLibrary (g : Globals) : Run Unit :=
  ⟨g, [], (), .returned JNI_TRUE⟩

/-- The source's `android_net_wimax_wimaxAPIOpen`; `out` is the managed `DeviceId`. -/
def android_net_wimax_wimaxAPIOpen (sdk : WiMaxSDK) (g : Globals) (jdeviceId : JDeviceId) :
    Run JDeviceId :=
  let tempDeviceId := accessDeviceId g.deviceIdFieldIds jdeviceId WIMAX_API_DEVICE_ID.zero
  let result := (sdk.WiMaxAPIOpen tempDeviceId).1
  let deviceId := (sdk.WiMaxAPIOpen tempDeviceId).2
  ⟨{ g with deviceId := some deviceId },
   [⟨"WiMaxAPIOpen", some tempDeviceId, [], [], result⟩],
   assignDeviceId g.deviceIdFieldIds jdeviceId deviceId,
   .returned result⟩

/-- The source's `android_net_wimax_getListDevice`; `out` is `(hwDeviceIdList, size)`.
The native buffer has as many elements as the managed array. -/
def android_net_wimax_getListDevice (sdk : WiMaxSDK) (env : JNIEnv) (g : Globals) (jdeviceId : JDeviceId)
    (hwDeviceIdList : List (Option JObject)) (size : List Int) :
    Run (List (Option JObject) × List Int) :=
  let allocated := hwDeviceIdList.length
  let result := (sdk.GetListDevice g.deviceId allocated).1
  let hwIdList := (sdk.GetListDevice g.deviceId allocated).2.1
  let listSize := (sdk.GetListDevice g.deviceId allocated).2.2
  let call : SdkCall := ⟨"GetListDevice", g.deviceId, [], [], result⟩
  let loop : (List (Option JObject) × Option WIMAX_API_DEVICE_ID) × Option Fault :=
    if result = sdk.WIMAX_API_RET_SUCCESS then
      forLoop (toJint listSize).toNat
        (fun i s =>
          if i < allocated then
            let hwId := env.NewObject "android/net/wimax/structs/HardwareDeviceId"
            let hwId := assignInt hwId "structureSize" (hwIdList i).structureSize
            let hwId := assignByte hwId "deviceIndex" (hwIdList i).deviceIndex
            let hwId := assignString env hwId "deviceName" (hwIdList i).deviceName
            let hwId := assignInt hwId "deviceType" (hwIdList i).deviceType
            match setElement s.1 i (some hwId) with
            | none => (s, some Fault.outOfBounds)
            | some list =>
              if (hwIdList i).deviceIndex ≠ 0 then
                match s.2 with
                | some d => ((list, some { d with deviceIndex := (hwIdList i).deviceIndex }), none)
                | none => ((list, none), some Fault.nullPointer)
              else ((list, s.2), none)
          else (s, some Fault.outOfBounds))
        (hwDeviceIdList, g.deviceId)
    else ((hwDeviceIdList, g.deviceId), none)
  match loop.2 with
  | some f => ⟨{ g with deviceId := loop.1.2 }, [call], (loop.1.1, size), .fault f⟩
  | none =>
    match setElement size 0 (toJint listSize) with
    | none => ⟨{ g with deviceId := loop.1.2 }, [call], (loop.1.1, size), .fault .outOfBounds⟩
    | some size1 => ⟨{ g with deviceId := loop.1.2 }, [call], (loop.1.1, size1), .returned result⟩

/-- The source's `android_net_wimax_wimaxDeviceOpen`. -/
def android_net_wimax_wimaxDeviceOpen (sdk : WiMaxSDK) (g : Globals) (jdeviceId : JDeviceId) :
    Run Unit :=
  let tempDeviceId := accessDeviceId g.deviceIdFieldIds jdeviceId WIMAX_API_DEVICE_ID.zero
  let deviceId := if tempDeviceId.deviceIndex ≠ 0 then some tempDeviceId else g.deviceId
  ⟨{ g with deviceId := deviceId },
   [⟨"WiMaxDeviceOpen", deviceId, [], [], sdk.WiMaxDeviceOpen deviceId⟩], (),
   .returned (sdk.WiMaxDeviceOpen deviceId)⟩

/-- The source's `android_net_wimax_wimaxDeviceClose`. -/
def android_net_wimax_wimaxDeviceClose (sdk : WiMaxSDK) (g : Globals) (jdeviceId : JDeviceId) : Run Unit :=
  ⟨g, [⟨"WiMaxDeviceClose", g.deviceId, [], [], sdk.WiMaxDeviceClose g.deviceId⟩], (),
   .returned (sdk.WiMaxDeviceClose g.deviceId)⟩

/-- The source's `android_net_wimax_wimaxAPIClose`. -/
def android_net_wimax_wimaxAPIClose (sdk : WiMaxSDK) (g : Globals) (jdeviceId : JDeviceId) : Run Unit :=
  let result := sdk.WiMaxAPIClose g.deviceId
  ⟨{ g with deviceId := none }, [⟨"WiMaxAPIClose", g.deviceId, [], [], result⟩], (),
   .returned result⟩

/-- The source's `android_net_wimax_cmdControlPowerManagement`. -/
def android_net_wimax_cmdControlPowerManagement (sdk : WiMaxSDK) (g : Globals) (pwrState : Int) :
    Run Unit :=
  let state := if pwrState = 1 then sdk.WIMAX_API_RF_OFF else sdk.WIMAX_API_RF_ON
  ⟨g, [⟨"CmdControlPowerManagement", g.deviceId, [state], [],
        sdk.CmdControlPowerManagement g.deviceId state⟩], (),
   .returned (sdk.CmdControlPowerManagement g.deviceId state)⟩

/-- The source's `android_net_wimax_cmdResetWimaxDevice`. -/
def android_net_wimax_cmdResetWimaxDevice (sdk : WiMaxSDK) (g : Globals) (jdeviceId : JDeviceId) : Run Unit :=
  ⟨g, [⟨"CmdResetWimaxDevice", g.deviceId, [], [], sdk.CmdResetWimaxDevice g.deviceId⟩], (),
   .returned (sdk.CmdResetWimaxDevice g.deviceId)⟩

/-- The source's `android_net_wimax_cmdResetToFactorySettings`. -/
def android_net_wimax_cmdResetToFactorySettings (sdk : WiMaxSDK) (g : Globals) (jdeviceId : JDeviceId) : Run Unit :=
  ⟨g, [⟨"CmdResetToFactorySettings", g.deviceId, [], [],
        sdk.CmdResetToFactorySettings g.deviceId⟩], (),
   .returned (sdk.CmdResetToFactorySettings g.deviceId)⟩

/-! ## Native methods: strings, locks and lists -/

/-- The source's `android_net_wimax_getErrorString`; `out` is `(buffer, length)`. -/
def android_net_wimax_getErrorString (sdk : WiMaxSDK) (env : JNIEnv) (g : Globals) (jdeviceId : JDeviceId)
    (errorCode : Int) (buffer : List (Option String)) (length : List Int) :
    Run (List (Option String) × List Int) :=
  let result := (sdk.GetErrorString g.deviceId errorCode).1
  let c_buffer := (sdk.GetErrorString g.deviceId errorCode).2.1
  let buf_size := (sdk.GetErrorString g.deviceId errorCode).2.2
  let call : SdkCall := ⟨"GetErrorString", g.deviceId, [errorCode], [], result⟩
  let stored : Option (List (Option String)) :=
    if result = sdk.WIMAX_API_RET_SUCCESS then setElement buffer 0 (env.NewStringUTF c_buffer)
    else some buffer
  match stored with
  | none => ⟨g, [call], (buffer, length), .fault .outOfBounds⟩
  | some buffer1 =>
    match setElement length 0 (toJint buf_size) with
    | none => ⟨g, [call], (buffer1, length), .fault .outOfBounds⟩
    | some length1 => ⟨g, [call], (buffer1, length1), .returned result⟩

/-- The source's `android_net_wimax_setServiceProviderUnLock`. -/
def android_net_wimax_setServiceProviderUnLock (sdk : WiMaxSDK) (g : Globals) (jdeviceId : JDeviceId) (lockCode : String) :
    Run Unit :=
  let result := sdk.SetServiceProviderUnLock g.deviceId lockCode
  ⟨g, [⟨"SetServiceProviderUnLock", g.deviceId, [], [lockCode], result⟩], (), .returned result⟩

/-- The source's `android_net_wimax_getServiceProviderLockStatus`; `out` is
`(lockStatus, nspName)`. -/
def android_net_wimax_getServiceProviderLockStatus (sdk : WiMaxSDK) (env : JNIEnv) (g : Globals) (jdeviceId : JDeviceId)
    (lockStatus : List Int) (nspName : List (Option String)) :
    Run (List Int × List (Option String)) :=
  let result := (sdk.GetServiceProviderLockStatus g.deviceId).1
  let status := (sdk.GetServiceProviderLockStatus g.deviceId).2.1
  let c_nsp := (sdk.GetServiceProviderLockStatus g.deviceId).2.2
  let call : SdkCall := ⟨"GetServiceProviderLockStatus", g.deviceId, [], [], result⟩
  let stored : Option (List (Option String)) :=
    if result = sdk.WIMAX_API_RET_SUCCESS then setElement nspName 0 (env.NewStringUTF c_nsp)
    else some nspName
  match stored with
  | none => ⟨g, [call], (lockStatus, nspName), .fault .outOfBounds⟩
  | some nspName1 =>
    match setElement lockStatus 0 status with
    | none => ⟨g, [call], (lockStatus, nspName1), .fault .outOfBounds⟩
    | some lockStatus1 => ⟨g, [call], (lockStatus1, nspName1), .returned result⟩

/-- The source's `android_net_wimax_getNetworkList`; `out` is `(networkList, size)`.
The native buffer has as many elements as the managed array. -/
def android_net_wimax_getNetworkList (sdk : WiMaxSDK) (env : JNIEnv) (g : Globals) (jdeviceId : JDeviceId)
    (networkList : List (Option JObject)) (size : List Int) :
    Run (List (Option JObject) × List Int) :=
  let allocated := networkList.length
  let result := (sdk.GetNetworkList g.deviceId allocated).1
  let nspList := (sdk.GetNetworkList g.deviceId allocated).2.1
  let listSize := (sdk.GetNetworkList g.deviceId allocated).2.2
  let call : SdkCall := ⟨"GetNetworkList", g.deviceId, [], [], result⟩
  let loop : List (Option JObject) × Option Fault :=
    if result = sdk.WIMAX_API_RET_SUCCESS then
      forLoop (toJint listSize).toNat
        (fun i list =>
          if i < allocated then
            let nsp := env.NewObject "android/net/wimax/structs/NSPInfo"
            let nsp := assignInt nsp "structureSize" (nspList i).structureSize
            let nsp := assignString env nsp "nspName" (nspList i).NSPName
            let nsp := assignInt nsp "nspId" (nspList i).NSPid
            let nsp := assignByte nsp "rssi" (nspList i).RSSI
            let nsp := assignByte nsp "cinr" (nspList i).CINR
            let nsp := assignInt nsp "networkType" (nspList i).networkType
            match setElement list i (some nsp) with
            | none => (list, some Fault.outOfBounds)
            | some list1 => (list1, none)
          else (list, some Fault.outOfBounds))
        networkList
    else (networkList, none)
  match loop.2 with
  | some f => ⟨g, [call], (loop.1, size), .fault f⟩
  | none =>
    match setElement size 0 (toJint listSize) with
    | none => ⟨g, [call], (loop.1, size), .fault .outOfBounds⟩
    | some size1 => ⟨g, [call], (loop.1, size1), .returned result⟩

/-- The source's `android_net_wimax_cmdConnectToNetwork`. -/
def android_net_wimax_cmdConnectToNetwork (sdk : WiMaxSDK) (g : Globals) (jdeviceId : JDeviceId)
    (nspName : String) (profileId : Int) (password : String) : Run Unit :=
  let result := sdk.CmdConnectToNetwork g.deviceId nspName profileId password
  ⟨g, [⟨"CmdConnectToNetwork", g.deviceId, [profileId], [nspName, password], result⟩], (),
   .returned result⟩

/-- The source's `android_net_wimax_cmdDisconnectFromNetwork`. -/
def android_net_wimax_cmdDisconnectFromNetwork (sdk : WiMaxSDK) (g : Globals) (jdeviceId : JDeviceId) : Run Unit :=
  ⟨g, [⟨"CmdDisconnectFromNetwork", g.deviceId, [], [], sdk.CmdDisconnectFromNetwork g.deviceId⟩],
   (), .returned (sdk.CmdDisconnectFromNetwork g.deviceId)⟩

/-- The source's `android_net_wimax_cmdNetworkSearchWideScan`. -/
def android_net_wimax_cmdNetworkSearchWideScan (sdk : WiMaxSDK) (g : Globals) (jdeviceId : JDeviceId) : Run Unit :=
  ⟨g, [⟨"CmdNetworkSearchWideScan", g.deviceId, [], [], sdk.CmdNetworkSearchWideScan g.deviceId⟩],
   (), .returned (sdk.CmdNetworkSearchWideScan g.deviceId)⟩

/-- The source's `android_net_wimax_getIPInterfaceIndex`; `out` is `interfaceInfo`. -/
def android_net_wimax_getIPInterfaceIndex (sdk : WiMaxSDK) (env : JNIEnv) (g : Globals) (jdeviceId : JDeviceId)
    (interfaceInfo : JObject) : Run JObject :=
  let result := (sdk.GetIPInterfaceIndex g.deviceId).1
  let info := (sdk.GetIPInterfaceIndex g.deviceId).2
  let call : SdkCall := ⟨"GetIPInterfaceIndex", g.deviceId, [], [], result⟩
  if result = sdk.WIMAX_API_RET_SUCCESS then
    let o := assignInt interfaceInfo "structureSize" info.structureSize
    let o := assignString env o "interfaceName" info.interfaceName
    ⟨g, [call], o, .returned result⟩
  else ⟨g, [call], interfaceInfo, .returned result⟩

/-- The source's `android_net_wimax_getSelectProfileList`; `out` is `(profileList, size)`.
The native buffer has as many elements as the managed array. -/
def android_net_wimax_getSelectProfileList (sdk : WiMaxSDK) (env : JNIEnv) (g : Globals) (jdeviceId : JDeviceId)
    (profileList : List (Option JObject)) (size : List Int) :
    Run (List (Option JObject) × List Int) :=
  let allocated := profileList.length
  let result := (sdk.GetSelectProfileList g.deviceId allocated).1
  let profiles := (sdk.GetSelectProfileList g.deviceId allocated).2.1
  let listSize := (sdk.GetSelectProfileList g.deviceId allocated).2.2
  let call : SdkCall := ⟨"GetSelectProfileList", g.deviceId, [], [], result⟩
  let loop : List (Option JObject) × Option Fault :=
    if result = sdk.WIMAX_API_RET_SUCCESS then
      forLoop (toJint listSize).toNat
        (fun i list =>
          if i < allocated then
            let prof := env.NewObject "android/net/wimax/structs/ProfileInfo"
            let prof := assignInt prof "structureSize" (profiles i).structureSize
            let prof := assignInt prof "profileId" (profiles i).profileID
            let prof := assignString env prof "profileName" (profiles i).profileName
            match setElement list i (some prof) with
            | none => (list, some Fault.outOfBounds)
            | some list1 => (list1, none)
          else (list, some Fault.outOfBounds))
        profileList
    else (profileList, none)
  match loop.2 with
  | some f => ⟨g, [call], (loop.1, size), .fault f⟩
  | none =>
    match setElement size 0 (toJint listSize) with
    | none => ⟨g, [call], (loop.1, size), .fault .outOfBounds⟩
    | some size1 => ⟨g, [call], (loop.1, size1), .returned result⟩

/-! ## Native methods: status, information and settings -/

/-- The source's `android_net_wimax_getLinkStatus`; `out` is `linkStatus`. -/
def android_net_wimax_getLinkStatus (sdk : WiMaxSDK) (g : Globals) (jdeviceId : JDeviceId) (linkStatus : JObject) :
    Run JObject :=
  let result := (sdk.GetLinkStatus g.deviceId).1
  let info := (sdk.GetLinkStatus g.deviceId).2
  let call : SdkCall := ⟨"GetLinkStatus", g.deviceId, [], [], result⟩
  if result = sdk.WIMAX_API_RET_SUCCESS then
    let o := assignInt linkStatus "structureSize" info.structureSize
    let o := assignInt o "centerFrequency" info.centerFrequency
    let o := assignByte o "rssi" info.RSSI
    let o := assignByte o "cinr" info.CINR
    let o := assignByte o "txPwr" info.txPWR
    match GetFieldID o "bsid" "[B" with
    | some bsidFieldId =>
      match o.get bsidFieldId with
      | some (.byteArray (some bsid)) =>
        let copy := forLoop 6
          (fun i jb_array =>
            match setElement jb_array i (toJbyte (info.bsId i)) with
            | some a => (a, none)
            | none => (jb_array, some Fault.outOfBounds))
          bsid
        match copy.2 with
        | some f => ⟨g, [call], o, .fault f⟩
        | none => ⟨g, [call], o.set bsidFieldId (.byteArray (some copy.1)), .returned result⟩
      | _ => ⟨g, [call], o, .fault .nullPointer⟩
    | none => ⟨g, [call], o, .returned result⟩
  else ⟨g, [call], linkStatus, .returned result⟩

/-- The object a reference field points to, changed by `f`; `none` when the reference
is NULL, so that the first `Set<Type>Field` on it faults. -/
def updateReferenced (referenced : List JObject) (ref : Option Nat) (f : JObject → JObject) :
    Option (List JObject) :=
  match ref with
  | some r =>
    match referenced.get? r with
    | some o => some (referenced.set r (f o))
    | none => none
  | none => none

/-- The source's `android_net_wimax_getDeviceInformation`; `referenced` are the
objects the reference fields of `deviceInfo` index, and `out` is
`(deviceInfo, referenced)`. -/
def android_net_wimax_getDeviceInformation (sdk : WiMaxSDK) (env : JNIEnv) (g : Globals) (jdeviceId : JDeviceId)
    (deviceInfo : JObject) (referenced : List JObject) : Run (JObject × List JObject) :=
  let result := (sdk.GetDeviceInformation g.deviceId).1
  let info := (sdk.GetDeviceInformation g.deviceId).2
  let call : SdkCall := ⟨"GetDeviceInformation", g.deviceId, [], [], result⟩
  if result = sdk.WIMAX_API_RET_SUCCESS then
    let o := assignInt deviceInfo "structureSize" info.structureSize
    let hwVersion := getObjectReference o "hwVersion" "Landroid/net/wimax/structs/DeviceVersion;"
    match updateReferenced referenced hwVersion (fun v =>
        assignString env (assignString env (assignInt v "structureSize" info.hwVersion.structureSize)
          "name" info.hwVersion.name) "version" info.hwVersion.version) with
    | none => ⟨g, [call], (o, referenced), .fault .nullPointer⟩
    | some r1 =>
    let swVersion := getObjectReference o "swVersion" "Landroid/net/wimax/structs/DeviceVersion;"
    match updateReferenced r1 swVersion (fun v =>
        assignString env (assignString env (assignInt v "structureSize" info.swVersion.structureSize)
          "name" info.swVersion.name) "version" info.swVersion.version) with
    | none => ⟨g, [call], (o, r1), .fault .nullPointer⟩
    | some r2 =>
    let rfVersion := getObjectReference o "rfVersion" "Landroid/net/wimax/structs/DeviceVersion;"
    match updateReferenced r2 rfVersion (fun v =>
        assignString env (assignString env (assignInt v "structureSize" info.rfVersion.structureSize)
          "name" info.rfVersion.name) "version" info.rfVersion.version) with
    | none => ⟨g, [call], (o, r2), .fault .nullPointer⟩
    | some r3 =>
    let asicVersion := getObjectReference o "asicVersion" "Landroid/net/wimax/structs/DeviceVersion;"
    match updateReferenced r3 asicVersion (fun v =>
        assignString env (assignString env (assignInt v "structureSize" info.asicVersion.structureSize)
          "name" info.asicVersion.name) "version" info.asicVersion.version) with
    | none => ⟨g, [call], (o, r3), .fault .nullPointer⟩
    | some r4 =>
    let tail : JObject → JObject := fun x =>
      assignString env (assignBoolean (assignString env x "vendorName" info.vendorName)
        "vendorSpecificInfoIncl" info.vendorSpecificInfoIncl)
        "vendorSpecificInfo" info.vendorSpecificInfo
    match GetFieldID o "macAddress" "[B" with
    | some macFieldId =>
      match o.get macFieldId with
      | some (.byteArray (some macAddress)) =>
        let copy := forLoop 6
          (fun i jb_array =>
            match setElement jb_array i (toJbyte (info.macAddress i)) with
            | some a => (a, none)
            | none => (jb_array, some Fault.outOfBounds))
          macAddress
        match copy.2 with
        | some f => ⟨g, [call], (o, r4), .fault f⟩
        | none =>
          ⟨g, [call], (tail (o.set macFieldId (.byteArray (some copy.1))), r4), .returned result⟩
      | _ => ⟨g, [call], (o, r4), .fault .nullPointer⟩
    | none => ⟨g, [call], (tail o, r4), .returned result⟩
  else ⟨g, [call], (deviceInfo, referenced), .returned result⟩

/-- The source's `android_net_wimax_getDeviceStatus`; `out` is
`(deviceStatus, connectionStatus)`. -/
def android_net_wimax_getDeviceStatus (sdk : WiMaxSDK) (g : Globals) (jdeviceId : JDeviceId)
    (deviceStatus connectionStatus : List Int) : Run (List Int × List Int) :=
  let result := (sdk.GetDeviceStatus g.deviceId).1
  let devStatus := (sdk.GetDeviceStatus g.deviceId).2.1
  let connStatus := (sdk.GetDeviceStatus g.deviceId).2.2
  let call : SdkCall := ⟨"GetDeviceStatus", g.deviceId, [], [], result⟩
  match setElement deviceStatus 0 devStatus with
  | none => ⟨g, [call], (deviceStatus, connectionStatus), .fault .outOfBounds⟩
  | some deviceStatus1 =>
    match setElement connectionStatus 0 connStatus with
    | none => ⟨g, [call], (deviceStatus1, connectionStatus), .fault .outOfBounds⟩
    | some connectionStatus1 => ⟨g, [call], (deviceStatus1, connectionStatus1), .returned result⟩

/-- The source's `android_net_wimax_getConnectedNSP`; `out` is `connectedNspInfo`. -/
def android_net_wimax_getConnectedNSP (sdk : WiMaxSDK) (env : JNIEnv) (g : Globals) (jdeviceId : JDeviceId)
    (connectedNspInfo : JObject) : Run JObject :=
  let result := (sdk.GetConnectedNSP g.deviceId).1
  let info := (sdk.GetConnectedNSP g.deviceId).2
  let call : SdkCall := ⟨"GetConnectedNSP", g.deviceId, [], [], result⟩
  if result = sdk.WIMAX_API_RET_SUCCESS then
    let o := assignInt connectedNspInfo "structureSize" info.structureSize
    let o := assignString env o "name" info.NSPName
    let o := assignString env o "realm" info.NSPRealm
    let o := assignInt o "nspId" info.NSPid
    let o := assignBoolean o "activated" info.activated
    let o := assignByte o "rssi" info.RSSI
    let o := assignByte o "cinr" info.CINR
    let o := assignInt o "networkType" info.networkType
    ⟨g, [call], o, .returned result⟩
  else ⟨g, [call], connectedNspInfo, .returned result⟩

/-- The source's `android_net_wimax_setRoamingMode`; `roamingMode` is a `jboolean`. -/
def android_net_wimax_setRoamingMode (sdk : WiMaxSDK) (g : Globals) (jdeviceId : JDeviceId) (roamingMode : Int) :
    Run Unit :=
  let mode := if roamingMode = JNI_TRUE then sdk.WIMAX_API_ROAMING_ENABLED
    else sdk.WIMAX_API_ROAMING_DISABLED
  ⟨g, [⟨"SetRoamingMode", g.deviceId, [mode], [], sdk.SetRoamingMode g.deviceId mode⟩], (),
   .returned (sdk.SetRoamingMode g.deviceId mode)⟩

/-- The source's `android_net_wimax_getRoamingMode`; `out` is the array `roamingMode`. -/
def android_net_wimax_getRoamingMode (sdk : WiMaxSDK) (g : Globals) (jdeviceId : JDeviceId) (roamingMode : List Int) :
    Run (List Int) :=
  let result := (sdk.GetRoamingMode g.deviceId).1
  let mode := (sdk.GetRoamingMode g.deviceId).2
  let call : SdkCall := ⟨"GetRoamingMode", g.deviceId, [], [], result⟩
  let isEnabled := if mode = sdk.WIMAX_API_ROAMING_ENABLED then JNI_TRUE else JNI_FALSE
  match setElement roamingMode 0 isEnabled with
  | none => ⟨g, [call], roamingMode, .fault .outOfBounds⟩
  | some roamingMode1 => ⟨g, [call], roamingMode1, .returned result⟩

/-- The source's `android_net_wimax_getStatistics`; `out` is `connectionStatistics`. -/
def android_net_wimax_getStatistics (sdk : WiMaxSDK) (g : Globals) (jdeviceId : JDeviceId)
    (connectionStatistics : JObject) : Run JObject :=
  let result := (sdk.GetStatistics g.deviceId).1
  let info := (sdk.GetStatistics g.deviceId).2
  let call : SdkCall := ⟨"GetStatistics", g.deviceId, [], [], result⟩
  if result = sdk.WIMAX_API_RET_SUCCESS then
    let o := assignInt connectionStatistics "structureSize" info.structureSize
    let o := assignLong o "totalRxBytes" info.totalRxByte
    let o := assignLong o "totalTxBytes" info.totalTxByte
    let o := assignLong o "totalRxPackets" info.totalRxPackets
    let o := assignLong o "totalTxPackets" info.totalTxPackets
    ⟨g, [call], o, .returned result⟩
  else ⟨g, [call], connectionStatistics, .returned result⟩

/-- The source's `android_net_wimax_getProvisioningStatus`; `out` is the array
`provisioningStatus`. -/
def android_net_wimax_getProvisioningStatus (sdk : WiMaxSDK) (g : Globals) (jdeviceId : JDeviceId) (nspName : String)
    (provisioningStatus : List Int) : Run (List Int) :=
  let result := (sdk.GetProvisioningStatus g.deviceId nspName).1
  let status := (sdk.GetProvisioningStatus g.deviceId nspName).2
  let call : SdkCall := ⟨"GetProvisioningStatus", g.deviceId, [], [nspName], result⟩
  match setElement provisioningStatus 0 (toJboolean status) with
  | none => ⟨g, [call], provisioningStatus, .fault .outOfBounds⟩
  | some provisioningStatus1 => ⟨g, [call], provisioningStatus1, .returned result⟩

/-- The source's `android_net_wimax_getContactInformation`; `out` is `(contactList, size)`.
The native buffer has as many elements as the managed array. -/
def android_net_wimax_getContactInformation (sdk : WiMaxSDK) (env : JNIEnv) (g : Globals)
    (nspName : String) (contactList : List (Option JObject)) (size : List Int) :
    Run (List (Option JObject) × List Int) :=
  let allocated := contactList.length
  let result := (sdk.GetContactInformation g.deviceId nspName allocated).1
  let contacts := (sdk.GetContactInformation g.deviceId nspName allocated).2.1
  let listSize := (sdk.GetContactInformation g.deviceId nspName allocated).2.2
  let call : SdkCall := ⟨"GetContactInformation", g.deviceId, [], [nspName], result⟩
  let loop : List (Option JObject) × Option Fault :=
    if result = sdk.WIMAX_API_RET_SUCCESS then
      forLoop (toJint listSize).toNat
        (fun i list =>
          if i < allocated then
            let contact := env.NewObject "android/net/wimax/structs/ContactInfo"
            let contact := assignInt contact "structureSize" (contacts i).structureSize
            let contact := assignString env contact "textForUri" (contacts i).textForURI
            let contact := assignString env contact "uri" (contacts i).URI
            let contact := assignInt contact "contactType" (contacts i).contactType
            match setElement list i (some contact) with
            | none => (list, some Fault.outOfBounds)
            | some list1 => (list1, none)
          else (list, some Fault.outOfBounds))
        contactList
    else (contactList, none)
  match loop.2 with
  | some f => ⟨g, [call], (loop.1, size), .fault f⟩
  | none =>
    match setElement size 0 (toJint listSize) with
    | none => ⟨g, [call], (loop.1, size), .fault .outOfBounds⟩
    | some size1 => ⟨g, [call], (loop.1, size1), .returned result⟩

/-- The source's `android_net_wimax_getPackageInformation`; `out` is `packageInfo`. -/
def android_net_wimax_getPackageInformation (sdk : WiMaxSDK) (env : JNIEnv) (g : Globals) (jdeviceId : JDeviceId)
    (packageInfo : JObject) : Run JObject :=
  let result := (sdk.GetPackageInformation g.deviceId).1
  let info := (sdk.GetPackageInformation g.deviceId).2
  let call : SdkCall := ⟨"GetPackageInformation", g.deviceId, [], [], result⟩
  if result = sdk.WIMAX_API_RET_SUCCESS then
    let o := assignInt packageInfo "structureSize" info.structureSize
    let o := assignString env o "filePath" info.filePath
    let o := assignString env o "fileName" info.fileName
    let o := assignBoolean o "forceReboot" info.forceReboot
    let o := assignBoolean o "mandatoryUpdate" info.mandatoryUpdate
    let o := assignBoolean o "warnUser" info.warnUser
    ⟨g, [call], o, .returned result⟩
  else ⟨g, [call], packageInfo, .returned result⟩

/-- The source's `android_net_wimax_setPackageUpdateState`. -/
def android_net_wimax_setPackageUpdateState (sdk : WiMaxSDK) (g : Globals) (jdeviceId : JDeviceId) (state : Int) :
    Run Unit :=
  let updateState :=
    if state = 0 then sdk.WIMAX_API_PACKAGE_UPDATE_DELAY
    else if state = 1 then sdk.WIMAX_API_PACKAGE_UPDATE_ACCEPTED
    else if state = 2 then sdk.WIMAX_API_PACKAGE_UPDATE_DENIED
    else sdk.WIMAX_API_PACKAGE_UPDATE_DELAY
  ⟨g, [⟨"SetPackageUpdateState", g.deviceId, [updateState], [],
        sdk.SetPackageUpdateState g.deviceId updateState⟩], (),
   .returned (sdk.SetPackageUpdateState g.deviceId updateState)⟩

/-! ## Native methods: subscriptions -/

/-- The source's `android_net_wimax_subscribeDeviceStatusChange`; `callback` may be NULL. -/
def android_net_wimax_subscribeDeviceStatusChange (sdk : WiMaxSDK) (g : Globals) (jdeviceId : JDeviceId)
    (callback : Option JCallback) : Run Unit :=
  ⟨{ g with deviceStatusChangeCB := callback },
   [⟨"SubscribeDeviceStatusChange", g.deviceId, [], [], sdk.SubscribeDeviceStatusChange g.deviceId⟩], (),
   .returned (sdk.SubscribeDeviceStatusChange g.deviceId)⟩

/-- The source's `android_net_wimax_subscribeDeviceInsertRemove`; `callback` may be NULL. -/
def android_net_wimax_subscribeDeviceInsertRemove (sdk : WiMaxSDK) (g : Globals) (jdeviceId : JDeviceId)
    (callback : Option JCallback) : Run Unit :=
  ⟨{ g with deviceInsertRemoveCB := callback },
   [⟨"SubscribeDeviceInsertRemove", g.deviceId, [], [], sdk.SubscribeDeviceInsertRemove g.deviceId⟩], (),
   .returned (sdk.SubscribeDeviceInsertRemove g.deviceId)⟩

/-- The source's `android_net_wimax_subscribeControlPowerManagement`; `callback` may be NULL. -/
def android_net_wimax_subscribeControlPowerManagement (sdk : WiMaxSDK) (g : Globals) (jdeviceId : JDeviceId)
    (callback : Option JCallback) : Run Unit :=
  ⟨{ g with controlPowerManagementCB := callback },
   [⟨"SubscribeControlPowerManagement", g.deviceId, [], [], sdk.SubscribeControlPowerManagement g.deviceId⟩], (),
   .returned (sdk.SubscribeControlPowerManagement g.deviceId)⟩

/-- The source's `android_net_wimax_subscribeConnectToNetwork`; `callback` may be NULL. -/
def android_net_wimax_subscribeConnectToNetwork (sdk : WiMaxSDK) (g : Globals) (jdeviceId : JDeviceId)
    (callback : Option JCallback) : Run Unit :=
  ⟨{ g with connectToNetworkCB := callback },
   [⟨"SubscribeConnectToNetwork", g.deviceId, [], [], sdk.SubscribeConnectToNetwork g.deviceId⟩], (),
   .returned (sdk.SubscribeConnectToNetwork g.deviceId)⟩

/-- The source's `android_net_wimax_subscribeDisconnectToNetwork`; `callback` may be NULL. -/
def android_net_wimax_subscribeDisconnectToNetwork (sdk : WiMaxSDK) (g : Globals) (jdeviceId : JDeviceId)
    (callback : Option JCallback) : Run Unit :=
  ⟨{ g with disconnectToNetworkCB := callback },
   [⟨"SubscribeDisconnectToNetwork", g.deviceId, [], [], sdk.SubscribeDisconnectToNetwork g.deviceId⟩], (),
   .returned (sdk.SubscribeDisconnectToNetwork g.deviceId)⟩

/-- The source's `android_net_wimax_subscribeNetworkSearchWideScan`; `callback` may be NULL. -/
def android_net_wimax_subscribeNetworkSearchWideScan (sdk : WiMaxSDK) (g : Globals) (jdeviceId : JDeviceId)
    (callback : Option JCallback) : Run Unit :=
  ⟨{ g with networkSearchWideScanCB := callback },
   [⟨"SubscribeNetworkSearchWideScan", g.deviceId, [], [], sdk.SubscribeNetworkSearchWideScan g.deviceId⟩], (),
   .returned (sdk.SubscribeNetworkSearchWideScan g.deviceId)⟩

/-- The source's `android_net_wimax_subscribeProvisioningOperation`; `callback` may be NULL. -/
def android_net_wimax_subscribeProvisioningOperation (sdk : WiMaxSDK) (g : Globals) (jdeviceId : JDeviceId)
    (callback : Option JCallback) : Run Unit :=
  ⟨{ g with provisioningOperationCB := callback },
   [⟨"SubscribeProvisioningOperation", g.deviceId, [], [], sdk.SubscribeProvisioningOperation g.deviceId⟩], (),
   .returned (sdk.SubscribeProvisioningOperation g.deviceId)⟩

/-- The source's `android_net_wimax_subscribePackageUpdate`; `callback` may be NULL. -/
def android_net_wimax_subscribePackageUpdate (sdk : WiMaxSDK) (g : Globals) (jdeviceId : JDeviceId)
    (callback : Option JCallback) : Run Unit :=
  ⟨{ g with packageUpdateCB := callback },
   [⟨"SubscribePackageUpdate", g.deviceId, [], [], sdk.SubscribePackageUpdate g.deviceId⟩], (),
   .returned (sdk.SubscribePackageUpdate g.deviceId)⟩

/-- The source's `android_net_wimax_unsubscribeDeviceStatusChange`. -/
def android_net_wimax_unsubscribeDeviceStatusChange (sdk : WiMaxSDK) (g : Globals) (jdeviceId : JDeviceId) : Run Unit :=
  ⟨g, [⟨"UnsubscribeDeviceStatusChange", g.deviceId, [], [], sdk.UnsubscribeDeviceStatusChange g.deviceId⟩], (),
   .returned (sdk.UnsubscribeDeviceStatusChange g.deviceId)⟩

/-- The source's `android_net_wimax_unsubscribeDeviceInsertRemove`. -/
def android_net_wimax_unsubscribeDeviceInsertRemove (sdk : WiMaxSDK) (g : Globals) (jdeviceId : JDeviceId) : Run Unit :=
  ⟨g, [⟨"UnsubscribeDeviceInsertRemove", g.deviceId, [], [], sdk.UnsubscribeDeviceInsertRemove g.deviceId⟩], (),
   .returned (sdk.UnsubscribeDeviceInsertRemove g.deviceId)⟩

/-- The source's `android_net_wimax_unsubscribeControlPowerManagement`. -/
def android_net_wimax_unsubscribeControlPowerManagement (sdk : WiMaxSDK) (g : Globals) (jdeviceId : JDeviceId) : Run Unit :=
  ⟨g, [⟨"UnsubscribeControlPowerManagement", g.deviceId, [], [], sdk.UnsubscribeControlPowerManagement g.deviceId⟩], (),
   .returned (sdk.UnsubscribeControlPowerManagement g.deviceId)⟩

/-- The source's `android_net_wimax_unsubscribeConnectToNetwork`. -/
def android_net_wimax_unsubscribeConnectToNetwork (sdk : WiMaxSDK) (g : Globals) (jdeviceId : JDeviceId) : Run Unit :=
  ⟨g, [⟨"UnsubscribeConnectToNetwork", g.deviceId, [], [], sdk.UnsubscribeConnectToNetwork g.deviceId⟩], (),
   .returned (sdk.UnsubscribeConnectToNetwork g.deviceId)⟩

/-- The source's `android_net_wimax_unsubscribeDisconnectToNetwork`. -/
def android_net_wimax_unsubscribeDisconnectToNetwork (sdk : WiMaxSDK) (g : Globals) (jdeviceId : JDeviceId) : Run Unit :=
  ⟨g, [⟨"UnsubscribeDisconnectToNetwork", g.deviceId, [], [], sdk.UnsubscribeDisconnectToNetwork g.deviceId⟩], (),
   .returned (sdk.UnsubscribeDisconnectToNetwork g.deviceId)⟩

/-- The source's `android_net_wimax_unsubscribeNetworkSearchWideScan`. -/
def android_net_wimax_unsubscribeNetworkSearchWideScan (sdk : WiMaxSDK) (g : Globals) (jdeviceId : JDeviceId) : Run Unit :=
  ⟨g, [⟨"UnsubscribeNetworkSearchWideScan", g.deviceId, [], [], sdk.UnsubscribeNetworkSearchWideScan g.deviceId⟩], (),
   .returned (sdk.UnsubscribeNetworkSearchWideScan g.deviceId)⟩

/-- The source's `android_net_wimax_unsubscribeProvisioningOperation`. -/
def android_net_wimax_unsubscribeProvisioningOperation (sdk : WiMaxSDK) (g : Globals) (jdeviceId : JDeviceId) : Run Unit :=
  ⟨g, [⟨"UnsubscribeProvisioningOperation", g.deviceId, [], [], sdk.UnsubscribeProvisioningOperation g.deviceId⟩], (),
   .returned (sdk.UnsubscribeProvisioningOperation g.deviceId)⟩

/-- The source's `android_net_wimax_unsubscribePackageUpdate`. -/
def android_net_wimax_unsubscribePackageUpdate (sdk : WiMaxSDK) (g : Globals) (jdeviceId : JDeviceId) : Run Unit :=
  ⟨g, [⟨"UnsubscribePackageUpdate", g.deviceId, [], [], sdk.UnsubscribePackageUpdate g.deviceId⟩], (),
   .returned (sdk.UnsubscribePackageUpdate g.deviceId)⟩

/-! ## SDK notification handlers -/

/-- An argument handed to `CallVoidMethod`: the native device-id pointer the SDK
passed (the struct behind it), an integer, or a managed object array (`none` for NULL). -/
inductive JArg where
  | pointer (deviceId : Option WIMAX_API_DEVICE_ID)
  | int (v : Int)
  | objectArray (a : Option (List (Option JObject)))
deriving DecidableEq, Repr

/-- What a notification handler does to the managed runtime, in order. -/
inductive Event where
  | AttachCurrentThread (ret : Int)
  | CallVoidMethod (obj : JCallback) (signature : String) (args : List JArg)
  | DetachCurrentThread (ret : Int)
  | LOGE (message : String)
deriving DecidableEq, Repr

/-- A run of a notification handler: its events, and the fault that ended it, if any. -/
structure HandlerRun where
  events : List Event
  fault : Option Fault
deriving DecidableEq, Repr

/-- The source's `fun_IndDeviceStatusUpdate`; `attach` and `detach` are what
`AttachCurrentThread` and `DetachCurrentThread` return. -/
def fun_IndDeviceStatusUpdate (g : Globals) (attach detach : Int)
    (pDeviceId : Option WIMAX_API_DEVICE_ID) (deviceStatus statusReason connectionProgressInfo : Int) : HandlerRun :=
  match g.g_jVM with
  | none => ⟨[], some .nullPointer⟩
  | some _ =>
    if attach = JNI_OK then
      match g.deviceStatusChangeCB with
      | none => ⟨[.AttachCurrentThread attach], some .nullPointer⟩
      | some cb =>
        let finish : List Event :=
          .DetachCurrentThread detach ::
            (if detach ≠ JNI_OK then [.LOGE "DetachCurrentThread() failed"] else [])
        if GetMethodID cb "callback" "(Landroid/net/wimax/structs/DeviceId;III)V" then
          ⟨.AttachCurrentThread attach ::
            .CallVoidMethod cb "(Landroid/net/wimax/structs/DeviceId;III)V"
              [.pointer pDeviceId, .int deviceStatus, .int statusReason, .int connectionProgressInfo] :: finish, none⟩
        else ⟨.AttachCurrentThread attach :: finish, none⟩
    else ⟨[.AttachCurrentThread attach, .LOGE "AttachCurrentThread() failed"], none⟩

/-- The source's `fun_IndDeviceInsertRemove`; `attach` and `detach` are what
`AttachCurrentThread` and `DetachCurrentThread` return. -/
def fun_IndDeviceInsertRemove (g : Globals) (attach detach : Int)
    (pDeviceId : Option WIMAX_API_DEVICE_ID) (cardPresence : Int) : HandlerRun :=
  match g.g_jVM with
  | none => ⟨[], some .nullPointer⟩
  | some _ =>
    if attach = JNI_OK then
      match g.deviceInsertRemoveCB with
      | none => ⟨[.AttachCurrentThread attach], some .nullPointer⟩
      | some cb =>
        let finish : List Event :=
          .DetachCurrentThread detach ::
            (if detach ≠ JNI_OK then [.LOGE "DetachCurrentThread() failed"] else [])
        if GetMethodID cb "callback" "(Landroid/net/wimax/structs/DeviceId;I)V" then
          ⟨.AttachCurrentThread attach ::
            .CallVoidMethod cb "(Landroid/net/wimax/structs/DeviceId;I)V"
              [.pointer pDeviceId, .int cardPresence] :: finish, none⟩
        else ⟨.AttachCurrentThread attach :: finish, none⟩
    else ⟨[.AttachCurrentThread attach, .LOGE "AttachCurrentThread() failed"], none⟩

/-- The source's `fun_IndControlPowerManagement`; `attach` and `detach` are what
`AttachCurrentThread` and `DetachCurrentThread` return. -/
def fun_IndControlPowerManagement (g : Globals) (attach detach : Int)
    (pDeviceId : Option WIMAX_API_DEVICE_ID) (powerState : Int) : HandlerRun :=
  match g.g_jVM with
  | none => ⟨[], some .nullPointer⟩
  | some _ =>
    if attach = JNI_OK then
      match g.controlPowerManagementCB with
      | none => ⟨[.AttachCurrentThread attach], some .nullPointer⟩
      | some cb =>
        let finish : List Event :=
          .DetachCurrentThread detach ::
            (if detach ≠ JNI_OK then [.LOGE "DetachCurrentThread() failed"] else [])
        if GetMethodID cb "callback" "(Landroid/net/wimax/structs/DeviceId;I)V" then
          ⟨.AttachCurrentThread attach ::
            .CallVoidMethod cb "(Landroid/net/wimax/structs/DeviceId;I)V"
              [.pointer pDeviceId, .int powerState] :: finish, none⟩
        else ⟨.AttachCurrentThread attach :: finish, none⟩
    else ⟨[.AttachCurrentThread attach, .LOGE "AttachCurrentThread() failed"], none⟩

/-- The source's `fun_IndConnectToNetwork`; `attach` and `detach` are what
`AttachCurrentThread` and `DetachCurrentThread` return. -/
def fun_IndConnectToNetwork (g : Globals) (attach detach : Int)
    (pDeviceId : Option WIMAX_API_DEVICE_ID) (status : Int) : HandlerRun :=
  match g.g_jVM with
  | none => ⟨[], some .nullPointer⟩
  | some _ =>
    if attach = JNI_OK then
      match g.connectToNetworkCB with
      | none => ⟨[.AttachCurrentThread attach], some .nullPointer⟩
      | some cb =>
        let finish : List Event :=
          .DetachCurrentThread detach ::
            (if detach ≠ JNI_OK then [.LOGE "DetachCurrentThread() failed"] else [])
        if GetMethodID cb "callback" "(Landroid/net/wimax/structs/DeviceId;I)V" then
          ⟨.AttachCurrentThread attach ::
            .CallVoidMethod cb "(Landroid/net/wimax/structs/DeviceId;I)V"
              [.pointer pDeviceId, .int status] :: finish, none⟩
        else ⟨.AttachCurrentThread attach :: finish, none⟩
    else ⟨[.AttachCurrentThread attach, .LOGE "AttachCurrentThread() failed"], none⟩

/-- The source's `fun_IndDisconnectToNetwork`; `attach` and `detach` are what
`AttachCurrentThread` and `DetachCurrentThread` return. -/
def fun_IndDisconnectToNetwork (g : Globals) (attach detach : Int)
    (pDeviceId : Option WIMAX_API_DEVICE_ID) (status : Int) : HandlerRun :=
  match g.g_jVM with
  | none => ⟨[], some .nullPointer⟩
  | some _ =>
    if attach = JNI_OK then
      match g.disconnectToNetworkCB with
      | none => ⟨[.AttachCurrentThread attach], some .nullPointer⟩
      | some cb =>
        let finish : List Event :=
          .DetachCurrentThread detach ::
            (if detach ≠ JNI_OK then [.LOGE "DetachCurrentThread() failed"] else [])
        if GetMethodID cb "callback" "(Landroid/net/wimax/structs/DeviceId;I)V" then
          ⟨.AttachCurrentThread attach ::
            .CallVoidMethod cb "(Landroid/net/wimax/structs/DeviceId;I)V"
              [.pointer pDeviceId, .int status] :: finish, none⟩
        else ⟨.AttachCurrentThread attach :: finish, none⟩
    else ⟨[.AttachCurrentThread attach, .LOGE "AttachCurrentThread() failed"], none⟩

/-- The source's `fun_IndNetworkSearchWideScan`; `env` is the `JNIEnv` the attach
gives, `nspList i` is element `i` of the list the SDK passes. -/
def fun_IndNetworkSearchWideScan (g : Globals) (attach detach : Int) (env : JNIEnv)
    (pDeviceId : Option WIMAX_API_DEVICE_ID) (nspList : Nat → WIMAX_API_NSP_INFO)
    (listSize : Int) : HandlerRun :=
  match g.g_jVM with
  | none => ⟨[], some .nullPointer⟩
  | some _ =>
    if attach = JNI_OK then
      match g.networkSearchWideScanCB with
      | none => ⟨[.AttachCurrentThread attach], some .nullPointer⟩
      | some cb =>
        let finish : List Event :=
          .DetachCurrentThread detach ::
            (if detach ≠ JNI_OK then [.LOGE "DetachCurrentThread() failed"] else [])
        if GetMethodID cb "callback"
            "(Landroid/net/wimax/structs/DeviceId;[Landroid/net/wimax/structs/NSPInfo;I)V" then
          let networkList : Option (List (Option JObject)) :=
            if 0 ≤ toJint listSize then some (List.replicate (toJint listSize).toNat none)
            else none
          let loop := forLoop (toJint listSize).toNat
            (fun i list =>
              let nsp := env.NewObject "android/net/wimax/structs/NSPInfo"
              let nsp := assignInt nsp "structureSize" (nspList i).structureSize
              let nsp := assignString env nsp "nspName" (nspList i).NSPName
              let nsp := assignInt nsp "nspId" (nspList i).NSPid
              let nsp := assignByte nsp "rssi" (nspList i).RSSI
              let nsp := assignByte nsp "cinr" (nspList i).CINR
              let nsp := assignInt nsp "networkType" (nspList i).networkType
              match list with
              | some l =>
                match setElement l i (some nsp) with
                | some l1 => (some l1, none)
                | none => (list, some Fault.outOfBounds)
              | none => (list, some Fault.nullPointer))
            networkList
          match loop.2 with
          | some f => ⟨[.AttachCurrentThread attach], some f⟩
          | none =>
            ⟨.AttachCurrentThread attach ::
              .CallVoidMethod cb
                "(Landroid/net/wimax/structs/DeviceId;[Landroid/net/wimax/structs/NSPInfo;I)V"
                [.pointer pDeviceId, .objectArray loop.1, .int (toJint listSize)] :: finish, none⟩
        else ⟨.AttachCurrentThread attach :: finish, none⟩
    else ⟨[.AttachCurrentThread attach, .LOGE "AttachCurrentThread() failed"], none⟩

/-- The source's `fun_IndProvisioningOperation`; `attach` and `detach` are what
`AttachCurrentThread` and `DetachCurrentThread` return. -/
def fun_IndProvisioningOperation (g : Globals) (attach detach : Int)
    (pDeviceId : Option WIMAX_API_DEVICE_ID) (provisioningOperation contactType : Int) : HandlerRun :=
  match g.g_jVM with
  | none => ⟨[], some .nullPointer⟩
  | some _ =>
    if attach = JNI_OK then
      match g.provisioningOperationCB with
      | none => ⟨[.AttachCurrentThread attach], some .nullPointer⟩
      | some cb =>
        let finish : List Event :=
          .DetachCurrentThread detach ::
            (if detach ≠ JNI_OK then [.LOGE "DetachCurrentThread() failed"] else [])
        if GetMethodID cb "callback" "(Landroid/net/wimax/structs/DeviceId;II)V" then
          ⟨.AttachCurrentThread attach ::
            .CallVoidMethod cb "(Landroid/net/wimax/structs/DeviceId;II)V"
              [.pointer pDeviceId, .int provisioningOperation, .int contactType] :: finish, none⟩
        else ⟨.AttachCurrentThread attach :: finish, none⟩
    else ⟨[.AttachCurrentThread attach, .LOGE "AttachCurrentThread() failed"], none⟩

/-- The source's `fun_IndPackageUpdate`; `attach` and `detach` are what
`AttachCurrentThread` and `DetachCurrentThread` return. -/
def fun_IndPackageUpdate (g : Globals) (attach detach : Int)
    (pDeviceId : Option WIMAX_API_DEVICE_ID) (packageUpdate : Int) : HandlerRun :=
  match g.g_jVM with
  | none => ⟨[], some .nullPointer⟩
  | some _ =>
    if attach = JNI_OK then
      match g.packageUpdateCB with
      | none => ⟨[.AttachCurrentThread attach], some .nullPointer⟩
      | some cb =>
        let finish : List Event :=
          .DetachCurrentThread detach ::
            (if detach ≠ JNI_OK then [.LOGE "DetachCurrentThread() failed"] else [])
        if GetMethodID cb "callback" "(Landroid/net/wimax/structs/DeviceId;I)V" then
          ⟨.AttachCurrentThread attach ::
            .CallVoidMethod cb "(Landroid/net/wimax/structs/DeviceId;I)V"
              [.pointer pDeviceId, .int packageUpdate] :: finish, none⟩
        else ⟨.AttachCurrentThread attach :: finish, none⟩
    else ⟨[.AttachCurrentThread attach, .LOGE "AttachCurrentThread() failed"], none⟩

/-! ## Registration and dispatch -/

/-- The part of the source's `register_android_net_wimax_WimaxManager` that fills the
field-id cache; `findClass` is `env->FindClass`, `none` for NULL. -/
def register_android_net_wimax_WimaxManager (g : Globals) (findClass : String → Option String) :
    Globals :=
  { g with deviceIdFieldIds := ⟨findClass "android/net/wimax/structs/DeviceId"⟩ }

/-- A call of one of the native functions of the file, with the arguments the
function declares after `(JNIEnv* env, jobject clazz)`. -/
inductive NativeCall where
  | loadLibrary (vm : Nat)
  | unloadLibrary
  | wimaxAPIOpen (jdeviceId : JDeviceId)
  | getListDevice (jdeviceId : JDeviceId) (hwDeviceIdList : List (Option JObject)) (size : List Int)
  | wimaxDeviceOpen (jdeviceId : JDeviceId)
  | wimaxDeviceClose (jdeviceId : JDeviceId)
  | wimaxAPIClose (jdeviceId : JDeviceId)
  | cmdControlPowerManagement (pwrState : Int)
  | cmdResetWimaxDevice (jdeviceId : JDeviceId)
  | cmdResetToFactorySettings (jdeviceId : JDeviceId)
  | getErrorString (jdeviceId : JDeviceId) (errorCode : Int) (buffer : List (Option String)) (length : List Int)
  | setServiceProviderUnLock (jdeviceId : JDeviceId) (lockCode : String)
  | getServiceProviderLockStatus (jdeviceId : JDeviceId) (lockStatus : List Int) (nspName : List (Option String))
  | getNetworkList (jdeviceId : JDeviceId) (networkList : List (Option JObject)) (size : List Int)
  | cmdConnectToNetwork (jdeviceId : JDeviceId) (nspName : String) (profileId : Int) (password : String)
  | cmdDisconnectFromNetwork (jdeviceId : JDeviceId)
  | cmdNetworkSearchWideScan (jdeviceId : JDeviceId)
  | getIPInterfaceIndex (jdeviceId : JDeviceId) (interfaceInfo : JObject)
  | getSelectProfileList (jdeviceId : JDeviceId) (profileList : List (Option JObject)) (size : List Int)
  | getLinkStatus (jdeviceId : JDeviceId) (linkStatus : JObject)
  | getDeviceInformation (jdeviceId : JDeviceId) (deviceInfo : JObject) (referenced : List JObject)
  | getDeviceStatus (jdeviceId : JDeviceId) (deviceStatus : List Int) (connectionStatus : List Int)
  | getConnectedNSP (jdeviceId : JDeviceId) (connectedNspInfo : JObject)
  | setRoamingMode (jdeviceId : JDeviceId) (roamingMode : Int)
  | getRoamingMode (jdeviceId : JDeviceId) (roamingMode : List Int)
  | getStatistics (jdeviceId : JDeviceId) (connectionStatistics : JObject)
  | getProvisioningStatus (jdeviceId : JDeviceId) (nspName : String) (provisioningStatus : List Int)
  | getContactInformation (nspName : String) (contactList : List (Option JObject)) (size : List Int)
  | getPackageInformation (jdeviceId : JDeviceId) (packageInfo : JObject)
  | setPackageUpdateState (jdeviceId : JDeviceId) (state : Int)
  | subscribeDeviceStatusChange (jdeviceId : JDeviceId) (callback : Option JCallback)
  | subscribeDeviceInsertRemove (jdeviceId : JDeviceId) (callback : Option JCallback)
  | subscribeControlPowerManagement (jdeviceId : JDeviceId) (callback : Option JCallback)
  | subscribeConnectToNetwork (jdeviceId : JDeviceId) (callback : Option JCallback)
  | subscribeDisconnectToNetwork (jdeviceId : JDeviceId) (callback : Option JCallback)
  | subscribeNetworkSearchWideScan (jdeviceId : JDeviceId) (callback : Option JCallback)
  | subscribeProvisioningOperation (jdeviceId : JDeviceId) (callback : Option JCallback)
  | subscribePackageUpdate (jdeviceId : JDeviceId) (callback : Option JCallback)
  | unsubscribeDeviceStatusChange (jdeviceId : JDeviceId)
  | unsubscribeDeviceInsertRemove (jdeviceId : JDeviceId)
  | unsubscribeControlPowerManagement (jdeviceId : JDeviceId)
  | unsubscribeConnectToNetwork (jdeviceId : JDeviceId)
  | unsubscribeDisconnectToNetwork (jdeviceId : JDeviceId)
  | unsubscribeNetworkSearchWideScan (jdeviceId : JDeviceId)
  | unsubscribeProvisioningOperation (jdeviceId : JDeviceId)
  | unsubscribePackageUpdate (jdeviceId : JDeviceId)

/-- Run the native function a call names.  `out` is the call with its managed
arguments as they are when the run ends. -/
def invoke (sdk : WiMaxSDK) (env : JNIEnv) (g : Globals) : NativeCall → Run NativeCall
  | .loadLibrary vm =>
    let r := android_net_wimax_loadLibrary g vm
    ⟨r.globals, r.sdkCalls, .loadLibrary vm, r.ret⟩
  | .unloadLibrary =>
    let r := android_net_wimax_unloadLibrary g
    ⟨r.globals, r.sdkCalls, .unloadLibrary, r.ret⟩
  | .wimaxAPIOpen jdeviceId =>
    let r := android_net_wimax_wimaxAPIOpen sdk g jdeviceId
    ⟨r.globals, r.sdkCalls, .wimaxAPIOpen r.out, r.ret⟩
  | .getListDevice jdeviceId hwDeviceIdList size =>
    let r := android_net_wimax_getListDevice sdk env g jdeviceId hwDeviceIdList size
    ⟨r.globals, r.sdkCalls, .getListDevice jdeviceId r.out.1 r.out.2, r.ret⟩
  | .wimaxDeviceOpen jdeviceId =>
    let r := android_net_wimax_wimaxDeviceOpen sdk g jdeviceId
    ⟨r.globals, r.sdkCalls, .wimaxDeviceOpen jdeviceId, r.ret⟩
  | .wimaxDeviceClose jdeviceId =>
    let r := android_net_wimax_wimaxDeviceClose sdk g jdeviceId
    ⟨r.globals, r.sdkCalls, .wimaxDeviceClose jdeviceId, r.ret⟩
  | .wimaxAPIClose jdeviceId =>
    let r := android_net_wimax_wimaxAPIClose sdk g jdeviceId
    ⟨r.globals, r.sdkCalls, .wimaxAPIClose jdeviceId, r.ret⟩
  | .cmdControlPowerManagement pwrState =>
    let r := android_net_wimax_cmdControlPowerManagement sdk g pwrState
    ⟨r.globals, r.sdkCalls, .cmdControlPowerManagement pwrState, r.ret⟩
  | .cmdResetWimaxDevice jdeviceId =>
    let r := android_net_wimax_cmdResetWimaxDevice sdk g jdeviceId
    ⟨r.globals, r.sdkCalls, .cmdResetWimaxDevice jdeviceId, r.ret⟩
  | .cmdResetToFactorySettings jdeviceId =>
    let r := android_net_wimax_cmdResetToFactorySettings sdk g jdeviceId
    ⟨r.globals, r.sdkCalls, .cmdResetToFactorySettings jdeviceId, r.ret⟩
  | .getErrorString jdeviceId errorCode buffer length =>
    let r := android_net_wimax_getErrorString sdk env g jdeviceId errorCode buffer length
    ⟨r.globals, r.sdkCalls, .getErrorString jdeviceId errorCode r.out.1 r.out.2, r.ret⟩
  | .setServiceProviderUnLock jdeviceId lockCode =>
    let r := android_net_wimax_setServiceProviderUnLock sdk g jdeviceId lockCode
    ⟨r.globals, r.sdkCalls, .setServiceProviderUnLock jdeviceId lockCode, r.ret⟩
  | .getServiceProviderLockStatus jdeviceId lockStatus nspName =>
    let r := android_net_wimax_getServiceProviderLockStatus sdk env g jdeviceId lockStatus nspName
    ⟨r.globals, r.sdkCalls, .getServiceProviderLockStatus jdeviceId r.out.1 r.out.2, r.ret⟩
  | .getNetworkList jdeviceId networkList size =>
    let r := android_net_wimax_getNetworkList sdk env g jdeviceId networkList size
    ⟨r.globals, r.sdkCalls, .getNetworkList jdeviceId r.out.1 r.out.2, r.ret⟩
  | .cmdConnectToNetwork jdeviceId nspName profileId password =>
    let r := android_net_wimax_cmdConnectToNetwork sdk g jdeviceId nspName profileId password
    ⟨r.globals, r.sdkCalls, .cmdConnectToNetwork jdeviceId nspName profileId password, r.ret⟩
  | .cmdDisconnectFromNetwork jdeviceId =>
    let r := android_net_wimax_cmdDisconnectFromNetwork sdk g jdeviceId
    ⟨r.globals, r.sdkCalls, .cmdDisconnectFromNetwork jdeviceId, r.ret⟩
  | .cmdNetworkSearchWideScan jdeviceId =>
    let r := android_net_wimax_cmdNetworkSearchWideScan sdk g jdeviceId
    ⟨r.globals, r.sdkCalls, .cmdNetworkSearchWideScan jdeviceId, r.ret⟩
  | .getIPInterfaceIndex jdeviceId interfaceInfo =>
    let r := android_net_wimax_getIPInterfaceIndex sdk env g jdeviceId interfaceInfo
    ⟨r.globals, r.sdkCalls, .getIPInterfaceIndex jdeviceId r.out, r.ret⟩
  | .getSelectProfileList jdeviceId profileList size =>
    let r := android_net_wimax_getSelectProfileList sdk env g jdeviceId profileList size
    ⟨r.globals, r.sdkCalls, .getSelectProfileList jdeviceId r.out.1 r.out.2, r.ret⟩
  | .getLinkStatus jdeviceId linkStatus =>
    let r := android_net_wimax_getLinkStatus sdk g jdeviceId linkStatus
    ⟨r.globals, r.sdkCalls, .getLinkStatus jdeviceId r.out, r.ret⟩
  | .getDeviceInformation jdeviceId deviceInfo referenced =>
    let r := android_net_wimax_getDeviceInformation sdk env g jdeviceId deviceInfo referenced
    ⟨r.globals, r.sdkCalls, .getDeviceInformation jdeviceId r.out.1 r.out.2, r.ret⟩
  | .getDeviceStatus jdeviceId deviceStatus connectionStatus =>
    let r := android_net_wimax_getDeviceStatus sdk g jdeviceId deviceStatus connectionStatus
    ⟨r.globals, r.sdkCalls, .getDeviceStatus jdeviceId r.out.1 r.out.2, r.ret⟩
  | .getConnectedNSP jdeviceId connectedNspInfo =>
    let r := android_net_wimax_getConnectedNSP sdk env g jdeviceId connectedNspInfo
    ⟨r.globals, r.sdkCalls, .getConnectedNSP jdeviceId r.out, r.ret⟩
  | .setRoamingMode jdeviceId roamingMode =>
    let r := android_net_wimax_setRoamingMode sdk g jdeviceId roamingMode
    ⟨r.globals, r.sdkCalls, .setRoamingMode jdeviceId roamingMode, r.ret⟩
  | .getRoamingMode jdeviceId roamingMode =>
    let r := android_net_wimax_getRoamingMode sdk g jdeviceId roamingMode
    ⟨r.globals, r.sdkCalls, .getRoamingMode jdeviceId r.out, r.ret⟩
  | .getStatistics jdeviceId connectionStatistics =>
    let r := android_net_wimax_getStatistics sdk g jdeviceId connectionStatistics
    ⟨r.globals, r.sdkCalls, .getStatistics jdeviceId r.out, r.ret⟩
  | .getProvisioningStatus jdeviceId nspName provisioningStatus =>
    let r := android_net_wimax_getProvisioningStatus sdk g jdeviceId nspName provisioningStatus
    ⟨r.globals, r.sdkCalls, .getProvisioningStatus jdeviceId nspName r.out, r.ret⟩
  | .getContactInformation nspName contactList size =>
    let r := android_net_wimax_getContactInformation sdk env g nspName contactList size
    ⟨r.globals, r.sdkCalls, .getContactInformation nspName r.out.1 r.out.2, r.ret⟩
  | .getPackageInformation jdeviceId packageInfo =>
    let r := android_net_wimax_getPackageInformation sdk env g jdeviceId packageInfo
    ⟨r.globals, r.sdkCalls, .getPackageInformation jdeviceId r.out, r.ret⟩
  | .setPackageUpdateState jdeviceId state =>
    let r := android_net_wimax_setPackageUpdateState sdk g jdeviceId state
    ⟨r.globals, r.sdkCalls, .setPackageUpdateState jdeviceId state, r.ret⟩
  | .subscribeDeviceStatusChange jdeviceId callback =>
    let r := android_net_wimax_subscribeDeviceStatusChange sdk g jdeviceId callback
    ⟨r.globals, r.sdkCalls, .subscribeDeviceStatusChange jdeviceId callback, r.ret⟩
  | .subscribeDeviceInsertRemove jdeviceId callback =>
    let r := android_net_wimax_subscribeDeviceInsertRemove sdk g jdeviceId callback
    ⟨r.globals, r.sdkCalls, .subscribeDeviceInsertRemove jdeviceId callback, r.ret⟩
  | .subscribeControlPowerManagement jdeviceId callback =>
    let r := android_net_wimax_subscribeControlPowerManagement sdk g jdeviceId callback
    ⟨r.globals, r.sdkCalls, .subscribeControlPowerManagement jdeviceId callback, r.ret⟩
  | .subscribeConnectToNetwork jdeviceId callback =>
    let r := android_net_wimax_subscribeConnectToNetwork sdk g jdeviceId callback
    ⟨r.globals, r.sdkCalls, .subscribeConnectToNetwork jdeviceId callback, r.ret⟩
  | .subscribeDisconnectToNetwork jdeviceId callback =>
    let r := android_net_wimax_subscribeDisconnectToNetwork sdk g jdeviceId callback
    ⟨r.globals, r.sdkCalls, .subscribeDisconnectToNetwork jdeviceId callback, r.ret⟩
  | .subscribeNetworkSearchWideScan jdeviceId callback =>
    let r := android_net_wimax_subscribeNetworkSearchWideScan sdk g jdeviceId callback
    ⟨r.globals, r.sdkCalls, .subscribeNetworkSearchWideScan jdeviceId callback, r.ret⟩
  | .subscribeProvisioningOperation jdeviceId callback =>
    let r := android_net_wimax_subscribeProvisioningOperation sdk g jdeviceId callback
    ⟨r.globals, r.sdkCalls, .subscribeProvisioningOperation jdeviceId callback, r.ret⟩
  | .subscribePackageUpdate jdeviceId callback =>
    let r := android_net_wimax_subscribePackageUpdate sdk g jdeviceId callback
    ⟨r.globals, r.sdkCalls, .subscribePackageUpdate jdeviceId callback, r.ret⟩
  | .unsubscribeDeviceStatusChange jdeviceId =>
    let r := android_net_wimax_unsubscribeDeviceStatusChange sdk g jdeviceId
    ⟨r.globals, r.sdkCalls, .unsubscribeDeviceStatusChange jdeviceId, r.ret⟩
  | .unsubscribeDeviceInsertRemove jdeviceId =>
    let r := android_net_wimax_unsubscribeDeviceInsertRemove sdk g jdeviceId
    ⟨r.globals, r.sdkCalls, .unsubscribeDeviceInsertRemove jdeviceId, r.ret⟩
  | .unsubscribeControlPowerManagement jdeviceId =>
    let r := android_net_wimax_unsubscribeControlPowerManagement sdk g jdeviceId
    ⟨r.globals, r.sdkCalls, .unsubscribeControlPowerManagement jdeviceId, r.ret⟩
  | .unsubscribeConnectToNetwork jdeviceId =>
    let r := android_net_wimax_unsubscribeConnectToNetwork sdk g jdeviceId
    ⟨r.globals, r.sdkCalls, .unsubscribeConnectToNetwork jdeviceId, r.ret⟩
  | .unsubscribeDisconnectToNetwork jdeviceId =>
    let r := android_net_wimax_unsubscribeDisconnectToNetwork sdk g jdeviceId
    ⟨r.globals, r.sdkCalls, .unsubscribeDisconnectToNetwork jdeviceId, r.ret⟩
  | .unsubscribeNetworkSearchWideScan jdeviceId =>
    let r := android_net_wimax_unsubscribeNetworkSearchWideScan sdk g jdeviceId
    ⟨r.globals, r.sdkCalls, .unsubscribeNetworkSearchWideScan jdeviceId, r.ret⟩
  | .unsubscribeProvisioningOperation jdeviceId =>
    let r := android_net_wimax_unsubscribeProvisioningOperation sdk g jdeviceId
    ⟨r.globals, r.sdkCalls, .unsubscribeProvisioningOperation jdeviceId, r.ret⟩
  | .unsubscribePackageUpdate jdeviceId =>
    let r := android_net_wimax_unsubscribePackageUpdate sdk g jdeviceId
    ⟨r.globals, r.sdkCalls, .unsubscribePackageUpdate jdeviceId, r.ret⟩

/-! ## Sample inputs -/

/-- An SDK for examples: `WIMAX_API_RET_SUCCESS` is `1`, every entry point returns
`code`, reports no list entries and stores zeros and empty strings. -/
def WiMaxSDK.sample (code : Int) : WiMaxSDK where
  WIMAX_API_RET_SUCCESS := 1
  WIMAX_API_RF_ON := 0
  WIMAX_API_RF_OFF := 1
  WIMAX_API_ROAMING_ENABLED := 0
  WIMAX_API_ROAMING_DISABLED := 1
  WIMAX_API_PACKAGE_UPDATE_DELAY := 0
  WIMAX_API_PACKAGE_UPDATE_ACCEPTED := 1
  WIMAX_API_PACKAGE_UPDATE_DENIED := 2
  WiMaxAPIOpen := fun d => (code, d)
  GetListDevice := fun _ _ => (code, fun _ => ⟨0, 0, "", 0⟩, 0)
  WiMaxDeviceOpen := fun _ => code
  WiMaxDeviceClose := fun _ => code
  WiMaxAPIClose := fun _ => code
  CmdControlPowerManagement := fun _ _ => code
  CmdResetWimaxDevice := fun _ => code
  CmdResetToFactorySettings := fun _ => code
  GetErrorString := fun _ _ => (code, "", 0)
  SetServiceProviderUnLock := fun _ _ => code
  GetServiceProviderLockStatus := fun _ => (code, 0, "")
  GetNetworkList := fun _ _ => (code, fun _ => ⟨0, "", 0, 0, 0, 0⟩, 0)
  CmdConnectToNetwork := fun _ _ _ _ => code
  CmdDisconnectFromNetwork := fun _ => code
  CmdNetworkSearchWideScan := fun _ => code
  GetIPInterfaceIndex := fun _ => (code, ⟨0, ""⟩)
  GetSelectProfileList := fun _ _ => (code, fun _ => ⟨0, 0, ""⟩, 0)
  GetLinkStatus := fun _ => (code, ⟨0, 0, 0, 0, 0, fun _ => 0⟩)
  GetDeviceInformation := fun _ =>
    (code, ⟨0, ⟨0, "", ""⟩, ⟨0, "", ""⟩, ⟨0, "", ""⟩, ⟨0, "", ""⟩, fun _ => 0, "", 0, ""⟩)
  GetDeviceStatus := fun _ => (code, 0, 0)
  GetConnectedNSP := fun _ => (code, ⟨0, "", "", 0, 0, 0, 0, 0⟩)
  SetRoamingMode := fun _ _ => code
  GetRoamingMode := fun _ => (code, 0)
  GetStatistics := fun _ => (code, ⟨0, 0, 0, 0, 0⟩)
  GetProvisioningStatus := fun _ _ => (code, 0)
  GetContactInformation := fun _ _ _ => (code, fun _ => ⟨0, "", "", 0⟩, 0)
  GetPackageInformation := fun _ => (code, ⟨0, "", "", 0, 0, 0⟩)
  SetPackageUpdateState := fun _ _ => code
  SubscribeDeviceStatusChange := fun _ => code
  SubscribeDeviceInsertRemove := fun _ => code
  SubscribeControlPowerManagement := fun _ => code
  SubscribeConnectToNetwork := fun _ => code
  SubscribeDisconnectToNetwork := fun _ => code
  SubscribeNetworkSearchWideScan := fun _ => code
  SubscribeProvisioningOperation := fun _ => code
  SubscribePackageUpdate := fun _ => code
  UnsubscribeDeviceStatusChange := fun _ => code
  UnsubscribeDeviceInsertRemove := fun _ => code
  UnsubscribeControlPowerManagement := fun _ => code
  UnsubscribeConnectToNetwork := fun _ => code
  UnsubscribeDisconnectToNetwork := fun _ => code
  UnsubscribeNetworkSearchWideScan := fun _ => code
  UnsubscribeProvisioningOperation := fun _ => code
  UnsubscribePackageUpdate := fun _ => code

/-- A `JNIEnv` for examples: every string can be created, and the constructor of
`NSPInfo` yields an object with the six fields the adapter assigns, that of any
other class an object without fields. -/
def JNIEnv.sample : JNIEnv where
  NewStringUTF := fun c => some c
  NewObject := fun cls =>
    if cls = "android/net/wimax/structs/NSPInfo" then
      ⟨[("structureSize", .int 0), ("nspName", .string none), ("nspId", .int 0),
        ("rssi", .byte 0), ("cinr", .byte 0), ("networkType", .int 0)]⟩
    else ⟨[]⟩

/-- File-level state for examples: the VM is stored, the field-id cache is filled,
no callback is registered and the global device id is the all-zero struct. -/
def Globals.sample : Globals :=
  { Globals.initial with
    g_jVM := some 0
    deviceIdFieldIds := ⟨some "android/net/wimax/structs/DeviceId"⟩
    deviceId := some WIMAX_API_DEVICE_ID.zero }

/-- A managed `DeviceId` for examples. -/
def JDeviceId.sample : JDeviceId := ⟨24, 7, 1, 1, 65538, 1⟩

/-! ## Further SDKs and value ranges for examples -/

/-- An SDK for examples whose `GetDeviceStatus` fails with code `2` and leaves `7`
and `9` in the two status variables. -/
def WiMaxSDK.failingStatus : WiMaxSDK :=
  { WiMaxSDK.sample 2 with GetDeviceStatus := fun _ => (2, 7, 9) }

/-- An SDK for examples whose `WiMaxAPIOpen` succeeds and leaves handle `5` and
device index `200` in the struct. -/
def WiMaxSDK.opening : WiMaxSDK :=
  { WiMaxSDK.sample 1 with
    WiMaxAPIOpen := fun d => (1, { d with sdkHandle := 5, deviceIndex := 200 }) }

/-- Every field of the native struct holds a value the Java type of its managed
counterpart (`int`, `byte`, `boolean`) can hold as it is. -/
def WIMAX_API_DEVICE_ID.FitsManaged (d : WIMAX_API_DEVICE_ID) : Prop :=
  (-2147483648 ≤ d.structureSize ∧ d.structureSize < 2147483648) ∧
  (-2147483648 ≤ d.sdkHandle ∧ d.sdkHandle < 2147483648) ∧
  (-2147483648 ≤ d.privilege ∧ d.privilege < 2147483648) ∧
  (-128 ≤ d.deviceIndex ∧ d.deviceIndex < 128) ∧
  (-2147483648 ≤ d.apiVersion ∧ d.apiVersion < 2147483648) ∧
  (0 ≤ d.devicePresenceStatus ∧ d.devicePresenceStatus < 256)

instance (d : WIMAX_API_DEVICE_ID) : Decidable d.FitsManaged := by
  unfold WIMAX_API_DEVICE_ID.FitsManaged
  infer_instance

/-! ## Notifications and callback kinds -/

/-- A notification the SDK delivers: the handler it calls and the arguments it passes. -/
inductive Notification where
  | IndDeviceStatusUpdate (pDeviceId : Option WIMAX_API_DEVICE_ID)
      (deviceStatus statusReason connectionProgressInfo : Int)
  | IndDeviceInsertRemove (pDeviceId : Option WIMAX_API_DEVICE_ID) (cardPresence : Int)
  | IndControlPowerManagement (pDeviceId : Option WIMAX_API_DEVICE_ID) (powerState : Int)
  | IndConnectToNetwork (pDeviceId : Option WIMAX_API_DEVICE_ID) (status : Int)
  | IndDisconnectToNetwork (pDeviceId : Option WIMAX_API_DEVICE_ID) (status : Int)
  | IndNetworkSearchWideScan (env : JNIEnv) (pDeviceId : Option WIMAX_API_DEVICE_ID)
      (nspList : Nat → WIMAX_API_NSP_INFO) (listSize : Int)
  | IndProvisioningOperation (pDeviceId : Option WIMAX_API_DEVICE_ID)
      (provisioningOperation contactType : Int)
  | IndPackageUpdate (pDeviceId : Option WIMAX_API_DEVICE_ID) (packageUpdate : Int)

/-- Run the handler a notification names; `attach` and `detach` are what
`AttachCurrentThread` and `DetachCurrentThread` return. -/
def notify (g : Globals) (attach detach : Int) : Notification → HandlerRun
  | .IndDeviceStatusUpdate p a b c => fun_IndDeviceStatusUpdate g attach detach p a b c
  | .IndDeviceInsertRemove p a => fun_IndDeviceInsertRemove g attach detach p a
  | .IndControlPowerManagement p a => fun_IndControlPowerManagement g attach detach p a
  | .IndConnectToNetwork p a => fun_IndConnectToNetwork g attach detach p a
  | .IndDisconnectToNetwork p a => fun_IndDisconnectToNetwork g attach detach p a
  | .IndNetworkSearchWideScan env p l n => fun_IndNetworkSearchWideScan g attach detach env p l n
  | .IndProvisioningOperation p a b => fun_IndProvisioningOperation g attach detach p a b
  | .IndPackageUpdate p a => fun_IndPackageUpdate g attach detach p a

/-- The eight kinds of callback, one for each stored callback reference. -/
inductive CallbackKind where
  | deviceStatusChange
  | deviceInsertRemove
  | controlPowerManagement
  | connectToNetwork
  | disconnectToNetwork
  | networkSearchWideScan
  | provisioningOperation
  | packageUpdate
deriving DecidableEq, Repr

/-- The stored callback reference of a kind. -/
def Globals.callback (g : Globals) : CallbackKind → Option JCallback
  | .deviceStatusChange => g.deviceStatusChangeCB
  | .deviceInsertRemove => g.deviceInsertRemoveCB
  | .controlPowerManagement => g.controlPowerManagementCB
  | .connectToNetwork => g.connectToNetworkCB
  | .disconnectToNetwork => g.disconnectToNetworkCB
  | .networkSearchWideScan => g.networkSearchWideScanCB
  | .provisioningOperation => g.provisioningOperationCB
  | .packageUpdate => g.packageUpdateCB

/-- The kind of callback the handler of a notification invokes: the source pairs
`subscribeDeviceStatusChange` with `fun_IndDeviceStatusUpdate`, and so on. -/
def Notification.kind : Notification → CallbackKind
  | .IndDeviceStatusUpdate _ _ _ _ => .deviceStatusChange
  | .IndDeviceInsertRemove _ _ => .deviceInsertRemove
  | .IndControlPowerManagement _ _ => .controlPowerManagement
  | .IndConnectToNetwork _ _ => .connectToNetwork
  | .IndDisconnectToNetwork _ _ => .disconnectToNetwork
  | .IndNetworkSearchWideScan _ _ _ _ => .networkSearchWideScan
  | .IndProvisioningOperation _ _ _ => .provisioningOperation
  | .IndPackageUpdate _ _ => .packageUpdate

/-- The signature of the managed `callback` method the handler of a kind looks up. -/
def CallbackKind.signature : CallbackKind → String
  | .deviceStatusChange => "(Landroid/net/wimax/structs/DeviceId;III)V"
  | .deviceInsertRemove => "(Landroid/net/wimax/structs/DeviceId;I)V"
  | .controlPowerManagement => "(Landroid/net/wimax/structs/DeviceId;I)V"
  | .connectToNetwork => "(Landroid/net/wimax/structs/DeviceId;I)V"
  | .disconnectToNetwork => "(Landroid/net/wimax/structs/DeviceId;I)V"
  | .networkSearchWideScan =>
    "(Landroid/net/wimax/structs/DeviceId;[Landroid/net/wimax/structs/NSPInfo;I)V"
  | .provisioningOperation => "(Landroid/net/wimax/structs/DeviceId;II)V"
  | .packageUpdate => "(Landroid/net/wimax/structs/DeviceId;I)V"

/-- The call of the subscribe method of a kind. -/
def NativeCall.subscribe (k : CallbackKind) (jdeviceId : JDeviceId) (callback : Option JCallback) :
    NativeCall :=
  match k with
  | .deviceStatusChange => .subscribeDeviceStatusChange jdeviceId callback
  | .deviceInsertRemove => .subscribeDeviceInsertRemove jdeviceId callback
  | .controlPowerManagement => .subscribeControlPowerManagement jdeviceId callback
  | .connectToNetwork => .subscribeConnectToNetwork jdeviceId callback
  | .disconnectToNetwork => .subscribeDisconnectToNetwork jdeviceId callback
  | .networkSearchWideScan => .subscribeNetworkSearchWideScan jdeviceId callback
  | .provisioningOperation => .subscribeProvisioningOperation jdeviceId callback
  | .packageUpdate => .subscribePackageUpdate jdeviceId callback

/-- The call of the unsubscribe method of a kind. -/
def NativeCall.unsubscribe (k : CallbackKind) (jdeviceId : JDeviceId) : NativeCall :=
  match k with
  | .deviceStatusChange => .unsubscribeDeviceStatusChange jdeviceId
  | .deviceInsertRemove => .unsubscribeDeviceInsertRemove jdeviceId
  | .controlPowerManagement => .unsubscribeControlPowerManagement jdeviceId
  | .connectToNetwork => .unsubscribeConnectToNetwork jdeviceId
  | .disconnectToNetwork => .unsubscribeDisconnectToNetwork jdeviceId
  | .networkSearchWideScan => .unsubscribeNetworkSearchWideScan jdeviceId
  | .provisioningOperation => .unsubscribeProvisioningOperation jdeviceId
  | .packageUpdate => .unsubscribePackageUpdate jdeviceId

/-- The kind a call subscribes a callback of, if it is a subscribe call. -/
def NativeCall.subscribedKind : NativeCall → Option CallbackKind
  | .subscribeDeviceStatusChange _ _ => some .deviceStatusChange
  | .subscribeDeviceInsertRemove _ _ => some .deviceInsertRemove
  | .subscribeControlPowerManagement _ _ => some .controlPowerManagement
  | .subscribeConnectToNetwork _ _ => some .connectToNetwork
  | .subscribeDisconnectToNetwork _ _ => some .disconnectToNetwork
  | .subscribeNetworkSearchWideScan _ _ => some .networkSearchWideScan
  | .subscribeProvisioningOperation _ _ => some .provisioningOperation
  | .subscribePackageUpdate _ _ => some .packageUpdate
  | _ => none

/-! ## Reading traces -/

/-- The event is an invocation of a managed callback method. -/
def Event.isCallback : Event → Bool
  | .CallVoidMethod _ _ _ => true
  | _ => false

/-- The event is a call of `DetachCurrentThread`. -/
def Event.isDetach : Event → Bool
  | .DetachCurrentThread _ => true
  | _ => false

/-- The event is a call of `AttachCurrentThread` that returned `JNI_OK`. -/
def Event.isAttachOk : Event → Bool
  | .AttachCurrentThread ret => decide (ret = JNI_OK)
  | _ => false

/-- The managed object a callback invocation targets. -/
def Event.target : Event → Option JCallback
  | .CallVoidMethod obj _ _ => some obj
  | _ => none

/-- A callback object for examples, with a `callback` method for device status. -/
def JCallback.sample : JCallback :=
  ⟨1, [("callback", "(Landroid/net/wimax/structs/DeviceId;III)V")]⟩

/-! ## The device-id argument -/

/-- The native method reads its `jdeviceId` argument: `wimaxAPIOpen` and
`wimaxDeviceOpen` do. -/
def NativeCall.readsDeviceIdArgument : NativeCall → Bool
  | .wimaxAPIOpen _ => true
  | .wimaxDeviceOpen _ => true
  | _ => false

/-- An SDK for examples whose `GetNetworkList` succeeds and reports two networks. -/
def WiMaxSDK.twoNetworks : WiMaxSDK :=
  { WiMaxSDK.sample 1 with
    GetNetworkList := fun _ _ =>
      (1, fun i => if i = 0 then ⟨40, "alpha", 11, 30, 20, 0⟩ else ⟨40, "beta", 12, 200, 21, 1⟩, 2) }

/-! ## The JNI method table -/

/-- The JNI types the native functions of the file declare. -/
inductive JniType where
  | jboolean
  | jint
  | jobject
  | jstring
  | jobjectArray
  | jintArray
  | jbooleanArray
deriving DecidableEq, Repr

/-- An entry of a JNI method table: `{ name, signature, fnPtr }`, the function
pointer given by the name of the function. -/
structure JNINativeMethod where
  name : String
  signature : String
  fnPtr : String
deriving DecidableEq, Repr

/-- The source's `gWimaxMethods`. -/
def gWimaxMethods : List JNINativeMethod := [
  ⟨"loadLibrary",
    "()Z",
    "android_net_wimax_loadLibrary"⟩,
  ⟨"unloadLibrary",
    "()Z",
    "android_net_wimax_unloadLibrary"⟩,
  ⟨"WiMaxAPIOpen",
    "(Landroid/net/wimax/structs/DeviceId;)I",
    "android_net_wimax_wimaxAPIOpen"⟩,
  ⟨"GetListDevice",
    "(Landroid/net/wimax/structs/DeviceId;[Landroid/net/wimax/structs/HardwareDeviceId;[I)I",
    "android_net_wimax_getListDevice"⟩,
  ⟨"WiMaxDeviceOpen",
    "(Landroid/net/wimax/structs/DeviceId;)I",
    "android_net_wimax_wimaxDeviceOpen"⟩,
  ⟨"WiMaxDeviceClose",
    "(Landroid/net/wimax/structs/DeviceId;)I",
    "android_net_wimax_wimaxDeviceClose"⟩,
  ⟨"WiMaxAPIClose",
    "(Landroid/net/wimax/structs/DeviceId;)I",
    "android_net_wimax_wimaxAPIClose"⟩,
  ⟨"CmdControlPowerManagement",
    "(Landroid/net/wimax/structs/DeviceId;I)I",
    "android_net_wimax_cmdControlPowerManagement"⟩,
  ⟨"CmdResetWimaxDevice",
    "(Landroid/net/wimax/structs/DeviceId;)I",
    "android_net_wimax_cmdResetWimaxDevice"⟩,
  ⟨"CmdResetToFactorySettings",
    "(Landroid/net/wimax/structs/DeviceId;)I",
    "android_net_wimax_cmdResetToFactorySettings"⟩,
  ⟨"GetErrorString",
    "(Landroid/net/wimax/structs/DeviceId;I[Ljava/lang/String;[I)I",
    "android_net_wimax_getErrorString"⟩,
  ⟨"SetServiceProviderUnLock",
    "(Landroid/net/wimax/structs/DeviceId;Ljava/lang/String;)I",
    "android_net_wimax_setServiceProviderUnLock"⟩,
  ⟨"GetServiceProviderLockStatus",
    "(Landroid/net/wimax/structs/DeviceId;[I[Ljava/lang/String;)I",
    "android_net_wimax_getServiceProviderLockStatus"⟩,
  ⟨"GetNetworkList",
    "(Landroid/net/wimax/structs/DeviceId;[Landroid/net/wimax/structs/NSPInfo;[I)I",
    "android_net_wimax_getNetworkList"⟩,
  ⟨"CmdConnectToNetwork",
    "(Landroid/net/wimax/structs/DeviceId;Ljava/lang/String;ILjava/lang/String;)I",
    "android_net_wimax_cmdConnectToNetwork"⟩,
  ⟨"CmdDisconnectFromNetwork",
    "(Landroid/net/wimax/structs/DeviceId;)I",
    "android_net_wimax_cmdDisconnectFromNetwork"⟩,
  ⟨"CmdNetworkSearchWideScan",
    "(Landroid/net/wimax/structs/DeviceId;)I",
    "android_net_wimax_cmdNetworkSearchWideScan"⟩,
  ⟨"GetIPInterfaceIndex",
    "(Landroid/net/wimax/structs/DeviceId;Landroid/net/wimax/structs/InterfaceInfo;)I",
    "android_net_wimax_getIPInterfaceIndex"⟩,
  ⟨"GetSelectProfileList",
    "(Landroid/net/wimax/structs/DeviceId;[Landroid/net/wimax/structs/ProfileInfo;[I)I",
    "android_net_wimax_getSelectProfileList"⟩,
  ⟨"GetLinkStatus",
    "(Landroid/net/wimax/structs/DeviceId;Landroid/net/wimax/structs/LinkStatusInfo;)I",
    "android_net_wimax_getLinkStatus"⟩,
  ⟨"GetDeviceInformation",
    "(Landroid/net/wimax/structs/DeviceId;Landroid/net/wimax/structs/DeviceInfo;)I",
    "android_net_wimax_getDeviceInformation"⟩,
  ⟨"GetDeviceStatus",
    "(Landroid/net/wimax/structs/DeviceId;[I[I)I",
    "android_net_wimax_getDeviceStatus"⟩,
  ⟨"GetConnectedNSP",
    "(Landroid/net/wimax/structs/DeviceId;Landroid/net/wimax/structs/ConnectedNspInfo;)I",
    "android_net_wimax_getConnectedNSP"⟩,
  ⟨"SetRoamingMode",
    "(Landroid/net/wimax/structs/DeviceId;Z)I",
    "android_net_wimax_setRoamingMode"⟩,
  ⟨"GetRoamingMode",
    "(Landroid/net/wimax/structs/DeviceId;[Z)I",
    "android_net_wimax_getRoamingMode"⟩,
  ⟨"GetStatistics",
    "(Landroid/net/wimax/structs/DeviceId;Landroid/net/wimax/structs/ConnectionStatistics;)I",
    "android_net_wimax_getStatistics"⟩,
  ⟨"GetProvisioningStatus",
    "(Landroid/net/wimax/structs/DeviceId;Ljava/lang/String;[Z)I",
    "android_net_wimax_getProvisioningStatus"⟩,
  ⟨"GetContactInformation",
    "(Landroid/net/wimax/structs/DeviceId;Ljava/lang/String;[Landroid/net/wimax/structs/ContactInfo;[I)I",
    "android_net_wimax_getContactInformation"⟩,
  ⟨"GetPackageInformation",
    "(Landroid/net/wimax/structs/DeviceId;Landroid/net/wimax/structs/PackageInfo;)I",
    "android_net_wimax_getPackageInformation"⟩,
  ⟨"SetPackageUpdateState",
    "(Landroid/net/wimax/structs/DeviceId;I)I",
    "android_net_wimax_setPackageUpdateState"⟩,
  ⟨"SubscribeDeviceStatusChange",
    "(Landroid/net/wimax/structs/DeviceId;Landroid/net/wimax/WimaxCommonAPI$DeviceStatusChangeCB;)I",
    "android_net_wimax_subscribeDeviceStatusChange"⟩,
  ⟨"SubscribeDeviceInsertRemove",
    "(Landroid/net/wimax/structs/DeviceId;Landroid/net/wimax/WimaxCommonAPI$DeviceInsertRemoveCB;)I",
    "android_net_wimax_subscribeDeviceInsertRemove"⟩,
  ⟨"SubscribeControlPowerManagement",
    "(Landroid/net/wimax/structs/DeviceId;Landroid/net/wimax/WimaxCommonAPI$ControlPowerManagementCB;)I",
    "android_net_wimax_subscribeControlPowerManagement"⟩,
  ⟨"SubscribeConnectToNetwork",
    "(Landroid/net/wimax/structs/DeviceId;Landroid/net/wimax/WimaxCommonAPI$ConnectToNetworkCB;)I",
    "android_net_wimax_subscribeConnectToNetwork"⟩,
  ⟨"SubscribeDisconnectToNetwork",
    "(Landroid/net/wimax/structs/DeviceId;Landroid/net/wimax/WimaxCommonAPI$DisconnectToNetworkCB;)I",
    "android_net_wimax_subscribeDisconnectToNetwork"⟩,
  ⟨"SubscribeNetworkSearchWideScan",
    "(Landroid/net/wimax/structs/DeviceId;Landroid/net/wimax/WimaxCommonAPI$NetworkSearchWideScanCB;)I",
    "android_net_wimax_subscribeNetworkSearchWideScan"⟩,
  ⟨"SubscribeProvisioningOperation",
    "(Landroid/net/wimax/structs/DeviceId;Landroid/net/wimax/WimaxCommonAPI$ProvisioningOperationCB;)I",
    "android_net_wimax_subscribeProvisioningOperation"⟩,
  ⟨"SubscribePackageUpdate",
    "(Landroid/net/wimax/structs/DeviceId;Landroid/net/wimax/WimaxCommonAPI$PackageUpdateCB;)I",
    "android_net_wimax_subscribePackageUpdate"⟩,
  ⟨"UnsubscribeDeviceStatusChange",
    "(Landroid/net/wimax/structs/DeviceId;)I",
    "android_net_wimax_unsubscribeDeviceStatusChange"⟩,
  ⟨"UnsubscribeDeviceInsertRemove",
    "(Landroid/net/wimax/structs/DeviceId;)I",
    "android_net_wimax_unsubscribeDeviceInsertRemove"⟩,
  ⟨"UnsubscribeControlPowerManagement",
    "(Landroid/net/wimax/structs/DeviceId;)I",
    "android_net_wimax_unsubscribeControlPowerManagement"⟩,
  ⟨"UnsubscribeConnectToNetwork",
    "(Landroid/net/wimax/structs/DeviceId;)I",
    "android_net_wimax_unsubscribeConnectToNetwork"⟩,
  ⟨"UnsubscribeDisconnectToNetwork",
    "(Landroid/net/wimax/structs/DeviceId;)I",
    "android_net_wimax_unsubscribeDisconnectToNetwork"⟩,
  ⟨"UnsubscribeNetworkSearchWideScan",
    "(Landroid/net/wimax/structs/DeviceId;)I",
    "android_net_wimax_unsubscribeNetworkSearchWideScan"⟩,
  ⟨"UnsubscribeProvisioningOperation",
    "(Landroid/net/wimax/structs/DeviceId;)I",
    "android_net_wimax_unsubscribeProvisioningOperation"⟩,
  ⟨"UnsubscribePackageUpdate",
    "(Landroid/net/wimax/structs/DeviceId;)I",
    "android_net_wimax_unsubscribePackageUpdate"⟩]

/-- The native functions of the file as the source declares them: for each, the types
of its parameters after `(JNIEnv* env, jobject clazz)` and its return type. -/
def nativeDeclarations : List (String × List JniType × JniType) := [
  ("android_net_wimax_loadLibrary", [], .jboolean),
  ("android_net_wimax_unloadLibrary", [], .jboolean),
  ("android_net_wimax_wimaxAPIOpen", [.jobject], .jint),
  ("android_net_wimax_getListDevice", [.jobject, .jobjectArray, .jintArray], .jint),
  ("android_net_wimax_wimaxDeviceOpen", [.jobject], .jint),
  ("android_net_wimax_wimaxDeviceClose", [.jobject], .jint),
  ("android_net_wimax_wimaxAPIClose", [.jobject], .jint),
  ("android_net_wimax_cmdControlPowerManagement", [.jint], .jint),
  ("android_net_wimax_cmdResetWimaxDevice", [.jobject], .jint),
  ("android_net_wimax_cmdResetToFactorySettings", [.jobject], .jint),
  ("android_net_wimax_getErrorString", [.jobject, .jint, .jobjectArray, .jintArray], .jint),
  ("android_net_wimax_setServiceProviderUnLock", [.jobject, .jstring], .jint),
  ("android_net_wimax_getServiceProviderLockStatus", [.jobject, .jintArray, .jobjectArray], .jint),
  ("android_net_wimax_getNetworkList", [.jobject, .jobjectArray, .jintArray], .jint),
  ("android_net_wimax_cmdConnectToNetwork", [.jobject, .jstring, .jint, .jstring], .jint),
  ("android_net_wimax_cmdDisconnectFromNetwork", [.jobject], .jint),
  ("android_net_wimax_cmdNetworkSearchWideScan", [.jobject], .jint),
  ("android_net_wimax_getIPInterfaceIndex", [.jobject, .jobject], .jint),
  ("android_net_wimax_getSelectProfileList", [.jobject, .jobjectArray, .jintArray], .jint),
  ("android_net_wimax_getLinkStatus", [.jobject, .jobject], .jint),
  ("android_net_wimax_getDeviceInformation", [.jobject, .jobject], .jint),
  ("android_net_wimax_getDeviceStatus", [.jobject, .jintArray, .jintArray], .jint),
  ("android_net_wimax_getConnectedNSP", [.jobject, .jobject], .jint),
  ("android_net_wimax_setRoamingMode", [.jobject, .jboolean], .jint),
  ("android_net_wimax_getRoamingMode", [.jobject, .jbooleanArray], .jint),
  ("android_net_wimax_getStatistics", [.jobject, .jobject], .jint),
  ("android_net_wimax_getProvisioningStatus", [.jobject, .jstring, .jbooleanArray], .jint),
  ("android_net_wimax_getContactInformation", [.jstring, .jobjectArray, .jintArray], .jint),
  ("android_net_wimax_getPackageInformation", [.jobject, .jobject], .jint),
  ("android_net_wimax_setPackageUpdateState", [.jobject, .jint], .jint),
  ("android_net_wimax_subscribeDeviceStatusChange", [.jobject, .jobject], .jint),
  ("android_net_wimax_subscribeDeviceInsertRemove", [.jobject, .jobject], .jint),
  ("android_net_wimax_subscribeControlPowerManagement", [.jobject, .jobject], .jint),
  ("android_net_wimax_subscribeConnectToNetwork", [.jobject, .jobject], .jint),
  ("android_net_wimax_subscribeDisconnectToNetwork", [.jobject, .jobject], .jint),
  ("android_net_wimax_subscribeNetworkSearchWideScan", [.jobject, .jobject], .jint),
  ("android_net_wimax_subscribeProvisioningOperation", [.jobject, .jobject], .jint),
  ("android_net_wimax_subscribePackageUpdate", [.jobject, .jobject], .jint),
  ("android_net_wimax_unsubscribeDeviceStatusChange", [.jobject], .jint),
  ("android_net_wimax_unsubscribeDeviceInsertRemove", [.jobject], .jint),
  ("android_net_wimax_unsubscribeControlPowerManagement", [.jobject], .jint),
  ("android_net_wimax_unsubscribeConnectToNetwork", [.jobject], .jint),
  ("android_net_wimax_unsubscribeDisconnectToNetwork", [.jobject], .jint),
  ("android_net_wimax_unsubscribeNetworkSearchWideScan", [.jobject], .jint),
  ("android_net_wimax_unsubscribeProvisioningOperation", [.jobject], .jint),
  ("android_net_wimax_unsubscribePackageUpdate", [.jobject], .jint)]

/-- The JNI type one type descriptor at the head of a signature denotes, and the rest
of the signature: `I`, `Z`, `L<class>;` (a `jstring` for `java/lang/String`, a `jobject`
otherwise), `[I`, `[Z` and `[L<class>;`. -/
def parseType : List Char → Option (JniType × List Char)
  | 'I' :: rest => some (.jint, rest)
  | 'Z' :: rest => some (.jboolean, rest)
  | 'L' :: rest =>
    match rest.dropWhile (fun c => c ≠ ';') with
    | _ :: after =>
      some (if rest.takeWhile (fun c => c ≠ ';') = "java/lang/String".toList then .jstring
        else .jobject, after)
    | [] => none
  | '[' :: 'I' :: rest => some (.jintArray, rest)
  | '[' :: 'Z' :: rest => some (.jbooleanArray, rest)
  | '[' :: 'L' :: rest =>
    match rest.dropWhile (fun c => c ≠ ';') with
    | _ :: after => some (.jobjectArray, after)
    | [] => none
  | _ => none

/-- The parameter types of a signature whose opening `(` has been read, and what
follows the closing `)`; `fuel` bounds the number of parameters. -/
def parseParams : Nat → List Char → Option (List JniType × List Char)
  | _, ')' :: rest => some ([], rest)
  | 0, _ => none
  | fuel + 1, cs =>
    match parseType cs with
    | some (t, rest) =>
      match parseParams fuel rest with
      | some (ts, after) => some (t :: ts, after)
      | none => none
    | none => none

/-- The parameter types and the return type a JNI method signature denotes. -/
def parseSignature (signature : String) : Option (List JniType × JniType) :=
  match signature.toList with
  | '(' :: cs =>
    match parseParams cs.length cs with
    | some (params, ret) =>
      match parseType ret with
      | some (t, []) => some (params, t)
      | _ => none
    | none => none
  | _ => none

/-- The entry's signature denotes the parameter and return types its function declares. -/
def JNINativeMethod.consistent (m : JNINativeMethod) : Bool :=
  match parseSignature m.signature, nativeDeclarations.lookup m.fnPtr with
  | some sig, some decl => decide (sig = decl)
  | _, _ => false

/-! ## Further sample inputs -/

/-- A managed object for examples with one `byte` field, `rssi`. -/
def JObject.oneByte : JObject := ⟨[("rssi", .byte 0)]⟩

/-- File-level state for examples in which the field-id cache is empty (the class
`DeviceId` was not found) and the global device id is the all-zero struct. -/
def Globals.noCache : Globals :=
  { Globals.initial with g_jVM := some 0, deviceId := some WIMAX_API_DEVICE_ID.zero }

/-- An SDK for examples whose `GetListDevice` succeeds and reports one device, of
device index `1`, whatever device id it is handed. -/
def WiMaxSDK.oneDevice : WiMaxSDK :=
  { WiMaxSDK.sample 1 with GetListDevice := fun _ _ => (1, fun _ => ⟨16, 1, "wimax0", 0⟩, 1) }

/-! ## Tracking the device index, sequences of calls -/

/-- The device index `getListDevice` is to leave in the global device id after `n`
entries, `init` being the index before: that of the last entry, among the first `n`,
whose device index is non-zero, and `init` when there is none. -/
def trackedIndex (deviceIndex : Nat → Int) : Nat → Int → Int
  | 0, init => init
  | n + 1, init => if deviceIndex n ≠ 0 then deviceIndex n else trackedIndex deviceIndex n init

/-- One native call in a sequence: the call, with the SDK and the `JNIEnv` as they
behave during it. -/
structure Step where
  sdk : WiMaxSDK
  env : JNIEnv
  call : NativeCall

/-- Run native calls one after the other, each in the file-level state the one before
left, up to the first that faults: the state at the end, the SDK calls made, in order,
and the fault that ended the sequence, if any. -/
def runSteps (g : Globals) : List Step → Globals × List SdkCall × Option Fault
  | [] => (g, [], none)
  | s :: rest =>
    match (invoke s.sdk s.env g s.call).ret with
    | .fault f => ((invoke s.sdk s.env g s.call).globals, (invoke s.sdk s.env g s.call).sdkCalls,
        some f)
    | .returned _ =>
      ((runSteps (invoke s.sdk s.env g s.call).globals rest).1,
        (invoke s.sdk s.env g s.call).sdkCalls
          ++ (runSteps (invoke s.sdk s.env g s.call).globals rest).2.1,
        (runSteps (invoke s.sdk s.env g s.call).globals rest).2.2)

/-- The call is a `wimaxAPIOpen`, or a `wimaxDeviceOpen` whose managed `DeviceId` has a
non-zero `deviceIndex`. -/
def NativeCall.reopens : NativeCall → Bool
  | .wimaxAPIOpen _ => true
  | .wimaxDeviceOpen jdeviceId => decide (jdeviceId.deviceIndex ≠ 0)
  | _ => false

/-- An SDK for examples whose `GetListDevice` succeeds and reports three devices, of
device indices `4`, `5` and `0`. -/
def WiMaxSDK.threeDevices : WiMaxSDK :=
  { WiMaxSDK.sample 1 with
    GetListDevice := fun _ _ =>
      (1, fun i => if i = 0 then ⟨16, 4, "a", 0⟩ else if i = 1 then ⟨16, 5, "b", 0⟩
        else ⟨16, 0, "c", 0⟩, 3) }

/-- An SDK for examples whose `GetLinkStatus` succeeds with the base-station id
`200, 201, 202, 203, 204, 205`. -/
def WiMaxSDK.linkUp : WiMaxSDK :=
  { WiMaxSDK.sample 1 with
    GetLinkStatus := fun _ => (1, ⟨32, 2600000, 30, 20, 10, fun i => 200 + (i : Int)⟩) }

/-- A managed `LinkStatusInfo` for examples: the five scalar fields and a `bsid`
array of seven elements. -/
def JObject.linkStatus : JObject :=
  ⟨[("structureSize", .int 0), ("centerFrequency", .int 0), ("rssi", .byte 0),
    ("cinr", .byte 0), ("txPwr", .byte 0),
    ("bsid", .byteArray (some [0, 0, 0, 0, 0, 0, 9]))]⟩

/-- An SDK for examples whose `GetRoamingMode` succeeds and reports
`WIMAX_API_ROAMING_DISABLED`. -/
def WiMaxSDK.roamingOff : WiMaxSDK :=
  { WiMaxSDK.sample 1 with GetRoamingMode := fun _ => (1, 1) }

/-! ## The position of the managed `DeviceId` argument -/

/-- The JNI type of the first parameter of the entry's signature, the first argument
managed code passes, and the type of the first parameter the entry's function declares
after `(JNIEnv* env, jobject clazz)`, which is the parameter that receives that
argument: the JNI hands a native function the managed arguments by position.  `none`
when either has no parameter. -/
def JNINativeMethod.firstParameter (m : JNINativeMethod) : Option (JniType × JniType) :=
  match parseSignature m.signature, nativeDeclarations.lookup m.fnPtr with
  | some (passed :: _, _), some (declared :: _, _) => some (passed, declared)
  | _, _ => none

/-! # Theorems -/

/-! ## Loops -/

theorem forLoop_zero {σ : Type} (body : Nat → σ → σ × Option Fault) (s : σ) :
    forLoop 0 body s = (s, none) := by
  simp [forLoop]

theorem forLoop_succ {σ : Type} (n : Nat) (body : Nat → σ → σ × Option Fault) (s : σ) :
    forLoop (n + 1) body s =
      match (forLoop n body s).2 with
      | some _ => forLoop n body s
      | none => body n (forLoop n body s).1 := by
  simp [forLoop, List.range_succ, List.foldl_append]

/-! ## Device-id marshaling -/

/-- C5. When the field-id cache is populated, writing a native device-id struct whose
fields are in range into a managed `DeviceId` with `assignDeviceId` and reading that
object into a fresh struct with `accessDeviceId` gives back the struct, in all six fields. -/
theorem deviceId_round_trip (ids : fieldIds) (jdeviceId : JDeviceId)
    (fresh d : WIMAX_API_DEVICE_ID) (hcache : ids.deviceIdClass ≠ none) (hd : d.InRange) :
    accessDeviceId ids (assignDeviceId ids jdeviceId d) fresh = d := by
  obtain ⟨s, h, p, i, a, b⟩ := d
  obtain ⟨⟨hs0, hs1⟩, ⟨hh0, hh1⟩, ⟨hp0, hp1⟩, ⟨hi0, hi1⟩, ⟨ha0, ha1⟩, ⟨hb0, hb1⟩⟩ := hd
  simp only at hs0 hs1 hh0 hh1 hp0 hp1 hi0 hi1 ha0 ha1 hb0 hb1
  cases hc : ids.deviceIdClass with
  | none => exact absurd hc hcache
  | some cls =>
    simp only [accessDeviceId, assignDeviceId, hc, toUINT32, toJint, toUINT8, toJbyte, toJboolean,
      WIMAX_API_DEVICE_ID.mk.injEq]
    refine ⟨?_, ?_, ?_, ?_, ?_, ?_⟩ <;> omega

/-- C5 at a struct with a device index above 127 and an API version above 2^31. -/
theorem deviceId_round_trip_witness :
    (Globals.sample.deviceIdFieldIds.deviceIdClass ≠ none ∧
      (⟨24, -7, 1, 200, 4294901762, 1⟩ : WIMAX_API_DEVICE_ID).InRange) ∧
    accessDeviceId Globals.sample.deviceIdFieldIds
      (assignDeviceId Globals.sample.deviceIdFieldIds JDeviceId.sample ⟨24, -7, 1, 200, 4294901762, 1⟩)
      WIMAX_API_DEVICE_ID.zero = ⟨24, -7, 1, 200, 4294901762, 1⟩ :=
  ⟨⟨by decide, by decide⟩, deviceId_round_trip _ _ _ _ (by decide) (by decide)⟩

/-! ## Runs of the getters -/

theorem getListDevice_sdkCalls (sdk : WiMaxSDK) (env : JNIEnv) (g : Globals) (jdeviceId : JDeviceId) (hwDeviceIdList : List (Option JObject)) (size : List Int) :
    (android_net_wimax_getListDevice sdk env g jdeviceId hwDeviceIdList size).sdkCalls =
      [⟨"GetListDevice", g.deviceId, [], [], (sdk.GetListDevice g.deviceId hwDeviceIdList.length).1⟩] := by
  unfold android_net_wimax_getListDevice
  simp only []
  repeat' split
  all_goals rfl

theorem getListDevice_ret (sdk : WiMaxSDK) (env : JNIEnv) (g : Globals) (jdeviceId : JDeviceId) (hwDeviceIdList : List (Option JObject)) (size : List Int) :
    (android_net_wimax_getListDevice sdk env g jdeviceId hwDeviceIdList size).ret = .returned (sdk.GetListDevice g.deviceId hwDeviceIdList.length).1 ∨
      ∃ f, (android_net_wimax_getListDevice sdk env g jdeviceId hwDeviceIdList size).ret = .fault f := by
  unfold android_net_wimax_getListDevice
  simp only []
  repeat' split
  all_goals simp

theorem getListDevice_ret_failure (sdk : WiMaxSDK) (env : JNIEnv) (g : Globals) (jdeviceId : JDeviceId) (hwDeviceIdList : List (Option JObject)) (size : List Int)
    (hfail : (sdk.GetListDevice g.deviceId hwDeviceIdList.length).1 ≠ sdk.WIMAX_API_RET_SUCCESS) (hsize : 0 < size.length) :
    (android_net_wimax_getListDevice sdk env g jdeviceId hwDeviceIdList size).ret = .returned (sdk.GetListDevice g.deviceId hwDeviceIdList.length).1 := by
  unfold android_net_wimax_getListDevice
  simp [hfail, setElement, hsize]

theorem getErrorString_sdkCalls (sdk : WiMaxSDK) (env : JNIEnv) (g : Globals) (jdeviceId : JDeviceId) (errorCode : Int) (buffer : List (Option String)) (length : List Int) :
    (android_net_wimax_getErrorString sdk env g jdeviceId errorCode buffer length).sdkCalls =
      [⟨"GetErrorString", g.deviceId, [errorCode], [], (sdk.GetErrorString g.deviceId errorCode).1⟩] := by
  unfold android_net_wimax_getErrorString
  simp only []
  repeat' split
  all_goals rfl

theorem getErrorString_ret (sdk : WiMaxSDK) (env : JNIEnv) (g : Globals) (jdeviceId : JDeviceId) (errorCode : Int) (buffer : List (Option String)) (length : List Int) :
    (android_net_wimax_getErrorString sdk env g jdeviceId errorCode buffer length).ret = .returned (sdk.GetErrorString g.deviceId errorCode).1 ∨
      ∃ f, (android_net_wimax_getErrorString sdk env g jdeviceId errorCode buffer length).ret = .fault f := by
  unfold android_net_wimax_getErrorString
  simp only []
  repeat' split
  all_goals simp

theorem getErrorString_ret_failure (sdk : WiMaxSDK) (env : JNIEnv) (g : Globals) (jdeviceId : JDeviceId) (errorCode : Int) (buffer : List (Option String)) (length : List Int)
    (hfail : (sdk.GetErrorString g.deviceId errorCode).1 ≠ sdk.WIMAX_API_RET_SUCCESS) (hlength : 0 < length.length) :
    (android_net_wimax_getErrorString sdk env g jdeviceId errorCode buffer length).ret = .returned (sdk.GetErrorString g.deviceId errorCode).1 := by
  unfold android_net_wimax_getErrorString
  simp [hfail, setElement, hlength]

theorem getServiceProviderLockStatus_sdkCalls (sdk : WiMaxSDK) (env : JNIEnv) (g : Globals) (jdeviceId : JDeviceId) (lockStatus : List Int) (nspName : List (Option String)) :
    (android_net_wimax_getServiceProviderLockStatus sdk env g jdeviceId lockStatus nspName).sdkCalls =
      [⟨"GetServiceProviderLockStatus", g.deviceId, [], [], (sdk.GetServiceProviderLockStatus g.deviceId).1⟩] := by
  unfold android_net_wimax_getServiceProviderLockStatus
  simp only []
  repeat' split
  all_goals rfl

theorem getServiceProviderLockStatus_ret (sdk : WiMaxSDK) (env : JNIEnv) (g : Globals) (jdeviceId : JDeviceId) (lockStatus : List Int) (nspName : List (Option String)) :
    (android_net_wimax_getServiceProviderLockStatus sdk env g jdeviceId lockStatus nspName).ret = .returned (sdk.GetServiceProviderLockStatus g.deviceId).1 ∨
      ∃ f, (android_net_wimax_getServiceProviderLockStatus sdk env g jdeviceId lockStatus nspName).ret = .fault f := by
  unfold android_net_wimax_getServiceProviderLockStatus
  simp only []
  repeat' split
  all_goals simp

theorem getServiceProviderLockStatus_ret_failure (sdk : WiMaxSDK) (env : JNIEnv) (g : Globals) (jdeviceId : JDeviceId) (lockStatus : List Int) (nspName : List (Option String))
    (hfail : (sdk.GetServiceProviderLockStatus g.deviceId).1 ≠ sdk.WIMAX_API_RET_SUCCESS) (hlockStatus : 0 < lockStatus.length) :
    (android_net_wimax_getServiceProviderLockStatus sdk env g jdeviceId lockStatus nspName).ret = .returned (sdk.GetServiceProviderLockStatus g.deviceId).1 := by
  unfold android_net_wimax_getServiceProviderLockStatus
  simp [hfail, setElement, hlockStatus]

theorem getNetworkList_sdkCalls (sdk : WiMaxSDK) (env : JNIEnv) (g : Globals) (jdeviceId : JDeviceId) (networkList : List (Option JObject)) (size : List Int) :
    (android_net_wimax_getNetworkList sdk env g jdeviceId networkList size).sdkCalls =
      [⟨"GetNetworkList", g.deviceId, [], [], (sdk.GetNetworkList g.deviceId networkList.length).1⟩] := by
  unfold android_net_wimax_getNetworkList
  simp only []
  repeat' split
  all_goals rfl

theorem getNetworkList_ret (sdk : WiMaxSDK) (env : JNIEnv) (g : Globals) (jdeviceId : JDeviceId) (networkList : List (Option JObject)) (size : List Int) :
    (android_net_wimax_getNetworkList sdk env g jdeviceId networkList size).ret = .returned (sdk.GetNetworkList g.deviceId networkList.length).1 ∨
      ∃ f, (android_net_wimax_getNetworkList sdk env g jdeviceId networkList size).ret = .fault f := by
  unfold android_net_wimax_getNetworkList
  simp only []
  repeat' split
  all_goals simp

theorem getNetworkList_ret_failure (sdk : WiMaxSDK) (env : JNIEnv) (g : Globals) (jdeviceId : JDeviceId) (networkList : List (Option JObject)) (size : List Int)
    (hfail : (sdk.GetNetworkList g.deviceId networkList.length).1 ≠ sdk.WIMAX_API_RET_SUCCESS) (hsize : 0 < size.length) :
    (android_net_wimax_getNetworkList sdk env g jdeviceId networkList size).ret = .returned (sdk.GetNetworkList g.deviceId networkList.length).1 := by
  unfold android_net_wimax_getNetworkList
  simp [hfail, setElement, hsize]

theorem getIPInterfaceIndex_sdkCalls (sdk : WiMaxSDK) (env : JNIEnv) (g : Globals) (jdeviceId : JDeviceId) (interfaceInfo : JObject) :
    (android_net_wimax_getIPInterfaceIndex sdk env g jdeviceId interfaceInfo).sdkCalls =
      [⟨"GetIPInterfaceIndex", g.deviceId, [], [], (sdk.GetIPInterfaceIndex g.deviceId).1⟩] := by
  unfold android_net_wimax_getIPInterfaceIndex
  simp only []
  repeat' split
  all_goals rfl

theorem getIPInterfaceIndex_ret (sdk : WiMaxSDK) (env : JNIEnv) (g : Globals) (jdeviceId : JDeviceId) (interfaceInfo : JObject) :
    (android_net_wimax_getIPInterfaceIndex sdk env g jdeviceId interfaceInfo).ret = .returned (sdk.GetIPInterfaceIndex g.deviceId).1 ∨
      ∃ f, (android_net_wimax_getIPInterfaceIndex sdk env g jdeviceId interfaceInfo).ret = .fault f := by
  unfold android_net_wimax_getIPInterfaceIndex
  simp only []
  repeat' split
  all_goals simp

theorem getIPInterfaceIndex_ret_failure (sdk : WiMaxSDK) (env : JNIEnv) (g : Globals) (jdeviceId : JDeviceId) (interfaceInfo : JObject)
    (hfail : (sdk.GetIPInterfaceIndex g.deviceId).1 ≠ sdk.WIMAX_API_RET_SUCCESS) :
    (android_net_wimax_getIPInterfaceIndex sdk env g jdeviceId interfaceInfo).ret = .returned (sdk.GetIPInterfaceIndex g.deviceId).1 := by
  unfold android_net_wimax_getIPInterfaceIndex
  simp [hfail, setElement]

theorem getSelectProfileList_sdkCalls (sdk : WiMaxSDK) (env : JNIEnv) (g : Globals) (jdeviceId : JDeviceId) (profileList : List (Option JObject)) (size : List Int) :
    (android_net_wimax_getSelectProfileList sdk env g jdeviceId profileList size).sdkCalls =
      [⟨"GetSelectProfileList", g.deviceId, [], [], (sdk.GetSelectProfileList g.deviceId profileList.length).1⟩] := by
  unfold android_net_wimax_getSelectProfileList
  simp only []
  repeat' split
  all_goals rfl

theorem getSelectProfileList_ret (sdk : WiMaxSDK) (env : JNIEnv) (g : Globals) (jdeviceId : JDeviceId) (profileList : List (Option JObject)) (size : List Int) :
    (android_net_wimax_getSelectProfileList sdk env g jdeviceId profileList size).ret = .returned (sdk.GetSelectProfileList g.deviceId profileList.length).1 ∨
      ∃ f, (android_net_wimax_getSelectProfileList sdk env g jdeviceId profileList size).ret = .fault f := by
  unfold android_net_wimax_getSelectProfileList
  simp only []
  repeat' split
  all_goals simp

theorem getSelectProfileList_ret_failure (sdk : WiMaxSDK) (env : JNIEnv) (g : Globals) (jdeviceId : JDeviceId) (profileList : List (Option JObject)) (size : List Int)
    (hfail : (sdk.GetSelectProfileList g.deviceId profileList.length).1 ≠ sdk.WIMAX_API_RET_SUCCESS) (hsize : 0 < size.length) :
    (android_net_wimax_getSelectProfileList sdk env g jdeviceId profileList size).ret = .returned (sdk.GetSelectProfileList g.deviceId profileList.length).1 := by
  unfold android_net_wimax_getSelectProfileList
  simp [hfail, setElement, hsize]

theorem getLinkStatus_sdkCalls (sdk : WiMaxSDK) (g : Globals) (jdeviceId : JDeviceId) (linkStatus : JObject) :
    (android_net_wimax_getLinkStatus sdk g jdeviceId linkStatus).sdkCalls =
      [⟨"GetLinkStatus", g.deviceId, [], [], (sdk.GetLinkStatus g.deviceId).1⟩] := by
  unfold android_net_wimax_getLinkStatus
  simp only []
  repeat' split
  all_goals rfl

theorem getLinkStatus_ret (sdk : WiMaxSDK) (g : Globals) (jdeviceId : JDeviceId) (linkStatus : JObject) :
    (android_net_wimax_getLinkStatus sdk g jdeviceId linkStatus).ret = .returned (sdk.GetLinkStatus g.deviceId).1 ∨
      ∃ f, (android_net_wimax_getLinkStatus sdk g jdeviceId linkStatus).ret = .fault f := by
  unfold android_net_wimax_getLinkStatus
  simp only []
  repeat' split
  all_goals simp

theorem getLinkStatus_ret_failure (sdk : WiMaxSDK) (g : Globals) (jdeviceId : JDeviceId) (linkStatus : JObject)
    (hfail : (sdk.GetLinkStatus g.deviceId).1 ≠ sdk.WIMAX_API_RET_SUCCESS) :
    (android_net_wimax_getLinkStatus sdk g jdeviceId linkStatus).ret = .returned (sdk.GetLinkStatus g.deviceId).1 := by
  unfold android_net_wimax_getLinkStatus
  simp [hfail, setElement]

theorem getDeviceInformation_sdkCalls (sdk : WiMaxSDK) (env : JNIEnv) (g : Globals) (jdeviceId : JDeviceId) (deviceInfo : JObject) (referenced : List JObject) :
    (android_net_wimax_getDeviceInformation sdk env g jdeviceId deviceInfo referenced).sdkCalls =
      [⟨"GetDeviceInformation", g.deviceId, [], [], (sdk.GetDeviceInformation g.deviceId).1⟩] := by
  unfold android_net_wimax_getDeviceInformation
  simp only []
  repeat' split
  all_goals rfl

theorem getDeviceInformation_ret (sdk : WiMaxSDK) (env : JNIEnv) (g : Globals) (jdeviceId : JDeviceId) (deviceInfo : JObject) (referenced : List JObject) :
    (android_net_wimax_getDeviceInformation sdk env g jdeviceId deviceInfo referenced).ret = .returned (sdk.GetDeviceInformation g.deviceId).1 ∨
      ∃ f, (android_net_wimax_getDeviceInformation sdk env g jdeviceId deviceInfo referenced).ret = .fault f := by
  unfold android_net_wimax_getDeviceInformation
  simp only []
  repeat' split
  all_goals simp

theorem getDeviceInformation_ret_failure (sdk : WiMaxSDK) (env : JNIEnv) (g : Globals) (jdeviceId : JDeviceId) (deviceInfo : JObject) (referenced : List JObject)
    (hfail : (sdk.GetDeviceInformation g.deviceId).1 ≠ sdk.WIMAX_API_RET_SUCCESS) :
    (android_net_wimax_getDeviceInformation sdk env g jdeviceId deviceInfo referenced).ret = .returned (sdk.GetDeviceInformation g.deviceId).1 := by
  unfold android_net_wimax_getDeviceInformation
  simp [hfail, setElement]

theorem getDeviceStatus_sdkCalls (sdk : WiMaxSDK) (g : Globals) (jdeviceId : JDeviceId) (deviceStatus : List Int) (connectionStatus : List Int) :
    (android_net_wimax_getDeviceStatus sdk g jdeviceId deviceStatus connectionStatus).sdkCalls =
      [⟨"GetDeviceStatus", g.deviceId, [], [], (sdk.GetDeviceStatus g.deviceId).1⟩] := by
  unfold android_net_wimax_getDeviceStatus
  simp only []
  repeat' split
  all_goals rfl

theorem getDeviceStatus_ret (sdk : WiMaxSDK) (g : Globals) (jdeviceId : JDeviceId) (deviceStatus : List Int) (connectionStatus : List Int) :
    (android_net_wimax_getDeviceStatus sdk g jdeviceId deviceStatus connectionStatus).ret = .returned (sdk.GetDeviceStatus g.deviceId).1 ∨
      ∃ f, (android_net_wimax_getDeviceStatus sdk g jdeviceId deviceStatus connectionStatus).ret = .fault f := by
  unfold android_net_wimax_getDeviceStatus
  simp only []
  repeat' split
  all_goals simp

theorem getDeviceStatus_ret_failure (sdk : WiMaxSDK) (g : Globals) (jdeviceId : JDeviceId) (deviceStatus : List Int) (connectionStatus : List Int)
    (hfail : (sdk.GetDeviceStatus g.deviceId).1 ≠ sdk.WIMAX_API_RET_SUCCESS) (hdeviceStatus : 0 < deviceStatus.length) (hconnectionStatus : 0 < connectionStatus.length) :
    (android_net_wimax_getDeviceStatus sdk g jdeviceId deviceStatus connectionStatus).ret = .returned (sdk.GetDeviceStatus g.deviceId).1 := by
  unfold android_net_wimax_getDeviceStatus
  simp [hfail, setElement, hdeviceStatus, hconnectionStatus]

theorem getConnectedNSP_sdkCalls (sdk : WiMaxSDK) (env : JNIEnv) (g : Globals) (jdeviceId : JDeviceId) (connectedNspInfo : JObject) :
    (android_net_wimax_getConnectedNSP sdk env g jdeviceId connectedNspInfo).sdkCalls =
      [⟨"GetConnectedNSP", g.deviceId, [], [], (sdk.GetConnectedNSP g.deviceId).1⟩] := by
  unfold android_net_wimax_getConnectedNSP
  simp only []
  repeat' split
  all_goals rfl

theorem getConnectedNSP_ret (sdk : WiMaxSDK) (env : JNIEnv) (g : Globals) (jdeviceId : JDeviceId) (connectedNspInfo : JObject) :
    (android_net_wimax_getConnectedNSP sdk env g jdeviceId connectedNspInfo).ret = .returned (sdk.GetConnectedNSP g.deviceId).1 ∨
      ∃ f, (android_net_wimax_getConnectedNSP sdk env g jdeviceId connectedNspInfo).ret = .fault f := by
  unfold android_net_wimax_getConnectedNSP
  simp only []
  repeat' split
  all_goals simp

theorem getConnectedNSP_ret_failure (sdk : WiMaxSDK) (env : JNIEnv) (g : Globals) (jdeviceId : JDeviceId) (connectedNspInfo : JObject)
    (hfail : (sdk.GetConnectedNSP g.deviceId).1 ≠ sdk.WIMAX_API_RET_SUCCESS) :
    (android_net_wimax_getConnectedNSP sdk env g jdeviceId connectedNspInfo).ret = .returned (sdk.GetConnectedNSP g.deviceId).1 := by
  unfold android_net_wimax_getConnectedNSP
  simp [hfail, setElement]

theorem getRoamingMode_sdkCalls (sdk : WiMaxSDK) (g : Globals) (jdeviceId : JDeviceId) (roamingMode : List Int) :
    (android_net_wimax_getRoamingMode sdk g jdeviceId roamingMode).sdkCalls =
      [⟨"GetRoamingMode", g.deviceId, [], [], (sdk.GetRoamingMode g.deviceId).1⟩] := by
  unfold android_net_wimax_getRoamingMode
  simp only []
  repeat' split
  all_goals rfl

theorem getRoamingMode_ret (sdk : WiMaxSDK) (g : Globals) (jdeviceId : JDeviceId) (roamingMode : List Int) :
    (android_net_wimax_getRoamingMode sdk g jdeviceId roamingMode).ret = .returned (sdk.GetRoamingMode g.deviceId).1 ∨
      ∃ f, (android_net_wimax_getRoamingMode sdk g jdeviceId roamingMode).ret = .fault f := by
  unfold android_net_wimax_getRoamingMode
  simp only []
  repeat' split
  all_goals simp

theorem getRoamingMode_ret_failure (sdk : WiMaxSDK) (g : Globals) (jdeviceId : JDeviceId) (roamingMode : List Int)
    (hfail : (sdk.GetRoamingMode g.deviceId).1 ≠ sdk.WIMAX_API_RET_SUCCESS) (hroamingMode : 0 < roamingMode.length) :
    (android_net_wimax_getRoamingMode sdk g jdeviceId roamingMode).ret = .returned (sdk.GetRoamingMode g.deviceId).1 := by
  unfold android_net_wimax_getRoamingMode
  simp [hfail, setElement, hroamingMode]

theorem getStatistics_sdkCalls (sdk : WiMaxSDK) (g : Globals) (jdeviceId : JDeviceId) (connectionStatistics : JObject) :
    (android_net_wimax_getStatistics sdk g jdeviceId connectionStatistics).sdkCalls =
      [⟨"GetStatistics", g.deviceId, [], [], (sdk.GetStatistics g.deviceId).1⟩] := by
  unfold android_net_wimax_getStatistics
  simp only []
  repeat' split
  all_goals rfl

theorem getStatistics_ret (sdk : WiMaxSDK) (g : Globals) (jdeviceId : JDeviceId) (connectionStatistics : JObject) :
    (android_net_wimax_getStatistics sdk g jdeviceId connectionStatistics).ret = .returned (sdk.GetStatistics g.deviceId).1 ∨
      ∃ f, (android_net_wimax_getStatistics sdk g jdeviceId connectionStatistics).ret = .fault f := by
  unfold android_net_wimax_getStatistics
  simp only []
  repeat' split
  all_goals simp

theorem getStatistics_ret_failure (sdk : WiMaxSDK) (g : Globals) (jdeviceId : JDeviceId) (connectionStatistics : JObject)
    (hfail : (sdk.GetStatistics g.deviceId).1 ≠ sdk.WIMAX_API_RET_SUCCESS) :
    (android_net_wimax_getStatistics sdk g jdeviceId connectionStatistics).ret = .returned (sdk.GetStatistics g.deviceId).1 := by
  unfold android_net_wimax_getStatistics
  simp [hfail, setElement]

theorem getProvisioningStatus_sdkCalls (sdk : WiMaxSDK) (g : Globals) (jdeviceId : JDeviceId) (nspName : String) (provisioningStatus : List Int) :
    (android_net_wimax_getProvisioningStatus sdk g jdeviceId nspName provisioningStatus).sdkCalls =
      [⟨"GetProvisioningStatus", g.deviceId, [], [nspName], (sdk.GetProvisioningStatus g.deviceId nspName).1⟩] := by
  unfold android_net_wimax_getProvisioningStatus
  simp only []
  repeat' split
  all_goals rfl

theorem getProvisioningStatus_ret (sdk : WiMaxSDK) (g : Globals) (jdeviceId : JDeviceId) (nspName : String) (provisioningStatus : List Int) :
    (android_net_wimax_getProvisioningStatus sdk g jdeviceId nspName provisioningStatus).ret = .returned (sdk.GetProvisioningStatus g.deviceId nspName).1 ∨
      ∃ f, (android_net_wimax_getProvisioningStatus sdk g jdeviceId nspName provisioningStatus).ret = .fault f := by
  unfold android_net_wimax_getProvisioningStatus
  simp only []
  repeat' split
  all_goals simp

theorem getProvisioningStatus_ret_failure (sdk : WiMaxSDK) (g : Globals) (jdeviceId : JDeviceId) (nspName : String) (provisioningStatus : List Int)
    (hfail : (sdk.GetProvisioningStatus g.deviceId nspName).1 ≠ sdk.WIMAX_API_RET_SUCCESS) (hprovisioningStatus : 0 < provisioningStatus.length) :
    (android_net_wimax_getProvisioningStatus sdk g jdeviceId nspName provisioningStatus).ret = .returned (sdk.GetProvisioningStatus g.deviceId nspName).1 := by
  unfold android_net_wimax_getProvisioningStatus
  simp [hfail, setElement, hprovisioningStatus]

theorem getContactInformation_sdkCalls (sdk : WiMaxSDK) (env : JNIEnv) (g : Globals) (nspName : String) (contactList : List (Option JObject)) (size : List Int) :
    (android_net_wimax_getContactInformation sdk env g nspName contactList size).sdkCalls =
      [⟨"GetContactInformation", g.deviceId, [], [nspName], (sdk.GetContactInformation g.deviceId nspName contactList.length).1⟩] := by
  unfold android_net_wimax_getContactInformation
  simp only []
  repeat' split
  all_goals rfl

theorem getContactInformation_ret (sdk : WiMaxSDK) (env : JNIEnv) (g : Globals) (nspName : String) (contactList : List (Option JObject)) (size : List Int) :
    (android_net_wimax_getContactInformation sdk env g nspName contactList size).ret = .returned (sdk.GetContactInformation g.deviceId nspName contactList.length).1 ∨
      ∃ f, (android_net_wimax_getContactInformation sdk env g nspName contactList size).ret = .fault f := by
  unfold android_net_wimax_getContactInformation
  simp only []
  repeat' split
  all_goals simp

theorem getContactInformation_ret_failure (sdk : WiMaxSDK) (env : JNIEnv) (g : Globals) (nspName : String) (contactList : List (Option JObject)) (size : List Int)
    (hfail : (sdk.GetContactInformation g.deviceId nspName contactList.length).1 ≠ sdk.WIMAX_API_RET_SUCCESS) (hsize : 0 < size.length) :
    (android_net_wimax_getContactInformation sdk env g nspName contactList size).ret = .returned (sdk.GetContactInformation g.deviceId nspName contactList.length).1 := by
  unfold android_net_wimax_getContactInformation
  simp [hfail, setElement, hsize]

theorem getPackageInformation_sdkCalls (sdk : WiMaxSDK) (env : JNIEnv) (g : Globals) (jdeviceId : JDeviceId) (packageInfo : JObject) :
    (android_net_wimax_getPackageInformation sdk env g jdeviceId packageInfo).sdkCalls =
      [⟨"GetPackageInformation", g.deviceId, [], [], (sdk.GetPackageInformation g.deviceId).1⟩] := by
  unfold android_net_wimax_getPackageInformation
  simp only []
  repeat' split
  all_goals rfl

theorem getPackageInformation_ret (sdk : WiMaxSDK) (env : JNIEnv) (g : Globals) (jdeviceId : JDeviceId) (packageInfo : JObject) :
    (android_net_wimax_getPackageInformation sdk env g jdeviceId packageInfo).ret = .returned (sdk.GetPackageInformation g.deviceId).1 ∨
      ∃ f, (android_net_wimax_getPackageInformation sdk env g jdeviceId packageInfo).ret = .fault f := by
  unfold android_net_wimax_getPackageInformation
  simp only []
  repeat' split
  all_goals simp

theorem getPackageInformation_ret_failure (sdk : WiMaxSDK) (env : JNIEnv) (g : Globals) (jdeviceId : JDeviceId) (packageInfo : JObject)
    (hfail : (sdk.GetPackageInformation g.deviceId).1 ≠ sdk.WIMAX_API_RET_SUCCESS) :
    (android_net_wimax_getPackageInformation sdk env g jdeviceId packageInfo).ret = .returned (sdk.GetPackageInformation g.deviceId).1 := by
  unfold android_net_wimax_getPackageInformation
  simp [hfail, setElement]

theorem getIPInterfaceIndex_ret_always (sdk : WiMaxSDK) (env : JNIEnv) (g : Globals) (jdeviceId : JDeviceId) (interfaceInfo : JObject) :
    (android_net_wimax_getIPInterfaceIndex sdk env g jdeviceId interfaceInfo).ret = .returned (sdk.GetIPInterfaceIndex g.deviceId).1 := by
  unfold android_net_wimax_getIPInterfaceIndex
  simp only []
  split <;> rfl

theorem getConnectedNSP_ret_always (sdk : WiMaxSDK) (env : JNIEnv) (g : Globals) (jdeviceId : JDeviceId) (connectedNspInfo : JObject) :
    (android_net_wimax_getConnectedNSP sdk env g jdeviceId connectedNspInfo).ret = .returned (sdk.GetConnectedNSP g.deviceId).1 := by
  unfold android_net_wimax_getConnectedNSP
  simp only []
  split <;> rfl

theorem getStatistics_ret_always (sdk : WiMaxSDK) (g : Globals) (jdeviceId : JDeviceId) (connectionStatistics : JObject) :
    (android_net_wimax_getStatistics sdk g jdeviceId connectionStatistics).ret = .returned (sdk.GetStatistics g.deviceId).1 := by
  unfold android_net_wimax_getStatistics
  simp only []
  split <;> rfl

theorem getPackageInformation_ret_always (sdk : WiMaxSDK) (env : JNIEnv) (g : Globals) (jdeviceId : JDeviceId) (packageInfo : JObject) :
    (android_net_wimax_getPackageInformation sdk env g jdeviceId packageInfo).ret = .returned (sdk.GetPackageInformation g.deviceId).1 := by
  unfold android_net_wimax_getPackageInformation
  simp only []
  split <;> rfl

/-! ## Failure leaves the managed outputs alone -/

/-- C2. Whenever the SDK call returns a code other than `WIMAX_API_RET_SUCCESS`, each
getter that fills a managed object or object array leaves it as it was: the array of
`getListDevice`, `getNetworkList`, `getSelectProfileList` and `getContactInformation`,
the object of `getIPInterfaceIndex`, `getLinkStatus`, `getDeviceInformation` (with the
objects it refers to), `getConnectedNSP`, `getStatistics` and `getPackageInformation`,
and the string slot of `getErrorString` and `getServiceProviderLockStatus`. -/
theorem failure_leaves_outputs (sdk : WiMaxSDK) (env : JNIEnv) (g : Globals)
    (jdeviceId : JDeviceId) :
    (∀ hwDeviceIdList size,
      (sdk.GetListDevice g.deviceId hwDeviceIdList.length).1 ≠ sdk.WIMAX_API_RET_SUCCESS →
      (android_net_wimax_getListDevice sdk env g jdeviceId hwDeviceIdList size).out.1
        = hwDeviceIdList) ∧
    (∀ networkList size,
      (sdk.GetNetworkList g.deviceId networkList.length).1 ≠ sdk.WIMAX_API_RET_SUCCESS →
      (android_net_wimax_getNetworkList sdk env g jdeviceId networkList size).out.1
        = networkList) ∧
    (∀ profileList size,
      (sdk.GetSelectProfileList g.deviceId profileList.length).1 ≠ sdk.WIMAX_API_RET_SUCCESS →
      (android_net_wimax_getSelectProfileList sdk env g jdeviceId profileList size).out.1
        = profileList) ∧
    (∀ nspName contactList size,
      (sdk.GetContactInformation g.deviceId nspName contactList.length).1
        ≠ sdk.WIMAX_API_RET_SUCCESS →
      (android_net_wimax_getContactInformation sdk env g nspName contactList size).out.1
        = contactList) ∧
    (∀ interfaceInfo,
      (sdk.GetIPInterfaceIndex g.deviceId).1 ≠ sdk.WIMAX_API_RET_SUCCESS →
      (android_net_wimax_getIPInterfaceIndex sdk env g jdeviceId interfaceInfo).out
        = interfaceInfo) ∧
    (∀ linkStatus,
      (sdk.GetLinkStatus g.deviceId).1 ≠ sdk.WIMAX_API_RET_SUCCESS →
      (android_net_wimax_getLinkStatus sdk g jdeviceId linkStatus).out = linkStatus) ∧
    (∀ deviceInfo referenced,
      (sdk.GetDeviceInformation g.deviceId).1 ≠ sdk.WIMAX_API_RET_SUCCESS →
      (android_net_wimax_getDeviceInformation sdk env g jdeviceId deviceInfo referenced).out
        = (deviceInfo, referenced)) ∧
    (∀ connectedNspInfo,
      (sdk.GetConnectedNSP g.deviceId).1 ≠ sdk.WIMAX_API_RET_SUCCESS →
      (android_net_wimax_getConnectedNSP sdk env g jdeviceId connectedNspInfo).out
        = connectedNspInfo) ∧
    (∀ connectionStatistics,
      (sdk.GetStatistics g.deviceId).1 ≠ sdk.WIMAX_API_RET_SUCCESS →
      (android_net_wimax_getStatistics sdk g jdeviceId connectionStatistics).out
        = connectionStatistics) ∧
    (∀ packageInfo,
      (sdk.GetPackageInformation g.deviceId).1 ≠ sdk.WIMAX_API_RET_SUCCESS →
      (android_net_wimax_getPackageInformation sdk env g jdeviceId packageInfo).out
        = packageInfo) ∧
    (∀ errorCode buffer length,
      (sdk.GetErrorString g.deviceId errorCode).1 ≠ sdk.WIMAX_API_RET_SUCCESS →
      (android_net_wimax_getErrorString sdk env g jdeviceId errorCode buffer length).out.1
        = buffer) ∧
    (∀ lockStatus nspName,
      (sdk.GetServiceProviderLockStatus g.deviceId).1 ≠ sdk.WIMAX_API_RET_SUCCESS →
      (android_net_wimax_getServiceProviderLockStatus sdk env g jdeviceId lockStatus nspName).out.2
        = nspName) := by
  refine ⟨?_, ?_, ?_, ?_, ?_, ?_, ?_, ?_, ?_, ?_, ?_, ?_⟩
  · intro l size h
    unfold android_net_wimax_getListDevice
    simp only [if_neg h]
    split <;> rfl
  · intro l size h
    unfold android_net_wimax_getNetworkList
    simp only [if_neg h]
    split <;> rfl
  · intro l size h
    unfold android_net_wimax_getSelectProfileList
    simp only [if_neg h]
    split <;> rfl
  · intro n l size h
    unfold android_net_wimax_getContactInformation
    simp only [if_neg h]
    split <;> rfl
  · intro o h
    simp [android_net_wimax_getIPInterfaceIndex, h]
  · intro o h
    simp [android_net_wimax_getLinkStatus, h]
  · intro o r h
    simp [android_net_wimax_getDeviceInformation, h]
  · intro o h
    simp [android_net_wimax_getConnectedNSP, h]
  · intro o h
    simp [android_net_wimax_getStatistics, h]
  · intro o h
    simp [android_net_wimax_getPackageInformation, h]
  · intro c b l h
    unfold android_net_wimax_getErrorString
    simp only [if_neg h]
    split <;> rfl
  · intro l n h
    unfold android_net_wimax_getServiceProviderLockStatus
    simp only [if_neg h]
    split <;> rfl

/-- C2 at `getLinkStatus` with an SDK that returns the code 5. -/
theorem failure_leaves_outputs_witness :
    ((WiMaxSDK.sample 5).GetLinkStatus Globals.sample.deviceId).1
      ≠ (WiMaxSDK.sample 5).WIMAX_API_RET_SUCCESS ∧
    (android_net_wimax_getLinkStatus (WiMaxSDK.sample 5) Globals.sample JDeviceId.sample
      ⟨[("rssi", .byte 3), ("bsid", .byteArray (some [1, 2, 3, 4, 5, 6]))]⟩).out
      = ⟨[("rssi", .byte 3), ("bsid", .byteArray (some [1, 2, 3, 4, 5, 6]))]⟩ :=
  ⟨by decide,
    (failure_leaves_outputs (WiMaxSDK.sample 5) JNIEnv.sample Globals.sample
      JDeviceId.sample).2.2.2.2.2.1 _ (by decide)⟩

/-! ## Device status -/

/-- C3, as the code has it. `android_net_wimax_getDeviceStatus` does not look at the
return code: for every code, when both arrays have an element 0, it stores what
`GetDeviceStatus` left in its two status variables in `deviceStatus[0]` and
`connectionStatus[0]`, leaves the other elements alone and returns the code. -/
theorem getDeviceStatus_copies_for_every_code (sdk : WiMaxSDK) (g : Globals)
    (jdeviceId : JDeviceId) (deviceStatus connectionStatus : List Int)
    (hd : 0 < deviceStatus.length) (hc : 0 < connectionStatus.length) :
    (android_net_wimax_getDeviceStatus sdk g jdeviceId deviceStatus connectionStatus).ret
      = .returned (sdk.GetDeviceStatus g.deviceId).1 ∧
    (android_net_wimax_getDeviceStatus sdk g jdeviceId deviceStatus connectionStatus).out.1
      = deviceStatus.set 0 (sdk.GetDeviceStatus g.deviceId).2.1 ∧
    (android_net_wimax_getDeviceStatus sdk g jdeviceId deviceStatus connectionStatus).out.2
      = connectionStatus.set 0 (sdk.GetDeviceStatus g.deviceId).2.2 := by
  simp [android_net_wimax_getDeviceStatus, setElement, hd, hc]

/-- The copy of the status values at a failing `GetDeviceStatus`. -/
theorem getDeviceStatus_copies_for_every_code_witness :
    (0 < [100, 101].length ∧ 0 < [200].length) ∧
    (android_net_wimax_getDeviceStatus WiMaxSDK.failingStatus Globals.sample JDeviceId.sample
      [100, 101] [200]).ret = .returned 2 ∧
    (android_net_wimax_getDeviceStatus WiMaxSDK.failingStatus Globals.sample JDeviceId.sample
      [100, 101] [200]).out.1 = [7, 101] ∧
    (android_net_wimax_getDeviceStatus WiMaxSDK.failingStatus Globals.sample JDeviceId.sample
      [100, 101] [200]).out.2 = [9] :=
  ⟨⟨by decide, by decide⟩,
    getDeviceStatus_copies_for_every_code WiMaxSDK.failingStatus Globals.sample JDeviceId.sample
      [100, 101] [200] (by decide) (by decide)⟩

/-- C3 fails as stated: `GetDeviceStatus` returns a code other than
`WIMAX_API_RET_SUCCESS`, and `deviceStatus[0]` and `connectionStatus[0]` are
overwritten all the same. -/
theorem getDeviceStatus_overwrites_on_failure :
    (WiMaxSDK.failingStatus.GetDeviceStatus Globals.sample.deviceId).1
      ≠ WiMaxSDK.failingStatus.WIMAX_API_RET_SUCCESS ∧
    (android_net_wimax_getDeviceStatus WiMaxSDK.failingStatus Globals.sample JDeviceId.sample
      [100] [200]).out = ([7], [9]) ∧
    (android_net_wimax_getDeviceStatus WiMaxSDK.failingStatus Globals.sample JDeviceId.sample
      [100] [200]).ret = .returned 2 := by
  decide

/-! ## Opening the API -/

/-- C6, as the code has it. With the field-id cache populated,
`android_net_wimax_wimaxAPIOpen` hands `WiMaxAPIOpen` a struct holding the six fields of
the managed `DeviceId`, makes the struct the SDK leaves the global device id and, for
every return code, stores each of its six fields in the managed `DeviceId`, converted
to the Java type of the managed field; the managed field equals the native one
whenever the native value fits that type. -/
theorem wimaxAPIOpen_copies_in_and_back (sdk : WiMaxSDK) (g : Globals) (jdeviceId : JDeviceId)
    (passed left : WIMAX_API_DEVICE_ID)
    (hcache : g.deviceIdFieldIds.deviceIdClass ≠ none)
    (hpassed : passed = ⟨toUINT32 jdeviceId.structureSize, toJint jdeviceId.sdkHandle,
      toJint jdeviceId.privilege, toUINT8 jdeviceId.deviceIndex, toUINT32 jdeviceId.apiVersion,
      jdeviceId.devicePresenceStatus⟩)
    (hleft : left = (sdk.WiMaxAPIOpen passed).2) :
    (android_net_wimax_wimaxAPIOpen sdk g jdeviceId).sdkCalls
      = [⟨"WiMaxAPIOpen", some passed, [], [], (sdk.WiMaxAPIOpen passed).1⟩] ∧
    (android_net_wimax_wimaxAPIOpen sdk g jdeviceId).ret
      = .returned (sdk.WiMaxAPIOpen passed).1 ∧
    (android_net_wimax_wimaxAPIOpen sdk g jdeviceId).globals.deviceId = some left ∧
    (android_net_wimax_wimaxAPIOpen sdk g jdeviceId).out
      = ⟨toJint left.structureSize, toJint left.sdkHandle, toJint left.privilege,
         toJbyte left.deviceIndex, toJint left.apiVersion,
         toJboolean left.devicePresenceStatus⟩ ∧
    (left.FitsManaged →
      (android_net_wimax_wimaxAPIOpen sdk g jdeviceId).out
        = ⟨left.structureSize, left.sdkHandle, left.privilege, left.deviceIndex,
           left.apiVersion, left.devicePresenceStatus⟩) := by
  cases hcls : g.deviceIdFieldIds.deviceIdClass with
  | none => exact absurd hcls hcache
  | some cls =>
    have hacc : accessDeviceId g.deviceIdFieldIds jdeviceId WIMAX_API_DEVICE_ID.zero = passed := by
      rw [hpassed]
      simp [accessDeviceId, hcls]
    refine ⟨?_, ?_, ?_, ?_, ?_⟩
    · simp [android_net_wimax_wimaxAPIOpen, hacc]
    · simp [android_net_wimax_wimaxAPIOpen, hacc]
    · simp [android_net_wimax_wimaxAPIOpen, hacc, hleft]
    · simp [android_net_wimax_wimaxAPIOpen, hacc, hleft, assignDeviceId, hcls]
    · intro hfit
      obtain ⟨⟨a0, a1⟩, ⟨b0, b1⟩, ⟨c0, c1⟩, ⟨d0, d1⟩, ⟨e0, e1⟩, ⟨f0, f1⟩⟩ := hfit
      simp only [android_net_wimax_wimaxAPIOpen, hacc, ← hleft, assignDeviceId, hcls,
        JDeviceId.mk.injEq, toJint, toJbyte, toJboolean]
      refine ⟨?_, ?_, ?_, ?_, ?_, ?_⟩ <;> omega

/-- The copy back at an SDK that leaves device index 200 in the struct. -/
theorem wimaxAPIOpen_copies_in_and_back_witness :
    Globals.sample.deviceIdFieldIds.deviceIdClass ≠ none ∧
    (android_net_wimax_wimaxAPIOpen WiMaxSDK.opening Globals.sample JDeviceId.sample).out
      = ⟨24, 5, 1, -56, 65538, 1⟩ := by
  refine ⟨by decide, ?_⟩
  have h := (wimaxAPIOpen_copies_in_and_back WiMaxSDK.opening Globals.sample JDeviceId.sample
    ⟨24, 7, 1, 1, 65538, 1⟩ ⟨24, 5, 1, 200, 65538, 1⟩ (by decide) (by decide) (by decide)).2.2.2.1
  rw [h]
  decide

/-- C6 fails as stated: the SDK leaves `deviceIndex = 200` in the native struct, and
the managed `DeviceId` then holds `deviceIndex = -56`. -/
theorem wimaxAPIOpen_deviceIndex_differs :
    (android_net_wimax_wimaxAPIOpen WiMaxSDK.opening Globals.sample JDeviceId.sample).globals.deviceId
      = some ⟨24, 5, 1, 200, 65538, 1⟩ ∧
    (android_net_wimax_wimaxAPIOpen WiMaxSDK.opening Globals.sample JDeviceId.sample).out.deviceIndex
      = -56 := by
  decide

/-! ## Storing loops -/

/-- The loop that stores one new object per index into an array allocated with
exactly as many elements as the loop has iterations never faults. -/
theorem forLoop_fill (mk : Nat → JObject) (n : Nat) (l : List (Option JObject))
    (hn : n ≤ l.length) :
    ∃ l1 : List (Option JObject),
      forLoop n
        (fun i (list : Option (List (Option JObject))) =>
          match list with
          | some l =>
            match setElement l i (some (mk i)) with
            | some l1 => (some l1, none)
            | none => (list, some Fault.outOfBounds)
          | none => (list, some Fault.nullPointer))
        (some l) = (some l1, none) ∧
      l1.length = l.length ∧
      (∀ i, i < n → l1[i]? = some (some (mk i))) ∧
      (∀ i, n ≤ i → l1[i]? = l[i]?) := by
  induction n with
  | zero => exact ⟨l, by simp [forLoop_zero]⟩
  | succ n ih =>
    obtain ⟨l1, h1, hlen, hlt, hge⟩ := ih (Nat.le_of_succ_le hn)
    have hn1 : n < l1.length := by omega
    refine ⟨l1.set n (some (mk n)), ?_, ?_, ?_, ?_⟩
    · rw [forLoop_succ, h1]
      simp [setElement, hn1]
    · simp [hlen]
    · intro i hi
      by_cases hin : i = n
      · subst hin
        simp [hn1]
      · have : i < n := by omega
        rw [List.getElem?_set_ne (Ne.symm hin)]
        exact hlt i this
    · intro i hi
      have hne : n ≠ i := by omega
      rw [List.getElem?_set_ne hne]
      exact hge i (by omega)

/-! ## Notification handlers -/

/-- With the VM stored and a callback registered, the wide-scan handler's run does not
fault: its array has one element for every iteration of its loop. -/
theorem fun_IndNetworkSearchWideScan_events (g : Globals) (attach detach : Int) (env : JNIEnv)
    (pDeviceId : Option WIMAX_API_DEVICE_ID) (nspList : Nat → WIMAX_API_NSP_INFO)
    (listSize : Int) (vm : Nat) (cb : JCallback) (hvm : g.g_jVM = some vm)
    (hcb : g.networkSearchWideScanCB = some cb) (hat : attach = JNI_OK) :
    ∃ call : List Event,
      fun_IndNetworkSearchWideScan g attach detach env pDeviceId nspList listSize =
        ⟨.AttachCurrentThread attach :: (call ++ .DetachCurrentThread detach ::
          (if detach ≠ JNI_OK then [.LOGE "DetachCurrentThread() failed"] else [])), none⟩ ∧
      (call = [] ∨ ∃ args, call = [.CallVoidMethod cb
        "(Landroid/net/wimax/structs/DeviceId;[Landroid/net/wimax/structs/NSPInfo;I)V" args]) ∧
      (GetMethodID cb "callback"
        "(Landroid/net/wimax/structs/DeviceId;[Landroid/net/wimax/structs/NSPInfo;I)V" = true →
        call ≠ []) := by
  unfold fun_IndNetworkSearchWideScan
  simp only [hvm, hcb, hat, if_true]
  by_cases hm : GetMethodID cb "callback"
      "(Landroid/net/wimax/structs/DeviceId;[Landroid/net/wimax/structs/NSPInfo;I)V" = true
  · simp only [hm, if_true]
    by_cases hnn : 0 ≤ toJint listSize
    · obtain ⟨l1, h1, -, -, -⟩ := forLoop_fill
        (fun i => assignInt (assignByte (assignByte (assignInt (assignString env
          (assignInt (env.NewObject "android/net/wimax/structs/NSPInfo") "structureSize"
            (nspList i).structureSize) "nspName" (nspList i).NSPName) "nspId" (nspList i).NSPid)
          "rssi" (nspList i).RSSI) "cinr" (nspList i).CINR) "networkType"
          (nspList i).networkType)
        (toJint listSize).toNat (List.replicate (toJint listSize).toNat none) (by simp)
      simp only [if_pos hnn]
      rw [h1]
      exact ⟨_, rfl, Or.inr ⟨_, rfl⟩, fun _ => by simp⟩
    · have hz : (toJint listSize).toNat = 0 := by
        apply Int.toNat_eq_zero.mpr
        omega
      simp only [if_neg hnn, hz, forLoop_zero]
      exact ⟨_, rfl, Or.inr ⟨_, rfl⟩, fun _ => by simp⟩
  · simp only [hm]
    exact ⟨[], by simp, Or.inl rfl, fun h => absurd h (by simp)⟩

theorem fun_IndDeviceStatusUpdate_events (g : Globals) (attach detach : Int)
    (pDeviceId : Option WIMAX_API_DEVICE_ID) (deviceStatus statusReason connectionProgressInfo : Int) (vm : Nat) (cb : JCallback)
    (hvm : g.g_jVM = some vm) (hcb : g.deviceStatusChangeCB = some cb) (hat : attach = JNI_OK) :
    ∃ call : List Event,
      fun_IndDeviceStatusUpdate g attach detach pDeviceId deviceStatus statusReason connectionProgressInfo =
        ⟨.AttachCurrentThread attach :: (call ++ .DetachCurrentThread detach ::
          (if detach ≠ JNI_OK then [.LOGE "DetachCurrentThread() failed"] else [])), none⟩ ∧
      (call = [] ∨ ∃ args, call = [.CallVoidMethod cb
        "(Landroid/net/wimax/structs/DeviceId;III)V" args]) ∧
      (GetMethodID cb "callback"
        "(Landroid/net/wimax/structs/DeviceId;III)V" = true →
        call ≠ []) := by
  unfold fun_IndDeviceStatusUpdate
  simp only [hvm, hcb, hat, if_true]
  split
  · exact ⟨_, rfl, Or.inr ⟨_, rfl⟩, fun _ => by simp⟩
  · rename_i hm
    exact ⟨[], by simp, Or.inl rfl, fun h => absurd h hm⟩

theorem fun_IndDeviceInsertRemove_events (g : Globals) (attach detach : Int)
    (pDeviceId : Option WIMAX_API_DEVICE_ID) (cardPresence : Int) (vm : Nat) (cb : JCallback)
    (hvm : g.g_jVM = some vm) (hcb : g.deviceInsertRemoveCB = some cb) (hat : attach = JNI_OK) :
    ∃ call : List Event,
      fun_IndDeviceInsertRemove g attach detach pDeviceId cardPresence =
        ⟨.AttachCurrentThread attach :: (call ++ .DetachCurrentThread detach ::
          (if detach ≠ JNI_OK then [.LOGE "DetachCurrentThread() failed"] else [])), none⟩ ∧
      (call = [] ∨ ∃ args, call = [.CallVoidMethod cb
        "(Landroid/net/wimax/structs/DeviceId;I)V" args]) ∧
      (GetMethodID cb "callback"
        "(Landroid/net/wimax/structs/DeviceId;I)V" = true →
        call ≠ []) := by
  unfold fun_IndDeviceInsertRemove
  simp only [hvm, hcb, hat, if_true]
  split
  · exact ⟨_, rfl, Or.inr ⟨_, rfl⟩, fun _ => by simp⟩
  · rename_i hm
    exact ⟨[], by simp, Or.inl rfl, fun h => absurd h hm⟩

theorem fun_IndControlPowerManagement_events (g : Globals) (attach detach : Int)
    (pDeviceId : Option WIMAX_API_DEVICE_ID) (powerState : Int) (vm : Nat) (cb : JCallback)
    (hvm : g.g_jVM = some vm) (hcb : g.controlPowerManagementCB = some cb) (hat : attach = JNI_OK) :
    ∃ call : List Event,
      fun_IndControlPowerManagement g attach detach pDeviceId powerState =
        ⟨.AttachCurrentThread attach :: (call ++ .DetachCurrentThread detach ::
          (if detach ≠ JNI_OK then [.LOGE "DetachCurrentThread() failed"] else [])), none⟩ ∧
      (call = [] ∨ ∃ args, call = [.CallVoidMethod cb
        "(Landroid/net/wimax/structs/DeviceId;I)V" args]) ∧
      (GetMethodID cb "callback"
        "(Landroid/net/wimax/structs/DeviceId;I)V" = true →
        call ≠ []) := by
  unfold fun_IndControlPowerManagement
  simp only [hvm, hcb, hat, if_true]
  split
  · exact ⟨_, rfl, Or.inr ⟨_, rfl⟩, fun _ => by simp⟩
  · rename_i hm
    exact ⟨[], by simp, Or.inl rfl, fun h => absurd h hm⟩

theorem fun_IndConnectToNetwork_events (g : Globals) (attach detach : Int)
    (pDeviceId : Option WIMAX_API_DEVICE_ID) (status : Int) (vm : Nat) (cb : JCallback)
    (hvm : g.g_jVM = some vm) (hcb : g.connectToNetworkCB = some cb) (hat : attach = JNI_OK) :
    ∃ call : List Event,
      fun_IndConnectToNetwork g attach detach pDeviceId status =
        ⟨.AttachCurrentThread attach :: (call ++ .DetachCurrentThread detach ::
          (if detach ≠ JNI_OK then [.LOGE "DetachCurrentThread() failed"] else [])), none⟩ ∧
      (call = [] ∨ ∃ args, call = [.CallVoidMethod cb
        "(Landroid/net/wimax/structs/DeviceId;I)V" args]) ∧
      (GetMethodID cb "callback"
        "(Landroid/net/wimax/structs/DeviceId;I)V" = true →
        call ≠ []) := by
  unfold fun_IndConnectToNetwork
  simp only [hvm, hcb, hat, if_true]
  split
  · exact ⟨_, rfl, Or.inr ⟨_, rfl⟩, fun _ => by simp⟩
  · rename_i hm
    exact ⟨[], by simp, Or.inl rfl, fun h => absurd h hm⟩

theorem fun_IndDisconnectToNetwork_events (g : Globals) (attach detach : Int)
    (pDeviceId : Option WIMAX_API_DEVICE_ID) (status : Int) (vm : Nat) (cb : JCallback)
    (hvm : g.g_jVM = some vm) (hcb : g.disconnectToNetworkCB = some cb) (hat : attach = JNI_OK) :
    ∃ call : List Event,
      fun_IndDisconnectToNetwork g attach detach pDeviceId status =
        ⟨.AttachCurrentThread attach :: (call ++ .DetachCurrentThread detach ::
          (if detach ≠ JNI_OK then [.LOGE "DetachCurrentThread() failed"] else [])), none⟩ ∧
      (call = [] ∨ ∃ args, call = [.CallVoidMethod cb
        "(Landroid/net/wimax/structs/DeviceId;I)V" args]) ∧
      (GetMethodID cb "callback"
        "(Landroid/net/wimax/structs/DeviceId;I)V" = true →
        call ≠ []) := by
  unfold fun_IndDisconnectToNetwork
  simp only [hvm, hcb, hat, if_true]
  split
  · exact ⟨_, rfl, Or.inr ⟨_, rfl⟩, fun _ => by simp⟩
  · rename_i hm
    exact ⟨[], by simp, Or.inl rfl, fun h => absurd h hm⟩

theorem fun_IndProvisioningOperation_events (g : Globals) (attach detach : Int)
    (pDeviceId : Option WIMAX_API_DEVICE_ID) (provisioningOperation contactType : Int) (vm : Nat) (cb : JCallback)
    (hvm : g.g_jVM = some vm) (hcb : g.provisioningOperationCB = some cb) (hat : attach = JNI_OK) :
    ∃ call : List Event,
      fun_IndProvisioningOperation g attach detach pDeviceId provisioningOperation contactType =
        ⟨.AttachCurrentThread attach :: (call ++ .DetachCurrentThread detach ::
          (if detach ≠ JNI_OK then [.LOGE "DetachCurrentThread() failed"] else [])), none⟩ ∧
      (call = [] ∨ ∃ args, call = [.CallVoidMethod cb
        "(Landroid/net/wimax/structs/DeviceId;II)V" args]) ∧
      (GetMethodID cb "callback"
        "(Landroid/net/wimax/structs/DeviceId;II)V" = true →
        call ≠ []) := by
  unfold fun_IndProvisioningOperation
  simp only [hvm, hcb, hat, if_true]
  split
  · exact ⟨_, rfl, Or.inr ⟨_, rfl⟩, fun _ => by simp⟩
  · rename_i hm
    exact ⟨[], by simp, Or.inl rfl, fun h => absurd h hm⟩

theorem fun_IndPackageUpdate_events (g : Globals) (attach detach : Int)
    (pDeviceId : Option WIMAX_API_DEVICE_ID) (packageUpdate : Int) (vm : Nat) (cb : JCallback)
    (hvm : g.g_jVM = some vm) (hcb : g.packageUpdateCB = some cb) (hat : attach = JNI_OK) :
    ∃ call : List Event,
      fun_IndPackageUpdate g attach detach pDeviceId packageUpdate =
        ⟨.AttachCurrentThread attach :: (call ++ .DetachCurrentThread detach ::
          (if detach ≠ JNI_OK then [.LOGE "DetachCurrentThread() failed"] else [])), none⟩ ∧
      (call = [] ∨ ∃ args, call = [.CallVoidMethod cb
        "(Landroid/net/wimax/structs/DeviceId;I)V" args]) ∧
      (GetMethodID cb "callback"
        "(Landroid/net/wimax/structs/DeviceId;I)V" = true →
        call ≠ []) := by
  unfold fun_IndPackageUpdate
  simp only [hvm, hcb, hat, if_true]
  split
  · exact ⟨_, rfl, Or.inr ⟨_, rfl⟩, fun _ => by simp⟩
  · rename_i hm
    exact ⟨[], by simp, Or.inl rfl, fun h => absurd h hm⟩

/-- What C4 asks, for a run that attached, invoked at most one callback and detached. -/
theorem attached_trace (attach detach : Int) (call : List Event) (cb : JCallback)
    (signature : String) (hat : attach = JNI_OK)
    (hcall : call = [] ∨ ∃ args, call = [.CallVoidMethod cb signature args]) :
    (Event.AttachCurrentThread attach :: (call ++ .DetachCurrentThread detach ::
      (if detach ≠ JNI_OK then [.LOGE "DetachCurrentThread() failed"] else []))).countP
        Event.isCallback ≤ 1 ∧
    ((Event.AttachCurrentThread attach :: (call ++ .DetachCurrentThread detach ::
      (if detach ≠ JNI_OK then [.LOGE "DetachCurrentThread() failed"] else []))).takeWhile
        (fun e => !e.isAttachOk)).all (fun e => !e.isCallback) = true ∧
    ((Event.AttachCurrentThread attach :: (call ++ .DetachCurrentThread detach ::
      (if detach ≠ JNI_OK then [.LOGE "DetachCurrentThread() failed"] else []))).dropWhile
        (fun e => !e.isDetach)).all (fun e => !e.isCallback) = true ∧
    (Event.AttachCurrentThread attach :: (call ++ .DetachCurrentThread detach ::
      (if detach ≠ JNI_OK then [.LOGE "DetachCurrentThread() failed"] else []))).countP
        Event.isDetach = 1 := by
  rcases hcall with h | ⟨args, h⟩ <;> subst h <;> by_cases hd : detach = JNI_OK <;>
    simp [hat, hd, Event.isCallback, Event.isDetach, Event.isAttachOk, List.countP_cons]

/-- C4, as the code has it. In each of the eight notification handlers: a managed
callback is invoked at most once, no callback is invoked before `AttachCurrentThread`
has returned `JNI_OK`, and none at or after the call of `DetachCurrentThread`; when the
attach succeeded (the VM being stored) and the stored callback reference of the
handler's kind is not NULL, the run does not fault and calls `DetachCurrentThread`
exactly once, whether or not the managed `callback` method is found; when the attach
succeeded and the stored callback reference is NULL, the run faults at `GetObjectClass`
right after the attach, and neither a callback nor `DetachCurrentThread` is called; when
the attach failed neither a callback nor `DetachCurrentThread` is called.  The attach
succeeded, that is, the trace holds an `AttachCurrentThread` that returned `JNI_OK`,
exactly when the VM is stored and `AttachCurrentThread` returns `JNI_OK`. -/
theorem handler_trace (g : Globals) (attach detach : Int) (n : Notification) :
    (notify g attach detach n).events.countP Event.isCallback ≤ 1 ∧
    ((notify g attach detach n).events.takeWhile (fun e => !e.isAttachOk)).all
      (fun e => !e.isCallback) = true ∧
    ((notify g attach detach n).events.dropWhile (fun e => !e.isDetach)).all
      (fun e => !e.isCallback) = true ∧
    (attach = JNI_OK → g.g_jVM ≠ none → g.callback n.kind ≠ none →
      (notify g attach detach n).fault = none ∧
      (notify g attach detach n).events.countP Event.isDetach = 1) ∧
    (attach = JNI_OK → g.g_jVM ≠ none → g.callback n.kind = none →
      notify g attach detach n = ⟨[.AttachCurrentThread attach], some .nullPointer⟩) ∧
    (attach ≠ JNI_OK →
      (notify g attach detach n).events.countP Event.isCallback = 0 ∧
      (notify g attach detach n).events.countP Event.isDetach = 0) ∧
    ((notify g attach detach n).events.any Event.isAttachOk = true ↔
      attach = JNI_OK ∧ g.g_jVM ≠ none) := by
  cases hvm : g.g_jVM with
  | none =>
    cases n <;>
      simp [notify, hvm, fun_IndDeviceStatusUpdate, fun_IndDeviceInsertRemove,
        fun_IndControlPowerManagement, fun_IndConnectToNetwork, fun_IndDisconnectToNetwork,
        fun_IndNetworkSearchWideScan, fun_IndProvisioningOperation, fun_IndPackageUpdate]
  | some vm =>
    by_cases hat : attach = JNI_OK
    · cases hcb : g.callback n.kind with
      | none =>
        cases n <;>
          simp only [Notification.kind, Globals.callback] at hcb <;>
          simp [notify, hvm, hcb, hat, fun_IndDeviceStatusUpdate, fun_IndDeviceInsertRemove,
            fun_IndControlPowerManagement, fun_IndConnectToNetwork, fun_IndDisconnectToNetwork,
            fun_IndNetworkSearchWideScan, fun_IndProvisioningOperation, fun_IndPackageUpdate,
            Event.isCallback, Event.isDetach, Event.isAttachOk]
      | some cb =>
        have key : ∃ (call : List Event) (signature : String),
            notify g attach detach n =
              ⟨.AttachCurrentThread attach :: (call ++ .DetachCurrentThread detach ::
                (if detach ≠ JNI_OK then [.LOGE "DetachCurrentThread() failed"] else [])), none⟩ ∧
            (call = [] ∨ ∃ args, call = [.CallVoidMethod cb signature args]) := by
          cases n with
          | IndDeviceStatusUpdate p a b c =>
            obtain ⟨call, h1, h2, -⟩ :=
              fun_IndDeviceStatusUpdate_events g attach detach p a b c vm cb hvm hcb hat
            exact ⟨call, _, h1, h2⟩
          | IndDeviceInsertRemove p a =>
            obtain ⟨call, h1, h2, -⟩ :=
              fun_IndDeviceInsertRemove_events g attach detach p a vm cb hvm hcb hat
            exact ⟨call, _, h1, h2⟩
          | IndControlPowerManagement p a =>
            obtain ⟨call, h1, h2, -⟩ :=
              fun_IndControlPowerManagement_events g attach detach p a vm cb hvm hcb hat
            exact ⟨call, _, h1, h2⟩
          | IndConnectToNetwork p a =>
            obtain ⟨call, h1, h2, -⟩ :=
              fun_IndConnectToNetwork_events g attach detach p a vm cb hvm hcb hat
            exact ⟨call, _, h1, h2⟩
          | IndDisconnectToNetwork p a =>
            obtain ⟨call, h1, h2, -⟩ :=
              fun_IndDisconnectToNetwork_events g attach detach p a vm cb hvm hcb hat
            exact ⟨call, _, h1, h2⟩
          | IndNetworkSearchWideScan env p l k =>
            obtain ⟨call, h1, h2, -⟩ :=
              fun_IndNetworkSearchWideScan_events g attach detach env p l k vm cb hvm hcb hat
            exact ⟨call, _, h1, h2⟩
          | IndProvisioningOperation p a b =>
            obtain ⟨call, h1, h2, -⟩ :=
              fun_IndProvisioningOperation_events g attach detach p a b vm cb hvm hcb hat
            exact ⟨call, _, h1, h2⟩
          | IndPackageUpdate p a =>
            obtain ⟨call, h1, h2, -⟩ :=
              fun_IndPackageUpdate_events g attach detach p a vm cb hvm hcb hat
            exact ⟨call, _, h1, h2⟩
        obtain ⟨call, signature, hrun, hcall⟩ := key
        obtain ⟨t1, t2, t3, t4⟩ := attached_trace attach detach call cb signature hat hcall
        rw [hrun]
        exact ⟨t1, t2, t3, fun _ _ _ => ⟨rfl, t4⟩, fun _ _ h => Option.noConfusion h,
          fun h => absurd hat h, by simp [Event.isAttachOk, hat]⟩
    · cases n <;>
        simp [notify, hvm, hat, fun_IndDeviceStatusUpdate, fun_IndDeviceInsertRemove,
          fun_IndControlPowerManagement, fun_IndConnectToNetwork, fun_IndDisconnectToNetwork,
          fun_IndNetworkSearchWideScan, fun_IndProvisioningOperation, fun_IndPackageUpdate,
          Event.isCallback, Event.isDetach, Event.isAttachOk, List.countP_cons]

/-- C4 at the device-status handler with a registered callback and a successful attach. -/
theorem handler_trace_witness :
    (JNI_OK = JNI_OK ∧ ({ Globals.sample with deviceStatusChangeCB := some JCallback.sample }).g_jVM ≠ none ∧
      ({ Globals.sample with deviceStatusChangeCB := some JCallback.sample }).callback
        (Notification.IndDeviceStatusUpdate none 1 2 3).kind ≠ none) ∧
    (notify { Globals.sample with deviceStatusChangeCB := some JCallback.sample } JNI_OK JNI_OK
      (.IndDeviceStatusUpdate none 1 2 3)).fault = none ∧
    (notify { Globals.sample with deviceStatusChangeCB := some JCallback.sample } JNI_OK JNI_OK
      (.IndDeviceStatusUpdate none 1 2 3)).events.countP Event.isDetach = 1 :=
  ⟨⟨rfl, by decide, by decide⟩,
    (handler_trace { Globals.sample with deviceStatusChangeCB := some JCallback.sample } JNI_OK
      JNI_OK (.IndDeviceStatusUpdate none 1 2 3)).2.2.2.1 rfl (by decide) (by decide)⟩

/-- C4 fails as stated: `subscribeDeviceStatusChange` is called with a NULL callback,
stores it and returns the code of the SDK; at the next device-status notification
`AttachCurrentThread` returns `JNI_OK`, the handler faults at `GetObjectClass` on the
NULL reference, and `DetachCurrentThread` is not called. -/
theorem handler_null_callback_no_detach :
    (invoke (WiMaxSDK.sample 1) JNIEnv.sample Globals.sample
      (.subscribeDeviceStatusChange JDeviceId.sample none)).ret = .returned 1 ∧
    (invoke (WiMaxSDK.sample 1) JNIEnv.sample Globals.sample
      (.subscribeDeviceStatusChange JDeviceId.sample none)).globals.deviceStatusChangeCB
      = none ∧
    (notify (invoke (WiMaxSDK.sample 1) JNIEnv.sample Globals.sample
        (.subscribeDeviceStatusChange JDeviceId.sample none)).globals JNI_OK JNI_OK
      (.IndDeviceStatusUpdate none 1 2 3)).events = [.AttachCurrentThread JNI_OK] ∧
    (notify (invoke (WiMaxSDK.sample 1) JNIEnv.sample Globals.sample
        (.subscribeDeviceStatusChange JDeviceId.sample none)).globals JNI_OK JNI_OK
      (.IndDeviceStatusUpdate none 1 2 3)).fault = some .nullPointer ∧
    (notify (invoke (WiMaxSDK.sample 1) JNIEnv.sample Globals.sample
        (.subscribeDeviceStatusChange JDeviceId.sample none)).globals JNI_OK JNI_OK
      (.IndDeviceStatusUpdate none 1 2 3)).events.countP Event.isDetach = 0 := by
  decide

/-! ## File-level state after a call -/

theorem getListDevice_globals (sdk : WiMaxSDK) (env : JNIEnv) (g : Globals) (jdeviceId : JDeviceId) (hwDeviceIdList : List (Option JObject)) (size : List Int) :
    ∃ d, (android_net_wimax_getListDevice sdk env g jdeviceId hwDeviceIdList size).globals = { g with deviceId := d } := by
  unfold android_net_wimax_getListDevice
  simp only []
  repeat' split
  all_goals exact ⟨_, rfl⟩

theorem getErrorString_globals (sdk : WiMaxSDK) (env : JNIEnv) (g : Globals) (jdeviceId : JDeviceId) (errorCode : Int) (buffer : List (Option String)) (length : List Int) :
    (android_net_wimax_getErrorString sdk env g jdeviceId errorCode buffer length).globals = g := by
  unfold android_net_wimax_getErrorString
  simp only []
  repeat' split
  all_goals rfl

theorem getServiceProviderLockStatus_globals (sdk : WiMaxSDK) (env : JNIEnv) (g : Globals) (jdeviceId : JDeviceId) (lockStatus : List Int) (nspName : List (Option String)) :
    (android_net_wimax_getServiceProviderLockStatus sdk env g jdeviceId lockStatus nspName).globals = g := by
  unfold android_net_wimax_getServiceProviderLockStatus
  simp only []
  repeat' split
  all_goals rfl

theorem getNetworkList_globals (sdk : WiMaxSDK) (env : JNIEnv) (g : Globals) (jdeviceId : JDeviceId) (networkList : List (Option JObject)) (size : List Int) :
    (android_net_wimax_getNetworkList sdk env g jdeviceId networkList size).globals = g := by
  unfold android_net_wimax_getNetworkList
  simp only []
  repeat' split
  all_goals rfl

theorem getIPInterfaceIndex_globals (sdk : WiMaxSDK) (env : JNIEnv) (g : Globals) (jdeviceId : JDeviceId) (interfaceInfo : JObject) :
    (android_net_wimax_getIPInterfaceIndex sdk env g jdeviceId interfaceInfo).globals = g := by
  unfold android_net_wimax_getIPInterfaceIndex
  simp only []
  repeat' split
  all_goals rfl

theorem getSelectProfileList_globals (sdk : WiMaxSDK) (env : JNIEnv) (g : Globals) (jdeviceId : JDeviceId) (profileList : List (Option JObject)) (size : List Int) :
    (android_net_wimax_getSelectProfileList sdk env g jdeviceId profileList size).globals = g := by
  unfold android_net_wimax_getSelectProfileList
  simp only []
  repeat' split
  all_goals rfl

theorem getLinkStatus_globals (sdk : WiMaxSDK) (g : Globals) (jdeviceId : JDeviceId) (linkStatus : JObject) :
    (android_net_wimax_getLinkStatus sdk g jdeviceId linkStatus).globals = g := by
  unfold android_net_wimax_getLinkStatus
  simp only []
  repeat' split
  all_goals rfl

theorem getDeviceInformation_globals (sdk : WiMaxSDK) (env : JNIEnv) (g : Globals) (jdeviceId : JDeviceId) (deviceInfo : JObject) (referenced : List JObject) :
    (android_net_wimax_getDeviceInformation sdk env g jdeviceId deviceInfo referenced).globals = g := by
  unfold android_net_wimax_getDeviceInformation
  simp only []
  repeat' split
  all_goals rfl

theorem getDeviceStatus_globals (sdk : WiMaxSDK) (g : Globals) (jdeviceId : JDeviceId) (deviceStatus : List Int) (connectionStatus : List Int) :
    (android_net_wimax_getDeviceStatus sdk g jdeviceId deviceStatus connectionStatus).globals = g := by
  unfold android_net_wimax_getDeviceStatus
  simp only []
  repeat' split
  all_goals rfl

theorem getConnectedNSP_globals (sdk : WiMaxSDK) (env : JNIEnv) (g : Globals) (jdeviceId : JDeviceId) (connectedNspInfo : JObject) :
    (android_net_wimax_getConnectedNSP sdk env g jdeviceId connectedNspInfo).globals = g := by
  unfold android_net_wimax_getConnectedNSP
  simp only []
  repeat' split
  all_goals rfl

theorem getRoamingMode_globals (sdk : WiMaxSDK) (g : Globals) (jdeviceId : JDeviceId) (roamingMode : List Int) :
    (android_net_wimax_getRoamingMode sdk g jdeviceId roamingMode).globals = g := by
  unfold android_net_wimax_getRoamingMode
  simp only []
  repeat' split
  all_goals rfl

theorem getStatistics_globals (sdk : WiMaxSDK) (g : Globals) (jdeviceId : JDeviceId) (connectionStatistics : JObject) :
    (android_net_wimax_getStatistics sdk g jdeviceId connectionStatistics).globals = g := by
  unfold android_net_wimax_getStatistics
  simp only []
  repeat' split
  all_goals rfl

theorem getProvisioningStatus_globals (sdk : WiMaxSDK) (g : Globals) (jdeviceId : JDeviceId) (nspName : String) (provisioningStatus : List Int) :
    (android_net_wimax_getProvisioningStatus sdk g jdeviceId nspName provisioningStatus).globals = g := by
  unfold android_net_wimax_getProvisioningStatus
  simp only []
  repeat' split
  all_goals rfl

theorem getContactInformation_globals (sdk : WiMaxSDK) (env : JNIEnv) (g : Globals) (nspName : String) (contactList : List (Option JObject)) (size : List Int) :
    (android_net_wimax_getContactInformation sdk env g nspName contactList size).globals = g := by
  unfold android_net_wimax_getContactInformation
  simp only []
  repeat' split
  all_goals rfl

theorem getPackageInformation_globals (sdk : WiMaxSDK) (env : JNIEnv) (g : Globals) (jdeviceId : JDeviceId) (packageInfo : JObject) :
    (android_net_wimax_getPackageInformation sdk env g jdeviceId packageInfo).globals = g := by
  unfold android_net_wimax_getPackageInformation
  simp only []
  repeat' split
  all_goals rfl

/-- A call that is not the subscribe call of a kind leaves the stored callback
reference of that kind as it is. -/
theorem invoke_callback (sdk : WiMaxSDK) (env : JNIEnv) (g : Globals) (c : NativeCall)
    (k : CallbackKind) (h : c.subscribedKind ≠ some k) :
    (invoke sdk env g c).globals.callback k = g.callback k := by
  cases c
  case getListDevice jdeviceId hwDeviceIdList size =>
    obtain ⟨d, hd⟩ := getListDevice_globals sdk env g jdeviceId hwDeviceIdList size
    simp only [invoke, hd]
    cases k <;> rfl
  case getErrorString jdeviceId errorCode buffer length =>
    simp only [invoke, getErrorString_globals]
  case getServiceProviderLockStatus jdeviceId lockStatus nspName =>
    simp only [invoke, getServiceProviderLockStatus_globals]
  case getNetworkList jdeviceId networkList size =>
    simp only [invoke, getNetworkList_globals]
  case getIPInterfaceIndex jdeviceId interfaceInfo =>
    simp only [invoke, getIPInterfaceIndex_globals]
  case getSelectProfileList jdeviceId profileList size =>
    simp only [invoke, getSelectProfileList_globals]
  case getLinkStatus jdeviceId linkStatus =>
    simp only [invoke, getLinkStatus_globals]
  case getDeviceInformation jdeviceId deviceInfo referenced =>
    simp only [invoke, getDeviceInformation_globals]
  case getDeviceStatus jdeviceId deviceStatus connectionStatus =>
    simp only [invoke, getDeviceStatus_globals]
  case getConnectedNSP jdeviceId connectedNspInfo =>
    simp only [invoke, getConnectedNSP_globals]
  case getRoamingMode jdeviceId roamingMode =>
    simp only [invoke, getRoamingMode_globals]
  case getStatistics jdeviceId connectionStatistics =>
    simp only [invoke, getStatistics_globals]
  case getProvisioningStatus jdeviceId nspName provisioningStatus =>
    simp only [invoke, getProvisioningStatus_globals]
  case getContactInformation nspName contactList size =>
    simp only [invoke, getContactInformation_globals]
  case getPackageInformation jdeviceId packageInfo =>
    simp only [invoke, getPackageInformation_globals]
  all_goals
    cases k <;> simp [NativeCall.subscribedKind] at h <;>
    simp [invoke, Globals.callback, android_net_wimax_loadLibrary,
      android_net_wimax_unloadLibrary,
      android_net_wimax_wimaxAPIOpen, android_net_wimax_wimaxDeviceOpen,
      android_net_wimax_wimaxDeviceClose, android_net_wimax_wimaxAPIClose,
      android_net_wimax_cmdControlPowerManagement, android_net_wimax_cmdResetWimaxDevice,
      android_net_wimax_cmdResetToFactorySettings, android_net_wimax_setServiceProviderUnLock,
      android_net_wimax_cmdConnectToNetwork, android_net_wimax_cmdDisconnectFromNetwork,
      android_net_wimax_cmdNetworkSearchWideScan, android_net_wimax_setRoamingMode,
      android_net_wimax_setPackageUpdateState,
      android_net_wimax_subscribeDeviceStatusChange, android_net_wimax_subscribeDeviceInsertRemove,
      android_net_wimax_subscribeControlPowerManagement, android_net_wimax_subscribeConnectToNetwork,
      android_net_wimax_subscribeDisconnectToNetwork,
      android_net_wimax_subscribeNetworkSearchWideScan,
      android_net_wimax_subscribeProvisioningOperation, android_net_wimax_subscribePackageUpdate,
      android_net_wimax_unsubscribeDeviceStatusChange,
      android_net_wimax_unsubscribeDeviceInsertRemove,
      android_net_wimax_unsubscribeControlPowerManagement,
      android_net_wimax_unsubscribeConnectToNetwork,
      android_net_wimax_unsubscribeDisconnectToNetwork,
      android_net_wimax_unsubscribeNetworkSearchWideScan,
      android_net_wimax_unsubscribeProvisioningOperation,
      android_net_wimax_unsubscribePackageUpdate]

/-! ## Callback registration -/

/-- The run of a handler that attached, with the VM stored and the callback `cb` of
its kind registered: the attach, at most one invocation, of `cb`, then the detach. -/
theorem notify_events (g : Globals) (attach detach : Int) (n : Notification) (vm : Nat)
    (cb : JCallback) (hvm : g.g_jVM = some vm) (hcb : g.callback n.kind = some cb)
    (hat : attach = JNI_OK) :
    ∃ (call : List Event) (signature : String),
      notify g attach detach n =
        ⟨.AttachCurrentThread attach :: (call ++ .DetachCurrentThread detach ::
          (if detach ≠ JNI_OK then [.LOGE "DetachCurrentThread() failed"] else [])), none⟩ ∧
      (call = [] ∨ ∃ args, call = [.CallVoidMethod cb signature args]) ∧
      (GetMethodID cb "callback" n.kind.signature = true → call ≠ []) := by
  cases n with
    | IndDeviceStatusUpdate p a b c =>
      obtain ⟨call, h1, h2, h3⟩ :=
        fun_IndDeviceStatusUpdate_events g attach detach p a b c vm cb hvm hcb hat
      exact ⟨call, _, h1, h2, fun hm => h3 hm⟩
    | IndDeviceInsertRemove p a =>
      obtain ⟨call, h1, h2, h3⟩ :=
        fun_IndDeviceInsertRemove_events g attach detach p a vm cb hvm hcb hat
      exact ⟨call, _, h1, h2, fun hm => h3 hm⟩
    | IndControlPowerManagement p a =>
      obtain ⟨call, h1, h2, h3⟩ :=
        fun_IndControlPowerManagement_events g attach detach p a vm cb hvm hcb hat
      exact ⟨call, _, h1, h2, fun hm => h3 hm⟩
    | IndConnectToNetwork p a =>
      obtain ⟨call, h1, h2, h3⟩ :=
        fun_IndConnectToNetwork_events g attach detach p a vm cb hvm hcb hat
      exact ⟨call, _, h1, h2, fun hm => h3 hm⟩
    | IndDisconnectToNetwork p a =>
      obtain ⟨call, h1, h2, h3⟩ :=
        fun_IndDisconnectToNetwork_events g attach detach p a vm cb hvm hcb hat
      exact ⟨call, _, h1, h2, fun hm => h3 hm⟩
    | IndNetworkSearchWideScan env p l m =>
      obtain ⟨call, h1, h2, h3⟩ :=
        fun_IndNetworkSearchWideScan_events g attach detach env p l m vm cb hvm hcb hat
      exact ⟨call, _, h1, h2, fun hm => h3 hm⟩
    | IndProvisioningOperation p a b =>
      obtain ⟨call, h1, h2, h3⟩ :=
        fun_IndProvisioningOperation_events g attach detach p a b vm cb hvm hcb hat
      exact ⟨call, _, h1, h2, fun hm => h3 hm⟩
    | IndPackageUpdate p a =>
      obtain ⟨call, h1, h2, h3⟩ :=
        fun_IndPackageUpdate_events g attach detach p a vm cb hvm hcb hat
      exact ⟨call, _, h1, h2, fun hm => h3 hm⟩

/-- Every callback invocation of a handler targets the stored callback of its kind. -/
theorem notify_target (g : Globals) (attach detach : Int) (n : Notification) (e : Event)
    (he : e ∈ (notify g attach detach n).events) (hc : e.isCallback = true) :
    e.target = g.callback n.kind := by
  cases hvm : g.g_jVM with
  | none =>
    cases n <;> simp [notify, hvm, fun_IndDeviceStatusUpdate, fun_IndDeviceInsertRemove, fun_IndControlPowerManagement, fun_IndConnectToNetwork, fun_IndDisconnectToNetwork, fun_IndNetworkSearchWideScan, fun_IndProvisioningOperation, fun_IndPackageUpdate] at he
  | some vm =>
    by_cases hat : attach = JNI_OK
    · cases hcb : g.callback n.kind with
      | none =>
        cases n <;> simp only [Notification.kind, Globals.callback] at hcb <;>
          simp [notify, hvm, hcb, hat, fun_IndDeviceStatusUpdate, fun_IndDeviceInsertRemove, fun_IndControlPowerManagement, fun_IndConnectToNetwork, fun_IndDisconnectToNetwork, fun_IndNetworkSearchWideScan, fun_IndProvisioningOperation, fun_IndPackageUpdate] at he <;>
          simp [he, Event.isCallback] at hc
      | some cb =>
        obtain ⟨call, signature, hrun, hcall, -⟩ :=
          notify_events g attach detach n vm cb hvm hcb hat
        rw [hrun] at he
        have hmem : e ∈ call := by
          simp only [List.mem_cons, List.mem_append] at he
          rcases he with h | h | h | h
          · subst h
            simp [Event.isCallback] at hc
          · exact h
          · subst h
            simp [Event.isCallback] at hc
          · by_cases hd : detach = JNI_OK
            · simp [hd] at h
            · simp [hd] at h
              subst h
              simp [Event.isCallback] at hc
        rcases hcall with h | ⟨args, h⟩
        · subst h
          simp at hmem
        · subst h
          simp only [List.mem_singleton] at hmem
          subst hmem
          rfl
    · cases n <;> simp [notify, hvm, hat, fun_IndDeviceStatusUpdate, fun_IndDeviceInsertRemove, fun_IndControlPowerManagement, fun_IndConnectToNetwork, fun_IndDisconnectToNetwork, fun_IndNetworkSearchWideScan, fun_IndProvisioningOperation, fun_IndPackageUpdate] at he <;>
        rcases he with he | he <;> subst he <;> simp [Event.isCallback] at hc

/-- C8. For each of the eight kinds: the subscribe method stores the callback it is
given as the stored callback reference of its kind, whatever the SDK call returns, and
leaves the other seven stored references and the global device id as they are; every
other native method, the unsubscribe methods among them, leaves the stored reference of
the kind as it is; and the handler of the kind invokes no managed object but the stored
callback of its kind, and does invoke it once the attach succeeds, the VM is stored and
the callback's class has the `callback` method. -/
theorem callback_registration (sdk : WiMaxSDK) (env : JNIEnv) (g : Globals) (k : CallbackKind)
    (jdeviceId : JDeviceId) (callback : Option JCallback) :
    (invoke sdk env g (.subscribe k jdeviceId callback)).globals.callback k = callback ∧
    (∀ k1, k1 ≠ k →
      (invoke sdk env g (.subscribe k jdeviceId callback)).globals.callback k1 = g.callback k1) ∧
    (invoke sdk env g (.subscribe k jdeviceId callback)).globals.deviceId = g.deviceId ∧
    (∀ c : NativeCall, c.subscribedKind ≠ some k →
      (invoke sdk env g c).globals.callback k = g.callback k) ∧
    (∀ k1 j1 k2, (invoke sdk env g (.unsubscribe k1 j1)).globals.callback k2 = g.callback k2) ∧
    (∀ attach detach n e, n.kind = k → e ∈ (notify g attach detach n).events →
      e.isCallback = true → e.target = g.callback k) ∧
    (∀ attach detach n cb, n.kind = k → attach = JNI_OK → g.g_jVM ≠ none →
      g.callback k = some cb → GetMethodID cb "callback" k.signature = true →
      ∃ e, e ∈ (notify g attach detach n).events ∧ e.isCallback = true ∧
        e.target = some cb) := by
  refine ⟨?_, ?_, ?_, ?_, ?_, ?_, ?_⟩
  · cases k <;> rfl
  · intro k1 hk
    apply invoke_callback
    cases k <;> cases k1 <;> simp [NativeCall.subscribe, NativeCall.subscribedKind] at hk ⊢
  · cases k <;> rfl
  · intro c hc
    exact invoke_callback sdk env g c k hc
  · intro k1 j1 k2
    apply invoke_callback
    cases k1 <;> simp [NativeCall.unsubscribe, NativeCall.subscribedKind]
  · intro attach detach n e hn he hc
    rw [← hn]
    exact notify_target g attach detach n e he hc
  · intro attach detach n cb hn hat hvm hcb hm
    cases hv : g.g_jVM with
    | none => exact absurd hv hvm
    | some vm =>
      subst hn
      obtain ⟨call, signature, hrun, hcall, hne⟩ :=
        notify_events g attach detach n vm cb hv hcb hat
      rcases hcall with h | ⟨args, h⟩
      · exact absurd h (hne hm)
      · refine ⟨.CallVoidMethod cb signature args, ?_, rfl, rfl⟩
        rw [hrun, h]
        simp

/-- C8 at the device-status kind: the handler invokes the callback just subscribed. -/
theorem callback_registration_witness :
    ((Notification.IndDeviceStatusUpdate none 1 2 3).kind = CallbackKind.deviceStatusChange ∧
      JNI_OK = JNI_OK ∧
      (invoke (WiMaxSDK.sample 2) JNIEnv.sample Globals.sample
        (.subscribe .deviceStatusChange JDeviceId.sample (some JCallback.sample))).globals.g_jVM
          ≠ none ∧
      (invoke (WiMaxSDK.sample 2) JNIEnv.sample Globals.sample
        (.subscribe .deviceStatusChange JDeviceId.sample (some JCallback.sample))).globals.callback
          .deviceStatusChange = some JCallback.sample ∧
      GetMethodID JCallback.sample "callback" CallbackKind.deviceStatusChange.signature = true) ∧
    ∃ e, e ∈ (notify (invoke (WiMaxSDK.sample 2) JNIEnv.sample Globals.sample
        (.subscribe .deviceStatusChange JDeviceId.sample (some JCallback.sample))).globals
        JNI_OK JNI_OK (.IndDeviceStatusUpdate none 1 2 3)).events ∧
      e.isCallback = true ∧ e.target = some JCallback.sample :=
  ⟨⟨rfl, rfl, by decide, by decide, by decide⟩,
    (callback_registration (WiMaxSDK.sample 2) JNIEnv.sample
      (invoke (WiMaxSDK.sample 2) JNIEnv.sample Globals.sample
        (.subscribe .deviceStatusChange JDeviceId.sample (some JCallback.sample))).globals
      .deviceStatusChange JDeviceId.sample none).2.2.2.2.2.2
      JNI_OK JNI_OK (.IndDeviceStatusUpdate none 1 2 3) JCallback.sample rfl rfl
      (by decide) (by decide) (by decide)⟩

/-! ## Fields of managed objects -/

theorem JObject.get_set (o : JObject) (n m : String) (v : JValue) :
    (o.set n v).get m = if m = n then (o.get m).map (fun _ => v) else o.get m := by
  obtain ⟨fs⟩ := o
  simp only [JObject.set, JObject.get]
  induction fs with
  | nil => simp
  | cons p rest ih =>
    obtain ⟨k, w⟩ := p
    by_cases hk : k = n
    · subst hk
      by_cases hm : m = k
      · subst hm
        simp [List.lookup_cons]
      · have : (m == k) = false := by simpa using hm
        simp [List.lookup_cons, this, hm] at ih ⊢
        exact ih
    · by_cases hm : m = k
      · subst hm
        have hmn : ¬ m = n := hk
        simp [List.lookup_cons, hk, hmn]
      · have : (m == k) = false := by simpa using hm
        simp only [List.map_cons, hk, if_false, List.lookup_cons, this]
        exact ih

theorem JObject.names_set (o : JObject) (n : String) (v : JValue) :
    (o.set n v).fields.map Prod.fst = o.fields.map Prod.fst := by
  obtain ⟨fs⟩ := o
  simp only [JObject.set, List.map_map]
  apply List.map_congr_left
  intro p _
  simp only [Function.comp]
  split <;> rfl

/-- Setting a field to a value of the type the field has leaves every field id as it is. -/
theorem GetFieldID_set (o : JObject) (n m sig : String) (v w : JValue)
    (hget : o.get n = some w) (hsig : v.signature = w.signature) :
    GetFieldID (o.set n v) m sig = GetFieldID o m sig := by
  unfold GetFieldID
  rw [JObject.get_set]
  by_cases hm : m = n
  · subst hm
    simp [hget, hsig]
  · simp [hm]

theorem GetFieldID_eq_some (o : JObject) (n sig fid : String) (h : GetFieldID o n sig = some fid) :
    fid = n ∧ ∃ w, o.get n = some w ∧ w.signature = sig := by
  unfold GetFieldID at h
  cases hg : o.get n with
  | none => simp [hg] at h
  | some w =>
    simp only [hg] at h
    by_cases hs : w.signature = sig
    · simp only [hs, if_true, Option.some.injEq] at h
      exact ⟨h.symm, w, rfl, hs⟩
    · simp [hs] at h

theorem assignInt_get (o : JObject) (n m : String) (x : Int) :
    (assignInt o n x).get m =
      if m = n ∧ (GetFieldID o n "I").isSome = true then some (.int (toJint x)) else o.get m := by
  unfold assignInt
  cases h : GetFieldID o n "I" with
  | none => simp
  | some fid =>
    obtain ⟨rfl, w, hw, -⟩ := GetFieldID_eq_some o n "I" fid h
    simp only [JObject.get_set, Option.isSome_some, and_true]
    by_cases hm : m = fid
    · subst hm
      simp [hw]
    · simp [hm]

theorem GetFieldID_assignInt (o : JObject) (n m sig : String) (x : Int) :
    GetFieldID (assignInt o n x) m sig = GetFieldID o m sig := by
  unfold assignInt
  cases h : GetFieldID o n "I" with
  | none => rfl
  | some fid =>
    obtain ⟨rfl, w, hw, hs⟩ := GetFieldID_eq_some o n "I" fid h
    exact GetFieldID_set o fid m sig _ w hw (by rw [hs]; rfl)

theorem assignInt_names (o : JObject) (n : String) (x : Int) :
    (assignInt o n x).fields.map Prod.fst = o.fields.map Prod.fst := by
  unfold assignInt
  split
  · exact JObject.names_set _ _ _
  · rfl

theorem assignByte_get (o : JObject) (n m : String) (x : Int) :
    (assignByte o n x).get m =
      if m = n ∧ (GetFieldID o n "B").isSome = true then some (.byte (toJbyte (toUINT8 x)))
      else o.get m := by
  unfold assignByte
  cases h : GetFieldID o n "B" with
  | none => simp
  | some fid =>
    obtain ⟨rfl, w, hw, -⟩ := GetFieldID_eq_some o n "B" fid h
    simp only [JObject.get_set, Option.isSome_some, and_true]
    by_cases hm : m = fid
    · subst hm
      simp [hw]
    · simp [hm]

theorem GetFieldID_assignByte (o : JObject) (n m sig : String) (x : Int) :
    GetFieldID (assignByte o n x) m sig = GetFieldID o m sig := by
  unfold assignByte
  cases h : GetFieldID o n "B" with
  | none => rfl
  | some fid =>
    obtain ⟨rfl, w, hw, hs⟩ := GetFieldID_eq_some o n "B" fid h
    exact GetFieldID_set o fid m sig _ w hw (by rw [hs]; rfl)

theorem assignByte_names (o : JObject) (n : String) (x : Int) :
    (assignByte o n x).fields.map Prod.fst = o.fields.map Prod.fst := by
  unfold assignByte
  split
  · exact JObject.names_set _ _ _
  · rfl

theorem assignString_get (env : JNIEnv) (o : JObject) (n m : String) (c : String) :
    (assignString env o n c).get m =
      if m = n ∧ (GetFieldID o n "Ljava/lang/String;").isSome = true
          ∧ (env.NewStringUTF c).isSome = true
      then some (.string (env.NewStringUTF c)) else o.get m := by
  unfold assignString
  cases hs : env.NewStringUTF c with
  | none => simp
  | some jStr =>
    cases h : GetFieldID o n "Ljava/lang/String;" with
    | none => simp
    | some fid =>
      obtain ⟨rfl, w, hw, -⟩ := GetFieldID_eq_some o n _ fid h
      simp only [JObject.get_set, Option.isSome_some, and_true]
      by_cases hm : m = fid
      · subst hm
        simp [hw]
      · simp [hm]

theorem GetFieldID_assignString (env : JNIEnv) (o : JObject) (n m sig : String) (c : String) :
    GetFieldID (assignString env o n c) m sig = GetFieldID o m sig := by
  unfold assignString
  cases hs : env.NewStringUTF c with
  | none => rfl
  | some jStr =>
    cases h : GetFieldID o n "Ljava/lang/String;" with
    | none => rfl
    | some fid =>
      obtain ⟨rfl, w, hw, hs⟩ := GetFieldID_eq_some o n _ fid h
      exact GetFieldID_set o fid m sig _ w hw (by rw [hs]; rfl)

theorem assignString_names (env : JNIEnv) (o : JObject) (n : String) (c : String) :
    (assignString env o n c).fields.map Prod.fst = o.fields.map Prod.fst := by
  unfold assignString
  split
  · split
    · exact JObject.names_set _ _ _
    · rfl
  · rfl

/-- The loop of the list getters: it stores one new object at each index below `n`
and does not fault while `n` stays within the array, which has as many elements as
the native buffer. -/
theorem forLoop_store (mk : Nat → JObject) (n : Nat) (l : List (Option JObject))
    (hn : n ≤ l.length) :
    ∃ l1 : List (Option JObject),
      forLoop n
        (fun i (list : List (Option JObject)) =>
          if i < l.length then
            match setElement list i (some (mk i)) with
            | none => (list, some Fault.outOfBounds)
            | some list1 => (list1, none)
          else (list, some Fault.outOfBounds))
        l = (l1, none) ∧
      l1.length = l.length ∧
      (∀ i, i < n → l1[i]? = some (some (mk i))) ∧
      (∀ i, n ≤ i → l1[i]? = l[i]?) := by
  induction n with
  | zero => exact ⟨l, by simp [forLoop_zero]⟩
  | succ n ih =>
    obtain ⟨l1, h1, hlen, hlt, hge⟩ := ih (Nat.le_of_succ_le hn)
    have hn1 : n < l1.length := by omega
    have hn2 : n < l.length := by omega
    refine ⟨l1.set n (some (mk n)), ?_, ?_, ?_, ?_⟩
    · rw [forLoop_succ, h1]
      simp [setElement, hn1, hn2]
    · simp [hlen]
    · intro i hi
      by_cases hin : i = n
      · subst hin
        simp [hn1]
      · have : i < n := by omega
        rw [List.getElem?_set_ne (Ne.symm hin)]
        exact hlt i this
    · intro i hi
      have hne : n ≠ i := by omega
      rw [List.getElem?_set_ne hne]
      exact hge i (by omega)

/-! ## The network list -/

theorem toJint_of_fits (x : Int) (h0 : -2147483648 ≤ x) (h1 : x < 2147483648) : toJint x = x := by
  unfold toJint
  omega

/-- C7. When `GetNetworkList` returns `WIMAX_API_RET_SUCCESS` and reports `listSize`
entries, `listSize` not greater than the length of the managed array (and strings can be
created, the class `NSPInfo` declares the six fields and `size` has an element 0):
`android_net_wimax_getNetworkList` returns the code; every element `i < listSize` of
`networkList` is an object made by the constructor of `NSPInfo` whose `structureSize`,
`nspName`, `nspId`, `rssi`, `cinr` and `networkType` hold the fields of entry `i` of the
native list, converted to the Java types of the fields, every other field being as the
constructor left it; every element at an index `≥ listSize` is unchanged; and `size[0]`
is `listSize`. -/
theorem getNetworkList_success (sdk : WiMaxSDK) (env : JNIEnv) (g : Globals)
    (jdeviceId : JDeviceId) (networkList : List (Option JObject)) (size : List Int)
    (nspList : Nat → WIMAX_API_NSP_INFO) (listSize : Int)
    (hsdk : sdk.GetNetworkList g.deviceId networkList.length
      = (sdk.WIMAX_API_RET_SUCCESS, nspList, listSize))
    (hn0 : 0 ≤ listSize) (hn : listSize ≤ networkList.length)
    (hlen : networkList.length < 2147483648) (hsize : 0 < size.length)
    (hstr : ∀ c, env.NewStringUTF c = some c)
    (h1 : (GetFieldID (env.NewObject "android/net/wimax/structs/NSPInfo")
      "structureSize" "I").isSome = true)
    (h2 : (GetFieldID (env.NewObject "android/net/wimax/structs/NSPInfo")
      "nspName" "Ljava/lang/String;").isSome = true)
    (h3 : (GetFieldID (env.NewObject "android/net/wimax/structs/NSPInfo")
      "nspId" "I").isSome = true)
    (h4 : (GetFieldID (env.NewObject "android/net/wimax/structs/NSPInfo")
      "rssi" "B").isSome = true)
    (h5 : (GetFieldID (env.NewObject "android/net/wimax/structs/NSPInfo")
      "cinr" "B").isSome = true)
    (h6 : (GetFieldID (env.NewObject "android/net/wimax/structs/NSPInfo")
      "networkType" "I").isSome = true) :
    (android_net_wimax_getNetworkList sdk env g jdeviceId networkList size).ret
      = .returned sdk.WIMAX_API_RET_SUCCESS ∧
    (∀ i : Nat, (i : Int) < listSize →
      ∃ nsp : JObject,
        (android_net_wimax_getNetworkList sdk env g jdeviceId networkList size).out.1[i]?
          = some (some nsp) ∧
        nsp.get "structureSize" = some (.int (toJint (nspList i).structureSize)) ∧
        nsp.get "nspName" = some (.string (some (nspList i).NSPName)) ∧
        nsp.get "nspId" = some (.int (toJint (nspList i).NSPid)) ∧
        nsp.get "rssi" = some (.byte (toJbyte (toUINT8 (nspList i).RSSI))) ∧
        nsp.get "cinr" = some (.byte (toJbyte (toUINT8 (nspList i).CINR))) ∧
        nsp.get "networkType" = some (.int (toJint (nspList i).networkType)) ∧
        nsp.fields.map Prod.fst
          = (env.NewObject "android/net/wimax/structs/NSPInfo").fields.map Prod.fst ∧
        (∀ m : String, m ≠ "structureSize" → m ≠ "nspName" → m ≠ "nspId" → m ≠ "rssi" →
          m ≠ "cinr" → m ≠ "networkType" →
          nsp.get m = (env.NewObject "android/net/wimax/structs/NSPInfo").get m)) ∧
    (∀ i : Nat, listSize ≤ (i : Int) →
      (android_net_wimax_getNetworkList sdk env g jdeviceId networkList size).out.1[i]?
        = networkList[i]?) ∧
    (android_net_wimax_getNetworkList sdk env g jdeviceId networkList size).out.2
      = size.set 0 listSize := by
  have hj : toJint listSize = listSize := toJint_of_fits listSize (by omega) (by omega)
  obtain ⟨l1, hloop, -, hlt, hge⟩ := forLoop_store
    (fun i => assignInt (assignByte (assignByte (assignInt (assignString env
      (assignInt (env.NewObject "android/net/wimax/structs/NSPInfo") "structureSize"
        (nspList i).structureSize) "nspName" (nspList i).NSPName) "nspId" (nspList i).NSPid)
      "rssi" (nspList i).RSSI) "cinr" (nspList i).CINR) "networkType" (nspList i).networkType)
    listSize.toNat networkList (by omega)
  have hrun : android_net_wimax_getNetworkList sdk env g jdeviceId networkList size
      = ⟨g, [⟨"GetNetworkList", g.deviceId, [], [], sdk.WIMAX_API_RET_SUCCESS⟩],
          (l1, size.set 0 listSize), .returned sdk.WIMAX_API_RET_SUCCESS⟩ := by
    unfold android_net_wimax_getNetworkList
    simp only [hsdk, hj, if_true]
    rw [hloop]
    simp [setElement, hsize]
  rw [hrun]
  refine ⟨rfl, ?_, ?_, rfl⟩
  · intro i hi
    refine ⟨_, hlt i (by omega), ?_, ?_, ?_, ?_, ?_, ?_, ?_, ?_⟩
    · simp [assignInt_get, assignByte_get, assignString_get, h1]
    · simp [assignInt_get, assignByte_get, assignString_get, GetFieldID_assignInt, h2, hstr]
    · simp [assignInt_get, assignByte_get, assignString_get, GetFieldID_assignInt,
        GetFieldID_assignString, h3]
    · simp [assignInt_get, assignByte_get, assignString_get, GetFieldID_assignInt,
        GetFieldID_assignString, h4]
    · simp [assignInt_get, assignByte_get, assignString_get, GetFieldID_assignInt,
        GetFieldID_assignString, GetFieldID_assignByte, h5]
    · simp [assignInt_get, assignByte_get, assignString_get, GetFieldID_assignInt,
        GetFieldID_assignString, GetFieldID_assignByte, h6]
    · simp [assignInt_names, assignByte_names, assignString_names]
    · intro m m1 m2 m3 m4 m5 m6
      simp [assignInt_get, assignByte_get, assignString_get, m1, m2, m3, m4, m5, m6]
  · intro i hi
    exact hge i (by omega)

/-- C7 at an SDK that reports two networks for an array of three elements. -/
theorem getNetworkList_success_witness :
    (android_net_wimax_getNetworkList WiMaxSDK.twoNetworks JNIEnv.sample Globals.sample
      JDeviceId.sample [none, none, some ⟨[]⟩] [0]).out.2 = [2] ∧
    (android_net_wimax_getNetworkList WiMaxSDK.twoNetworks JNIEnv.sample Globals.sample
      JDeviceId.sample [none, none, some ⟨[]⟩] [0]).out.1[2]? = some (some ⟨[]⟩) :=
  have h := getNetworkList_success WiMaxSDK.twoNetworks JNIEnv.sample Globals.sample
    JDeviceId.sample [none, none, some ⟨[]⟩] [0]
    (fun i => if i = 0 then ⟨40, "alpha", 11, 30, 20, 0⟩ else ⟨40, "beta", 12, 200, 21, 1⟩) 2
    rfl (by decide) (by decide) (by decide) (by decide) (fun _ => rfl)
    (by decide) (by decide) (by decide) (by decide) (by decide) (by decide)
  ⟨h.2.2.2, h.2.2.1 2 (by decide)⟩

/-! ## The JNI method table -/

/-- C10, on the code: exactly two entries of `gWimaxMethods` have a signature that
differs from the declaration of the function they map to, `CmdControlPowerManagement`
and `GetContactInformation`; each signature starts with a `DeviceId` parameter the
function does not declare. -/
theorem gWimaxMethods_inconsistent :
    (gWimaxMethods.filter (fun m => !m.consistent)).map (fun m => m.name)
      = ["CmdControlPowerManagement", "GetContactInformation"] ∧
    parseSignature "(Landroid/net/wimax/structs/DeviceId;I)I" = some ([.jobject, .jint], .jint) ∧
    nativeDeclarations.lookup "android_net_wimax_cmdControlPowerManagement"
      = some ([.jint], .jint) ∧
    parseSignature
      "(Landroid/net/wimax/structs/DeviceId;Ljava/lang/String;[Landroid/net/wimax/structs/ContactInfo;[I)I"
      = some ([.jobject, .jstring, .jobjectArray, .jintArray], .jint) ∧
    nativeDeclarations.lookup "android_net_wimax_getContactInformation"
      = some ([.jstring, .jobjectArray, .jintArray], .jint) := by
  refine ⟨?_, ?_, ?_, ?_, ?_⟩ <;> decide

/-! ## Bytes -/

/-- C18, as the code has it. For every native unsigned byte value `v` in `0..255`
passed to `assignByte` and an existing managed field of type `byte`, the managed field
afterwards holds `v` when `v ≤ 127` and `v - 256` when `v ≥ 128`: the same eight bits,
read as a signed Java `byte`. -/
theorem assignByte_value (jObj : JObject) (fieldName : String) (v : Int)
    (h0 : 0 ≤ v) (h1 : v < 256) (hfield : (GetFieldID jObj fieldName "B").isSome = true) :
    (assignByte jObj fieldName v).get fieldName
      = some (.byte (if v < 128 then v else v - 256)) := by
  rw [assignByte_get]
  simp only [hfield, and_self, if_true, Option.some.injEq, JValue.byte.injEq]
  unfold toJbyte toUINT8
  split <;> omega

/-- The stored value at `v = 100` and at `v = 200`. -/
theorem assignByte_value_witness :
    ((0 : Int) ≤ 200 ∧ (200 : Int) < 256 ∧
      (GetFieldID JObject.oneByte "rssi" "B").isSome = true) ∧
    (assignByte JObject.oneByte "rssi" 200).get "rssi" = some (.byte (-56)) :=
  ⟨⟨by decide, by decide, by decide⟩,
    assignByte_value JObject.oneByte "rssi" 200 (by decide) (by decide) (by decide)⟩

/-- C18 fails as stated: the native byte `200` is passed to `assignByte` for an
existing `byte` field, and the field holds `-56` afterwards, not `200`. -/
theorem assignByte_wraps :
    (GetFieldID JObject.oneByte "rssi" "B").isSome = true ∧
    (assignByte JObject.oneByte "rssi" 200).get "rssi" = some (.byte (-56)) ∧
    (assignByte JObject.oneByte "rssi" 200).get "rssi" ≠ some (.byte 200) := by
  decide

/-! ## Enumerations handed to the SDK -/

/-- C19. `android_net_wimax_setPackageUpdateState` calls the SDK exactly once, with
`WIMAX_API_PACKAGE_UPDATE_DELAY` for the state `0`, `WIMAX_API_PACKAGE_UPDATE_ACCEPTED`
for `1`, `WIMAX_API_PACKAGE_UPDATE_DENIED` for `2` and `WIMAX_API_PACKAGE_UPDATE_DELAY`
for every other integer, and returns the code of that call. -/
theorem setPackageUpdateState_mapping (sdk : WiMaxSDK) (g : Globals) (jdeviceId : JDeviceId)
    (state : Int) :
    ∃ updateState : Int,
      (android_net_wimax_setPackageUpdateState sdk g jdeviceId state).sdkCalls
        = [⟨"SetPackageUpdateState", g.deviceId, [updateState], [],
            sdk.SetPackageUpdateState g.deviceId updateState⟩] ∧
      (android_net_wimax_setPackageUpdateState sdk g jdeviceId state).ret
        = .returned (sdk.SetPackageUpdateState g.deviceId updateState) ∧
      (state = 0 → updateState = sdk.WIMAX_API_PACKAGE_UPDATE_DELAY) ∧
      (state = 1 → updateState = sdk.WIMAX_API_PACKAGE_UPDATE_ACCEPTED) ∧
      (state = 2 → updateState = sdk.WIMAX_API_PACKAGE_UPDATE_DENIED) ∧
      (state ≠ 0 → state ≠ 1 → state ≠ 2 →
        updateState = sdk.WIMAX_API_PACKAGE_UPDATE_DELAY) := by
  refine ⟨_, rfl, rfl, ?_, ?_, ?_, ?_⟩
  · intro h
    simp [h]
  · intro h
    simp [h]
  · intro h
    simp [h]
  · intro h0 h1 h2
    simp [h0, h1, h2]

/-- C19 at the states `2` and `-7`. -/
theorem setPackageUpdateState_mapping_witness :
    (android_net_wimax_setPackageUpdateState (WiMaxSDK.sample 1) Globals.sample
      JDeviceId.sample 2).sdkCalls
      = [⟨"SetPackageUpdateState", Globals.sample.deviceId, [2], [], 1⟩] ∧
    (android_net_wimax_setPackageUpdateState (WiMaxSDK.sample 1) Globals.sample
      JDeviceId.sample (-7)).sdkCalls
      = [⟨"SetPackageUpdateState", Globals.sample.deviceId, [0], [], 1⟩] := by
  obtain ⟨u, h1, -, -, -, h2, -⟩ := setPackageUpdateState_mapping (WiMaxSDK.sample 1)
    Globals.sample JDeviceId.sample 2
  obtain ⟨w, k1, -, -, -, -, k2⟩ := setPackageUpdateState_mapping (WiMaxSDK.sample 1)
    Globals.sample JDeviceId.sample (-7)
  rw [h1, k1, h2 rfl, k2 (by decide) (by decide) (by decide)]
  exact ⟨rfl, rfl⟩

/-- C20. `android_net_wimax_cmdControlPowerManagement` calls the SDK exactly once, with
`WIMAX_API_RF_OFF` when its integer argument is `1` and with `WIMAX_API_RF_ON` for every
other integer, and returns the code of that call. -/
theorem cmdControlPowerManagement_mapping (sdk : WiMaxSDK) (g : Globals) (pwrState : Int) :
    ∃ state : Int,
      (android_net_wimax_cmdControlPowerManagement sdk g pwrState).sdkCalls
        = [⟨"CmdControlPowerManagement", g.deviceId, [state], [],
            sdk.CmdControlPowerManagement g.deviceId state⟩] ∧
      (android_net_wimax_cmdControlPowerManagement sdk g pwrState).ret
        = .returned (sdk.CmdControlPowerManagement g.deviceId state) ∧
      (pwrState = 1 → state = sdk.WIMAX_API_RF_OFF) ∧
      (pwrState ≠ 1 → state = sdk.WIMAX_API_RF_ON) := by
  refine ⟨_, rfl, rfl, ?_, ?_⟩
  · intro h
    simp [h]
  · intro h
    simp [h]

/-- C20 at the arguments `1`, `0` and `-3`. -/
theorem cmdControlPowerManagement_mapping_witness :
    (android_net_wimax_cmdControlPowerManagement (WiMaxSDK.sample 1) Globals.sample 1).sdkCalls
      = [⟨"CmdControlPowerManagement", Globals.sample.deviceId, [1], [], 1⟩] ∧
    (android_net_wimax_cmdControlPowerManagement (WiMaxSDK.sample 1) Globals.sample 0).sdkCalls
      = [⟨"CmdControlPowerManagement", Globals.sample.deviceId, [0], [], 1⟩] ∧
    (android_net_wimax_cmdControlPowerManagement (WiMaxSDK.sample 1) Globals.sample (-3)).sdkCalls
      = [⟨"CmdControlPowerManagement", Globals.sample.deviceId, [0], [], 1⟩] := by
  obtain ⟨a, a1, -, a2, -⟩ := cmdControlPowerManagement_mapping (WiMaxSDK.sample 1)
    Globals.sample 1
  obtain ⟨b, b1, -, -, b2⟩ := cmdControlPowerManagement_mapping (WiMaxSDK.sample 1)
    Globals.sample 0
  obtain ⟨c, c1, -, -, c2⟩ := cmdControlPowerManagement_mapping (WiMaxSDK.sample 1)
    Globals.sample (-3)
  rw [a1, b1, c1, a2 rfl, b2 (by decide), c2 (by decide)]
  exact ⟨rfl, rfl, rfl⟩

/-! ## Opening a device -/

/-- C11, as the code has it. With the field-id cache populated,
`android_net_wimax_wimaxDeviceOpen` makes the struct read from the managed `DeviceId`
the global device id, and hands it to `WiMaxDeviceOpen`, exactly when the `deviceIndex`
of the object (a Java `byte`) is non-zero; when it is zero the global device id is
unchanged and is the one handed to `WiMaxDeviceOpen`.  With the cache empty nothing is
read from the object: the global device id is unchanged and handed to the SDK, whatever
the `deviceIndex`.  The code of `WiMaxDeviceOpen` is returned. -/
theorem wimaxDeviceOpen_replaces (sdk : WiMaxSDK) (g : Globals) (jdeviceId : JDeviceId)
    (read : WIMAX_API_DEVICE_ID)
    (hread : read = ⟨toUINT32 jdeviceId.structureSize, toJint jdeviceId.sdkHandle,
      toJint jdeviceId.privilege, toUINT8 jdeviceId.deviceIndex, toUINT32 jdeviceId.apiVersion,
      jdeviceId.devicePresenceStatus⟩)
    (hbyte : -128 ≤ jdeviceId.deviceIndex ∧ jdeviceId.deviceIndex < 128) :
    (g.deviceIdFieldIds.deviceIdClass ≠ none → jdeviceId.deviceIndex ≠ 0 →
      (android_net_wimax_wimaxDeviceOpen sdk g jdeviceId).globals.deviceId = some read ∧
      (android_net_wimax_wimaxDeviceOpen sdk g jdeviceId).sdkCalls
        = [⟨"WiMaxDeviceOpen", some read, [], [], sdk.WiMaxDeviceOpen (some read)⟩] ∧
      (android_net_wimax_wimaxDeviceOpen sdk g jdeviceId).ret
        = .returned (sdk.WiMaxDeviceOpen (some read))) ∧
    (g.deviceIdFieldIds.deviceIdClass = none ∨ jdeviceId.deviceIndex = 0 →
      (android_net_wimax_wimaxDeviceOpen sdk g jdeviceId).globals.deviceId = g.deviceId ∧
      (android_net_wimax_wimaxDeviceOpen sdk g jdeviceId).sdkCalls
        = [⟨"WiMaxDeviceOpen", g.deviceId, [], [], sdk.WiMaxDeviceOpen g.deviceId⟩] ∧
      (android_net_wimax_wimaxDeviceOpen sdk g jdeviceId).ret
        = .returned (sdk.WiMaxDeviceOpen g.deviceId)) := by
  constructor
  · intro hcache hne
    cases hcls : g.deviceIdFieldIds.deviceIdClass with
    | none => exact absurd hcls hcache
    | some cls =>
      have hacc : accessDeviceId g.deviceIdFieldIds jdeviceId WIMAX_API_DEVICE_ID.zero = read := by
        rw [hread]
        simp [accessDeviceId, hcls]
      have hidx : read.deviceIndex ≠ 0 := by
        rw [hread]
        simp only [toUINT8]
        omega
      simp [android_net_wimax_wimaxDeviceOpen, hacc, hidx]
  · intro h
    have hidx : (accessDeviceId g.deviceIdFieldIds jdeviceId WIMAX_API_DEVICE_ID.zero).deviceIndex
        = 0 := by
      cases hcls : g.deviceIdFieldIds.deviceIdClass with
      | none => simp [accessDeviceId, hcls, WIMAX_API_DEVICE_ID.zero]
      | some cls =>
        rcases h with h | h
        · rw [hcls] at h
          cases h
        · simp [accessDeviceId, hcls, toUINT8, h]
    simp [android_net_wimax_wimaxDeviceOpen, hidx]

/-- The replacement at a managed `DeviceId` of device index `1`, the cache populated. -/
theorem wimaxDeviceOpen_replaces_witness :
    (Globals.sample.deviceIdFieldIds.deviceIdClass ≠ none ∧ JDeviceId.sample.deviceIndex ≠ 0) ∧
    (android_net_wimax_wimaxDeviceOpen (WiMaxSDK.sample 1) Globals.sample
      JDeviceId.sample).globals.deviceId = some ⟨24, 7, 1, 1, 65538, 1⟩ :=
  ⟨⟨by decide, by decide⟩,
    ((wimaxDeviceOpen_replaces (WiMaxSDK.sample 1) Globals.sample JDeviceId.sample
      ⟨24, 7, 1, 1, 65538, 1⟩ (by decide) (by decide)).1 (by decide) (by decide)).1⟩

/-- C11 fails as stated: the `deviceIndex` of the managed `DeviceId` is `1`, and with
the field-id cache empty the global device id is not replaced; the all-zero struct
stored before is handed to `WiMaxDeviceOpen`. -/
theorem wimaxDeviceOpen_keeps_without_cache :
    JDeviceId.sample.deviceIndex = 1 ∧
    Globals.noCache.deviceId = some WIMAX_API_DEVICE_ID.zero ∧
    (android_net_wimax_wimaxDeviceOpen (WiMaxSDK.sample 1) Globals.noCache
      JDeviceId.sample).globals.deviceId = some WIMAX_API_DEVICE_ID.zero ∧
    (android_net_wimax_wimaxDeviceOpen (WiMaxSDK.sample 1) Globals.noCache
      JDeviceId.sample).sdkCalls
      = [⟨"WiMaxDeviceOpen", some WIMAX_API_DEVICE_ID.zero, [], [], 1⟩] := by
  decide

/-! ## The NULL global device id -/

/-- C14, on the code: in the initial state, where the global device id is NULL, and
again after `wimaxAPIClose`, a `getListDevice` for which the SDK reports success and a
device of non-zero index performs the write `deviceId->deviceIndex` through the NULL
pointer. -/
theorem getListDevice_null_dereference :
    Globals.initial.deviceId = none ∧
    (invoke WiMaxSDK.oneDevice JNIEnv.sample Globals.initial
      (.getListDevice JDeviceId.sample [none] [0])).ret = .fault .nullPointer ∧
    (invoke WiMaxSDK.oneDevice JNIEnv.sample Globals.sample
      (.wimaxAPIClose JDeviceId.sample)).globals.deviceId = none ∧
    (invoke WiMaxSDK.oneDevice JNIEnv.sample
      (invoke WiMaxSDK.oneDevice JNIEnv.sample Globals.sample
        (.wimaxAPIClose JDeviceId.sample)).globals
      (.getListDevice JDeviceId.sample [none] [0])).ret = .fault .nullPointer := by
  decide

/-! ## The loop of `getListDevice` -/

theorem trackedIndex_last (deviceIndex : Nat → Int) (n : Nat) (init : Int) (k : Nat)
    (hk : k < n) (hne : deviceIndex k ≠ 0) (hz : ∀ i, k < i → i < n → deviceIndex i = 0) :
    trackedIndex deviceIndex n init = deviceIndex k := by
  induction n with
  | zero => omega
  | succ n ih =>
    by_cases hkn : k = n
    · subst hkn
      simp [trackedIndex, hne]
    · have hz0 : deviceIndex n = 0 := hz n (by omega) (by omega)
      simp only [trackedIndex, hz0, ne_eq, not_true_eq_false, if_false]
      exact ih (by omega) (fun i h1 h2 => hz i h1 (by omega))

theorem trackedIndex_none (deviceIndex : Nat → Int) (n : Nat) (init : Int)
    (hz : ∀ i, i < n → deviceIndex i = 0) : trackedIndex deviceIndex n init = init := by
  induction n with
  | zero => rfl
  | succ n ih =>
    have hz0 : deviceIndex n = 0 := hz n (by omega)
    simp only [trackedIndex, hz0, ne_eq, not_true_eq_false, if_false]
    exact ih (fun i h => hz i (by omega))

/-- The loop of `getListDevice` over `n` entries that fit the array, the global device
id being non-NULL: no fault, one new object per index, and the tracked device index. -/
theorem forLoop_track (mk : Nat → JObject) (deviceIndex : Nat → Int) (n : Nat)
    (l : List (Option JObject)) (d : WIMAX_API_DEVICE_ID) (hn : n ≤ l.length) :
    ∃ l1 : List (Option JObject),
      forLoop n
        (fun i (s : List (Option JObject) × Option WIMAX_API_DEVICE_ID) =>
          if i < l.length then
            match setElement s.1 i (some (mk i)) with
            | none => (s, some Fault.outOfBounds)
            | some list =>
              if deviceIndex i ≠ 0 then
                match s.2 with
                | some d => ((list, some { d with deviceIndex := deviceIndex i }), none)
                | none => ((list, none), some Fault.nullPointer)
              else ((list, s.2), none)
          else (s, some Fault.outOfBounds))
        (l, some d)
        = ((l1, some { d with deviceIndex := trackedIndex deviceIndex n d.deviceIndex }), none) ∧
      l1.length = l.length ∧
      (∀ i, i < n → l1[i]? = some (some (mk i))) ∧
      (∀ i, n ≤ i → l1[i]? = l[i]?) := by
  induction n with
  | zero => exact ⟨l, by simp [forLoop_zero, trackedIndex]⟩
  | succ n ih =>
    obtain ⟨l1, h1, hlen, hlt, hge⟩ := ih (Nat.le_of_succ_le hn)
    have hn1 : n < l1.length := by omega
    have hn2 : n < l.length := by omega
    refine ⟨l1.set n (some (mk n)), ?_, ?_, ?_, ?_⟩
    · rw [forLoop_succ, h1]
      by_cases hz : deviceIndex n = 0
      · simp [setElement, hn1, hn2, hz, trackedIndex]
      · simp [setElement, hn1, hn2, hz, trackedIndex]
    · simp [hlen]
    · intro i hi
      by_cases hin : i = n
      · subst hin
        simp [hn1]
      · have : i < n := by omega
        rw [List.getElem?_set_ne (Ne.symm hin)]
        exact hlt i this
    · intro i hi
      have hne : n ≠ i := by omega
      rw [List.getElem?_set_ne hne]
      exact hge i (by omega)

/-- The loop of `getListDevice` never makes a NULL global device id non-NULL, and it
stops with a fault other than an index out of bounds, or with none, while the entries
fit the array. -/
theorem forLoop_track_null (mk : Nat → JObject) (deviceIndex : Nat → Int) (n : Nat)
    (l l0 : List (Option JObject)) :
    (forLoop n
        (fun i (s : List (Option JObject) × Option WIMAX_API_DEVICE_ID) =>
          if i < l.length then
            match setElement s.1 i (some (mk i)) with
            | none => (s, some Fault.outOfBounds)
            | some list =>
              if deviceIndex i ≠ 0 then
                match s.2 with
                | some d => ((list, some { d with deviceIndex := deviceIndex i }), none)
                | none => ((list, none), some Fault.nullPointer)
              else ((list, s.2), none)
          else (s, some Fault.outOfBounds))
        (l0, none)).1.2 = none := by
  induction n with
  | zero => simp [forLoop_zero]
  | succ n ih =>
    rw [forLoop_succ]
    split
    · exact ih
    · split
      · split
        · exact ih
        · split
          · rw [ih]
          · exact ih
      · exact ih

/-- While the entries fit the array, the loop of `getListDevice` does not end with an
index out of bounds, whatever the global device id. -/
theorem forLoop_track_inbounds (mk : Nat → JObject) (deviceIndex : Nat → Int) (n : Nat)
    (l : List (Option JObject)) (dev : Option WIMAX_API_DEVICE_ID) (hn : n ≤ l.length) :
    ∃ (l1 : List (Option JObject)) (dev1 : Option WIMAX_API_DEVICE_ID) (f : Option Fault),
      forLoop n
        (fun i (s : List (Option JObject) × Option WIMAX_API_DEVICE_ID) =>
          if i < l.length then
            match setElement s.1 i (some (mk i)) with
            | none => (s, some Fault.outOfBounds)
            | some list =>
              if deviceIndex i ≠ 0 then
                match s.2 with
                | some d => ((list, some { d with deviceIndex := deviceIndex i }), none)
                | none => ((list, none), some Fault.nullPointer)
              else ((list, s.2), none)
          else (s, some Fault.outOfBounds))
        (l, dev) = ((l1, dev1), f) ∧
      l1.length = l.length ∧ f ≠ some Fault.outOfBounds := by
  induction n with
  | zero => exact ⟨l, dev, none, by simp [forLoop_zero]⟩
  | succ n ih =>
    obtain ⟨l1, dev1, f, h1, hlen, hf⟩ := ih (Nat.le_of_succ_le hn)
    have hn1 : n < l1.length := by omega
    have hn2 : n < l.length := by omega
    rw [forLoop_succ, h1]
    cases f with
    | some f0 => exact ⟨l1, dev1, some f0, rfl, hlen, hf⟩
    | none =>
      by_cases hz : deviceIndex n = 0
      · exact ⟨l1.set n (some (mk n)), dev1, none,
          by simp [setElement, hn1, hn2, hz], by simp [hlen], by simp⟩
      · cases dev1 with
        | none =>
          exact ⟨l1.set n (some (mk n)), none, some Fault.nullPointer,
            by simp [setElement, hn1, hn2, hz], by simp [hlen], by simp⟩
        | some d =>
          exact ⟨l1.set n (some (mk n)), some { d with deviceIndex := deviceIndex n }, none,
            by simp [setElement, hn1, hn2, hz], by simp [hlen], by simp⟩

/-! ## The device index `getListDevice` leaves -/

/-- C12. When `GetListDevice` succeeds and reports `listSize` entries that fit the
array, the global device id being a struct `d`: afterwards the global device id is `d`
with its `deviceIndex` replaced by that of the last entry, among the `listSize`
reported, whose `deviceIndex` is non-zero, and is `d` itself when every entry's
`deviceIndex` is zero; no other field of it changes.  When `GetListDevice` fails the
global device id is unchanged.  No other file-level variable changes. -/
theorem getListDevice_tracks_index (sdk : WiMaxSDK) (env : JNIEnv) (g : Globals)
    (jdeviceId : JDeviceId) (hwDeviceIdList : List (Option JObject)) (size : List Int) :
    (∀ (hwIdList : Nat → WIMAX_API_HW_DEVICE_ID) (listSize : Int) (d : WIMAX_API_DEVICE_ID),
      sdk.GetListDevice g.deviceId hwDeviceIdList.length
        = (sdk.WIMAX_API_RET_SUCCESS, hwIdList, listSize) →
      g.deviceId = some d → 0 ≤ listSize → listSize ≤ hwDeviceIdList.length →
      hwDeviceIdList.length < 2147483648 →
      ∃ index : Int,
        (android_net_wimax_getListDevice sdk env g jdeviceId hwDeviceIdList size).globals.deviceId
          = some ⟨d.structureSize, d.sdkHandle, d.privilege, index, d.apiVersion,
              d.devicePresenceStatus⟩ ∧
        (∀ k : Nat, (k : Int) < listSize → (hwIdList k).deviceIndex ≠ 0 →
          (∀ i : Nat, k < i → (i : Int) < listSize → (hwIdList i).deviceIndex = 0) →
          index = (hwIdList k).deviceIndex) ∧
        ((∀ i : Nat, (i : Int) < listSize → (hwIdList i).deviceIndex = 0) →
          index = d.deviceIndex)) ∧
    ((sdk.GetListDevice g.deviceId hwDeviceIdList.length).1 ≠ sdk.WIMAX_API_RET_SUCCESS →
      (android_net_wimax_getListDevice sdk env g jdeviceId hwDeviceIdList size).globals.deviceId
        = g.deviceId) ∧
    (android_net_wimax_getListDevice sdk env g jdeviceId hwDeviceIdList size).globals
      = { g with deviceId :=
          (android_net_wimax_getListDevice sdk env g jdeviceId hwDeviceIdList
            size).globals.deviceId } := by
  refine ⟨?_, ?_, ?_⟩
  · intro hwIdList listSize d hsdk hd hn0 hn hlen
    have hj : toJint listSize = listSize := toJint_of_fits listSize (by omega) (by omega)
    obtain ⟨l1, hloop, -, -, -⟩ := forLoop_track
      (fun i => assignInt (assignString env (assignByte (assignInt
        (env.NewObject "android/net/wimax/structs/HardwareDeviceId") "structureSize"
          (hwIdList i).structureSize) "deviceIndex" (hwIdList i).deviceIndex) "deviceName"
          (hwIdList i).deviceName) "deviceType" (hwIdList i).deviceType)
      (fun i => (hwIdList i).deviceIndex) listSize.toNat hwDeviceIdList d (by omega)
    refine ⟨trackedIndex (fun i => (hwIdList i).deviceIndex) listSize.toNat d.deviceIndex,
      ?_, ?_, ?_⟩
    · unfold android_net_wimax_getListDevice
      simp only [hsdk, hj, if_true]
      simp only [hd]
      rw [hloop]
      simp only []
      split <;> rfl
    · intro k hk hne hz
      exact trackedIndex_last _ _ _ k (by omega) hne (fun i h1 h2 => hz i h1 (by omega))
    · intro hz
      exact trackedIndex_none _ _ _ (fun i h => hz i (by omega))
  · intro hfail
    unfold android_net_wimax_getListDevice
    simp only [if_neg hfail]
    split <;> rfl
  · obtain ⟨d, hd⟩ := getListDevice_globals sdk env g jdeviceId hwDeviceIdList size
    rw [hd]

/-- C12 at an SDK that reports devices of indices `4`, `5` and `0`: the global device
id ends with device index `5`. -/
theorem getListDevice_tracks_index_witness :
    (android_net_wimax_getListDevice WiMaxSDK.threeDevices JNIEnv.sample Globals.sample
      JDeviceId.sample [none, none, none, none] [0]).globals.deviceId
      = some ⟨0, 0, 0, 5, 0, 0⟩ := by
  obtain ⟨index, h1, h2, -⟩ := (getListDevice_tracks_index WiMaxSDK.threeDevices JNIEnv.sample
    Globals.sample JDeviceId.sample [none, none, none, none] [0]).1
    (fun i => if i = 0 then ⟨16, 4, "a", 0⟩ else if i = 1 then ⟨16, 5, "b", 0⟩
      else ⟨16, 0, "c", 0⟩) 3 WIMAX_API_DEVICE_ID.zero rfl rfl (by decide) (by decide)
    (by decide)
  have h5 : index = 5 := by
    have := h2 1 (by decide) (by decide) (by
      intro i hi1 hi2
      have : i = 2 := by omega
      subst this
      decide)
    simpa using this
  rw [h1, h5]
  rfl

/-! ## After `wimaxAPIClose` -/

/-- With the global device id NULL, `getListDevice` leaves it NULL. -/
theorem getListDevice_null_stays (sdk : WiMaxSDK) (env : JNIEnv) (g : Globals)
    (jdeviceId : JDeviceId) (hwDeviceIdList : List (Option JObject)) (size : List Int)
    (hnull : g.deviceId = none) :
    (android_net_wimax_getListDevice sdk env g jdeviceId hwDeviceIdList size).globals.deviceId
      = none := by
  have key := forLoop_track_null
    (fun i => assignInt (assignString env (assignByte (assignInt
      (env.NewObject "android/net/wimax/structs/HardwareDeviceId") "structureSize"
        (((sdk.GetListDevice none hwDeviceIdList.length).2.1) i).structureSize) "deviceIndex"
        (((sdk.GetListDevice none hwDeviceIdList.length).2.1) i).deviceIndex) "deviceName"
        (((sdk.GetListDevice none hwDeviceIdList.length).2.1) i).deviceName) "deviceType"
        (((sdk.GetListDevice none hwDeviceIdList.length).2.1) i).deviceType)
    (fun i => (((sdk.GetListDevice none hwDeviceIdList.length).2.1) i).deviceIndex)
    (toJint (sdk.GetListDevice none hwDeviceIdList.length).2.2).toNat
    hwDeviceIdList hwDeviceIdList
  unfold android_net_wimax_getListDevice
  simp only [hnull]
  by_cases hs : (sdk.GetListDevice none hwDeviceIdList.length).1 = sdk.WIMAX_API_RET_SUCCESS
  · simp only [hs, if_true]
    split
    · exact key
    · split <;> exact key
  · simp only [if_neg hs]
    split <;> rfl

/-- A native method that does not read its `jdeviceId` argument hands the global device
id to every SDK call it makes. -/
theorem invoke_sdkCalls_global (sdk : WiMaxSDK) (env : JNIEnv) (g : Globals) (c : NativeCall)
    (h : c.readsDeviceIdArgument = false) (e : SdkCall)
    (he : e ∈ (invoke sdk env g c).sdkCalls) : e.deviceId = g.deviceId := by
  cases c
  case getListDevice jdeviceId hwDeviceIdList size =>
    simp only [invoke, getListDevice_sdkCalls, List.mem_singleton] at he
    subst he
    rfl
  case getErrorString jdeviceId errorCode buffer length =>
    simp only [invoke, getErrorString_sdkCalls, List.mem_singleton] at he
    subst he
    rfl
  case getServiceProviderLockStatus jdeviceId lockStatus nspName =>
    simp only [invoke, getServiceProviderLockStatus_sdkCalls, List.mem_singleton] at he
    subst he
    rfl
  case getNetworkList jdeviceId networkList size =>
    simp only [invoke, getNetworkList_sdkCalls, List.mem_singleton] at he
    subst he
    rfl
  case getIPInterfaceIndex jdeviceId interfaceInfo =>
    simp only [invoke, getIPInterfaceIndex_sdkCalls, List.mem_singleton] at he
    subst he
    rfl
  case getSelectProfileList jdeviceId profileList size =>
    simp only [invoke, getSelectProfileList_sdkCalls, List.mem_singleton] at he
    subst he
    rfl
  case getLinkStatus jdeviceId linkStatus =>
    simp only [invoke, getLinkStatus_sdkCalls, List.mem_singleton] at he
    subst he
    rfl
  case getDeviceInformation jdeviceId deviceInfo referenced =>
    simp only [invoke, getDeviceInformation_sdkCalls, List.mem_singleton] at he
    subst he
    rfl
  case getDeviceStatus jdeviceId deviceStatus connectionStatus =>
    simp only [invoke, getDeviceStatus_sdkCalls, List.mem_singleton] at he
    subst he
    rfl
  case getConnectedNSP jdeviceId connectedNspInfo =>
    simp only [invoke, getConnectedNSP_sdkCalls, List.mem_singleton] at he
    subst he
    rfl
  case getRoamingMode jdeviceId roamingMode =>
    simp only [invoke, getRoamingMode_sdkCalls, List.mem_singleton] at he
    subst he
    rfl
  case getStatistics jdeviceId connectionStatistics =>
    simp only [invoke, getStatistics_sdkCalls, List.mem_singleton] at he
    subst he
    rfl
  case getProvisioningStatus jdeviceId nspName provisioningStatus =>
    simp only [invoke, getProvisioningStatus_sdkCalls, List.mem_singleton] at he
    subst he
    rfl
  case getContactInformation nspName contactList size =>
    simp only [invoke, getContactInformation_sdkCalls, List.mem_singleton] at he
    subst he
    rfl
  case getPackageInformation jdeviceId packageInfo =>
    simp only [invoke, getPackageInformation_sdkCalls, List.mem_singleton] at he
    subst he
    rfl
  all_goals
    simp [NativeCall.readsDeviceIdArgument] at h <;>
    simp [invoke, android_net_wimax_loadLibrary, android_net_wimax_unloadLibrary,
      android_net_wimax_wimaxAPIOpen, android_net_wimax_wimaxDeviceOpen,
      android_net_wimax_wimaxDeviceClose, android_net_wimax_wimaxAPIClose,
      android_net_wimax_cmdControlPowerManagement, android_net_wimax_cmdResetWimaxDevice,
      android_net_wimax_cmdResetToFactorySettings, android_net_wimax_setServiceProviderUnLock,
      android_net_wimax_cmdConnectToNetwork, android_net_wimax_cmdDisconnectFromNetwork,
      android_net_wimax_cmdNetworkSearchWideScan, android_net_wimax_setRoamingMode,
      android_net_wimax_setPackageUpdateState,
      android_net_wimax_subscribeDeviceStatusChange, android_net_wimax_subscribeDeviceInsertRemove,
      android_net_wimax_subscribeControlPowerManagement, android_net_wimax_subscribeConnectToNetwork,
      android_net_wimax_subscribeDisconnectToNetwork,
      android_net_wimax_subscribeNetworkSearchWideScan,
      android_net_wimax_subscribeProvisioningOperation, android_net_wimax_subscribePackageUpdate,
      android_net_wimax_unsubscribeDeviceStatusChange,
      android_net_wimax_unsubscribeDeviceInsertRemove,
      android_net_wimax_unsubscribeControlPowerManagement,
      android_net_wimax_unsubscribeConnectToNetwork,
      android_net_wimax_unsubscribeDisconnectToNetwork,
      android_net_wimax_unsubscribeNetworkSearchWideScan,
      android_net_wimax_unsubscribeProvisioningOperation,
      android_net_wimax_unsubscribePackageUpdate] at he <;>
    (subst he; rfl)

/-- With the global device id NULL, a call that does not reopen leaves it NULL and
hands NULL to every SDK call it makes. -/
theorem invoke_null (sdk : WiMaxSDK) (env : JNIEnv) (g : Globals) (c : NativeCall)
    (hnull : g.deviceId = none) (hc : c.reopens = false) :
    (invoke sdk env g c).globals.deviceId = none ∧
    ∀ e, e ∈ (invoke sdk env g c).sdkCalls → e.deviceId = none := by
  cases c
  case wimaxAPIOpen j => simp [NativeCall.reopens] at hc
  case wimaxDeviceOpen j =>
    simp only [NativeCall.reopens, decide_eq_false_iff_not, ne_eq, not_not] at hc
    have hidx : (accessDeviceId g.deviceIdFieldIds j WIMAX_API_DEVICE_ID.zero).deviceIndex
        = 0 := by
      cases hcls : g.deviceIdFieldIds.deviceIdClass with
      | none => simp [accessDeviceId, hcls, WIMAX_API_DEVICE_ID.zero]
      | some cls => simp [accessDeviceId, hcls, toUINT8, hc]
    simp [invoke, android_net_wimax_wimaxDeviceOpen, hidx, hnull]
  case getListDevice j l sz =>
    refine ⟨getListDevice_null_stays sdk env g j l sz hnull, ?_⟩
    intro e he
    rw [← hnull]
    exact invoke_sdkCalls_global sdk env g _ (by rfl) e he
  case getErrorString jdeviceId errorCode buffer length =>
    refine ⟨?_, ?_⟩
    · simp only [invoke, getErrorString_globals, hnull]
    · intro e he
      rw [← hnull]
      exact invoke_sdkCalls_global sdk env g _ (by rfl) e he
  case getServiceProviderLockStatus jdeviceId lockStatus nspName =>
    refine ⟨?_, ?_⟩
    · simp only [invoke, getServiceProviderLockStatus_globals, hnull]
    · intro e he
      rw [← hnull]
      exact invoke_sdkCalls_global sdk env g _ (by rfl) e he
  case getNetworkList jdeviceId networkList size =>
    refine ⟨?_, ?_⟩
    · simp only [invoke, getNetworkList_globals, hnull]
    · intro e he
      rw [← hnull]
      exact invoke_sdkCalls_global sdk env g _ (by rfl) e he
  case getIPInterfaceIndex jdeviceId interfaceInfo =>
    refine ⟨?_, ?_⟩
    · simp only [invoke, getIPInterfaceIndex_globals, hnull]
    · intro e he
      rw [← hnull]
      exact invoke_sdkCalls_global sdk env g _ (by rfl) e he
  case getSelectProfileList jdeviceId profileList size =>
    refine ⟨?_, ?_⟩
    · simp only [invoke, getSelectProfileList_globals, hnull]
    · intro e he
      rw [← hnull]
      exact invoke_sdkCalls_global sdk env g _ (by rfl) e he
  case getLinkStatus jdeviceId linkStatus =>
    refine ⟨?_, ?_⟩
    · simp only [invoke, getLinkStatus_globals, hnull]
    · intro e he
      rw [← hnull]
      exact invoke_sdkCalls_global sdk env g _ (by rfl) e he
  case getDeviceInformation jdeviceId deviceInfo referenced =>
    refine ⟨?_, ?_⟩
    · simp only [invoke, getDeviceInformation_globals, hnull]
    · intro e he
      rw [← hnull]
      exact invoke_sdkCalls_global sdk env g _ (by rfl) e he
  case getDeviceStatus jdeviceId deviceStatus connectionStatus =>
    refine ⟨?_, ?_⟩
    · simp only [invoke, getDeviceStatus_globals, hnull]
    · intro e he
      rw [← hnull]
      exact invoke_sdkCalls_global sdk env g _ (by rfl) e he
  case getConnectedNSP jdeviceId connectedNspInfo =>
    refine ⟨?_, ?_⟩
    · simp only [invoke, getConnectedNSP_globals, hnull]
    · intro e he
      rw [← hnull]
      exact invoke_sdkCalls_global sdk env g _ (by rfl) e he
  case getRoamingMode jdeviceId roamingMode =>
    refine ⟨?_, ?_⟩
    · simp only [invoke, getRoamingMode_globals, hnull]
    · intro e he
      rw [← hnull]
      exact invoke_sdkCalls_global sdk env g _ (by rfl) e he
  case getStatistics jdeviceId connectionStatistics =>
    refine ⟨?_, ?_⟩
    · simp only [invoke, getStatistics_globals, hnull]
    · intro e he
      rw [← hnull]
      exact invoke_sdkCalls_global sdk env g _ (by rfl) e he
  case getProvisioningStatus jdeviceId nspName provisioningStatus =>
    refine ⟨?_, ?_⟩
    · simp only [invoke, getProvisioningStatus_globals, hnull]
    · intro e he
      rw [← hnull]
      exact invoke_sdkCalls_global sdk env g _ (by rfl) e he
  case getContactInformation nspName contactList size =>
    refine ⟨?_, ?_⟩
    · simp only [invoke, getContactInformation_globals, hnull]
    · intro e he
      rw [← hnull]
      exact invoke_sdkCalls_global sdk env g _ (by rfl) e he
  case getPackageInformation jdeviceId packageInfo =>
    refine ⟨?_, ?_⟩
    · simp only [invoke, getPackageInformation_globals, hnull]
    · intro e he
      rw [← hnull]
      exact invoke_sdkCalls_global sdk env g _ (by rfl) e he
  all_goals
    refine ⟨?_, ?_⟩
    · simp [invoke, hnull, android_net_wimax_loadLibrary, android_net_wimax_unloadLibrary,
        android_net_wimax_wimaxAPIOpen, android_net_wimax_wimaxDeviceOpen,
      android_net_wimax_wimaxDeviceClose, android_net_wimax_wimaxAPIClose,
      android_net_wimax_cmdControlPowerManagement, android_net_wimax_cmdResetWimaxDevice,
      android_net_wimax_cmdResetToFactorySettings, android_net_wimax_setServiceProviderUnLock,
      android_net_wimax_cmdConnectToNetwork, android_net_wimax_cmdDisconnectFromNetwork,
      android_net_wimax_cmdNetworkSearchWideScan, android_net_wimax_setRoamingMode,
      android_net_wimax_setPackageUpdateState,
      android_net_wimax_subscribeDeviceStatusChange, android_net_wimax_subscribeDeviceInsertRemove,
      android_net_wimax_subscribeControlPowerManagement, android_net_wimax_subscribeConnectToNetwork,
      android_net_wimax_subscribeDisconnectToNetwork,
      android_net_wimax_subscribeNetworkSearchWideScan,
      android_net_wimax_subscribeProvisioningOperation, android_net_wimax_subscribePackageUpdate,
      android_net_wimax_unsubscribeDeviceStatusChange,
      android_net_wimax_unsubscribeDeviceInsertRemove,
      android_net_wimax_unsubscribeControlPowerManagement,
      android_net_wimax_unsubscribeConnectToNetwork,
      android_net_wimax_unsubscribeDisconnectToNetwork,
      android_net_wimax_unsubscribeNetworkSearchWideScan,
      android_net_wimax_unsubscribeProvisioningOperation,
      android_net_wimax_unsubscribePackageUpdate]
    · intro e he
      rw [← hnull]
      exact invoke_sdkCalls_global sdk env g _ (by rfl) e he

/-! ## Bounds of the list getters -/

/-- C15, as the code has it. In `getListDevice`, `getNetworkList`,
`getSelectProfileList` and `getContactInformation`: when the SDK call fails, or succeeds
and writes back a list size that, read as a signed `int`, is not greater than the length
of the managed array (which is the length of the native buffer), no index past the end
of the buffer or of the array is used, `size` having an element 0: the run does not end
in an index out of bounds, and but for a NULL global device id in `getListDevice` it
returns the code. -/
theorem list_getters_in_bounds (sdk : WiMaxSDK) (env : JNIEnv) (g : Globals)
    (jdeviceId : JDeviceId) (size : List Int) (hsize : 0 < size.length) :
    (∀ hwDeviceIdList : List (Option JObject),
      ((sdk.GetListDevice g.deviceId hwDeviceIdList.length).1 ≠ sdk.WIMAX_API_RET_SUCCESS ∨
        (toJint (sdk.GetListDevice g.deviceId hwDeviceIdList.length).2.2).toNat
          ≤ hwDeviceIdList.length) →
      (android_net_wimax_getListDevice sdk env g jdeviceId hwDeviceIdList size).ret
        ≠ .fault .outOfBounds ∧
      (g.deviceId ≠ none →
        (android_net_wimax_getListDevice sdk env g jdeviceId hwDeviceIdList size).ret
          = .returned (sdk.GetListDevice g.deviceId hwDeviceIdList.length).1)) ∧
    (∀ networkList : List (Option JObject),
      ((sdk.GetNetworkList g.deviceId networkList.length).1 ≠ sdk.WIMAX_API_RET_SUCCESS ∨
        (toJint (sdk.GetNetworkList g.deviceId networkList.length).2.2).toNat
          ≤ networkList.length) →
      (android_net_wimax_getNetworkList sdk env g jdeviceId networkList size).ret
        = .returned (sdk.GetNetworkList g.deviceId networkList.length).1) ∧
    (∀ profileList : List (Option JObject),
      ((sdk.GetSelectProfileList g.deviceId profileList.length).1
          ≠ sdk.WIMAX_API_RET_SUCCESS ∨
        (toJint (sdk.GetSelectProfileList g.deviceId profileList.length).2.2).toNat
          ≤ profileList.length) →
      (android_net_wimax_getSelectProfileList sdk env g jdeviceId profileList size).ret
        = .returned (sdk.GetSelectProfileList g.deviceId profileList.length).1) ∧
    (∀ (nspName : String) (contactList : List (Option JObject)),
      ((sdk.GetContactInformation g.deviceId nspName contactList.length).1
          ≠ sdk.WIMAX_API_RET_SUCCESS ∨
        (toJint (sdk.GetContactInformation g.deviceId nspName contactList.length).2.2).toNat
          ≤ contactList.length) →
      (android_net_wimax_getContactInformation sdk env g nspName contactList size).ret
        = .returned (sdk.GetContactInformation g.deviceId nspName contactList.length).1) := by
  refine ⟨?_, ?_, ?_, ?_⟩
  · intro l h
    by_cases hs : (sdk.GetListDevice g.deviceId l.length).1 = sdk.WIMAX_API_RET_SUCCESS
    · have hn : (toJint (sdk.GetListDevice g.deviceId l.length).2.2).toNat ≤ l.length := by
        rcases h with h | h
        · exact absurd hs h
        · exact h
      obtain ⟨l1, dev1, f, hloop, -, hf⟩ := forLoop_track_inbounds
        (fun i => assignInt (assignString env (assignByte (assignInt
          (env.NewObject "android/net/wimax/structs/HardwareDeviceId") "structureSize"
            (((sdk.GetListDevice g.deviceId l.length).2.1) i).structureSize) "deviceIndex"
            (((sdk.GetListDevice g.deviceId l.length).2.1) i).deviceIndex) "deviceName"
            (((sdk.GetListDevice g.deviceId l.length).2.1) i).deviceName) "deviceType"
            (((sdk.GetListDevice g.deviceId l.length).2.1) i).deviceType)
        (fun i => (((sdk.GetListDevice g.deviceId l.length).2.1) i).deviceIndex)
        (toJint (sdk.GetListDevice g.deviceId l.length).2.2).toNat l g.deviceId hn
      constructor
      · unfold android_net_wimax_getListDevice
        simp only [hs, if_true]
        rw [hloop]
        cases f with
        | some f0 =>
          simp only []
          intro hc
          injection hc with hc
          exact hf (by rw [hc])
        | none => simp [setElement, hsize]
      · intro hd
        cases hg : g.deviceId with
        | none => exact absurd hg hd
        | some d =>
          rw [hg] at hn
          obtain ⟨l2, hloop2, -, -, -⟩ := forLoop_track
            (fun i => assignInt (assignString env (assignByte (assignInt
              (env.NewObject "android/net/wimax/structs/HardwareDeviceId") "structureSize"
                (((sdk.GetListDevice (some d) l.length).2.1) i).structureSize) "deviceIndex"
                (((sdk.GetListDevice (some d) l.length).2.1) i).deviceIndex) "deviceName"
                (((sdk.GetListDevice (some d) l.length).2.1) i).deviceName) "deviceType"
                (((sdk.GetListDevice (some d) l.length).2.1) i).deviceType)
            (fun i => (((sdk.GetListDevice (some d) l.length).2.1) i).deviceIndex)
            (toJint (sdk.GetListDevice (some d) l.length).2.2).toNat l d hn
          rw [hg] at hs
          unfold android_net_wimax_getListDevice
          simp only [hg, hs, if_true]
          rw [hloop2]
          simp [setElement, hsize]
    · exact ⟨by rw [getListDevice_ret_failure sdk env g jdeviceId l size hs hsize]; simp,
        fun _ => getListDevice_ret_failure sdk env g jdeviceId l size hs hsize⟩
  · intro l h
    by_cases hs : (sdk.GetNetworkList g.deviceId l.length).1 = sdk.WIMAX_API_RET_SUCCESS
    · have hn : (toJint (sdk.GetNetworkList g.deviceId l.length).2.2).toNat ≤ l.length := by
        rcases h with h | h
        · exact absurd hs h
        · exact h
      obtain ⟨l1, hloop, -, -, -⟩ := forLoop_store
        (fun i => assignInt (assignByte (assignByte (assignInt (assignString env
          (assignInt (env.NewObject "android/net/wimax/structs/NSPInfo") "structureSize"
            (((sdk.GetNetworkList g.deviceId l.length).2.1) i).structureSize) "nspName"
            (((sdk.GetNetworkList g.deviceId l.length).2.1) i).NSPName) "nspId"
            (((sdk.GetNetworkList g.deviceId l.length).2.1) i).NSPid) "rssi"
            (((sdk.GetNetworkList g.deviceId l.length).2.1) i).RSSI) "cinr"
            (((sdk.GetNetworkList g.deviceId l.length).2.1) i).CINR) "networkType"
            (((sdk.GetNetworkList g.deviceId l.length).2.1) i).networkType)
        (toJint (sdk.GetNetworkList g.deviceId l.length).2.2).toNat l hn
      unfold android_net_wimax_getNetworkList
      simp only [hs, if_true]
      rw [hloop]
      simp [setElement, hsize]
    · exact getNetworkList_ret_failure sdk env g jdeviceId l size hs hsize
  · intro l h
    by_cases hs : (sdk.GetSelectProfileList g.deviceId l.length).1 = sdk.WIMAX_API_RET_SUCCESS
    · have hn : (toJint (sdk.GetSelectProfileList g.deviceId l.length).2.2).toNat
          ≤ l.length := by
        rcases h with h | h
        · exact absurd hs h
        · exact h
      obtain ⟨l1, hloop, -, -, -⟩ := forLoop_store
        (fun i => assignString env (assignInt (assignInt
          (env.NewObject "android/net/wimax/structs/ProfileInfo") "structureSize"
            (((sdk.GetSelectProfileList g.deviceId l.length).2.1) i).structureSize) "profileId"
            (((sdk.GetSelectProfileList g.deviceId l.length).2.1) i).profileID) "profileName"
            (((sdk.GetSelectProfileList g.deviceId l.length).2.1) i).profileName)
        (toJint (sdk.GetSelectProfileList g.deviceId l.length).2.2).toNat l hn
      unfold android_net_wimax_getSelectProfileList
      simp only [hs, if_true]
      rw [hloop]
      simp [setElement, hsize]
    · exact getSelectProfileList_ret_failure sdk env g jdeviceId l size hs hsize
  · intro nsp l h
    by_cases hs : (sdk.GetContactInformation g.deviceId nsp l.length).1
        = sdk.WIMAX_API_RET_SUCCESS
    · have hn : (toJint (sdk.GetContactInformation g.deviceId nsp l.length).2.2).toNat
          ≤ l.length := by
        rcases h with h | h
        · exact absurd hs h
        · exact h
      obtain ⟨l1, hloop, -, -, -⟩ := forLoop_store
        (fun i => assignInt (assignString env (assignString env (assignInt
          (env.NewObject "android/net/wimax/structs/ContactInfo") "structureSize"
            (((sdk.GetContactInformation g.deviceId nsp l.length).2.1) i).structureSize)
            "textForUri"
            (((sdk.GetContactInformation g.deviceId nsp l.length).2.1) i).textForURI) "uri"
            (((sdk.GetContactInformation g.deviceId nsp l.length).2.1) i).URI) "contactType"
            (((sdk.GetContactInformation g.deviceId nsp l.length).2.1) i).contactType)
        (toJint (sdk.GetContactInformation g.deviceId nsp l.length).2.2).toNat l hn
      unfold android_net_wimax_getContactInformation
      simp only [hs, if_true]
      rw [hloop]
      simp [setElement, hsize]
    · exact getContactInformation_ret_failure sdk env g nsp l size hs hsize

/-- The bounds at an SDK that reports two networks for an array of three elements. -/
theorem list_getters_in_bounds_witness :
    (0 < [0].length ∧
      (toJint (WiMaxSDK.twoNetworks.GetNetworkList Globals.sample.deviceId
        ([none, none, none] : List (Option JObject)).length).2.2).toNat
        ≤ ([none, none, none] : List (Option JObject)).length) ∧
    (android_net_wimax_getNetworkList WiMaxSDK.twoNetworks JNIEnv.sample Globals.sample
      JDeviceId.sample [none, none, none] [0]).ret = .returned 1 :=
  ⟨⟨by decide, by decide⟩,
    (list_getters_in_bounds WiMaxSDK.twoNetworks JNIEnv.sample Globals.sample JDeviceId.sample
      [0] (by decide)).2.1 [none, none, none] (Or.inr (by decide))⟩

/-- C15 fails as stated: `GetNetworkList` succeeds and writes back the list size `2`
for a managed array (and native buffer) of one element; element 0 is set and the loop
goes on to index 1, past the end. -/
theorem getNetworkList_reads_past_end :
    (WiMaxSDK.twoNetworks.GetNetworkList Globals.sample.deviceId 1).1
      = WiMaxSDK.twoNetworks.WIMAX_API_RET_SUCCESS ∧
    (WiMaxSDK.twoNetworks.GetNetworkList Globals.sample.deviceId 1).2.2 = 2 ∧
    (android_net_wimax_getNetworkList WiMaxSDK.twoNetworks JNIEnv.sample Globals.sample
      JDeviceId.sample [none] [0]).ret = .fault .outOfBounds ∧
    (android_net_wimax_getNetworkList WiMaxSDK.twoNetworks JNIEnv.sample Globals.sample
      JDeviceId.sample [none] [0]).out.1.length = 1 := by
  decide

/-! ## Link status -/

/-- The loop that copies `n` bytes into an array of at least `n` elements: no fault,
the first `n` elements replaced, the others as they were. -/
theorem forLoop_copy (f : Nat → Int) (n : Nat) (bs : List Int) (hn : n ≤ bs.length) :
    ∃ bs1 : List Int,
      forLoop n
        (fun i jb_array =>
          match setElement jb_array i (f i) with
          | some a => (a, none)
          | none => (jb_array, some Fault.outOfBounds))
        bs = (bs1, none) ∧
      bs1.length = bs.length ∧
      (∀ i, i < n → bs1[i]? = some (f i)) ∧
      (∀ i, n ≤ i → bs1[i]? = bs[i]?) := by
  induction n with
  | zero => exact ⟨bs, by simp [forLoop_zero]⟩
  | succ n ih =>
    obtain ⟨l1, h1, hlen, hlt, hge⟩ := ih (Nat.le_of_succ_le hn)
    have hn1 : n < l1.length := by omega
    refine ⟨l1.set n (f n), ?_, ?_, ?_, ?_⟩
    · rw [forLoop_succ, h1]
      simp [setElement, hn1]
    · simp [hlen]
    · intro i hi
      by_cases hin : i = n
      · subst hin
        simp [hn1]
      · have : i < n := by omega
        rw [List.getElem?_set_ne (Ne.symm hin)]
        exact hlt i this
    · intro i hi
      have hne : n ≠ i := by omega
      rw [List.getElem?_set_ne hne]
      exact hge i (by omega)

/-- C16, as the code has it. When `GetLinkStatus` succeeds and the managed object has
the five scalar fields and a byte-array field `bsid` of length at least 6:
`android_net_wimax_getLinkStatus` returns the code; afterwards `bsid[i]` holds the
native `bsId[i]` converted to a Java `byte` for every `i` in `0..5` (the native value
itself when that is at most 127), every element of `bsid` at an index `≥ 6` is
unchanged, and `structureSize`, `centerFrequency`, `rssi`, `cinr` and `txPwr` hold the
fields of the native struct converted to the Java types of the fields. -/
theorem getLinkStatus_success (sdk : WiMaxSDK) (g : Globals) (jdeviceId : JDeviceId)
    (linkStatus : JObject) (info : WIMAX_API_LINK_STATUS_INFO) (bsid : List Int)
    (hsdk : sdk.GetLinkStatus g.deviceId = (sdk.WIMAX_API_RET_SUCCESS, info))
    (hbsid : linkStatus.get "bsid" = some (.byteArray (some bsid))) (hlen : 6 ≤ bsid.length)
    (h1 : (GetFieldID linkStatus "structureSize" "I").isSome = true)
    (h2 : (GetFieldID linkStatus "centerFrequency" "I").isSome = true)
    (h3 : (GetFieldID linkStatus "rssi" "B").isSome = true)
    (h4 : (GetFieldID linkStatus "cinr" "B").isSome = true)
    (h5 : (GetFieldID linkStatus "txPwr" "B").isSome = true) :
    (android_net_wimax_getLinkStatus sdk g jdeviceId linkStatus).ret
      = .returned sdk.WIMAX_API_RET_SUCCESS ∧
    (∃ bsid1 : List Int,
      (android_net_wimax_getLinkStatus sdk g jdeviceId linkStatus).out.get "bsid"
        = some (.byteArray (some bsid1)) ∧
      bsid1.length = bsid.length ∧
      (∀ i, i < 6 → bsid1[i]? = some (toJbyte (info.bsId i))) ∧
      (∀ i, i < 6 → 0 ≤ info.bsId i → info.bsId i ≤ 127 → bsid1[i]? = some (info.bsId i)) ∧
      (∀ i, 6 ≤ i → bsid1[i]? = bsid[i]?)) ∧
    (android_net_wimax_getLinkStatus sdk g jdeviceId linkStatus).out.get "structureSize"
      = some (.int (toJint info.structureSize)) ∧
    (android_net_wimax_getLinkStatus sdk g jdeviceId linkStatus).out.get "centerFrequency"
      = some (.int (toJint info.centerFrequency)) ∧
    (android_net_wimax_getLinkStatus sdk g jdeviceId linkStatus).out.get "rssi"
      = some (.byte (toJbyte (toUINT8 info.RSSI))) ∧
    (android_net_wimax_getLinkStatus sdk g jdeviceId linkStatus).out.get "cinr"
      = some (.byte (toJbyte (toUINT8 info.CINR))) ∧
    (android_net_wimax_getLinkStatus sdk g jdeviceId linkStatus).out.get "txPwr"
      = some (.byte (toJbyte (toUINT8 info.txPWR))) := by
  obtain ⟨bsid1, hcopy, hlen1, hlt, hge⟩ :=
    forLoop_copy (fun i => toJbyte (info.bsId i)) 6 bsid hlen
  have hid : GetFieldID linkStatus "bsid" "[B" = some "bsid" := by
    simp [GetFieldID, hbsid, JValue.signature]
  have hrun : android_net_wimax_getLinkStatus sdk g jdeviceId linkStatus
      = ⟨g, [⟨"GetLinkStatus", g.deviceId, [], [], sdk.WIMAX_API_RET_SUCCESS⟩],
          (assignByte (assignByte (assignByte (assignInt (assignInt linkStatus "structureSize"
            info.structureSize) "centerFrequency" info.centerFrequency) "rssi" info.RSSI)
            "cinr" info.CINR) "txPwr" info.txPWR).set "bsid" (.byteArray (some bsid1)),
          .returned sdk.WIMAX_API_RET_SUCCESS⟩ := by
    unfold android_net_wimax_getLinkStatus
    simp only [hsdk, if_true, GetFieldID_assignByte, GetFieldID_assignInt, hid]
    simp only [assignByte_get, assignInt_get, hbsid]
    simp only [String.reduceEq, false_and, if_false]
    rw [hcopy]
  rw [hrun]
  have hb : (assignByte (assignByte (assignByte (assignInt (assignInt linkStatus "structureSize"
      info.structureSize) "centerFrequency" info.centerFrequency) "rssi" info.RSSI)
      "cinr" info.CINR) "txPwr" info.txPWR).get "bsid" = some (.byteArray (some bsid)) := by
    simp [assignByte_get, assignInt_get, hbsid]
  refine ⟨rfl, ⟨bsid1, ?_, hlen1, hlt, ?_, hge⟩, ?_, ?_, ?_, ?_, ?_⟩
  · simp [JObject.get_set, hb]
  · intro i hi h0 h127
    rw [hlt i hi]
    simp only [toJbyte, Option.some.injEq]
    omega
  · simp [JObject.get_set, assignByte_get, assignInt_get, h1]
  · simp [JObject.get_set, assignByte_get, assignInt_get, GetFieldID_assignInt, h2]
  · simp [JObject.get_set, assignByte_get, assignInt_get, GetFieldID_assignInt, h3]
  · simp [JObject.get_set, assignByte_get, assignInt_get, GetFieldID_assignInt,
      GetFieldID_assignByte, h4]
  · simp [JObject.get_set, assignByte_get, assignInt_get, GetFieldID_assignInt,
      GetFieldID_assignByte, h5]

/-- The copy of the link status at a base-station id whose bytes are all above 127. -/
theorem getLinkStatus_success_witness :
    (JObject.linkStatus.get "bsid" = some (.byteArray (some [0, 0, 0, 0, 0, 0, 9])) ∧
      6 ≤ [(0 : Int), 0, 0, 0, 0, 0, 9].length) ∧
    (android_net_wimax_getLinkStatus WiMaxSDK.linkUp Globals.sample JDeviceId.sample
      JObject.linkStatus).ret = .returned 1 ∧
    (android_net_wimax_getLinkStatus WiMaxSDK.linkUp Globals.sample JDeviceId.sample
      JObject.linkStatus).out.get "rssi" = some (.byte 30) := by
  have h := getLinkStatus_success WiMaxSDK.linkUp Globals.sample JDeviceId.sample
    JObject.linkStatus ⟨32, 2600000, 30, 20, 10, fun i => 200 + (i : Int)⟩
    [0, 0, 0, 0, 0, 0, 9] rfl (by decide) (by decide) (by decide) (by decide) (by decide)
    (by decide) (by decide)
  refine ⟨⟨by decide, by decide⟩, h.1, ?_⟩
  rw [h.2.2.2.2.1]
  decide

/-- C16 fails as stated: the native `bsId` is `200, 201, 202, 203, 204, 205`, and
afterwards the managed `bsid` holds `-56, -55, -54, -53, -52, -51` in its first six
elements. -/
theorem getLinkStatus_bsid_differs :
    (WiMaxSDK.linkUp.GetLinkStatus Globals.sample.deviceId).1
      = WiMaxSDK.linkUp.WIMAX_API_RET_SUCCESS ∧
    (WiMaxSDK.linkUp.GetLinkStatus Globals.sample.deviceId).2.bsId 0 = 200 ∧
    (android_net_wimax_getLinkStatus WiMaxSDK.linkUp Globals.sample JDeviceId.sample
      JObject.linkStatus).out.get "bsid"
      = some (.byteArray (some [-56, -55, -54, -53, -52, -51, 9])) := by
  decide

/-! ## The two ways an NSP list reaches managed code -/

/-- C17. For every native NSP list and list size `listSize` (a Java array length), the
wide-scan handler, once attached with its callback found, invokes the callback with a
managed array of exactly `listSize` elements, and its element `i` is the very object that
`android_net_wimax_getNetworkList` stores at index `i` when `GetNetworkList` succeeds
with the same native list: the six fields `structureSize`, `nspName`, `nspId`, `rssi`,
`cinr` and `networkType` of the two therefore agree. -/
theorem nsp_paths_agree (sdk : WiMaxSDK) (env : JNIEnv) (g : Globals) (jdeviceId : JDeviceId)
    (networkList : List (Option JObject)) (size : List Int)
    (nspList : Nat → WIMAX_API_NSP_INFO) (listSize : Int) (attach detach : Int) (vm : Nat)
    (cb : JCallback) (pDeviceId : Option WIMAX_API_DEVICE_ID)
    (hvm : g.g_jVM = some vm) (hcb : g.networkSearchWideScanCB = some cb)
    (hm : GetMethodID cb "callback"
      "(Landroid/net/wimax/structs/DeviceId;[Landroid/net/wimax/structs/NSPInfo;I)V" = true)
    (hat : attach = JNI_OK) (hn0 : 0 ≤ listSize) (hn1 : listSize < 2147483648)
    (hsdk : sdk.GetNetworkList g.deviceId networkList.length
      = (sdk.WIMAX_API_RET_SUCCESS, nspList, listSize))
    (hfit : listSize ≤ networkList.length) :
    ∃ passed : List (Option JObject),
      (fun_IndNetworkSearchWideScan g attach detach env pDeviceId nspList listSize).events
        = .AttachCurrentThread attach ::
          .CallVoidMethod cb
            "(Landroid/net/wimax/structs/DeviceId;[Landroid/net/wimax/structs/NSPInfo;I)V"
            [.pointer pDeviceId, .objectArray (some passed), .int listSize] ::
          .DetachCurrentThread detach ::
          (if detach ≠ JNI_OK then [.LOGE "DetachCurrentThread() failed"] else []) ∧
      (passed.length : Int) = listSize ∧
      ∀ i : Nat, (i : Int) < listSize →
        ∃ nsp : JObject, passed[i]? = some (some nsp) ∧
          (android_net_wimax_getNetworkList sdk env g jdeviceId networkList size).out.1[i]?
            = some (some nsp) := by
  have hj : toJint listSize = listSize := toJint_of_fits listSize (by omega) (by omega)
  obtain ⟨p1, hfill, hplen, hplt, -⟩ := forLoop_fill
    (fun i => assignInt (assignByte (assignByte (assignInt (assignString env
      (assignInt (env.NewObject "android/net/wimax/structs/NSPInfo") "structureSize"
        (nspList i).structureSize) "nspName" (nspList i).NSPName) "nspId" (nspList i).NSPid)
      "rssi" (nspList i).RSSI) "cinr" (nspList i).CINR) "networkType" (nspList i).networkType)
    listSize.toNat (List.replicate listSize.toNat none) (by simp)
  obtain ⟨l1, hstore, -, hlt, -⟩ := forLoop_store
    (fun i => assignInt (assignByte (assignByte (assignInt (assignString env
      (assignInt (env.NewObject "android/net/wimax/structs/NSPInfo") "structureSize"
        (nspList i).structureSize) "nspName" (nspList i).NSPName) "nspId" (nspList i).NSPid)
      "rssi" (nspList i).RSSI) "cinr" (nspList i).CINR) "networkType" (nspList i).networkType)
    listSize.toNat networkList (by omega)
  have hout : (android_net_wimax_getNetworkList sdk env g jdeviceId networkList size).out.1
      = l1 := by
    unfold android_net_wimax_getNetworkList
    simp only [hsdk, hj, if_true]
    rw [hstore]
    simp only []
    split <;> rfl
  refine ⟨p1, ?_, ?_, ?_⟩
  · unfold fun_IndNetworkSearchWideScan
    simp only [hvm, hcb, hat, hm, hj, hn0, if_true]
    rw [hfill]
  · rw [hplen, List.length_replicate]
    omega
  · intro i hi
    refine ⟨_, hplt i (by omega), ?_⟩
    rw [hout]
    exact hlt i (by omega)

/-- C17 at a list of two networks. -/
theorem nsp_paths_agree_witness :
    ∃ passed : List (Option JObject),
      (fun_IndNetworkSearchWideScan
        { Globals.sample with networkSearchWideScanCB := some ⟨2, [("callback",
          "(Landroid/net/wimax/structs/DeviceId;[Landroid/net/wimax/structs/NSPInfo;I)V")]⟩ }
        JNI_OK JNI_OK JNIEnv.sample none
        (fun i => if i = 0 then ⟨40, "alpha", 11, 30, 20, 0⟩ else ⟨40, "beta", 12, 200, 21, 1⟩)
        2).events
        = [.AttachCurrentThread JNI_OK,
            .CallVoidMethod ⟨2, [("callback",
              "(Landroid/net/wimax/structs/DeviceId;[Landroid/net/wimax/structs/NSPInfo;I)V")]⟩
              "(Landroid/net/wimax/structs/DeviceId;[Landroid/net/wimax/structs/NSPInfo;I)V"
              [.pointer none, .objectArray (some passed), .int 2],
            .DetachCurrentThread JNI_OK] ∧
      (passed.length : Int) = 2 := by
  obtain ⟨passed, h1, h2, -⟩ := nsp_paths_agree WiMaxSDK.twoNetworks JNIEnv.sample
    { Globals.sample with networkSearchWideScanCB := some ⟨2, [("callback",
      "(Landroid/net/wimax/structs/DeviceId;[Landroid/net/wimax/structs/NSPInfo;I)V")]⟩ }
    JDeviceId.sample [none, none, none] [0]
    (fun i => if i = 0 then ⟨40, "alpha", 11, 30, 20, 0⟩ else ⟨40, "beta", 12, 200, 21, 1⟩)
    2 JNI_OK JNI_OK 0
    ⟨2, [("callback",
      "(Landroid/net/wimax/structs/DeviceId;[Landroid/net/wimax/structs/NSPInfo;I)V")]⟩
    none rfl rfl (by decide) rfl (by decide) (by decide) rfl (by decide)
  exact ⟨passed, by simpa using h1, h2⟩

/-! ## Roaming mode -/

/-- C21. The two enumerators of `WIMAX_API_ROAMING_MODE` being distinct: for every
boolean `b`, `android_net_wimax_setRoamingMode` sends `WIMAX_API_ROAMING_ENABLED` for
true and `WIMAX_API_ROAMING_DISABLED` for false, in one SDK call; and whenever
`GetRoamingMode` reports the mode sent for `b`, `android_net_wimax_getRoamingMode`
(the array having an element 0) stores `b` in `roamingMode[0]`, leaves the other
elements alone and returns the code.  For every mode reported, `roamingMode[0]` becomes
true exactly when the mode is `WIMAX_API_ROAMING_ENABLED` and false otherwise; and for
a reported mode that is one of the two enumerators, `setRoamingMode` of the flag
stored sends that mode again. -/
theorem roamingMode_round_trip (sdk : WiMaxSDK) (g : Globals) (jdeviceId : JDeviceId) (b : Int)
    (hb : b = JNI_TRUE ∨ b = JNI_FALSE)
    (henum : sdk.WIMAX_API_ROAMING_ENABLED ≠ sdk.WIMAX_API_ROAMING_DISABLED) :
    ∃ mode : Int,
      (android_net_wimax_setRoamingMode sdk g jdeviceId b).sdkCalls
        = [⟨"SetRoamingMode", g.deviceId, [mode], [], sdk.SetRoamingMode g.deviceId mode⟩] ∧
      (b = JNI_TRUE → mode = sdk.WIMAX_API_ROAMING_ENABLED) ∧
      (b = JNI_FALSE → mode = sdk.WIMAX_API_ROAMING_DISABLED) ∧
      (∀ (g2 : Globals) (jdeviceId2 : JDeviceId) (roamingMode : List Int),
        0 < roamingMode.length → (sdk.GetRoamingMode g2.deviceId).2 = mode →
        (android_net_wimax_getRoamingMode sdk g2 jdeviceId2 roamingMode).out[0]? = some b ∧
        (android_net_wimax_getRoamingMode sdk g2 jdeviceId2 roamingMode).out
          = roamingMode.set 0 b ∧
        (android_net_wimax_getRoamingMode sdk g2 jdeviceId2 roamingMode).ret
          = .returned (sdk.GetRoamingMode g2.deviceId).1) ∧
      (∀ (g2 : Globals) (jdeviceId2 : JDeviceId) (roamingMode : List Int),
        0 < roamingMode.length →
        ((android_net_wimax_getRoamingMode sdk g2 jdeviceId2 roamingMode).out[0]?
            = some JNI_TRUE ↔
          (sdk.GetRoamingMode g2.deviceId).2 = sdk.WIMAX_API_ROAMING_ENABLED) ∧
        ((android_net_wimax_getRoamingMode sdk g2 jdeviceId2 roamingMode).out[0]?
            = some JNI_FALSE ↔
          (sdk.GetRoamingMode g2.deviceId).2 ≠ sdk.WIMAX_API_ROAMING_ENABLED) ∧
        ((sdk.GetRoamingMode g2.deviceId).2 = sdk.WIMAX_API_ROAMING_ENABLED ∨
          (sdk.GetRoamingMode g2.deviceId).2 = sdk.WIMAX_API_ROAMING_DISABLED →
          ∃ flag : Int,
            (android_net_wimax_getRoamingMode sdk g2 jdeviceId2 roamingMode).out[0]?
              = some flag ∧
            (android_net_wimax_setRoamingMode sdk g jdeviceId flag).sdkCalls
              = [⟨"SetRoamingMode", g.deviceId, [(sdk.GetRoamingMode g2.deviceId).2], [],
                  sdk.SetRoamingMode g.deviceId (sdk.GetRoamingMode g2.deviceId).2⟩])) := by
  have hout : ∀ (g2 : Globals) (jdeviceId2 : JDeviceId) (roamingMode : List Int),
      0 < roamingMode.length →
      android_net_wimax_getRoamingMode sdk g2 jdeviceId2 roamingMode
        = ⟨g2, [⟨"GetRoamingMode", g2.deviceId, [], [], (sdk.GetRoamingMode g2.deviceId).1⟩],
            roamingMode.set 0
              (if (sdk.GetRoamingMode g2.deviceId).2 = sdk.WIMAX_API_ROAMING_ENABLED
                then JNI_TRUE else JNI_FALSE),
            .returned (sdk.GetRoamingMode g2.deviceId).1⟩ := by
    intro g2 jdeviceId2 roamingMode hlen
    simp [android_net_wimax_getRoamingMode, setElement, hlen]
  have hhead : ∀ (l : List Int) (v : Int), 0 < l.length → (l.set 0 v)[0]? = some v := by
    intro l v hl
    cases l with
    | nil => simp at hl
    | cons a t => simp
  refine ⟨if b = JNI_TRUE then sdk.WIMAX_API_ROAMING_ENABLED
    else sdk.WIMAX_API_ROAMING_DISABLED, rfl, ?_, ?_, ?_, ?_⟩
  · intro h
    simp [h]
  · intro h
    simp [h, JNI_TRUE, JNI_FALSE]
  · intro g2 jdeviceId2 roamingMode hlen hmode
    rw [hout g2 jdeviceId2 roamingMode hlen]
    have hflag : (if (sdk.GetRoamingMode g2.deviceId).2 = sdk.WIMAX_API_ROAMING_ENABLED
        then JNI_TRUE else JNI_FALSE) = b := by
      rw [hmode]
      rcases hb with h | h
      · simp [h]
      · have hd : sdk.WIMAX_API_ROAMING_DISABLED ≠ sdk.WIMAX_API_ROAMING_ENABLED :=
          fun e => henum e.symm
        simp [h, JNI_TRUE, JNI_FALSE, hd]
    rw [hflag]
    exact ⟨hhead roamingMode b hlen, rfl, rfl⟩
  · intro g2 jdeviceId2 roamingMode hlen
    rw [hout g2 jdeviceId2 roamingMode hlen]
    simp only [hhead _ _ hlen, Option.some.injEq]
    by_cases hm : (sdk.GetRoamingMode g2.deviceId).2 = sdk.WIMAX_API_ROAMING_ENABLED
    · refine ⟨?_, ?_, ?_⟩
      · simp [hm]
      · simp [hm, JNI_TRUE, JNI_FALSE]
      · intro _
        refine ⟨JNI_TRUE, by simp [hm], ?_⟩
        simp [android_net_wimax_setRoamingMode, hm]
    · refine ⟨?_, ?_, ?_⟩
      · simp [hm, JNI_TRUE, JNI_FALSE]
      · simp [hm]
      · intro h
        rcases h with h | h
        · exact absurd h hm
        · refine ⟨JNI_FALSE, by simp [hm], ?_⟩
          simp [android_net_wimax_setRoamingMode, h, JNI_TRUE, JNI_FALSE]

/-- C21 at both booleans: true is sent as `WIMAX_API_ROAMING_ENABLED` and read back as
true from an SDK that reports it; false is read back as false from an SDK that
reports `WIMAX_API_ROAMING_DISABLED`. -/
theorem roamingMode_round_trip_witness :
    ((JNI_TRUE = JNI_TRUE ∨ JNI_TRUE = JNI_FALSE) ∧
      (WiMaxSDK.sample 1).WIMAX_API_ROAMING_ENABLED
        ≠ (WiMaxSDK.sample 1).WIMAX_API_ROAMING_DISABLED) ∧
    (android_net_wimax_getRoamingMode (WiMaxSDK.sample 1) Globals.sample JDeviceId.sample
      [0, 0]).out = [1, 0] ∧
    (android_net_wimax_getRoamingMode WiMaxSDK.roamingOff Globals.sample JDeviceId.sample
      [1, 1]).out = [0, 1] := by
  obtain ⟨mode, -, ht, -, hget, -⟩ := roamingMode_round_trip (WiMaxSDK.sample 1) Globals.sample
    JDeviceId.sample JNI_TRUE (Or.inl rfl) (by decide)
  obtain ⟨mode2, -, -, hf, hget2, -⟩ := roamingMode_round_trip WiMaxSDK.roamingOff
    Globals.sample JDeviceId.sample JNI_FALSE (Or.inr rfl) (by decide)
  refine ⟨⟨Or.inl rfl, by decide⟩, ?_, ?_⟩
  · rw [(hget Globals.sample JDeviceId.sample [0, 0] (by decide) (by rw [ht rfl]; rfl)).2.1]
    rfl
  · rw [(hget2 Globals.sample JDeviceId.sample [1, 1] (by decide) (by rw [hf rfl]; rfl)).2.1]
    rfl

/-! ## Runs that return -/

theorem getErrorString_ret_present (sdk : WiMaxSDK) (env : JNIEnv) (g : Globals)
    (jdeviceId : JDeviceId) (errorCode : Int) (buffer : List (Option String)) (length : List Int)
    (hlength : 0 < length.length) (hbuffer : 0 < buffer.length) :
    (android_net_wimax_getErrorString sdk env g jdeviceId errorCode buffer length).ret
      = .returned (sdk.GetErrorString g.deviceId errorCode).1 := by
  by_cases hs : (sdk.GetErrorString g.deviceId errorCode).1 = sdk.WIMAX_API_RET_SUCCESS
  · unfold android_net_wimax_getErrorString
    simp [hs, setElement, hlength, hbuffer]
  · exact getErrorString_ret_failure sdk env g jdeviceId errorCode buffer length hs hlength

theorem getServiceProviderLockStatus_ret_present (sdk : WiMaxSDK) (env : JNIEnv) (g : Globals)
    (jdeviceId : JDeviceId) (lockStatus : List Int) (nspName : List (Option String))
    (hlockStatus : 0 < lockStatus.length) (hnspName : 0 < nspName.length) :
    (android_net_wimax_getServiceProviderLockStatus sdk env g jdeviceId lockStatus nspName).ret
      = .returned (sdk.GetServiceProviderLockStatus g.deviceId).1 := by
  by_cases hs : (sdk.GetServiceProviderLockStatus g.deviceId).1 = sdk.WIMAX_API_RET_SUCCESS
  · unfold android_net_wimax_getServiceProviderLockStatus
    simp [hs, setElement, hlockStatus, hnspName]
  · exact getServiceProviderLockStatus_ret_failure sdk env g jdeviceId lockStatus nspName hs
      hlockStatus

theorem getDeviceStatus_ret_present (sdk : WiMaxSDK) (g : Globals) (jdeviceId : JDeviceId)
    (deviceStatus connectionStatus : List Int)
    (hdeviceStatus : 0 < deviceStatus.length) (hconnectionStatus : 0 < connectionStatus.length) :
    (android_net_wimax_getDeviceStatus sdk g jdeviceId deviceStatus connectionStatus).ret
      = .returned (sdk.GetDeviceStatus g.deviceId).1 := by
  unfold android_net_wimax_getDeviceStatus
  simp [setElement, hdeviceStatus, hconnectionStatus]

theorem getRoamingMode_ret_present (sdk : WiMaxSDK) (g : Globals) (jdeviceId : JDeviceId)
    (roamingMode : List Int) (hroamingMode : 0 < roamingMode.length) :
    (android_net_wimax_getRoamingMode sdk g jdeviceId roamingMode).ret
      = .returned (sdk.GetRoamingMode g.deviceId).1 := by
  unfold android_net_wimax_getRoamingMode
  simp [setElement, hroamingMode]

theorem getProvisioningStatus_ret_present (sdk : WiMaxSDK) (g : Globals) (jdeviceId : JDeviceId)
    (nspName : String) (provisioningStatus : List Int)
    (hprovisioningStatus : 0 < provisioningStatus.length) :
    (android_net_wimax_getProvisioningStatus sdk g jdeviceId nspName provisioningStatus).ret
      = .returned (sdk.GetProvisioningStatus g.deviceId nspName).1 := by
  unfold android_net_wimax_getProvisioningStatus
  simp [setElement, hprovisioningStatus]

theorem getListDevice_ret_inbounds (sdk : WiMaxSDK) (env : JNIEnv) (g : Globals)
    (jdeviceId : JDeviceId) (l : List (Option JObject)) (size : List Int)
    (hsize : 0 < size.length)
    (hn : (toJint (sdk.GetListDevice g.deviceId l.length).2.2).toNat ≤ l.length)
    (hd : g.deviceId ≠ none) :
    (android_net_wimax_getListDevice sdk env g jdeviceId l size).ret
      = .returned (sdk.GetListDevice g.deviceId l.length).1 := by
  by_cases hs : (sdk.GetListDevice g.deviceId l.length).1 = sdk.WIMAX_API_RET_SUCCESS
  · cases hg : g.deviceId with
    | none => exact absurd hg hd
    | some d =>
      rw [hg] at hn
      obtain ⟨l2, hloop2, -, -, -⟩ := forLoop_track
        (fun i => assignInt (assignString env (assignByte (assignInt
          (env.NewObject "android/net/wimax/structs/HardwareDeviceId") "structureSize"
            (((sdk.GetListDevice (some d) l.length).2.1) i).structureSize) "deviceIndex"
            (((sdk.GetListDevice (some d) l.length).2.1) i).deviceIndex) "deviceName"
            (((sdk.GetListDevice (some d) l.length).2.1) i).deviceName) "deviceType"
            (((sdk.GetListDevice (some d) l.length).2.1) i).deviceType)
        (fun i => (((sdk.GetListDevice (some d) l.length).2.1) i).deviceIndex)
        (toJint (sdk.GetListDevice (some d) l.length).2.2).toNat l d hn
      rw [hg] at hs
      unfold android_net_wimax_getListDevice
      simp only [hg, hs, if_true]
      rw [hloop2]
      simp [setElement, hsize]
  · exact getListDevice_ret_failure sdk env g jdeviceId l size hs hsize

theorem getNetworkList_ret_inbounds (sdk : WiMaxSDK) (env : JNIEnv) (g : Globals)
    (jdeviceId : JDeviceId) (l : List (Option JObject)) (size : List Int)
    (hsize : 0 < size.length)
    (hn : (toJint (sdk.GetNetworkList g.deviceId l.length).2.2).toNat ≤ l.length) :
    (android_net_wimax_getNetworkList sdk env g jdeviceId l size).ret
      = .returned (sdk.GetNetworkList g.deviceId l.length).1 := by
  by_cases hs : (sdk.GetNetworkList g.deviceId l.length).1 = sdk.WIMAX_API_RET_SUCCESS
  · obtain ⟨l1, hloop, -, -, -⟩ := forLoop_store
      (fun i => assignInt (assignByte (assignByte (assignInt (assignString env
        (assignInt (env.NewObject "android/net/wimax/structs/NSPInfo") "structureSize"
          (((sdk.GetNetworkList g.deviceId l.length).2.1) i).structureSize) "nspName"
          (((sdk.GetNetworkList g.deviceId l.length).2.1) i).NSPName) "nspId"
          (((sdk.GetNetworkList g.deviceId l.length).2.1) i).NSPid) "rssi"
          (((sdk.GetNetworkList g.deviceId l.length).2.1) i).RSSI) "cinr"
          (((sdk.GetNetworkList g.deviceId l.length).2.1) i).CINR) "networkType"
          (((sdk.GetNetworkList g.deviceId l.length).2.1) i).networkType)
      (toJint (sdk.GetNetworkList g.deviceId l.length).2.2).toNat l hn
    unfold android_net_wimax_getNetworkList
    simp only [hs, if_true]
    rw [hloop]
    simp [setElement, hsize]
  · exact getNetworkList_ret_failure sdk env g jdeviceId l size hs hsize

theorem getSelectProfileList_ret_inbounds (sdk : WiMaxSDK) (env : JNIEnv) (g : Globals)
    (jdeviceId : JDeviceId) (l : List (Option JObject)) (size : List Int)
    (hsize : 0 < size.length)
    (hn : (toJint (sdk.GetSelectProfileList g.deviceId l.length).2.2).toNat ≤ l.length) :
    (android_net_wimax_getSelectProfileList sdk env g jdeviceId l size).ret
      = .returned (sdk.GetSelectProfileList g.deviceId l.length).1 := by
  by_cases hs : (sdk.GetSelectProfileList g.deviceId l.length).1 = sdk.WIMAX_API_RET_SUCCESS
  · obtain ⟨l1, hloop, -, -, -⟩ := forLoop_store
      (fun i => assignString env (assignInt (assignInt
        (env.NewObject "android/net/wimax/structs/ProfileInfo") "structureSize"
          (((sdk.GetSelectProfileList g.deviceId l.length).2.1) i).structureSize) "profileId"
          (((sdk.GetSelectProfileList g.deviceId l.length).2.1) i).profileID) "profileName"
          (((sdk.GetSelectProfileList g.deviceId l.length).2.1) i).profileName)
      (toJint (sdk.GetSelectProfileList g.deviceId l.length).2.2).toNat l hn
    unfold android_net_wimax_getSelectProfileList
    simp only [hs, if_true]
    rw [hloop]
    simp [setElement, hsize]
  · exact getSelectProfileList_ret_failure sdk env g jdeviceId l size hs hsize

theorem getContactInformation_ret_inbounds (sdk : WiMaxSDK) (env : JNIEnv) (g : Globals)
    (nsp : String) (l : List (Option JObject)) (size : List Int)
    (hsize : 0 < size.length)
    (hn : (toJint (sdk.GetContactInformation g.deviceId nsp l.length).2.2).toNat ≤ l.length) :
    (android_net_wimax_getContactInformation sdk env g nsp l size).ret
      = .returned (sdk.GetContactInformation g.deviceId nsp l.length).1 := by
  by_cases hs : (sdk.GetContactInformation g.deviceId nsp l.length).1
      = sdk.WIMAX_API_RET_SUCCESS
  · obtain ⟨l1, hloop, -, -, -⟩ := forLoop_store
      (fun i => assignInt (assignString env (assignString env (assignInt
        (env.NewObject "android/net/wimax/structs/ContactInfo") "structureSize"
          (((sdk.GetContactInformation g.deviceId nsp l.length).2.1) i).structureSize)
          "textForUri"
          (((sdk.GetContactInformation g.deviceId nsp l.length).2.1) i).textForURI) "uri"
          (((sdk.GetContactInformation g.deviceId nsp l.length).2.1) i).URI) "contactType"
          (((sdk.GetContactInformation g.deviceId nsp l.length).2.1) i).contactType)
      (toJint (sdk.GetContactInformation g.deviceId nsp l.length).2.2).toNat l hn
    unfold android_net_wimax_getContactInformation
    simp only [hs, if_true]
    rw [hloop]
    simp [setElement, hsize]
  · exact getContactInformation_ret_failure sdk env g nsp l size hs hsize

theorem getLinkStatus_ret_present (sdk : WiMaxSDK) (g : Globals) (jdeviceId : JDeviceId)
    (linkStatus : JObject)
    (hbsid : GetFieldID linkStatus "bsid" "[B" = none ∨
      ∃ bsid : List Int, linkStatus.get "bsid" = some (.byteArray (some bsid)) ∧
        6 ≤ bsid.length) :
    (android_net_wimax_getLinkStatus sdk g jdeviceId linkStatus).ret
      = .returned (sdk.GetLinkStatus g.deviceId).1 := by
  by_cases hs : (sdk.GetLinkStatus g.deviceId).1 = sdk.WIMAX_API_RET_SUCCESS
  · rcases hbsid with hnone | ⟨bsid, hget, hlen⟩
    · unfold android_net_wimax_getLinkStatus
      simp only [hs, if_true, GetFieldID_assignByte, GetFieldID_assignInt, hnone]
    · obtain ⟨bsid1, hcopy, -, -, -⟩ :=
        forLoop_copy (fun i => toJbyte ((sdk.GetLinkStatus g.deviceId).2.bsId i)) 6 bsid hlen
      have hid : GetFieldID linkStatus "bsid" "[B" = some "bsid" := by
        simp [GetFieldID, hget, JValue.signature]
      unfold android_net_wimax_getLinkStatus
      simp only [hs, if_true, GetFieldID_assignByte, GetFieldID_assignInt, hid]
      simp only [assignByte_get, assignInt_get, hget]
      simp only [String.reduceEq, false_and, if_false]
      rw [hcopy]
  · exact getLinkStatus_ret_failure sdk g jdeviceId linkStatus hs

theorem getObjectReference_of_get (o : JObject) (m sig : String) (r : Option Nat)
    (h : o.get m = some (.object sig r)) : getObjectReference o m sig = r := by
  simp [getObjectReference, GetFieldID, h, JValue.signature]

theorem updateReferenced_some (referenced : List JObject) (r : Nat) (f : JObject → JObject)
    (hr : r < referenced.length) :
    ∃ l : List JObject, updateReferenced referenced (some r) f = some l ∧
      l.length = referenced.length := by
  unfold updateReferenced
  have h : referenced.get? r = some (referenced.get ⟨r, hr⟩) := by
    simp [List.get?_eq_getElem?, List.getElem?_eq_getElem hr]
  simp only [h]
  exact ⟨_, rfl, by simp⟩

theorem getDeviceInformation_ret_present (sdk : WiMaxSDK) (env : JNIEnv) (g : Globals)
    (jdeviceId : JDeviceId) (deviceInfo : JObject) (referenced : List JObject)
    (hw sw rf asic : Nat)
    (hhw : deviceInfo.get "hwVersion"
      = some (.object "Landroid/net/wimax/structs/DeviceVersion;" (some hw)))
    (hsw : deviceInfo.get "swVersion"
      = some (.object "Landroid/net/wimax/structs/DeviceVersion;" (some sw)))
    (hrf : deviceInfo.get "rfVersion"
      = some (.object "Landroid/net/wimax/structs/DeviceVersion;" (some rf)))
    (hasic : deviceInfo.get "asicVersion"
      = some (.object "Landroid/net/wimax/structs/DeviceVersion;" (some asic)))
    (hrefs : hw < referenced.length ∧ sw < referenced.length ∧ rf < referenced.length ∧
      asic < referenced.length)
    (hmac : GetFieldID deviceInfo "macAddress" "[B" = none ∨
      ∃ mac : List Int, deviceInfo.get "macAddress" = some (.byteArray (some mac)) ∧
        6 ≤ mac.length) :
    (android_net_wimax_getDeviceInformation sdk env g jdeviceId deviceInfo referenced).ret
      = .returned (sdk.GetDeviceInformation g.deviceId).1 := by
  by_cases hs : (sdk.GetDeviceInformation g.deviceId).1 = sdk.WIMAX_API_RET_SUCCESS
  · have hget : ∀ m : String, m ≠ "structureSize" →
        (assignInt deviceInfo "structureSize"
          (sdk.GetDeviceInformation g.deviceId).2.structureSize).get m = deviceInfo.get m := by
      intro m hm
      rw [assignInt_get]
      simp [hm]
    have r1 := getObjectReference_of_get _ "hwVersion" _ _
      ((hget "hwVersion" (by decide)).trans hhw)
    have r2 := getObjectReference_of_get _ "swVersion" _ _
      ((hget "swVersion" (by decide)).trans hsw)
    have r3 := getObjectReference_of_get _ "rfVersion" _ _
      ((hget "rfVersion" (by decide)).trans hrf)
    have r4 := getObjectReference_of_get _ "asicVersion" _ _
      ((hget "asicVersion" (by decide)).trans hasic)
    obtain ⟨h1, h2, h3, h4⟩ := hrefs
    obtain ⟨l1, e1, n1⟩ := updateReferenced_some referenced hw (fun v =>
        assignString env (assignString env (assignInt v "structureSize"
          (sdk.GetDeviceInformation g.deviceId).2.hwVersion.structureSize)
          "name" (sdk.GetDeviceInformation g.deviceId).2.hwVersion.name) "version"
          (sdk.GetDeviceInformation g.deviceId).2.hwVersion.version) h1
    obtain ⟨l2, e2, n2⟩ := updateReferenced_some l1 sw (fun v =>
        assignString env (assignString env (assignInt v "structureSize"
          (sdk.GetDeviceInformation g.deviceId).2.swVersion.structureSize)
          "name" (sdk.GetDeviceInformation g.deviceId).2.swVersion.name) "version"
          (sdk.GetDeviceInformation g.deviceId).2.swVersion.version) (by omega)
    obtain ⟨l3, e3, n3⟩ := updateReferenced_some l2 rf (fun v =>
        assignString env (assignString env (assignInt v "structureSize"
          (sdk.GetDeviceInformation g.deviceId).2.rfVersion.structureSize)
          "name" (sdk.GetDeviceInformation g.deviceId).2.rfVersion.name) "version"
          (sdk.GetDeviceInformation g.deviceId).2.rfVersion.version) (by omega)
    obtain ⟨l4, e4, n4⟩ := updateReferenced_some l3 asic (fun v =>
        assignString env (assignString env (assignInt v "structureSize"
          (sdk.GetDeviceInformation g.deviceId).2.asicVersion.structureSize)
          "name" (sdk.GetDeviceInformation g.deviceId).2.asicVersion.name) "version"
          (sdk.GetDeviceInformation g.deviceId).2.asicVersion.version) (by omega)
    unfold android_net_wimax_getDeviceInformation
    simp only [hs, if_true, r1, r2, r3, r4, e1, e2, e3, e4, GetFieldID_assignInt]
    rcases hmac with hnone | ⟨mac, hgetmac, hlen⟩
    · simp only [hnone]
    · obtain ⟨mac1, hcopy, -, -, -⟩ := forLoop_copy
        (fun i => toJbyte ((sdk.GetDeviceInformation g.deviceId).2.macAddress i)) 6 mac hlen
      have hid : GetFieldID deviceInfo "macAddress" "[B" = some "macAddress" := by
        simp [GetFieldID, hgetmac, JValue.signature]
      simp only [hid, hget "macAddress" (by decide), hgetmac]
      rw [hcopy]
  · exact getDeviceInformation_ret_failure sdk env g jdeviceId deviceInfo referenced hs

/-! ## Return codes -/

/-- C1. Every native method that calls an SDK entry point returns to the managed caller
the return code of that call, unchanged, for every code the call can produce.  For each
of the 44 methods the code is named: the result of the entry point applied to the device
id the method hands over and to the arguments it computes.  The 33 methods whose run
cannot fault return it always.  Each of the 11 that write a managed array, or an object
through a reference they read, either returns that code or ends in a fault, never
another `jint`; it returns the code, on success and on failure, when the arrays it
writes element 0 of have one, the list size the SDK writes back is within the array
passed, the global device id `getListDevice` writes through is not NULL, and the
references and byte arrays `getLinkStatus` and `getDeviceInformation` write through are
there. -/
theorem return_code_passthrough (sdk : WiMaxSDK) (env : JNIEnv) (g : Globals)
    (jdeviceId : JDeviceId) :
    (android_net_wimax_wimaxAPIOpen sdk g jdeviceId).ret
      = .returned (sdk.WiMaxAPIOpen (accessDeviceId g.deviceIdFieldIds jdeviceId WIMAX_API_DEVICE_ID.zero)).1 ∧
    (android_net_wimax_wimaxDeviceOpen sdk g jdeviceId).ret
      = .returned (sdk.WiMaxDeviceOpen
          (if (accessDeviceId g.deviceIdFieldIds jdeviceId WIMAX_API_DEVICE_ID.zero).deviceIndex ≠ 0
            then some (accessDeviceId g.deviceIdFieldIds jdeviceId WIMAX_API_DEVICE_ID.zero)
            else g.deviceId)) ∧
    (android_net_wimax_wimaxDeviceClose sdk g jdeviceId).ret
      = .returned (sdk.WiMaxDeviceClose g.deviceId) ∧
    (android_net_wimax_wimaxAPIClose sdk g jdeviceId).ret
      = .returned (sdk.WiMaxAPIClose g.deviceId) ∧
    (∀ pwrState : Int, (android_net_wimax_cmdControlPowerManagement sdk g pwrState).ret
      = .returned (sdk.CmdControlPowerManagement g.deviceId
          (if pwrState = 1 then sdk.WIMAX_API_RF_OFF else sdk.WIMAX_API_RF_ON))) ∧
    (android_net_wimax_cmdResetWimaxDevice sdk g jdeviceId).ret
      = .returned (sdk.CmdResetWimaxDevice g.deviceId) ∧
    (android_net_wimax_cmdResetToFactorySettings sdk g jdeviceId).ret
      = .returned (sdk.CmdResetToFactorySettings g.deviceId) ∧
    (∀ lockCode : String, (android_net_wimax_setServiceProviderUnLock sdk g jdeviceId lockCode).ret
      = .returned (sdk.SetServiceProviderUnLock g.deviceId lockCode)) ∧
    (∀ (nspName : String) (profileId : Int) (password : String),
      (android_net_wimax_cmdConnectToNetwork sdk g jdeviceId nspName profileId password).ret
        = .returned (sdk.CmdConnectToNetwork g.deviceId nspName profileId password)) ∧
    (android_net_wimax_cmdDisconnectFromNetwork sdk g jdeviceId).ret
      = .returned (sdk.CmdDisconnectFromNetwork g.deviceId) ∧
    (android_net_wimax_cmdNetworkSearchWideScan sdk g jdeviceId).ret
      = .returned (sdk.CmdNetworkSearchWideScan g.deviceId) ∧
    (∀ roamingMode : Int, (android_net_wimax_setRoamingMode sdk g jdeviceId roamingMode).ret
      = .returned (sdk.SetRoamingMode g.deviceId
          (if roamingMode = JNI_TRUE then sdk.WIMAX_API_ROAMING_ENABLED
            else sdk.WIMAX_API_ROAMING_DISABLED))) ∧
    (∀ state : Int, (android_net_wimax_setPackageUpdateState sdk g jdeviceId state).ret
      = .returned (sdk.SetPackageUpdateState g.deviceId
          (if state = 0 then sdk.WIMAX_API_PACKAGE_UPDATE_DELAY
            else if state = 1 then sdk.WIMAX_API_PACKAGE_UPDATE_ACCEPTED
            else if state = 2 then sdk.WIMAX_API_PACKAGE_UPDATE_DENIED
            else sdk.WIMAX_API_PACKAGE_UPDATE_DELAY))) ∧
    (∀ callback : Option JCallback,
      (android_net_wimax_subscribeDeviceStatusChange sdk g jdeviceId callback).ret
        = .returned (sdk.SubscribeDeviceStatusChange g.deviceId)) ∧
    (∀ callback : Option JCallback,
      (android_net_wimax_subscribeDeviceInsertRemove sdk g jdeviceId callback).ret
        = .returned (sdk.SubscribeDeviceInsertRemove g.deviceId)) ∧
    (∀ callback : Option JCallback,
      (android_net_wimax_subscribeControlPowerManagement sdk g jdeviceId callback).ret
        = .returned (sdk.SubscribeControlPowerManagement g.deviceId)) ∧
    (∀ callback : Option JCallback,
      (android_net_wimax_subscribeConnectToNetwork sdk g jdeviceId callback).ret
        = .returned (sdk.SubscribeConnectToNetwork g.deviceId)) ∧
    (∀ callback : Option JCallback,
      (android_net_wimax_subscribeDisconnectToNetwork sdk g jdeviceId callback).ret
        = .returned (sdk.SubscribeDisconnectToNetwork g.deviceId)) ∧
    (∀ callback : Option JCallback,
      (android_net_wimax_subscribeNetworkSearchWideScan sdk g jdeviceId callback).ret
        = .returned (sdk.SubscribeNetworkSearchWideScan g.deviceId)) ∧
    (∀ callback : Option JCallback,
      (android_net_wimax_subscribeProvisioningOperation sdk g jdeviceId callback).ret
        = .returned (sdk.SubscribeProvisioningOperation g.deviceId)) ∧
    (∀ callback : Option JCallback,
      (android_net_wimax_subscribePackageUpdate sdk g jdeviceId callback).ret
        = .returned (sdk.SubscribePackageUpdate g.deviceId)) ∧
    (android_net_wimax_unsubscribeDeviceStatusChange sdk g jdeviceId).ret
      = .returned (sdk.UnsubscribeDeviceStatusChange g.deviceId) ∧
    (android_net_wimax_unsubscribeDeviceInsertRemove sdk g jdeviceId).ret
      = .returned (sdk.UnsubscribeDeviceInsertRemove g.deviceId) ∧
    (android_net_wimax_unsubscribeControlPowerManagement sdk g jdeviceId).ret
      = .returned (sdk.UnsubscribeControlPowerManagement g.deviceId) ∧
    (android_net_wimax_unsubscribeConnectToNetwork sdk g jdeviceId).ret
      = .returned (sdk.UnsubscribeConnectToNetwork g.deviceId) ∧
    (android_net_wimax_unsubscribeDisconnectToNetwork sdk g jdeviceId).ret
      = .returned (sdk.UnsubscribeDisconnectToNetwork g.deviceId) ∧
    (android_net_wimax_unsubscribeNetworkSearchWideScan sdk g jdeviceId).ret
      = .returned (sdk.UnsubscribeNetworkSearchWideScan g.deviceId) ∧
    (android_net_wimax_unsubscribeProvisioningOperation sdk g jdeviceId).ret
      = .returned (sdk.UnsubscribeProvisioningOperation g.deviceId) ∧
    (android_net_wimax_unsubscribePackageUpdate sdk g jdeviceId).ret
      = .returned (sdk.UnsubscribePackageUpdate g.deviceId) ∧
    (∀ interfaceInfo : JObject,
      (android_net_wimax_getIPInterfaceIndex sdk env g jdeviceId interfaceInfo).ret
        = .returned (sdk.GetIPInterfaceIndex g.deviceId).1) ∧
    (∀ connectedNspInfo : JObject,
      (android_net_wimax_getConnectedNSP sdk env g jdeviceId connectedNspInfo).ret
        = .returned (sdk.GetConnectedNSP g.deviceId).1) ∧
    (∀ packageInfo : JObject,
      (android_net_wimax_getPackageInformation sdk env g jdeviceId packageInfo).ret
        = .returned (sdk.GetPackageInformation g.deviceId).1) ∧
    (∀ connectionStatistics : JObject,
      (android_net_wimax_getStatistics sdk g jdeviceId connectionStatistics).ret
        = .returned (sdk.GetStatistics g.deviceId).1) ∧
    (∀ deviceStatus connectionStatus : List Int,
      ((android_net_wimax_getDeviceStatus sdk g jdeviceId deviceStatus connectionStatus).ret = .returned (sdk.GetDeviceStatus g.deviceId).1 ∨
          ∃ f, (android_net_wimax_getDeviceStatus sdk g jdeviceId deviceStatus connectionStatus).ret = .fault f) ∧
      (0 < deviceStatus.length → 0 < connectionStatus.length →
        (android_net_wimax_getDeviceStatus sdk g jdeviceId deviceStatus connectionStatus).ret = .returned (sdk.GetDeviceStatus g.deviceId).1)) ∧
    (∀ roamingMode : List Int,
      ((android_net_wimax_getRoamingMode sdk g jdeviceId roamingMode).ret = .returned (sdk.GetRoamingMode g.deviceId).1 ∨
          ∃ f, (android_net_wimax_getRoamingMode sdk g jdeviceId roamingMode).ret = .fault f) ∧
      (0 < roamingMode.length →
        (android_net_wimax_getRoamingMode sdk g jdeviceId roamingMode).ret = .returned (sdk.GetRoamingMode g.deviceId).1)) ∧
    (∀ (nspName : String) (provisioningStatus : List Int),
      ((android_net_wimax_getProvisioningStatus sdk g jdeviceId nspName provisioningStatus).ret = .returned (sdk.GetProvisioningStatus g.deviceId nspName).1 ∨
          ∃ f, (android_net_wimax_getProvisioningStatus sdk g jdeviceId nspName provisioningStatus).ret = .fault f) ∧
      (0 < provisioningStatus.length →
        (android_net_wimax_getProvisioningStatus sdk g jdeviceId nspName provisioningStatus).ret = .returned (sdk.GetProvisioningStatus g.deviceId nspName).1)) ∧
    (∀ (errorCode : Int) (buffer : List (Option String)) (length : List Int),
      ((android_net_wimax_getErrorString sdk env g jdeviceId errorCode buffer length).ret = .returned (sdk.GetErrorString g.deviceId errorCode).1 ∨
          ∃ f, (android_net_wimax_getErrorString sdk env g jdeviceId errorCode buffer length).ret = .fault f) ∧
      (0 < length.length →
        (sdk.GetErrorString g.deviceId errorCode).1 ≠ sdk.WIMAX_API_RET_SUCCESS ∨ 0 < buffer.length →
        (android_net_wimax_getErrorString sdk env g jdeviceId errorCode buffer length).ret = .returned (sdk.GetErrorString g.deviceId errorCode).1)) ∧
    (∀ (lockStatus : List Int) (nspName : List (Option String)),
      ((android_net_wimax_getServiceProviderLockStatus sdk env g jdeviceId lockStatus nspName).ret = .returned (sdk.GetServiceProviderLockStatus g.deviceId).1 ∨
          ∃ f, (android_net_wimax_getServiceProviderLockStatus sdk env g jdeviceId lockStatus nspName).ret = .fault f) ∧
      (0 < lockStatus.length →
        (sdk.GetServiceProviderLockStatus g.deviceId).1 ≠ sdk.WIMAX_API_RET_SUCCESS ∨ 0 < nspName.length →
        (android_net_wimax_getServiceProviderLockStatus sdk env g jdeviceId lockStatus nspName).ret = .returned (sdk.GetServiceProviderLockStatus g.deviceId).1)) ∧
    (∀ (hwDeviceIdList : List (Option JObject)) (size : List Int),
      ((android_net_wimax_getListDevice sdk env g jdeviceId hwDeviceIdList size).ret = .returned (sdk.GetListDevice g.deviceId hwDeviceIdList.length).1 ∨
          ∃ f, (android_net_wimax_getListDevice sdk env g jdeviceId hwDeviceIdList size).ret = .fault f) ∧
      (0 < size.length →
        (sdk.GetListDevice g.deviceId hwDeviceIdList.length).1 ≠ sdk.WIMAX_API_RET_SUCCESS ∨
          ((toJint (sdk.GetListDevice g.deviceId hwDeviceIdList.length).2.2).toNat ≤ hwDeviceIdList.length ∧ g.deviceId ≠ none) →
        (android_net_wimax_getListDevice sdk env g jdeviceId hwDeviceIdList size).ret = .returned (sdk.GetListDevice g.deviceId hwDeviceIdList.length).1)) ∧
    (∀ (networkList : List (Option JObject)) (size : List Int),
      ((android_net_wimax_getNetworkList sdk env g jdeviceId networkList size).ret = .returned (sdk.GetNetworkList g.deviceId networkList.length).1 ∨
          ∃ f, (android_net_wimax_getNetworkList sdk env g jdeviceId networkList size).ret = .fault f) ∧
      (0 < size.length →
        (sdk.GetNetworkList g.deviceId networkList.length).1 ≠ sdk.WIMAX_API_RET_SUCCESS ∨
          (toJint (sdk.GetNetworkList g.deviceId networkList.length).2.2).toNat ≤ networkList.length →
        (android_net_wimax_getNetworkList sdk env g jdeviceId networkList size).ret = .returned (sdk.GetNetworkList g.deviceId networkList.length).1)) ∧
    (∀ (profileList : List (Option JObject)) (size : List Int),
      ((android_net_wimax_getSelectProfileList sdk env g jdeviceId profileList size).ret = .returned (sdk.GetSelectProfileList g.deviceId profileList.length).1 ∨
          ∃ f, (android_net_wimax_getSelectProfileList sdk env g jdeviceId profileList size).ret = .fault f) ∧
      (0 < size.length →
        (sdk.GetSelectProfileList g.deviceId profileList.length).1 ≠ sdk.WIMAX_API_RET_SUCCESS ∨
          (toJint (sdk.GetSelectProfileList g.deviceId profileList.length).2.2).toNat ≤ profileList.length →
        (android_net_wimax_getSelectProfileList sdk env g jdeviceId profileList size).ret = .returned (sdk.GetSelectProfileList g.deviceId profileList.length).1)) ∧
    (∀ (nspName : String) (contactList : List (Option JObject)) (size : List Int),
      ((android_net_wimax_getContactInformation sdk env g nspName contactList size).ret = .returned (sdk.GetContactInformation g.deviceId nspName contactList.length).1 ∨
          ∃ f, (android_net_wimax_getContactInformation sdk env g nspName contactList size).ret = .fault f) ∧
      (0 < size.length →
        (sdk.GetContactInformation g.deviceId nspName contactList.length).1 ≠ sdk.WIMAX_API_RET_SUCCESS ∨
          (toJint (sdk.GetContactInformation g.deviceId nspName contactList.length).2.2).toNat ≤ contactList.length →
        (android_net_wimax_getContactInformation sdk env g nspName contactList size).ret = .returned (sdk.GetContactInformation g.deviceId nspName contactList.length).1)) ∧
    (∀ linkStatus : JObject,
      ((android_net_wimax_getLinkStatus sdk g jdeviceId linkStatus).ret = .returned (sdk.GetLinkStatus g.deviceId).1 ∨
          ∃ f, (android_net_wimax_getLinkStatus sdk g jdeviceId linkStatus).ret = .fault f) ∧
      (GetFieldID linkStatus "bsid" "[B" = none ∨
          (∃ bsid : List Int, linkStatus.get "bsid" = some (.byteArray (some bsid)) ∧
            6 ≤ bsid.length) →
        (android_net_wimax_getLinkStatus sdk g jdeviceId linkStatus).ret = .returned (sdk.GetLinkStatus g.deviceId).1)) ∧
    (∀ (deviceInfo : JObject) (referenced : List JObject),
      ((android_net_wimax_getDeviceInformation sdk env g jdeviceId deviceInfo referenced).ret = .returned (sdk.GetDeviceInformation g.deviceId).1 ∨
          ∃ f, (android_net_wimax_getDeviceInformation sdk env g jdeviceId deviceInfo referenced).ret = .fault f) ∧
      ((sdk.GetDeviceInformation g.deviceId).1 ≠ sdk.WIMAX_API_RET_SUCCESS →
        (android_net_wimax_getDeviceInformation sdk env g jdeviceId deviceInfo referenced).ret = .returned (sdk.GetDeviceInformation g.deviceId).1) ∧
      (∀ hw sw rf asic : Nat,
        deviceInfo.get "hwVersion" = some (.object "Landroid/net/wimax/structs/DeviceVersion;" (some hw)) →
        deviceInfo.get "swVersion" = some (.object "Landroid/net/wimax/structs/DeviceVersion;" (some sw)) →
        deviceInfo.get "rfVersion" = some (.object "Landroid/net/wimax/structs/DeviceVersion;" (some rf)) →
        deviceInfo.get "asicVersion" = some (.object "Landroid/net/wimax/structs/DeviceVersion;" (some asic)) →
        hw < referenced.length ∧ sw < referenced.length ∧ rf < referenced.length ∧
          asic < referenced.length →
        GetFieldID deviceInfo "macAddress" "[B" = none ∨
          (∃ mac : List Int, deviceInfo.get "macAddress" = some (.byteArray (some mac)) ∧
            6 ≤ mac.length) →
        (android_net_wimax_getDeviceInformation sdk env g jdeviceId deviceInfo referenced).ret = .returned (sdk.GetDeviceInformation g.deviceId).1)) :=
  ⟨rfl,
    rfl,
    rfl,
    rfl,
    fun _ => rfl,
    rfl,
    rfl,
    fun _ => rfl,
    fun _ _ _ => rfl,
    rfl,
    rfl,
    fun _ => rfl,
    fun _ => rfl,
    fun _ => rfl,
    fun _ => rfl,
    fun _ => rfl,
    fun _ => rfl,
    fun _ => rfl,
    fun _ => rfl,
    fun _ => rfl,
    fun _ => rfl,
    rfl,
    rfl,
    rfl,
    rfl,
    rfl,
    rfl,
    rfl,
    rfl,
    fun o => getIPInterfaceIndex_ret_always sdk env g jdeviceId o,
    fun o => getConnectedNSP_ret_always sdk env g jdeviceId o,
    fun o => getPackageInformation_ret_always sdk env g jdeviceId o,
    fun o => getStatistics_ret_always sdk g jdeviceId o,
    fun a b => ⟨getDeviceStatus_ret sdk g jdeviceId a b, getDeviceStatus_ret_present sdk g jdeviceId a b⟩,
    fun a => ⟨getRoamingMode_ret sdk g jdeviceId a, getRoamingMode_ret_present sdk g jdeviceId a⟩,
    fun n a => ⟨getProvisioningStatus_ret sdk g jdeviceId n a, getProvisioningStatus_ret_present sdk g jdeviceId n a⟩,
    fun c b l => ⟨getErrorString_ret sdk env g jdeviceId c b l, fun hl h => h.elim
      (fun hs => getErrorString_ret_failure sdk env g jdeviceId c b l hs hl)
      (fun hb => getErrorString_ret_present sdk env g jdeviceId c b l hl hb)⟩,
    fun a b => ⟨getServiceProviderLockStatus_ret sdk env g jdeviceId a b, fun hl h => h.elim
      (fun hs => getServiceProviderLockStatus_ret_failure sdk env g jdeviceId a b hs hl)
      (fun hb => getServiceProviderLockStatus_ret_present sdk env g jdeviceId a b hl hb)⟩,
    fun l s => ⟨getListDevice_ret sdk env g jdeviceId l s, fun hs h => h.elim
      (fun hf => getListDevice_ret_failure sdk env g jdeviceId l s hf hs)
      (fun hb => getListDevice_ret_inbounds sdk env g jdeviceId l s hs hb.1 hb.2)⟩,
    fun l s => ⟨getNetworkList_ret sdk env g jdeviceId l s, fun hs h => h.elim
      (fun hf => getNetworkList_ret_failure sdk env g jdeviceId l s hf hs)
      (fun hb => getNetworkList_ret_inbounds sdk env g jdeviceId l s hs hb)⟩,
    fun l s => ⟨getSelectProfileList_ret sdk env g jdeviceId l s, fun hs h => h.elim
      (fun hf => getSelectProfileList_ret_failure sdk env g jdeviceId l s hf hs)
      (fun hb => getSelectProfileList_ret_inbounds sdk env g jdeviceId l s hs hb)⟩,
    fun n l s => ⟨getContactInformation_ret sdk env g n l s, fun hs h => h.elim
      (fun hf => getContactInformation_ret_failure sdk env g n l s hf hs)
      (fun hb => getContactInformation_ret_inbounds sdk env g n l s hs hb)⟩,
    fun o => ⟨getLinkStatus_ret sdk g jdeviceId o, getLinkStatus_ret_present sdk g jdeviceId o⟩,
    fun o r => ⟨getDeviceInformation_ret sdk env g jdeviceId o r,
      getDeviceInformation_ret_failure sdk env g jdeviceId o r,
      getDeviceInformation_ret_present sdk env g jdeviceId o r⟩⟩

/-- C1 at four methods with an SDK that returns the code `5` (success being `1`): a
command, a subscription, a list getter and a scalar getter each return `5`. -/
theorem return_code_passthrough_witness :
    (android_net_wimax_wimaxAPIClose (WiMaxSDK.sample 5) Globals.sample JDeviceId.sample).ret
      = .returned 5 ∧
    (android_net_wimax_subscribePackageUpdate (WiMaxSDK.sample 5) Globals.sample
      JDeviceId.sample none).ret = .returned 5 ∧
    (android_net_wimax_getNetworkList (WiMaxSDK.sample 5) JNIEnv.sample Globals.sample
      JDeviceId.sample [none] [0]).ret = .returned 5 ∧
    (android_net_wimax_getProvisioningStatus (WiMaxSDK.sample 1) Globals.sample
      JDeviceId.sample "nsp" [0]).ret = .returned 1 := by
  have h := return_code_passthrough (WiMaxSDK.sample 5) JNIEnv.sample Globals.sample
    JDeviceId.sample
  have k := return_code_passthrough (WiMaxSDK.sample 1) JNIEnv.sample Globals.sample
    JDeviceId.sample
  refine ⟨?_, ?_, ?_, ?_⟩
  · exact h.2.2.2.1
  · exact h.2.2.2.2.2.2.2.2.2.2.2.2.2.2.2.2.2.2.2.2.1 none
  · exact ((h.2.2.2.2.2.2.2.2.2.2.2.2.2.2.2.2.2.2.2.2.2.2.2.2.2.2.2.2.2.2.2.2.2.2.2.2.2.2.2.1
      [none] [0]).2 (by decide) (Or.inl (by decide)))
  · exact ((k.2.2.2.2.2.2.2.2.2.2.2.2.2.2.2.2.2.2.2.2.2.2.2.2.2.2.2.2.2.2.2.2.2.2.2.1
      "nsp" [0]).2 (by decide))

/-! ## The device id the SDK receives -/

/-- C9, on the code.  Each of the 40 native functions that declare a `jdeviceId`
parameter, other than `wimaxAPIOpen` and `wimaxDeviceOpen`, never reads it and hands the
global device id to its SDK entry point.  For the 26 that marshal nothing back, the run
with either of two managed `DeviceId` arguments `a` and `b` is the same, given here in
full: the one SDK call is made on the global device id and its code is returned.  For
the 14 that marshal a result back, the one SDK call is made on the global device id, its
code is what the run returns unless it faults, and the run with `b` and any SDK that
answers as `sdk` does when handed the global device id is the run with `a` and `sdk`.
`cmdControlPowerManagement` and `getContactInformation` hand the global device id to the
SDK as well, but declare no `jdeviceId` parameter, while `gWimaxMethods` registers them,
like the other 42, under a signature that starts with a `DeviceId`: the managed
`DeviceId` argument is passed where the first function declares `jint pwrState` and the
second `jstring nspName`. -/
theorem sdk_receives_global_deviceId (sdk : WiMaxSDK) (env : JNIEnv) (g : Globals)
    (a b : JDeviceId) :
    (android_net_wimax_wimaxDeviceClose sdk g a
        = ⟨g,
            [⟨"WiMaxDeviceClose", g.deviceId, [], [],
              sdk.WiMaxDeviceClose g.deviceId⟩], (),
            .returned (sdk.WiMaxDeviceClose g.deviceId)⟩ ∧
      android_net_wimax_wimaxDeviceClose sdk g b
        = android_net_wimax_wimaxDeviceClose sdk g a) ∧
    (android_net_wimax_wimaxAPIClose sdk g a
        = ⟨{ g with deviceId := none },
            [⟨"WiMaxAPIClose", g.deviceId, [], [],
              sdk.WiMaxAPIClose g.deviceId⟩], (),
            .returned (sdk.WiMaxAPIClose g.deviceId)⟩ ∧
      android_net_wimax_wimaxAPIClose sdk g b
        = android_net_wimax_wimaxAPIClose sdk g a) ∧
    (android_net_wimax_cmdResetWimaxDevice sdk g a
        = ⟨g,
            [⟨"CmdResetWimaxDevice", g.deviceId, [], [],
              sdk.CmdResetWimaxDevice g.deviceId⟩], (),
            .returned (sdk.CmdResetWimaxDevice g.deviceId)⟩ ∧
      android_net_wimax_cmdResetWimaxDevice sdk g b
        = android_net_wimax_cmdResetWimaxDevice sdk g a) ∧
    (android_net_wimax_cmdResetToFactorySettings sdk g a
        = ⟨g,
            [⟨"CmdResetToFactorySettings", g.deviceId, [], [],
              sdk.CmdResetToFactorySettings g.deviceId⟩], (),
            .returned (sdk.CmdResetToFactorySettings g.deviceId)⟩ ∧
      android_net_wimax_cmdResetToFactorySettings sdk g b
        = android_net_wimax_cmdResetToFactorySettings sdk g a) ∧
    (∀ (lockCode : String),
      android_net_wimax_setServiceProviderUnLock sdk g a lockCode
        = ⟨g,
            [⟨"SetServiceProviderUnLock", g.deviceId, [], [lockCode],
              sdk.SetServiceProviderUnLock g.deviceId lockCode⟩], (),
            .returned (sdk.SetServiceProviderUnLock g.deviceId lockCode)⟩ ∧
      android_net_wimax_setServiceProviderUnLock sdk g b lockCode
        = android_net_wimax_setServiceProviderUnLock sdk g a lockCode) ∧
    (∀ (nspName : String) (profileId : Int) (password : String),
      android_net_wimax_cmdConnectToNetwork sdk g a nspName profileId password
        = ⟨g,
            [⟨"CmdConnectToNetwork", g.deviceId, [profileId], [nspName, password],
              sdk.CmdConnectToNetwork g.deviceId nspName profileId password⟩], (),
            .returned (sdk.CmdConnectToNetwork g.deviceId nspName profileId password)⟩ ∧
      android_net_wimax_cmdConnectToNetwork sdk g b nspName profileId password
        = android_net_wimax_cmdConnectToNetwork sdk g a nspName profileId password) ∧
    (android_net_wimax_cmdDisconnectFromNetwork sdk g a
        = ⟨g,
            [⟨"CmdDisconnectFromNetwork", g.deviceId, [], [],
              sdk.CmdDisconnectFromNetwork g.deviceId⟩], (),
            .returned (sdk.CmdDisconnectFromNetwork g.deviceId)⟩ ∧
      android_net_wimax_cmdDisconnectFromNetwork sdk g b
        = android_net_wimax_cmdDisconnectFromNetwork sdk g a) ∧
    (android_net_wimax_cmdNetworkSearchWideScan sdk g a
        = ⟨g,
            [⟨"CmdNetworkSearchWideScan", g.deviceId, [], [],
              sdk.CmdNetworkSearchWideScan g.deviceId⟩], (),
            .returned (sdk.CmdNetworkSearchWideScan g.deviceId)⟩ ∧
      android_net_wimax_cmdNetworkSearchWideScan sdk g b
        = android_net_wimax_cmdNetworkSearchWideScan sdk g a) ∧
    (∀ (roamingMode : Int),
      android_net_wimax_setRoamingMode sdk g a roamingMode
        = ⟨g,
            [⟨"SetRoamingMode", g.deviceId,
                [(if roamingMode = JNI_TRUE then sdk.WIMAX_API_ROAMING_ENABLED
                  else sdk.WIMAX_API_ROAMING_DISABLED)], [],
              sdk.SetRoamingMode g.deviceId
                (if roamingMode = JNI_TRUE then sdk.WIMAX_API_ROAMING_ENABLED
                  else sdk.WIMAX_API_ROAMING_DISABLED)⟩], (),
            .returned (sdk.SetRoamingMode g.deviceId
                (if roamingMode = JNI_TRUE then sdk.WIMAX_API_ROAMING_ENABLED
                  else sdk.WIMAX_API_ROAMING_DISABLED))⟩ ∧
      android_net_wimax_setRoamingMode sdk g b roamingMode
        = android_net_wimax_setRoamingMode sdk g a roamingMode) ∧
    (∀ (state : Int),
      android_net_wimax_setPackageUpdateState sdk g a state
        = ⟨g,
            [⟨"SetPackageUpdateState", g.deviceId,
                [(if state = 0 then sdk.WIMAX_API_PACKAGE_UPDATE_DELAY
                  else if state = 1 then sdk.WIMAX_API_PACKAGE_UPDATE_ACCEPTED
                  else if state = 2 then sdk.WIMAX_API_PACKAGE_UPDATE_DENIED
                  else sdk.WIMAX_API_PACKAGE_UPDATE_DELAY)], [],
              sdk.SetPackageUpdateState g.deviceId
                (if state = 0 then sdk.WIMAX_API_PACKAGE_UPDATE_DELAY
                  else if state = 1 then sdk.WIMAX_API_PACKAGE_UPDATE_ACCEPTED
                  else if state = 2 then sdk.WIMAX_API_PACKAGE_UPDATE_DENIED
                  else sdk.WIMAX_API_PACKAGE_UPDATE_DELAY)⟩], (),
            .returned (sdk.SetPackageUpdateState g.deviceId
                (if state = 0 then sdk.WIMAX_API_PACKAGE_UPDATE_DELAY
                  else if state = 1 then sdk.WIMAX_API_PACKAGE_UPDATE_ACCEPTED
                  else if state = 2 then sdk.WIMAX_API_PACKAGE_UPDATE_DENIED
                  else sdk.WIMAX_API_PACKAGE_UPDATE_DELAY))⟩ ∧
      android_net_wimax_setPackageUpdateState sdk g b state
        = android_net_wimax_setPackageUpdateState sdk g a state) ∧
    (∀ (callback : Option JCallback),
      android_net_wimax_subscribeDeviceStatusChange sdk g a callback
        = ⟨{ g with deviceStatusChangeCB := callback },
            [⟨"SubscribeDeviceStatusChange", g.deviceId, [], [],
              sdk.SubscribeDeviceStatusChange g.deviceId⟩], (),
            .returned (sdk.SubscribeDeviceStatusChange g.deviceId)⟩ ∧
      android_net_wimax_subscribeDeviceStatusChange sdk g b callback
        = android_net_wimax_subscribeDeviceStatusChange sdk g a callback) ∧
    (∀ (callback : Option JCallback),
      android_net_wimax_subscribeDeviceInsertRemove sdk g a callback
        = ⟨{ g with deviceInsertRemoveCB := callback },
            [⟨"SubscribeDeviceInsertRemove", g.deviceId, [], [],
              sdk.SubscribeDeviceInsertRemove g.deviceId⟩], (),
            .returned (sdk.SubscribeDeviceInsertRemove g.deviceId)⟩ ∧
      android_net_wimax_subscribeDeviceInsertRemove sdk g b callback
        = android_net_wimax_subscribeDeviceInsertRemove sdk g a callback) ∧
    (∀ (callback : Option JCallback),
      android_net_wimax_subscribeControlPowerManagement sdk g a callback
        = ⟨{ g with controlPowerManagementCB := callback },
            [⟨"SubscribeControlPowerManagement", g.deviceId, [], [],
              sdk.SubscribeControlPowerManagement g.deviceId⟩], (),
            .returned (sdk.SubscribeControlPowerManagement g.deviceId)⟩ ∧
      android_net_wimax_subscribeControlPowerManagement sdk g b callback
        = android_net_wimax_subscribeControlPowerManagement sdk g a callback) ∧
    (∀ (callback : Option JCallback),
      android_net_wimax_subscribeConnectToNetwork sdk g a callback
        = ⟨{ g with connectToNetworkCB := callback },
            [⟨"SubscribeConnectToNetwork", g.deviceId, [], [],
              sdk.SubscribeConnectToNetwork g.deviceId⟩], (),
            .returned (sdk.SubscribeConnectToNetwork g.deviceId)⟩ ∧
      android_net_wimax_subscribeConnectToNetwork sdk g b callback
        = android_net_wimax_subscribeConnectToNetwork sdk g a callback) ∧
    (∀ (callback : Option JCallback),
      android_net_wimax_subscribeDisconnectToNetwork sdk g a callback
        = ⟨{ g with disconnectToNetworkCB := callback },
            [⟨"SubscribeDisconnectToNetwork", g.deviceId, [], [],
              sdk.SubscribeDisconnectToNetwork g.deviceId⟩], (),
            .returned (sdk.SubscribeDisconnectToNetwork g.deviceId)⟩ ∧
      android_net_wimax_subscribeDisconnectToNetwork sdk g b callback
        = android_net_wimax_subscribeDisconnectToNetwork sdk g a callback) ∧
    (∀ (callback : Option JCallback),
      android_net_wimax_subscribeNetworkSearchWideScan sdk g a callback
        = ⟨{ g with networkSearchWideScanCB := callback },
            [⟨"SubscribeNetworkSearchWideScan", g.deviceId, [], [],
              sdk.SubscribeNetworkSearchWideScan g.deviceId⟩], (),
            .returned (sdk.SubscribeNetworkSearchWideScan g.deviceId)⟩ ∧
      android_net_wimax_subscribeNetworkSearchWideScan sdk g b callback
        = android_net_wimax_subscribeNetworkSearchWideScan sdk g a callback) ∧
    (∀ (callback : Option JCallback),
      android_net_wimax_subscribeProvisioningOperation sdk g a callback
        = ⟨{ g with provisioningOperationCB := callback },
            [⟨"SubscribeProvisioningOperation", g.deviceId, [], [],
              sdk.SubscribeProvisioningOperation g.deviceId⟩], (),
            .returned (sdk.SubscribeProvisioningOperation g.deviceId)⟩ ∧
      android_net_wimax_subscribeProvisioningOperation sdk g b callback
        = android_net_wimax_subscribeProvisioningOperation sdk g a callback) ∧
    (∀ (callback : Option JCallback),
      android_net_wimax_subscribePackageUpdate sdk g a callback
        = ⟨{ g with packageUpdateCB := callback },
            [⟨"SubscribePackageUpdate", g.deviceId, [], [],
              sdk.SubscribePackageUpdate g.deviceId⟩], (),
            .returned (sdk.SubscribePackageUpdate g.deviceId)⟩ ∧
      android_net_wimax_subscribePackageUpdate sdk g b callback
        = android_net_wimax_subscribePackageUpdate sdk g a callback) ∧
    (android_net_wimax_unsubscribeDeviceStatusChange sdk g a
        = ⟨g,
            [⟨"UnsubscribeDeviceStatusChange", g.deviceId, [], [],
              sdk.UnsubscribeDeviceStatusChange g.deviceId⟩], (),
            .returned (sdk.UnsubscribeDeviceStatusChange g.deviceId)⟩ ∧
      android_net_wimax_unsubscribeDeviceStatusChange sdk g b
        = android_net_wimax_unsubscribeDeviceStatusChange sdk g a) ∧
    (android_net_wimax_unsubscribeDeviceInsertRemove sdk g a
        = ⟨g,
            [⟨"UnsubscribeDeviceInsertRemove", g.deviceId, [], [],
              sdk.UnsubscribeDeviceInsertRemove g.deviceId⟩], (),
            .returned (sdk.UnsubscribeDeviceInsertRemove g.deviceId)⟩ ∧
      android_net_wimax_unsubscribeDeviceInsertRemove sdk g b
        = android_net_wimax_unsubscribeDeviceInsertRemove sdk g a) ∧
    (android_net_wimax_unsubscribeControlPowerManagement sdk g a
        = ⟨g,
            [⟨"UnsubscribeControlPowerManagement", g.deviceId, [], [],
              sdk.UnsubscribeControlPowerManagement g.deviceId⟩], (),
            .returned (sdk.UnsubscribeControlPowerManagement g.deviceId)⟩ ∧
      android_net_wimax_unsubscribeControlPowerManagement sdk g b
        = android_net_wimax_unsubscribeControlPowerManagement sdk g a) ∧
    (android_net_wimax_unsubscribeConnectToNetwork sdk g a
        = ⟨g,
            [⟨"UnsubscribeConnectToNetwork", g.deviceId, [], [],
              sdk.UnsubscribeConnectToNetwork g.deviceId⟩], (),
            .returned (sdk.UnsubscribeConnectToNetwork g.deviceId)⟩ ∧
      android_net_wimax_unsubscribeConnectToNetwork sdk g b
        = android_net_wimax_unsubscribeConnectToNetwork sdk g a) ∧
    (android_net_wimax_unsubscribeDisconnectToNetwork sdk g a
        = ⟨g,
            [⟨"UnsubscribeDisconnectToNetwork", g.deviceId, [], [],
              sdk.UnsubscribeDisconnectToNetwork g.deviceId⟩], (),
            .returned (sdk.UnsubscribeDisconnectToNetwork g.deviceId)⟩ ∧
      android_net_wimax_unsubscribeDisconnectToNetwork sdk g b
        = android_net_wimax_unsubscribeDisconnectToNetwork sdk g a) ∧
    (android_net_wimax_unsubscribeNetworkSearchWideScan sdk g a
        = ⟨g,
            [⟨"UnsubscribeNetworkSearchWideScan", g.deviceId, [], [],
              sdk.UnsubscribeNetworkSearchWideScan g.deviceId⟩], (),
            .returned (sdk.UnsubscribeNetworkSearchWideScan g.deviceId)⟩ ∧
      android_net_wimax_unsubscribeNetworkSearchWideScan sdk g b
        = android_net_wimax_unsubscribeNetworkSearchWideScan sdk g a) ∧
    (android_net_wimax_unsubscribeProvisioningOperation sdk g a
        = ⟨g,
            [⟨"UnsubscribeProvisioningOperation", g.deviceId, [], [],
              sdk.UnsubscribeProvisioningOperation g.deviceId⟩], (),
            .returned (sdk.UnsubscribeProvisioningOperation g.deviceId)⟩ ∧
      android_net_wimax_unsubscribeProvisioningOperation sdk g b
        = android_net_wimax_unsubscribeProvisioningOperation sdk g a) ∧
    (android_net_wimax_unsubscribePackageUpdate sdk g a
        = ⟨g,
            [⟨"UnsubscribePackageUpdate", g.deviceId, [], [],
              sdk.UnsubscribePackageUpdate g.deviceId⟩], (),
            .returned (sdk.UnsubscribePackageUpdate g.deviceId)⟩ ∧
      android_net_wimax_unsubscribePackageUpdate sdk g b
        = android_net_wimax_unsubscribePackageUpdate sdk g a) ∧
    (∀ (hwDeviceIdList : List (Option JObject)) (size : List Int),
      (android_net_wimax_getListDevice sdk env g a hwDeviceIdList size).sdkCalls
        = [⟨"GetListDevice", g.deviceId, [], [],
            (sdk.GetListDevice g.deviceId hwDeviceIdList.length).1⟩] ∧
      ((android_net_wimax_getListDevice sdk env g a hwDeviceIdList size).ret
          = .returned (sdk.GetListDevice g.deviceId hwDeviceIdList.length).1 ∨
        ∃ f, (android_net_wimax_getListDevice sdk env g a hwDeviceIdList size).ret = .fault f) ∧
      (∀ sdk2 : WiMaxSDK, sdk2.WIMAX_API_RET_SUCCESS = sdk.WIMAX_API_RET_SUCCESS →
        sdk2.GetListDevice g.deviceId = sdk.GetListDevice g.deviceId →
        android_net_wimax_getListDevice sdk2 env g b hwDeviceIdList size
          = android_net_wimax_getListDevice sdk env g a hwDeviceIdList size)) ∧
    (∀ (errorCode : Int) (buffer : List (Option String)) (length : List Int),
      (android_net_wimax_getErrorString sdk env g a errorCode buffer length).sdkCalls
        = [⟨"GetErrorString", g.deviceId, [errorCode], [],
            (sdk.GetErrorString g.deviceId errorCode).1⟩] ∧
      ((android_net_wimax_getErrorString sdk env g a errorCode buffer length).ret
          = .returned (sdk.GetErrorString g.deviceId errorCode).1 ∨
        ∃ f, (android_net_wimax_getErrorString sdk env g a errorCode buffer length).ret = .fault f) ∧
      (∀ sdk2 : WiMaxSDK, sdk2.WIMAX_API_RET_SUCCESS = sdk.WIMAX_API_RET_SUCCESS →
        sdk2.GetErrorString g.deviceId = sdk.GetErrorString g.deviceId →
        android_net_wimax_getErrorString sdk2 env g b errorCode buffer length
          = android_net_wimax_getErrorString sdk env g a errorCode buffer length)) ∧
    (∀ (lockStatus : List Int) (nspName : List (Option String)),
      (android_net_wimax_getServiceProviderLockStatus sdk env g a lockStatus nspName).sdkCalls
        = [⟨"GetServiceProviderLockStatus", g.deviceId, [], [],
            (sdk.GetServiceProviderLockStatus g.deviceId).1⟩] ∧
      ((android_net_wimax_getServiceProviderLockStatus sdk env g a lockStatus nspName).ret
          = .returned (sdk.GetServiceProviderLockStatus g.deviceId).1 ∨
        ∃ f, (android_net_wimax_getServiceProviderLockStatus sdk env g a lockStatus nspName).ret = .fault f) ∧
      (∀ sdk2 : WiMaxSDK, sdk2.WIMAX_API_RET_SUCCESS = sdk.WIMAX_API_RET_SUCCESS →
        sdk2.GetServiceProviderLockStatus g.deviceId = sdk.GetServiceProviderLockStatus g.deviceId →
        android_net_wimax_getServiceProviderLockStatus sdk2 env g b lockStatus nspName
          = android_net_wimax_getServiceProviderLockStatus sdk env g a lockStatus nspName)) ∧
    (∀ (networkList : List (Option JObject)) (size : List Int),
      (android_net_wimax_getNetworkList sdk env g a networkList size).sdkCalls
        = [⟨"GetNetworkList", g.deviceId, [], [],
            (sdk.GetNetworkList g.deviceId networkList.length).1⟩] ∧
      ((android_net_wimax_getNetworkList sdk env g a networkList size).ret
          = .returned (sdk.GetNetworkList g.deviceId networkList.length).1 ∨
        ∃ f, (android_net_wimax_getNetworkList sdk env g a networkList size).ret = .fault f) ∧
      (∀ sdk2 : WiMaxSDK, sdk2.WIMAX_API_RET_SUCCESS = sdk.WIMAX_API_RET_SUCCESS →
        sdk2.GetNetworkList g.deviceId = sdk.GetNetworkList g.deviceId →
        android_net_wimax_getNetworkList sdk2 env g b networkList size
          = android_net_wimax_getNetworkList sdk env g a networkList size)) ∧
    (∀ (interfaceInfo : JObject),
      (android_net_wimax_getIPInterfaceIndex sdk env g a interfaceInfo).sdkCalls
        = [⟨"GetIPInterfaceIndex", g.deviceId, [], [],
            (sdk.GetIPInterfaceIndex g.deviceId).1⟩] ∧
      ((android_net_wimax_getIPInterfaceIndex sdk env g a interfaceInfo).ret
          = .returned (sdk.GetIPInterfaceIndex g.deviceId).1 ∨
        ∃ f, (android_net_wimax_getIPInterfaceIndex sdk env g a interfaceInfo).ret = .fault f) ∧
      (∀ sdk2 : WiMaxSDK, sdk2.WIMAX_API_RET_SUCCESS = sdk.WIMAX_API_RET_SUCCESS →
        sdk2.GetIPInterfaceIndex g.deviceId = sdk.GetIPInterfaceIndex g.deviceId →
        android_net_wimax_getIPInterfaceIndex sdk2 env g b interfaceInfo
          = android_net_wimax_getIPInterfaceIndex sdk env g a interfaceInfo)) ∧
    (∀ (profileList : List (Option JObject)) (size : List Int),
      (android_net_wimax_getSelectProfileList sdk env g a profileList size).sdkCalls
        = [⟨"GetSelectProfileList", g.deviceId, [], [],
            (sdk.GetSelectProfileList g.deviceId profileList.length).1⟩] ∧
      ((android_net_wimax_getSelectProfileList sdk env g a profileList size).ret
          = .returned (sdk.GetSelectProfileList g.deviceId profileList.length).1 ∨
        ∃ f, (android_net_wimax_getSelectProfileList sdk env g a profileList size).ret = .fault f) ∧
      (∀ sdk2 : WiMaxSDK, sdk2.WIMAX_API_RET_SUCCESS = sdk.WIMAX_API_RET_SUCCESS →
        sdk2.GetSelectProfileList g.deviceId = sdk.GetSelectProfileList g.deviceId →
        android_net_wimax_getSelectProfileList sdk2 env g b profileList size
          = android_net_wimax_getSelectProfileList sdk env g a profileList size)) ∧
    (∀ (linkStatus : JObject),
      (android_net_wimax_getLinkStatus sdk g a linkStatus).sdkCalls
        = [⟨"GetLinkStatus", g.deviceId, [], [],
            (sdk.GetLinkStatus g.deviceId).1⟩] ∧
      ((android_net_wimax_getLinkStatus sdk g a linkStatus).ret
          = .returned (sdk.GetLinkStatus g.deviceId).1 ∨
        ∃ f, (android_net_wimax_getLinkStatus sdk g a linkStatus).ret = .fault f) ∧
      (∀ sdk2 : WiMaxSDK, sdk2.WIMAX_API_RET_SUCCESS = sdk.WIMAX_API_RET_SUCCESS →
        sdk2.GetLinkStatus g.deviceId = sdk.GetLinkStatus g.deviceId →
        android_net_wimax_getLinkStatus sdk2 g b linkStatus
          = android_net_wimax_getLinkStatus sdk g a linkStatus)) ∧
    (∀ (deviceInfo : JObject) (referenced : List JObject),
      (android_net_wimax_getDeviceInformation sdk env g a deviceInfo referenced).sdkCalls
        = [⟨"GetDeviceInformation", g.deviceId, [], [],
            (sdk.GetDeviceInformation g.deviceId).1⟩] ∧
      ((android_net_wimax_getDeviceInformation sdk env g a deviceInfo referenced).ret
          = .returned (sdk.GetDeviceInformation g.deviceId).1 ∨
        ∃ f, (android_net_wimax_getDeviceInformation sdk env g a deviceInfo referenced).ret = .fault f) ∧
      (∀ sdk2 : WiMaxSDK, sdk2.WIMAX_API_RET_SUCCESS = sdk.WIMAX_API_RET_SUCCESS →
        sdk2.GetDeviceInformation g.deviceId = sdk.GetDeviceInformation g.deviceId →
        android_net_wimax_getDeviceInformation sdk2 env g b deviceInfo referenced
          = android_net_wimax_getDeviceInformation sdk env g a deviceInfo referenced)) ∧
    (∀ (deviceStatus : List Int) (connectionStatus : List Int),
      (android_net_wimax_getDeviceStatus sdk g a deviceStatus connectionStatus).sdkCalls
        = [⟨"GetDeviceStatus", g.deviceId, [], [],
            (sdk.GetDeviceStatus g.deviceId).1⟩] ∧
      ((android_net_wimax_getDeviceStatus sdk g a deviceStatus connectionStatus).ret
          = .returned (sdk.GetDeviceStatus g.deviceId).1 ∨
        ∃ f, (android_net_wimax_getDeviceStatus sdk g a deviceStatus connectionStatus).ret = .fault f) ∧
      (∀ sdk2 : WiMaxSDK, sdk2.GetDeviceStatus g.deviceId = sdk.GetDeviceStatus g.deviceId →
        android_net_wimax_getDeviceStatus sdk2 g b deviceStatus connectionStatus
          = android_net_wimax_getDeviceStatus sdk g a deviceStatus connectionStatus)) ∧
    (∀ (connectedNspInfo : JObject),
      (android_net_wimax_getConnectedNSP sdk env g a connectedNspInfo).sdkCalls
        = [⟨"GetConnectedNSP", g.deviceId, [], [],
            (sdk.GetConnectedNSP g.deviceId).1⟩] ∧
      ((android_net_wimax_getConnectedNSP sdk env g a connectedNspInfo).ret
          = .returned (sdk.GetConnectedNSP g.deviceId).1 ∨
        ∃ f, (android_net_wimax_getConnectedNSP sdk env g a connectedNspInfo).ret = .fault f) ∧
      (∀ sdk2 : WiMaxSDK, sdk2.WIMAX_API_RET_SUCCESS = sdk.WIMAX_API_RET_SUCCESS →
        sdk2.GetConnectedNSP g.deviceId = sdk.GetConnectedNSP g.deviceId →
        android_net_wimax_getConnectedNSP sdk2 env g b connectedNspInfo
          = android_net_wimax_getConnectedNSP sdk env g a connectedNspInfo)) ∧
    (∀ (roamingMode : List Int),
      (android_net_wimax_getRoamingMode sdk g a roamingMode).sdkCalls
        = [⟨"GetRoamingMode", g.deviceId, [], [],
            (sdk.GetRoamingMode g.deviceId).1⟩] ∧
      ((android_net_wimax_getRoamingMode sdk g a roamingMode).ret
          = .returned (sdk.GetRoamingMode g.deviceId).1 ∨
        ∃ f, (android_net_wimax_getRoamingMode sdk g a roamingMode).ret = .fault f) ∧
      (∀ sdk2 : WiMaxSDK, sdk2.WIMAX_API_ROAMING_ENABLED = sdk.WIMAX_API_ROAMING_ENABLED →
        sdk2.GetRoamingMode g.deviceId = sdk.GetRoamingMode g.deviceId →
        android_net_wimax_getRoamingMode sdk2 g b roamingMode
          = android_net_wimax_getRoamingMode sdk g a roamingMode)) ∧
    (∀ (connectionStatistics : JObject),
      (android_net_wimax_getStatistics sdk g a connectionStatistics).sdkCalls
        = [⟨"GetStatistics", g.deviceId, [], [],
            (sdk.GetStatistics g.deviceId).1⟩] ∧
      ((android_net_wimax_getStatistics sdk g a connectionStatistics).ret
          = .returned (sdk.GetStatistics g.deviceId).1 ∨
        ∃ f, (android_net_wimax_getStatistics sdk g a connectionStatistics).ret = .fault f) ∧
      (∀ sdk2 : WiMaxSDK, sdk2.WIMAX_API_RET_SUCCESS = sdk.WIMAX_API_RET_SUCCESS →
        sdk2.GetStatistics g.deviceId = sdk.GetStatistics g.deviceId →
        android_net_wimax_getStatistics sdk2 g b connectionStatistics
          = android_net_wimax_getStatistics sdk g a connectionStatistics)) ∧
    (∀ (nspName : String) (provisioningStatus : List Int),
      (android_net_wimax_getProvisioningStatus sdk g a nspName provisioningStatus).sdkCalls
        = [⟨"GetProvisioningStatus", g.deviceId, [], [nspName],
            (sdk.GetProvisioningStatus g.deviceId nspName).1⟩] ∧
      ((android_net_wimax_getProvisioningStatus sdk g a nspName provisioningStatus).ret
          = .returned (sdk.GetProvisioningStatus g.deviceId nspName).1 ∨
        ∃ f, (android_net_wimax_getProvisioningStatus sdk g a nspName provisioningStatus).ret = .fault f) ∧
      (∀ sdk2 : WiMaxSDK, sdk2.GetProvisioningStatus g.deviceId = sdk.GetProvisioningStatus g.deviceId →
        android_net_wimax_getProvisioningStatus sdk2 g b nspName provisioningStatus
          = android_net_wimax_getProvisioningStatus sdk g a nspName provisioningStatus)) ∧
    (∀ (packageInfo : JObject),
      (android_net_wimax_getPackageInformation sdk env g a packageInfo).sdkCalls
        = [⟨"GetPackageInformation", g.deviceId, [], [],
            (sdk.GetPackageInformation g.deviceId).1⟩] ∧
      ((android_net_wimax_getPackageInformation sdk env g a packageInfo).ret
          = .returned (sdk.GetPackageInformation g.deviceId).1 ∨
        ∃ f, (android_net_wimax_getPackageInformation sdk env g a packageInfo).ret = .fault f) ∧
      (∀ sdk2 : WiMaxSDK, sdk2.WIMAX_API_RET_SUCCESS = sdk.WIMAX_API_RET_SUCCESS →
        sdk2.GetPackageInformation g.deviceId = sdk.GetPackageInformation g.deviceId →
        android_net_wimax_getPackageInformation sdk2 env g b packageInfo
          = android_net_wimax_getPackageInformation sdk env g a packageInfo)) ∧
    (∀ (pwrState : Int), android_net_wimax_cmdControlPowerManagement sdk g pwrState
        = ⟨g,
            [⟨"CmdControlPowerManagement", g.deviceId, [(if pwrState = 1 then sdk.WIMAX_API_RF_OFF else sdk.WIMAX_API_RF_ON)], [],
              sdk.CmdControlPowerManagement g.deviceId (if pwrState = 1 then sdk.WIMAX_API_RF_OFF else sdk.WIMAX_API_RF_ON)⟩], (),
            .returned (sdk.CmdControlPowerManagement g.deviceId (if pwrState = 1 then sdk.WIMAX_API_RF_OFF else sdk.WIMAX_API_RF_ON))⟩) ∧
    (∀ (nspName : String) (contactList : List (Option JObject)) (size : List Int),
      (android_net_wimax_getContactInformation sdk env g nspName contactList size).sdkCalls
        = [⟨"GetContactInformation", g.deviceId, [], [nspName],
            (sdk.GetContactInformation g.deviceId nspName contactList.length).1⟩] ∧
      ((android_net_wimax_getContactInformation sdk env g nspName contactList size).ret
          = .returned (sdk.GetContactInformation g.deviceId nspName contactList.length).1 ∨
        ∃ f, (android_net_wimax_getContactInformation sdk env g nspName contactList size).ret = .fault f) ∧
      (∀ sdk2 : WiMaxSDK, sdk2.WIMAX_API_RET_SUCCESS = sdk.WIMAX_API_RET_SUCCESS →
        sdk2.GetContactInformation g.deviceId = sdk.GetContactInformation g.deviceId →
        android_net_wimax_getContactInformation sdk2 env g nspName contactList size
          = android_net_wimax_getContactInformation sdk env g nspName contactList size)) ∧
    (gWimaxMethods.filter (fun m => decide (m.firstParameter ≠ none ∧
        m.firstParameter ≠ some (.jobject, .jobject)))).map (fun m => (m.name, m.firstParameter))
      = [("CmdControlPowerManagement", some (.jobject, .jint)),
          ("GetContactInformation", some (.jobject, .jstring))] ∧
    (gWimaxMethods.filter (fun m => decide (m.firstParameter = some (.jobject, .jobject)))).length
      = 42 :=
  ⟨⟨rfl, rfl⟩,
    ⟨rfl, rfl⟩,
    ⟨rfl, rfl⟩,
    ⟨rfl, rfl⟩,
    fun _ => ⟨rfl, rfl⟩,
    fun _ _ _ => ⟨rfl, rfl⟩,
    ⟨rfl, rfl⟩,
    ⟨rfl, rfl⟩,
    fun _ => ⟨rfl, rfl⟩,
    fun _ => ⟨rfl, rfl⟩,
    fun _ => ⟨rfl, rfl⟩,
    fun _ => ⟨rfl, rfl⟩,
    fun _ => ⟨rfl, rfl⟩,
    fun _ => ⟨rfl, rfl⟩,
    fun _ => ⟨rfl, rfl⟩,
    fun _ => ⟨rfl, rfl⟩,
    fun _ => ⟨rfl, rfl⟩,
    fun _ => ⟨rfl, rfl⟩,
    ⟨rfl, rfl⟩,
    ⟨rfl, rfl⟩,
    ⟨rfl, rfl⟩,
    ⟨rfl, rfl⟩,
    ⟨rfl, rfl⟩,
    ⟨rfl, rfl⟩,
    ⟨rfl, rfl⟩,
    ⟨rfl, rfl⟩,
    fun hwDeviceIdList size => ⟨getListDevice_sdkCalls sdk env g a hwDeviceIdList size, getListDevice_ret sdk env g a hwDeviceIdList size,
      fun sdk2 h0 hf => by
        unfold android_net_wimax_getListDevice
        rw [h0, hf]⟩,
    fun errorCode buffer length => ⟨getErrorString_sdkCalls sdk env g a errorCode buffer length, getErrorString_ret sdk env g a errorCode buffer length,
      fun sdk2 h0 hf => by
        unfold android_net_wimax_getErrorString
        rw [h0, hf]⟩,
    fun lockStatus nspName => ⟨getServiceProviderLockStatus_sdkCalls sdk env g a lockStatus nspName, getServiceProviderLockStatus_ret sdk env g a lockStatus nspName,
      fun sdk2 h0 hf => by
        unfold android_net_wimax_getServiceProviderLockStatus
        rw [h0, hf]⟩,
    fun networkList size => ⟨getNetworkList_sdkCalls sdk env g a networkList size, getNetworkList_ret sdk env g a networkList size,
      fun sdk2 h0 hf => by
        unfold android_net_wimax_getNetworkList
        rw [h0, hf]⟩,
    fun interfaceInfo => ⟨getIPInterfaceIndex_sdkCalls sdk env g a interfaceInfo, getIPInterfaceIndex_ret sdk env g a interfaceInfo,
      fun sdk2 h0 hf => by
        unfold android_net_wimax_getIPInterfaceIndex
        rw [h0, hf]⟩,
    fun profileList size => ⟨getSelectProfileList_sdkCalls sdk env g a profileList size, getSelectProfileList_ret sdk env g a profileList size,
      fun sdk2 h0 hf => by
        unfold android_net_wimax_getSelectProfileList
        rw [h0, hf]⟩,
    fun linkStatus => ⟨getLinkStatus_sdkCalls sdk g a linkStatus, getLinkStatus_ret sdk g a linkStatus,
      fun sdk2 h0 hf => by
        unfold android_net_wimax_getLinkStatus
        rw [h0, hf]⟩,
    fun deviceInfo referenced => ⟨getDeviceInformation_sdkCalls sdk env g a deviceInfo referenced, getDeviceInformation_ret sdk env g a deviceInfo referenced,
      fun sdk2 h0 hf => by
        unfold android_net_wimax_getDeviceInformation
        rw [h0, hf]⟩,
    fun deviceStatus connectionStatus => ⟨getDeviceStatus_sdkCalls sdk g a deviceStatus connectionStatus, getDeviceStatus_ret sdk g a deviceStatus connectionStatus,
      fun sdk2 hf => by
        unfold android_net_wimax_getDeviceStatus
        rw [hf]⟩,
    fun connectedNspInfo => ⟨getConnectedNSP_sdkCalls sdk env g a connectedNspInfo, getConnectedNSP_ret sdk env g a connectedNspInfo,
      fun sdk2 h0 hf => by
        unfold android_net_wimax_getConnectedNSP
        rw [h0, hf]⟩,
    fun roamingMode => ⟨getRoamingMode_sdkCalls sdk g a roamingMode, getRoamingMode_ret sdk g a roamingMode,
      fun sdk2 h0 hf => by
        unfold android_net_wimax_getRoamingMode
        rw [h0, hf]⟩,
    fun connectionStatistics => ⟨getStatistics_sdkCalls sdk g a connectionStatistics, getStatistics_ret sdk g a connectionStatistics,
      fun sdk2 h0 hf => by
        unfold android_net_wimax_getStatistics
        rw [h0, hf]⟩,
    fun nspName provisioningStatus => ⟨getProvisioningStatus_sdkCalls sdk g a nspName provisioningStatus, getProvisioningStatus_ret sdk g a nspName provisioningStatus,
      fun sdk2 hf => by
        unfold android_net_wimax_getProvisioningStatus
        rw [hf]⟩,
    fun packageInfo => ⟨getPackageInformation_sdkCalls sdk env g a packageInfo, getPackageInformation_ret sdk env g a packageInfo,
      fun sdk2 h0 hf => by
        unfold android_net_wimax_getPackageInformation
        rw [h0, hf]⟩,
    fun _ => rfl,
    fun nspName contactList size => ⟨getContactInformation_sdkCalls sdk env g nspName contactList size, getContactInformation_ret sdk env g nspName contactList size,
      fun sdk2 h0 hf => by
        unfold android_net_wimax_getContactInformation
        rw [h0, hf]⟩,
    by decide,
    by decide⟩

/-! ## After `wimaxAPIClose`: what the SDK is handed -/

/-- C13. `android_net_wimax_wimaxAPIClose` makes the global device id NULL for every
return code of `WiMaxAPIClose`, and returns that code.  In every sequence of native calls
that follows without a `wimaxAPIOpen` and without a `wimaxDeviceOpen` of non-zero
`deviceIndex`, whatever the SDK returns, the global device id stays NULL and every SDK
call is handed NULL; and in the file-level state `g0` such a sequence leaves, each native
method hands NULL to its SDK entry point.  For the 28 methods that marshal nothing back
(`wimaxDeviceOpen` with a `deviceIndex` of zero) the run is given in full: the one SDK
call is made on NULL and its code is returned.  For the 15 that marshal a result back,
the one SDK call is made on NULL, its code is what the run returns unless it faults, and
the run is the same with any other SDK that answers alike when handed NULL. -/
theorem wimaxAPIClose_clears (sdk : WiMaxSDK) (g : Globals) (jdeviceId : JDeviceId) :
    (android_net_wimax_wimaxAPIClose sdk g jdeviceId).globals.deviceId = none ∧
    (android_net_wimax_wimaxAPIClose sdk g jdeviceId).ret
      = .returned (sdk.WiMaxAPIClose g.deviceId) ∧
    (∀ steps : List Step, (∀ s, s ∈ steps → s.call.reopens = false) →
      (runSteps (android_net_wimax_wimaxAPIClose sdk g jdeviceId).globals steps).1.deviceId
        = none ∧
      ∀ e, e ∈ (runSteps (android_net_wimax_wimaxAPIClose sdk g jdeviceId).globals steps).2.1 →
        e.deviceId = none) ∧
    (∀ steps : List Step, (∀ s, s ∈ steps → s.call.reopens = false) →
      ∀ g0 : Globals,
      g0 = (runSteps (android_net_wimax_wimaxAPIClose sdk g jdeviceId).globals steps).1 →
      ∀ (sdk0 : WiMaxSDK) (env : JNIEnv) (j : JDeviceId),
        (android_net_wimax_wimaxDeviceClose sdk0 g0 j
          = ⟨g0,
              [⟨"WiMaxDeviceClose", none, [], [],
                sdk0.WiMaxDeviceClose none⟩], (),
              .returned (sdk0.WiMaxDeviceClose none)⟩) ∧
        (android_net_wimax_wimaxAPIClose sdk0 g0 j
          = ⟨{ g0 with deviceId := none },
              [⟨"WiMaxAPIClose", none, [], [],
                sdk0.WiMaxAPIClose none⟩], (),
              .returned (sdk0.WiMaxAPIClose none)⟩) ∧
        (android_net_wimax_cmdResetWimaxDevice sdk0 g0 j
          = ⟨g0,
              [⟨"CmdResetWimaxDevice", none, [], [],
                sdk0.CmdResetWimaxDevice none⟩], (),
              .returned (sdk0.CmdResetWimaxDevice none)⟩) ∧
        (android_net_wimax_cmdResetToFactorySettings sdk0 g0 j
          = ⟨g0,
              [⟨"CmdResetToFactorySettings", none, [], [],
                sdk0.CmdResetToFactorySettings none⟩], (),
              .returned (sdk0.CmdResetToFactorySettings none)⟩) ∧
        (∀ (lockCode : String),
          android_net_wimax_setServiceProviderUnLock sdk0 g0 j lockCode
          = ⟨g0,
              [⟨"SetServiceProviderUnLock", none, [], [lockCode],
                sdk0.SetServiceProviderUnLock none lockCode⟩], (),
              .returned (sdk0.SetServiceProviderUnLock none lockCode)⟩) ∧
        (∀ (nspName : String) (profileId : Int) (password : String),
          android_net_wimax_cmdConnectToNetwork sdk0 g0 j nspName profileId password
          = ⟨g0,
              [⟨"CmdConnectToNetwork", none, [profileId], [nspName, password],
                sdk0.CmdConnectToNetwork none nspName profileId password⟩], (),
              .returned (sdk0.CmdConnectToNetwork none nspName profileId password)⟩) ∧
        (android_net_wimax_cmdDisconnectFromNetwork sdk0 g0 j
          = ⟨g0,
              [⟨"CmdDisconnectFromNetwork", none, [], [],
                sdk0.CmdDisconnectFromNetwork none⟩], (),
              .returned (sdk0.CmdDisconnectFromNetwork none)⟩) ∧
        (android_net_wimax_cmdNetworkSearchWideScan sdk0 g0 j
          = ⟨g0,
              [⟨"CmdNetworkSearchWideScan", none, [], [],
                sdk0.CmdNetworkSearchWideScan none⟩], (),
              .returned (sdk0.CmdNetworkSearchWideScan none)⟩) ∧
        (∀ (roamingMode : Int),
          android_net_wimax_setRoamingMode sdk0 g0 j roamingMode
          = ⟨g0,
              [⟨"SetRoamingMode", none,
                  [(if roamingMode = JNI_TRUE then sdk0.WIMAX_API_ROAMING_ENABLED
                    else sdk0.WIMAX_API_ROAMING_DISABLED)], [],
                sdk0.SetRoamingMode none
                  (if roamingMode = JNI_TRUE then sdk0.WIMAX_API_ROAMING_ENABLED
                    else sdk0.WIMAX_API_ROAMING_DISABLED)⟩], (),
              .returned (sdk0.SetRoamingMode none
                  (if roamingMode = JNI_TRUE then sdk0.WIMAX_API_ROAMING_ENABLED
                    else sdk0.WIMAX_API_ROAMING_DISABLED))⟩) ∧
        (∀ (state : Int),
          android_net_wimax_setPackageUpdateState sdk0 g0 j state
          = ⟨g0,
              [⟨"SetPackageUpdateState", none,
                  [(if state = 0 then sdk0.WIMAX_API_PACKAGE_UPDATE_DELAY
                    else if state = 1 then sdk0.WIMAX_API_PACKAGE_UPDATE_ACCEPTED
                    else if state = 2 then sdk0.WIMAX_API_PACKAGE_UPDATE_DENIED
                    else sdk0.WIMAX_API_PACKAGE_UPDATE_DELAY)], [],
                sdk0.SetPackageUpdateState none
                  (if state = 0 then sdk0.WIMAX_API_PACKAGE_UPDATE_DELAY
                    else if state = 1 then sdk0.WIMAX_API_PACKAGE_UPDATE_ACCEPTED
                    else if state = 2 then sdk0.WIMAX_API_PACKAGE_UPDATE_DENIED
                    else sdk0.WIMAX_API_PACKAGE_UPDATE_DELAY)⟩], (),
              .returned (sdk0.SetPackageUpdateState none
                  (if state = 0 then sdk0.WIMAX_API_PACKAGE_UPDATE_DELAY
                    else if state = 1 then sdk0.WIMAX_API_PACKAGE_UPDATE_ACCEPTED
                    else if state = 2 then sdk0.WIMAX_API_PACKAGE_UPDATE_DENIED
                    else sdk0.WIMAX_API_PACKAGE_UPDATE_DELAY))⟩) ∧
        (∀ (callback : Option JCallback),
          android_net_wimax_subscribeDeviceStatusChange sdk0 g0 j callback
          = ⟨{ g0 with deviceStatusChangeCB := callback },
              [⟨"SubscribeDeviceStatusChange", none, [], [],
                sdk0.SubscribeDeviceStatusChange none⟩], (),
              .returned (sdk0.SubscribeDeviceStatusChange none)⟩) ∧
        (∀ (callback : Option JCallback),
          android_net_wimax_subscribeDeviceInsertRemove sdk0 g0 j callback
          = ⟨{ g0 with deviceInsertRemoveCB := callback },
              [⟨"SubscribeDeviceInsertRemove", none, [], [],
                sdk0.SubscribeDeviceInsertRemove none⟩], (),
              .returned (sdk0.SubscribeDeviceInsertRemove none)⟩) ∧
        (∀ (callback : Option JCallback),
          android_net_wimax_subscribeControlPowerManagement sdk0 g0 j callback
          = ⟨{ g0 with controlPowerManagementCB := callback },
              [⟨"SubscribeControlPowerManagement", none, [], [],
                sdk0.SubscribeControlPowerManagement none⟩], (),
              .returned (sdk0.SubscribeControlPowerManagement none)⟩) ∧
        (∀ (callback : Option JCallback),
          android_net_wimax_subscribeConnectToNetwork sdk0 g0 j callback
          = ⟨{ g0 with connectToNetworkCB := callback },
              [⟨"SubscribeConnectToNetwork", none, [], [],
                sdk0.SubscribeConnectToNetwork none⟩], (),
              .returned (sdk0.SubscribeConnectToNetwork none)⟩) ∧
        (∀ (callback : Option JCallback),
          android_net_wimax_subscribeDisconnectToNetwork sdk0 g0 j callback
          = ⟨{ g0 with disconnectToNetworkCB := callback },
              [⟨"SubscribeDisconnectToNetwork", none, [], [],
                sdk0.SubscribeDisconnectToNetwork none⟩], (),
              .returned (sdk0.SubscribeDisconnectToNetwork none)⟩) ∧
        (∀ (callback : Option JCallback),
          android_net_wimax_subscribeNetworkSearchWideScan sdk0 g0 j callback
          = ⟨{ g0 with networkSearchWideScanCB := callback },
              [⟨"SubscribeNetworkSearchWideScan", none, [], [],
                sdk0.SubscribeNetworkSearchWideScan none⟩], (),
              .returned (sdk0.SubscribeNetworkSearchWideScan none)⟩) ∧
        (∀ (callback : Option JCallback),
          android_net_wimax_subscribeProvisioningOperation sdk0 g0 j callback
          = ⟨{ g0 with provisioningOperationCB := callback },
              [⟨"SubscribeProvisioningOperation", none, [], [],
                sdk0.SubscribeProvisioningOperation none⟩], (),
              .returned (sdk0.SubscribeProvisioningOperation none)⟩) ∧
        (∀ (callback : Option JCallback),
          android_net_wimax_subscribePackageUpdate sdk0 g0 j callback
          = ⟨{ g0 with packageUpdateCB := callback },
              [⟨"SubscribePackageUpdate", none, [], [],
                sdk0.SubscribePackageUpdate none⟩], (),
              .returned (sdk0.SubscribePackageUpdate none)⟩) ∧
        (android_net_wimax_unsubscribeDeviceStatusChange sdk0 g0 j
          = ⟨g0,
              [⟨"UnsubscribeDeviceStatusChange", none, [], [],
                sdk0.UnsubscribeDeviceStatusChange none⟩], (),
              .returned (sdk0.UnsubscribeDeviceStatusChange none)⟩) ∧
        (android_net_wimax_unsubscribeDeviceInsertRemove sdk0 g0 j
          = ⟨g0,
              [⟨"UnsubscribeDeviceInsertRemove", none, [], [],
                sdk0.UnsubscribeDeviceInsertRemove none⟩], (),
              .returned (sdk0.UnsubscribeDeviceInsertRemove none)⟩) ∧
        (android_net_wimax_unsubscribeControlPowerManagement sdk0 g0 j
          = ⟨g0,
              [⟨"UnsubscribeControlPowerManagement", none, [], [],
                sdk0.UnsubscribeControlPowerManagement none⟩], (),
              .returned (sdk0.UnsubscribeControlPowerManagement none)⟩) ∧
        (android_net_wimax_unsubscribeConnectToNetwork sdk0 g0 j
          = ⟨g0,
              [⟨"UnsubscribeConnectToNetwork", none, [], [],
                sdk0.UnsubscribeConnectToNetwork none⟩], (),
              .returned (sdk0.UnsubscribeConnectToNetwork none)⟩) ∧
        (android_net_wimax_unsubscribeDisconnectToNetwork sdk0 g0 j
          = ⟨g0,
              [⟨"UnsubscribeDisconnectToNetwork", none, [], [],
                sdk0.UnsubscribeDisconnectToNetwork none⟩], (),
              .returned (sdk0.UnsubscribeDisconnectToNetwork none)⟩) ∧
        (android_net_wimax_unsubscribeNetworkSearchWideScan sdk0 g0 j
          = ⟨g0,
              [⟨"UnsubscribeNetworkSearchWideScan", none, [], [],
                sdk0.UnsubscribeNetworkSearchWideScan none⟩], (),
              .returned (sdk0.UnsubscribeNetworkSearchWideScan none)⟩) ∧
        (android_net_wimax_unsubscribeProvisioningOperation sdk0 g0 j
          = ⟨g0,
              [⟨"UnsubscribeProvisioningOperation", none, [], [],
                sdk0.UnsubscribeProvisioningOperation none⟩], (),
              .returned (sdk0.UnsubscribeProvisioningOperation none)⟩) ∧
        (android_net_wimax_unsubscribePackageUpdate sdk0 g0 j
          = ⟨g0,
              [⟨"UnsubscribePackageUpdate", none, [], [],
                sdk0.UnsubscribePackageUpdate none⟩], (),
              .returned (sdk0.UnsubscribePackageUpdate none)⟩) ∧
        (j.deviceIndex = 0 → android_net_wimax_wimaxDeviceOpen sdk0 g0 j
          = ⟨g0,
              [⟨"WiMaxDeviceOpen", none, [], [],
                sdk0.WiMaxDeviceOpen none⟩], (),
              .returned (sdk0.WiMaxDeviceOpen none)⟩) ∧
        (∀ (pwrState : Int), android_net_wimax_cmdControlPowerManagement sdk0 g0 pwrState
          = ⟨g0,
              [⟨"CmdControlPowerManagement", none, [(if pwrState = 1 then sdk0.WIMAX_API_RF_OFF else sdk0.WIMAX_API_RF_ON)], [],
                sdk0.CmdControlPowerManagement none (if pwrState = 1 then sdk0.WIMAX_API_RF_OFF else sdk0.WIMAX_API_RF_ON)⟩], (),
              .returned (sdk0.CmdControlPowerManagement none (if pwrState = 1 then sdk0.WIMAX_API_RF_OFF else sdk0.WIMAX_API_RF_ON))⟩) ∧
        (∀ (hwDeviceIdList : List (Option JObject)) (size : List Int),
          (android_net_wimax_getListDevice sdk0 env g0 j hwDeviceIdList size).sdkCalls
          = [⟨"GetListDevice", none, [], [],
              (sdk0.GetListDevice none hwDeviceIdList.length).1⟩] ∧
        ((android_net_wimax_getListDevice sdk0 env g0 j hwDeviceIdList size).ret
            = .returned (sdk0.GetListDevice none hwDeviceIdList.length).1 ∨
          ∃ f, (android_net_wimax_getListDevice sdk0 env g0 j hwDeviceIdList size).ret = .fault f) ∧
        (∀ sdk2 : WiMaxSDK, sdk2.WIMAX_API_RET_SUCCESS = sdk0.WIMAX_API_RET_SUCCESS →
          sdk2.GetListDevice none = sdk0.GetListDevice none →
          android_net_wimax_getListDevice sdk2 env g0 j hwDeviceIdList size
            = android_net_wimax_getListDevice sdk0 env g0 j hwDeviceIdList size)) ∧
        (∀ (errorCode : Int) (buffer : List (Option String)) (length : List Int),
          (android_net_wimax_getErrorString sdk0 env g0 j errorCode buffer length).sdkCalls
          = [⟨"GetErrorString", none, [errorCode], [],
              (sdk0.GetErrorString none errorCode).1⟩] ∧
        ((android_net_wimax_getErrorString sdk0 env g0 j errorCode buffer length).ret
            = .returned (sdk0.GetErrorString none errorCode).1 ∨
          ∃ f, (android_net_wimax_getErrorString sdk0 env g0 j errorCode buffer length).ret = .fault f) ∧
        (∀ sdk2 : WiMaxSDK, sdk2.WIMAX_API_RET_SUCCESS = sdk0.WIMAX_API_RET_SUCCESS →
          sdk2.GetErrorString none = sdk0.GetErrorString none →
          android_net_wimax_getErrorString sdk2 env g0 j errorCode buffer length
            = android_net_wimax_getErrorString sdk0 env g0 j errorCode buffer length)) ∧
        (∀ (lockStatus : List Int) (nspName : List (Option String)),
          (android_net_wimax_getServiceProviderLockStatus sdk0 env g0 j lockStatus nspName).sdkCalls
          = [⟨"GetServiceProviderLockStatus", none, [], [],
              (sdk0.GetServiceProviderLockStatus none).1⟩] ∧
        ((android_net_wimax_getServiceProviderLockStatus sdk0 env g0 j lockStatus nspName).ret
            = .returned (sdk0.GetServiceProviderLockStatus none).1 ∨
          ∃ f, (android_net_wimax_getServiceProviderLockStatus sdk0 env g0 j lockStatus nspName).ret = .fault f) ∧
        (∀ sdk2 : WiMaxSDK, sdk2.WIMAX_API_RET_SUCCESS = sdk0.WIMAX_API_RET_SUCCESS →
          sdk2.GetServiceProviderLockStatus none = sdk0.GetServiceProviderLockStatus none →
          android_net_wimax_getServiceProviderLockStatus sdk2 env g0 j lockStatus nspName
            = android_net_wimax_getServiceProviderLockStatus sdk0 env g0 j lockStatus nspName)) ∧
        (∀ (networkList : List (Option JObject)) (size : List Int),
          (android_net_wimax_getNetworkList sdk0 env g0 j networkList size).sdkCalls
          = [⟨"GetNetworkList", none, [], [],
              (sdk0.GetNetworkList none networkList.length).1⟩] ∧
        ((android_net_wimax_getNetworkList sdk0 env g0 j networkList size).ret
            = .returned (sdk0.GetNetworkList none networkList.length).1 ∨
          ∃ f, (android_net_wimax_getNetworkList sdk0 env g0 j networkList size).ret = .fault f) ∧
        (∀ sdk2 : WiMaxSDK, sdk2.WIMAX_API_RET_SUCCESS = sdk0.WIMAX_API_RET_SUCCESS →
          sdk2.GetNetworkList none = sdk0.GetNetworkList none →
          android_net_wimax_getNetworkList sdk2 env g0 j networkList size
            = android_net_wimax_getNetworkList sdk0 env g0 j networkList size)) ∧
        (∀ (interfaceInfo : JObject),
          (android_net_wimax_getIPInterfaceIndex sdk0 env g0 j interfaceInfo).sdkCalls
          = [⟨"GetIPInterfaceIndex", none, [], [],
              (sdk0.GetIPInterfaceIndex none).1⟩] ∧
        ((android_net_wimax_getIPInterfaceIndex sdk0 env g0 j interfaceInfo).ret
            = .returned (sdk0.GetIPInterfaceIndex none).1 ∨
          ∃ f, (android_net_wimax_getIPInterfaceIndex sdk0 env g0 j interfaceInfo).ret = .fault f) ∧
        (∀ sdk2 : WiMaxSDK, sdk2.WIMAX_API_RET_SUCCESS = sdk0.WIMAX_API_RET_SUCCESS →
          sdk2.GetIPInterfaceIndex none = sdk0.GetIPInterfaceIndex none →
          android_net_wimax_getIPInterfaceIndex sdk2 env g0 j interfaceInfo
            = android_net_wimax_getIPInterfaceIndex sdk0 env g0 j interfaceInfo)) ∧
        (∀ (profileList : List (Option JObject)) (size : List Int),
          (android_net_wimax_getSelectProfileList sdk0 env g0 j profileList size).sdkCalls
          = [⟨"GetSelectProfileList", none, [], [],
              (sdk0.GetSelectProfileList none profileList.length).1⟩] ∧
        ((android_net_wimax_getSelectProfileList sdk0 env g0 j profileList size).ret
            = .returned (sdk0.GetSelectProfileList none profileList.length).1 ∨
          ∃ f, (android_net_wimax_getSelectProfileList sdk0 env g0 j profileList size).ret = .fault f) ∧
        (∀ sdk2 : WiMaxSDK, sdk2.WIMAX_API_RET_SUCCESS = sdk0.WIMAX_API_RET_SUCCESS →
          sdk2.GetSelectProfileList none = sdk0.GetSelectProfileList none →
          android_net_wimax_getSelectProfileList sdk2 env g0 j profileList size
            = android_net_wimax_getSelectProfileList sdk0 env g0 j profileList size)) ∧
        (∀ (linkStatus : JObject),
          (android_net_wimax_getLinkStatus sdk0 g0 j linkStatus).sdkCalls
          = [⟨"GetLinkStatus", none, [], [],
              (sdk0.GetLinkStatus none).1⟩] ∧
        ((android_net_wimax_getLinkStatus sdk0 g0 j linkStatus).ret
            = .returned (sdk0.GetLinkStatus none).1 ∨
          ∃ f, (android_net_wimax_getLinkStatus sdk0 g0 j linkStatus).ret = .fault f) ∧
        (∀ sdk2 : WiMaxSDK, sdk2.WIMAX_API_RET_SUCCESS = sdk0.WIMAX_API_RET_SUCCESS →
          sdk2.GetLinkStatus none = sdk0.GetLinkStatus none →
          android_net_wimax_getLinkStatus sdk2 g0 j linkStatus
            = android_net_wimax_getLinkStatus sdk0 g0 j linkStatus)) ∧
        (∀ (deviceInfo : JObject) (referenced : List JObject),
          (android_net_wimax_getDeviceInformation sdk0 env g0 j deviceInfo referenced).sdkCalls
          = [⟨"GetDeviceInformation", none, [], [],
              (sdk0.GetDeviceInformation none).1⟩] ∧
        ((android_net_wimax_getDeviceInformation sdk0 env g0 j deviceInfo referenced).ret
            = .returned (sdk0.GetDeviceInformation none).1 ∨
          ∃ f, (android_net_wimax_getDeviceInformation sdk0 env g0 j deviceInfo referenced).ret = .fault f) ∧
        (∀ sdk2 : WiMaxSDK, sdk2.WIMAX_API_RET_SUCCESS = sdk0.WIMAX_API_RET_SUCCESS →
          sdk2.GetDeviceInformation none = sdk0.GetDeviceInformation none →
          android_net_wimax_getDeviceInformation sdk2 env g0 j deviceInfo referenced
            = android_net_wimax_getDeviceInformation sdk0 env g0 j deviceInfo referenced)) ∧
        (∀ (deviceStatus : List Int) (connectionStatus : List Int),
          (android_net_wimax_getDeviceStatus sdk0 g0 j deviceStatus connectionStatus).sdkCalls
          = [⟨"GetDeviceStatus", none, [], [],
              (sdk0.GetDeviceStatus none).1⟩] ∧
        ((android_net_wimax_getDeviceStatus sdk0 g0 j deviceStatus connectionStatus).ret
            = .returned (sdk0.GetDeviceStatus none).1 ∨
          ∃ f, (android_net_wimax_getDeviceStatus sdk0 g0 j deviceStatus connectionStatus).ret = .fault f) ∧
        (∀ sdk2 : WiMaxSDK, sdk2.GetDeviceStatus none = sdk0.GetDeviceStatus none →
          android_net_wimax_getDeviceStatus sdk2 g0 j deviceStatus connectionStatus
            = android_net_wimax_getDeviceStatus sdk0 g0 j deviceStatus connectionStatus)) ∧
        (∀ (connectedNspInfo : JObject),
          (android_net_wimax_getConnectedNSP sdk0 env g0 j connectedNspInfo).sdkCalls
          = [⟨"GetConnectedNSP", none, [], [],
              (sdk0.GetConnectedNSP none).1⟩] ∧
        ((android_net_wimax_getConnectedNSP sdk0 env g0 j connectedNspInfo).ret
            = .returned (sdk0.GetConnectedNSP none).1 ∨
          ∃ f, (android_net_wimax_getConnectedNSP sdk0 env g0 j connectedNspInfo).ret = .fault f) ∧
        (∀ sdk2 : WiMaxSDK, sdk2.WIMAX_API_RET_SUCCESS = sdk0.WIMAX_API_RET_SUCCESS →
          sdk2.GetConnectedNSP none = sdk0.GetConnectedNSP none →
          android_net_wimax_getConnectedNSP sdk2 env g0 j connectedNspInfo
            = android_net_wimax_getConnectedNSP sdk0 env g0 j connectedNspInfo)) ∧
        (∀ (roamingMode : List Int),
          (android_net_wimax_getRoamingMode sdk0 g0 j roamingMode).sdkCalls
          = [⟨"GetRoamingMode", none, [], [],
              (sdk0.GetRoamingMode none).1⟩] ∧
        ((android_net_wimax_getRoamingMode sdk0 g0 j roamingMode).ret
            = .returned (sdk0.GetRoamingMode none).1 ∨
          ∃ f, (android_net_wimax_getRoamingMode sdk0 g0 j roamingMode).ret = .fault f) ∧
        (∀ sdk2 : WiMaxSDK, sdk2.WIMAX_API_ROAMING_ENABLED = sdk0.WIMAX_API_ROAMING_ENABLED →
          sdk2.GetRoamingMode none = sdk0.GetRoamingMode none →
          android_net_wimax_getRoamingMode sdk2 g0 j roamingMode
            = android_net_wimax_getRoamingMode sdk0 g0 j roamingMode)) ∧
        (∀ (connectionStatistics : JObject),
          (android_net_wimax_getStatistics sdk0 g0 j connectionStatistics).sdkCalls
          = [⟨"GetStatistics", none, [], [],
              (sdk0.GetStatistics none).1⟩] ∧
        ((android_net_wimax_getStatistics sdk0 g0 j connectionStatistics).ret
            = .returned (sdk0.GetStatistics none).1 ∨
          ∃ f, (android_net_wimax_getStatistics sdk0 g0 j connectionStatistics).ret = .fault f) ∧
        (∀ sdk2 : WiMaxSDK, sdk2.WIMAX_API_RET_SUCCESS = sdk0.WIMAX_API_RET_SUCCESS →
          sdk2.GetStatistics none = sdk0.GetStatistics none →
          android_net_wimax_getStatistics sdk2 g0 j connectionStatistics
            = android_net_wimax_getStatistics sdk0 g0 j connectionStatistics)) ∧
        (∀ (nspName : String) (provisioningStatus : List Int),
          (android_net_wimax_getProvisioningStatus sdk0 g0 j nspName provisioningStatus).sdkCalls
          = [⟨"GetProvisioningStatus", none, [], [nspName],
              (sdk0.GetProvisioningStatus none nspName).1⟩] ∧
        ((android_net_wimax_getProvisioningStatus sdk0 g0 j nspName provisioningStatus).ret
            = .returned (sdk0.GetProvisioningStatus none nspName).1 ∨
          ∃ f, (android_net_wimax_getProvisioningStatus sdk0 g0 j nspName provisioningStatus).ret = .fault f) ∧
        (∀ sdk2 : WiMaxSDK, sdk2.GetProvisioningStatus none = sdk0.GetProvisioningStatus none →
          android_net_wimax_getProvisioningStatus sdk2 g0 j nspName provisioningStatus
            = android_net_wimax_getProvisioningStatus sdk0 g0 j nspName provisioningStatus)) ∧
        (∀ (packageInfo : JObject),
          (android_net_wimax_getPackageInformation sdk0 env g0 j packageInfo).sdkCalls
          = [⟨"GetPackageInformation", none, [], [],
              (sdk0.GetPackageInformation none).1⟩] ∧
        ((android_net_wimax_getPackageInformation sdk0 env g0 j packageInfo).ret
            = .returned (sdk0.GetPackageInformation none).1 ∨
          ∃ f, (android_net_wimax_getPackageInformation sdk0 env g0 j packageInfo).ret = .fault f) ∧
        (∀ sdk2 : WiMaxSDK, sdk2.WIMAX_API_RET_SUCCESS = sdk0.WIMAX_API_RET_SUCCESS →
          sdk2.GetPackageInformation none = sdk0.GetPackageInformation none →
          android_net_wimax_getPackageInformation sdk2 env g0 j packageInfo
            = android_net_wimax_getPackageInformation sdk0 env g0 j packageInfo)) ∧
        (∀ (nspName : String) (contactList : List (Option JObject)) (size : List Int),
          (android_net_wimax_getContactInformation sdk0 env g0 nspName contactList size).sdkCalls
          = [⟨"GetContactInformation", none, [], [nspName],
              (sdk0.GetContactInformation none nspName contactList.length).1⟩] ∧
        ((android_net_wimax_getContactInformation sdk0 env g0 nspName contactList size).ret
            = .returned (sdk0.GetContactInformation none nspName contactList.length).1 ∨
          ∃ f, (android_net_wimax_getContactInformation sdk0 env g0 nspName contactList size).ret = .fault f) ∧
        (∀ sdk2 : WiMaxSDK, sdk2.WIMAX_API_RET_SUCCESS = sdk0.WIMAX_API_RET_SUCCESS →
          sdk2.GetContactInformation none = sdk0.GetContactInformation none →
          android_net_wimax_getContactInformation sdk2 env g0 nspName contactList size
            = android_net_wimax_getContactInformation sdk0 env g0 nspName contactList size))) := by
  have key : ∀ (steps : List Step) (g0 : Globals), g0.deviceId = none →
      (∀ s, s ∈ steps → s.call.reopens = false) →
      (runSteps g0 steps).1.deviceId = none ∧
      ∀ e, e ∈ (runSteps g0 steps).2.1 → e.deviceId = none := by
    intro steps
    induction steps with
    | nil =>
      intro g0 h0 _
      exact ⟨h0, fun e he => by simp [runSteps] at he⟩
    | cons s rest ih =>
      intro g0 h0 hs
      obtain ⟨hg, hcalls⟩ := invoke_null s.sdk s.env g0 s.call h0
        (hs s (List.mem_cons_self _ _))
      cases hret : (invoke s.sdk s.env g0 s.call).ret with
      | fault f =>
        simp only [runSteps, hret]
        exact ⟨hg, hcalls⟩
      | returned r =>
        obtain ⟨ih1, ih2⟩ := ih (invoke s.sdk s.env g0 s.call).globals hg
          (fun t ht => hs t (List.mem_cons_of_mem _ ht))
        simp only [runSteps, hret]
        refine ⟨ih1, ?_⟩
        intro e he
        rcases List.mem_append.mp he with h | h
        · exact hcalls e h
        · exact ih2 e h
  refine ⟨rfl, rfl, fun steps hsteps => key steps _ rfl hsteps, ?_⟩
  intro steps hsteps g0 hg0 sdk0 env j
  have hnull : g0.deviceId = none := by
    rw [hg0]
    exact (key steps _ rfl hsteps).1
  exact ⟨by simp only [android_net_wimax_wimaxDeviceClose, hnull],
        by simp only [android_net_wimax_wimaxAPIClose, hnull],
        by simp only [android_net_wimax_cmdResetWimaxDevice, hnull],
        by simp only [android_net_wimax_cmdResetToFactorySettings, hnull],
        fun _ => by simp only [android_net_wimax_setServiceProviderUnLock, hnull],
        fun _ _ _ => by simp only [android_net_wimax_cmdConnectToNetwork, hnull],
        by simp only [android_net_wimax_cmdDisconnectFromNetwork, hnull],
        by simp only [android_net_wimax_cmdNetworkSearchWideScan, hnull],
        fun _ => by simp only [android_net_wimax_setRoamingMode, hnull],
        fun _ => by simp only [android_net_wimax_setPackageUpdateState, hnull],
        fun _ => by simp only [android_net_wimax_subscribeDeviceStatusChange, hnull],
        fun _ => by simp only [android_net_wimax_subscribeDeviceInsertRemove, hnull],
        fun _ => by simp only [android_net_wimax_subscribeControlPowerManagement, hnull],
        fun _ => by simp only [android_net_wimax_subscribeConnectToNetwork, hnull],
        fun _ => by simp only [android_net_wimax_subscribeDisconnectToNetwork, hnull],
        fun _ => by simp only [android_net_wimax_subscribeNetworkSearchWideScan, hnull],
        fun _ => by simp only [android_net_wimax_subscribeProvisioningOperation, hnull],
        fun _ => by simp only [android_net_wimax_subscribePackageUpdate, hnull],
        by simp only [android_net_wimax_unsubscribeDeviceStatusChange, hnull],
        by simp only [android_net_wimax_unsubscribeDeviceInsertRemove, hnull],
        by simp only [android_net_wimax_unsubscribeControlPowerManagement, hnull],
        by simp only [android_net_wimax_unsubscribeConnectToNetwork, hnull],
        by simp only [android_net_wimax_unsubscribeDisconnectToNetwork, hnull],
        by simp only [android_net_wimax_unsubscribeNetworkSearchWideScan, hnull],
        by simp only [android_net_wimax_unsubscribeProvisioningOperation, hnull],
        by simp only [android_net_wimax_unsubscribePackageUpdate, hnull],
        fun hj => by
          have hidx : (accessDeviceId g0.deviceIdFieldIds j WIMAX_API_DEVICE_ID.zero).deviceIndex
              = 0 := by
            cases hcls : g0.deviceIdFieldIds.deviceIdClass with
            | none => simp [accessDeviceId, hcls, WIMAX_API_DEVICE_ID.zero]
            | some cls => simp [accessDeviceId, hcls, toUINT8, hj]
          cases g0
          simp only at hnull
          subst hnull
          simp [android_net_wimax_wimaxDeviceOpen, hidx],
        fun _ => by simp only [android_net_wimax_cmdControlPowerManagement, hnull],
        fun hwDeviceIdList size => ⟨by rw [getListDevice_sdkCalls, hnull],
          by
            have h := getListDevice_ret sdk0 env g0 j hwDeviceIdList size
            rw [hnull] at h
            exact h,
          fun sdk2 h0 hf => by
            unfold android_net_wimax_getListDevice
            rw [hnull, h0, hf]⟩,
        fun errorCode buffer length => ⟨by rw [getErrorString_sdkCalls, hnull],
          by
            have h := getErrorString_ret sdk0 env g0 j errorCode buffer length
            rw [hnull] at h
            exact h,
          fun sdk2 h0 hf => by
            unfold android_net_wimax_getErrorString
            rw [hnull, h0, hf]⟩,
        fun lockStatus nspName => ⟨by rw [getServiceProviderLockStatus_sdkCalls, hnull],
          by
            have h := getServiceProviderLockStatus_ret sdk0 env g0 j lockStatus nspName
            rw [hnull] at h
            exact h,
          fun sdk2 h0 hf => by
            unfold android_net_wimax_getServiceProviderLockStatus
            rw [hnull, h0, hf]⟩,
        fun networkList size => ⟨by rw [getNetworkList_sdkCalls, hnull],
          by
            have h := getNetworkList_ret sdk0 env g0 j networkList size
            rw [hnull] at h
            exact h,
          fun sdk2 h0 hf => by
            unfold android_net_wimax_getNetworkList
            rw [hnull, h0, hf]⟩,
        fun interfaceInfo => ⟨by rw [getIPInterfaceIndex_sdkCalls, hnull],
          by
            have h := getIPInterfaceIndex_ret sdk0 env g0 j interfaceInfo
            rw [hnull] at h
            exact h,
          fun sdk2 h0 hf => by
            unfold android_net_wimax_getIPInterfaceIndex
            rw [hnull, h0, hf]⟩,
        fun profileList size => ⟨by rw [getSelectProfileList_sdkCalls, hnull],
          by
            have h := getSelectProfileList_ret sdk0 env g0 j profileList size
            rw [hnull] at h
            exact h,
          fun sdk2 h0 hf => by
            unfold android_net_wimax_getSelectProfileList
            rw [hnull, h0, hf]⟩,
        fun linkStatus => ⟨by rw [getLinkStatus_sdkCalls, hnull],
          by
            have h := getLinkStatus_ret sdk0 g0 j linkStatus
            rw [hnull] at h
            exact h,
          fun sdk2 h0 hf => by
            unfold android_net_wimax_getLinkStatus
            rw [hnull, h0, hf]⟩,
        fun deviceInfo referenced => ⟨by rw [getDeviceInformation_sdkCalls, hnull],
          by
            have h := getDeviceInformation_ret sdk0 env g0 j deviceInfo referenced
            rw [hnull] at h
            exact h,
          fun sdk2 h0 hf => by
            unfold android_net_wimax_getDeviceInformation
            rw [hnull, h0, hf]⟩,
        fun deviceStatus connectionStatus => ⟨by rw [getDeviceStatus_sdkCalls, hnull],
          by
            have h := getDeviceStatus_ret sdk0 g0 j deviceStatus connectionStatus
            rw [hnull] at h
            exact h,
          fun sdk2 hf => by
            unfold android_net_wimax_getDeviceStatus
            rw [hnull, hf]⟩,
        fun connectedNspInfo => ⟨by rw [getConnectedNSP_sdkCalls, hnull],
          by
            have h := getConnectedNSP_ret sdk0 env g0 j connectedNspInfo
            rw [hnull] at h
            exact h,
          fun sdk2 h0 hf => by
            unfold android_net_wimax_getConnectedNSP
            rw [hnull, h0, hf]⟩,
        fun roamingMode => ⟨by rw [getRoamingMode_sdkCalls, hnull],
          by
            have h := getRoamingMode_ret sdk0 g0 j roamingMode
            rw [hnull] at h
            exact h,
          fun sdk2 h0 hf => by
            unfold android_net_wimax_getRoamingMode
            rw [hnull, h0, hf]⟩,
        fun connectionStatistics => ⟨by rw [getStatistics_sdkCalls, hnull],
          by
            have h := getStatistics_ret sdk0 g0 j connectionStatistics
            rw [hnull] at h
            exact h,
          fun sdk2 h0 hf => by
            unfold android_net_wimax_getStatistics
            rw [hnull, h0, hf]⟩,
        fun nspName provisioningStatus => ⟨by rw [getProvisioningStatus_sdkCalls, hnull],
          by
            have h := getProvisioningStatus_ret sdk0 g0 j nspName provisioningStatus
            rw [hnull] at h
            exact h,
          fun sdk2 hf => by
            unfold android_net_wimax_getProvisioningStatus
            rw [hnull, hf]⟩,
        fun packageInfo => ⟨by rw [getPackageInformation_sdkCalls, hnull],
          by
            have h := getPackageInformation_ret sdk0 env g0 j packageInfo
            rw [hnull] at h
            exact h,
          fun sdk2 h0 hf => by
            unfold android_net_wimax_getPackageInformation
            rw [hnull, h0, hf]⟩,
        fun nspName contactList size => ⟨by rw [getContactInformation_sdkCalls, hnull],
          by
            have h := getContactInformation_ret sdk0 env g0 nspName contactList size
            rw [hnull] at h
            exact h,
          fun sdk2 h0 hf => by
            unfold android_net_wimax_getContactInformation
            rw [hnull, h0, hf]⟩⟩

/-- C13 at a close followed by a disconnect, a `wimaxDeviceOpen` of device index `0`
and a `getListDevice`: the three SDK calls are handed NULL. -/
theorem wimaxAPIClose_clears_witness :
    (runSteps (android_net_wimax_wimaxAPIClose (WiMaxSDK.sample 3) Globals.sample
        JDeviceId.sample).globals
      [⟨WiMaxSDK.sample 1, JNIEnv.sample, .cmdDisconnectFromNetwork JDeviceId.sample⟩,
       ⟨WiMaxSDK.sample 1, JNIEnv.sample, .wimaxDeviceOpen ⟨24, 7, 1, 0, 65538, 1⟩⟩,
       ⟨WiMaxSDK.sample 1, JNIEnv.sample, .getListDevice JDeviceId.sample [none] [0]⟩]).1.deviceId
      = none :=
  ((wimaxAPIClose_clears (WiMaxSDK.sample 3) Globals.sample JDeviceId.sample).2.2.1
    [⟨WiMaxSDK.sample 1, JNIEnv.sample, .cmdDisconnectFromNetwork JDeviceId.sample⟩,
     ⟨WiMaxSDK.sample 1, JNIEnv.sample, .wimaxDeviceOpen ⟨24, 7, 1, 0, 65538, 1⟩⟩,
     ⟨WiMaxSDK.sample 1, JNIEnv.sample, .getListDevice JDeviceId.sample [none] [0]⟩]
    (by
      intro s hs
      simp only [List.mem_cons, List.mem_singleton, List.not_mem_nil, or_false] at hs
      rcases hs with h | h | h <;> subst h <;> rfl)).1

end Wimax
